import Mathlib

/-!
# libmma8451: register codec and acceleration decoding

A shallow embedding of `mma8451.c` / `mma8451.h`.

* `unsigned char` and enumeration values are natural numbers; a store into an
  `unsigned char` object reduces modulo 256 and arithmetic on an enumeration
  member modulo 2^32 (the enumerations have no negative enumerator, so their
  underlying type is `unsigned int`).
* The `int` results 0 / 1 of the library functions are kept as numbers.
* An output parameter is passed in and handed back in the `data` component of
  the result, so that "the caller's object is left alone" is a statement and
  not a convention. A pointer that may be `NULL` is an `Option`.
* The I2C transport behind the file descriptor is a script of ioctl outcomes
  together with the log of the requests made so far.
* `double` is idealised to exact rational arithmetic.
-/

namespace Libmma8451

/-! ## Transport -/

/-- One message of an I2C_RDWR request (struct i2c_msg): slave address, flags
(0 for a write, I2C_M_RD for a read), length, and the bytes a write message
sends (a read message sends nothing, the transport fills its buffer). -/
structure i2c_msg where
  addr : Nat
  flags : Nat
  len : Nat
  buf : List Nat
deriving DecidableEq, Repr

/-- What the transport answers to one ioctl: a negative return together with
the errno it sets, or success together with the bytes the device sent for the
read message (byte i is `inbuf i`). -/
inductive ioctl_outcome where
  | failure (errno : Nat)
  | success (inbuf : Nat → Nat)

/-- The bus behind the descriptor `file`: the answer the n-th ioctl on it
will get, the requests issued so far (oldest first), and the value of errno. -/
structure i2c_bus where
  outcomes : Nat → ioctl_outcome
  calls : List (List i2c_msg)
  errno : Nat

def I2C_M_RD : Nat := 0x0001

def EOPNOTSUPP : Nat := 95

/-- The call `ioctl(file, I2C_RDWR, &packets)`: the request is logged and
answered by the next outcome of the transport; `none` stands for a negative
return. Every byte delivered is an `unsigned char`. -/
def ioctl (file : i2c_bus) (packets : List i2c_msg) : i2c_bus × Option (Nat → Nat) :=
  match file.outcomes file.calls.length with
  | .failure e => ({ file with calls := file.calls ++ [packets], errno := e }, none)
  | .success inbuf =>
    ({ file with calls := file.calls ++ [packets] }, some (fun i => inbuf i % 256))

/-- Source: mma8451.c lines 935-955. The second component is the returned int. -/
def mma8451_set_i2c_register (file : i2c_bus) (addr reg value : Nat) : i2c_bus × Nat :=
  let outbuf := [reg % 256, value % 256]
  let messages := [({ addr := addr, flags := 0, len := 2, buf := outbuf } : i2c_msg)]
  match ioctl file messages with
  | (file, none) => (file, 0)
  | (file, some _) => (file, 1)

/-- Source: mma8451.c lines 958-982. `none` is the return value 0 (`*val` is
not written), `some v` the return value 1 with `*val = v`. -/
def mma8451_get_i2c_register (file : i2c_bus) (addr reg : Nat) : i2c_bus × Option Nat :=
  let outbuf := reg % 256
  let messages := [({ addr := addr, flags := 0, len := 1, buf := [outbuf] } : i2c_msg),
                   ({ addr := addr, flags := I2C_M_RD, len := 1, buf := [] } : i2c_msg)]
  match ioctl file messages with
  | (file, none) => (file, none)
  | (file, some inbuf) => (file, some (inbuf 0))

/-- Source: mma8451.c lines 984-1006. `none` is the return value 0, `some buf`
the return value 1 with the `cnt` bytes read. -/
def mma8451_get_i2c_register_block (file : i2c_bus) (addr reg cnt : Nat) :
    i2c_bus × Option (Nat → Nat) :=
  let outbuf := reg % 256
  let messages := [({ addr := addr, flags := 0, len := 1, buf := [outbuf] } : i2c_msg),
                   ({ addr := addr, flags := I2C_M_RD, len := cnt, buf := [] } : i2c_msg)]
  match ioctl file messages with
  | (file, none) => (file, none)
  | (file, some buf) => (file, some buf)

/-! ## Constants of mma8451.h -/

def MMA8451_ID : Nat := 0x1A

def GRAVITY_ACCEL : ℚ := 980665 / 100000

def RANGE_DIV_2G_14BIT : ℚ := 0x1000 / GRAVITY_ACCEL

def RANGE_DIV_4G_14BIT : ℚ := 0x800 / GRAVITY_ACCEL

def RANGE_DIV_8G_14BIT : ℚ := 0x400 / GRAVITY_ACCEL

def RANGE_DIV_2G_8BIT : ℚ := 0x40 / GRAVITY_ACCEL

def RANGE_DIV_4G_8BIT : ℚ := 0x20 / GRAVITY_ACCEL

def RANGE_DIV_8G_8BIT : ℚ := 0x10 / GRAVITY_ACCEL

def MAX_14BIT_SIGNED : Nat := 0x4000

def MAX_14BIT_VALUE : Nat := 0x1FFF

def MAX_8BIT_VALUE : Nat := 0x7F

def MAX_8BIT_SIGNED : Nat := 0xFF

def MMA8451_RANGE_2G : Nat := 0

def MMA8451_RANGE_4G : Nat := 1

def MMA8451_RANGE_8G : Nat := 2

def MMA8451_RANGE_RESERVED : Nat := 3

def MMA8451_8BIT_OUTPUT : Nat := 1

def MMA8451_14BIT_OUTPUT : Nat := 0

/-! ## Register map -/

def MMA8451_REGISTER_STATUS : Nat := 0x0

def MMA8451_REGISTER_F_STATUS : Nat := 0x0

def MMA8451_REGISTER_OUT_X_MSB : Nat := 0x1

def MMA8451_REGISTER_OUT_X_LSB : Nat := 0x2

def MMA8451_REGISTER_OUT_Y_MSB : Nat := 0x3

def MMA8451_REGISTER_OUT_Y_LSB : Nat := 0x4

def MMA8451_REGISTER_OUT_Z_MSB : Nat := 0x5

def MMA8451_REGISTER_OUT_Z_LSB : Nat := 0x6

def MMA8451_REGISTER_RESERVED_1 : Nat := 0x7

def MMA8451_REGISTER_RESERVED_2 : Nat := 0x8

def MMA8451_REGISTER_F_SETUP : Nat := 0x9

def MMA8451_REGISTER_TRIG_CFG : Nat := 0xA

def MMA8451_REGISTER_SYSMOD : Nat := 0xB

def MMA8451_REGISTER_INT_SOURCE : Nat := 0xC

def MMA8451_REGISTER_WHO_AM_I : Nat := 0xD

def MMA8451_REGISTER_XYZ_DATA_CFG : Nat := 0xE

def MMA8451_REGISTER_HP_FILTER_CUTOFF : Nat := 0xF

def MMA8451_REGISTER_PL_STATUS : Nat := 0x10

def MMA8451_REGISTER_PL_CFG : Nat := 0x11

def MMA8451_REGISTER_PL_COUNT : Nat := 0x12

def MMA8451_REGISTER_PL_BF_ZCOMP : Nat := 0x13

def MMA8451_REGISTER_P_L_THS_REG : Nat := 0x14

def MMA8451_REGISTER_FF_MT_CFG : Nat := 0x15

def MMA8451_REGISTER_FF_MT_SRC : Nat := 0x16

def MMA8451_REGISTER_FF_MT_THS : Nat := 0x17

def MMA8451_REGISTER_FF_MT_COUNT : Nat := 0x18

def MMA8451_REGISTER_RESERVED_3 : Nat := 0x19

def MMA8451_REGISTER_RESERVED_4 : Nat := 0x1A

def MMA8451_REGISTER_RESERVED_5 : Nat := 0x1B

def MMA8451_REGISTER_RESERVED_6 : Nat := 0x1C

def MMA8451_REGISTER_TRANSIENT_CFG : Nat := 0x1D

def MMA8451_REGISTER_TRANSIENT_SCR : Nat := 0x1E

def MMA8451_REGISTER_TRANSIENT_THS : Nat := 0x1F

def MMA8451_REGISTER_TRANSIENT_COUNT : Nat := 0x20

def MMA8451_REGISTER_PULSE_CFG : Nat := 0x21

def MMA8451_REGISTER_PULSE_SRC : Nat := 0x22

def MMA8451_REGISTER_PULSE_THSX : Nat := 0x23

def MMA8451_REGISTER_PULSE_THSY : Nat := 0x24

def MMA8451_REGISTER_PULSE_THSZ : Nat := 0x25

def MMA8451_REGISTER_PULSE_TMLT : Nat := 0x26

def MMA8451_REGISTER_PULSE_LTCY : Nat := 0x27

def MMA8451_REGISTER_PULSE_WIND : Nat := 0x28

def MMA8451_REGISTER_ASLP_COUNT : Nat := 0x29

def MMA8451_REGISTER_CTRL_REG1 : Nat := 0x2A

def MMA8451_REGISTER_CTRL_REG2 : Nat := 0x2B

def MMA8451_REGISTER_CTRL_REG3 : Nat := 0x2C

def MMA8451_REGISTER_CTRL_REG4 : Nat := 0x2D

def MMA8451_REGISTER_CTRL_REG5 : Nat := 0x2E

def MMA8451_REGISTER_OFF_X : Nat := 0x2F

def MMA8451_REGISTER_OFF_Y : Nat := 0x30

def MMA8451_REGISTER_OFF_Z : Nat := 0x31


/-! ## Handle and generic register -/

/-- The text snprintf leaves in `last_error`: empty as calloc made it, or one
of the two messages of mma8451_get_register / mma8451_set_register with the
register number (printed with %hhu) and errno. -/
inductive error_text where
  | empty
  | unable_to_get (reg errno : Nat)
  | unable_to_set (reg errno : Nat)
deriving DecidableEq, Repr

/-- The handle (struct mma8451). `file` is the bus the descriptor refers to;
`path` plays no part in any operation and is left out. -/
structure mma8451 where
  file : i2c_bus
  addr : Nat
  range : Nat
  data_size : Nat
  last_error : error_text

structure mma8451_register_generic where
  bit7 : Nat
  bit6 : Nat
  bit5 : Nat
  bit4 : Nat
  bit3 : Nat
  bit2 : Nat
  bit1 : Nat
  bit0 : Nat
deriving DecidableEq, Repr

/-- What a library call hands back: the returned int, the handle after the
call and the objects behind the output pointers after the call. -/
structure result (α : Type) where
  ret : Nat
  device : mma8451
  data : α

/-- Source: mma8451.c lines 887-910. -/
def mma8451_get_register (device : mma8451) (reg : Nat)
    (data : Option mma8451_register_generic) (byteData : Option Nat) :
    result (Option mma8451_register_generic × Option Nat) :=
  match mma8451_get_i2c_register device.file device.addr reg with
  | (file, none) =>
    ⟨0, { device with file := file, last_error := .unable_to_get (reg % 256) file.errno },
      (data, byteData)⟩
  | (file, some value) =>
    let data := data.map fun _ =>
      ({ bit7 := if (value &&& 0x80) > 0 then 1 else 0
         bit6 := if (value &&& 0x40) > 0 then 1 else 0
         bit5 := if (value &&& 0x20) > 0 then 1 else 0
         bit4 := if (value &&& 0x10) > 0 then 1 else 0
         bit3 := if (value &&& 0x08) > 0 then 1 else 0
         bit2 := if (value &&& 0x04) > 0 then 1 else 0
         bit1 := if (value &&& 0x02) > 0 then 1 else 0
         bit0 := if (value &&& 0x01) > 0 then 1 else 0 } : mma8451_register_generic)
    let byteData := byteData.map fun _ => value
    ⟨1, { device with file := file }, (data, byteData)⟩

/-- Source: mma8451.c lines 912-933. -/
def mma8451_set_register (device : mma8451) (reg : Nat)
    (data : Option mma8451_register_generic) (byteData : Nat) : result Unit :=
  let value :=
    match data with
    | some data =>
      let value := 0
      let value := (value + ((data.bit7 &&& 0x1) <<< 7)) % 256
      let value := (value + ((data.bit6 &&& 0x1) <<< 6)) % 256
      let value := (value + ((data.bit5 &&& 0x1) <<< 5)) % 256
      let value := (value + ((data.bit4 &&& 0x1) <<< 4)) % 256
      let value := (value + ((data.bit3 &&& 0x1) <<< 3)) % 256
      let value := (value + ((data.bit2 &&& 0x1) <<< 2)) % 256
      let value := (value + ((data.bit1 &&& 0x1) <<< 1)) % 256
      let value := (value + (data.bit0 &&& 0x1)) % 256
      value
    | none => byteData % 256
  match mma8451_set_i2c_register device.file device.addr reg value with
  | (file, 0) =>
    ⟨0, { device with file := file, last_error := .unable_to_set (reg % 256) file.errno }, ()⟩
  | (file, _) => ⟨1, { device with file := file }, ()⟩

/-! ## Register structures and typed accessors (mma8451.c lines 277-885) -/

structure mma8451_register_status where
  zyxow : Nat
  zow : Nat
  yow : Nat
  xow : Nat
  zyxdr : Nat
  zdr : Nat
  ydr : Nat
  xdr : Nat
deriving DecidableEq

/-- Members one to eight of mma8451_register_status, read through the generic cast. -/
def mma8451_register_status.as_generic (data : mma8451_register_status) : mma8451_register_generic :=
  { bit7 := data.zyxow, bit6 := data.zow, bit5 := data.yow, bit4 := data.xow,
    bit3 := data.zyxdr, bit2 := data.zdr, bit1 := data.ydr, bit0 := data.xdr }

/-- Members one to eight of mma8451_register_status, stored through the generic cast. -/
def mma8451_register_status.with_generic (data : mma8451_register_status)
    (g : mma8451_register_generic) : mma8451_register_status :=
  { data with
    zyxow := g.bit7
    zow := g.bit6
    yow := g.bit5
    xow := g.bit4
    zyxdr := g.bit3
    zdr := g.bit2
    ydr := g.bit1
    xdr := g.bit0 }

structure mma8451_register_f_status where
  f_ovf : Nat
  f_wmrk_flag : Nat
  f_cnt5 : Nat
  f_cnt4 : Nat
  f_cnt3 : Nat
  f_cnt2 : Nat
  f_cnt1 : Nat
  f_cnt0 : Nat
  f_cnt : Nat
deriving DecidableEq

/-- Members one to eight of mma8451_register_f_status, read through the generic cast. -/
def mma8451_register_f_status.as_generic (data : mma8451_register_f_status) : mma8451_register_generic :=
  { bit7 := data.f_ovf, bit6 := data.f_wmrk_flag, bit5 := data.f_cnt5, bit4 := data.f_cnt4,
    bit3 := data.f_cnt3, bit2 := data.f_cnt2, bit1 := data.f_cnt1, bit0 := data.f_cnt0 }

/-- Members one to eight of mma8451_register_f_status, stored through the generic cast. -/
def mma8451_register_f_status.with_generic (data : mma8451_register_f_status)
    (g : mma8451_register_generic) : mma8451_register_f_status :=
  { data with
    f_ovf := g.bit7
    f_wmrk_flag := g.bit6
    f_cnt5 := g.bit5
    f_cnt4 := g.bit4
    f_cnt3 := g.bit3
    f_cnt2 := g.bit2
    f_cnt1 := g.bit1
    f_cnt0 := g.bit0 }

structure mma8451_register_f_setup where
  f_mode1 : Nat
  f_mode0 : Nat
  f_wmrk5 : Nat
  f_wmrk4 : Nat
  f_wmrk3 : Nat
  f_wmrk2 : Nat
  f_wmrk1 : Nat
  f_wmrk0 : Nat
  f_mode : Nat
  f_wmrk : Nat
deriving DecidableEq

/-- Members one to eight of mma8451_register_f_setup, read through the generic cast. -/
def mma8451_register_f_setup.as_generic (data : mma8451_register_f_setup) : mma8451_register_generic :=
  { bit7 := data.f_mode1, bit6 := data.f_mode0, bit5 := data.f_wmrk5, bit4 := data.f_wmrk4,
    bit3 := data.f_wmrk3, bit2 := data.f_wmrk2, bit1 := data.f_wmrk1, bit0 := data.f_wmrk0 }

/-- Members one to eight of mma8451_register_f_setup, stored through the generic cast. -/
def mma8451_register_f_setup.with_generic (data : mma8451_register_f_setup)
    (g : mma8451_register_generic) : mma8451_register_f_setup :=
  { data with
    f_mode1 := g.bit7
    f_mode0 := g.bit6
    f_wmrk5 := g.bit5
    f_wmrk4 := g.bit4
    f_wmrk3 := g.bit3
    f_wmrk2 := g.bit2
    f_wmrk1 := g.bit1
    f_wmrk0 := g.bit0 }

structure mma8451_register_trig_cfg where
  unused1 : Nat
  unused2 : Nat
  trig_trans : Nat
  trig_lndprt : Nat
  trig_pulse : Nat
  trig_ff_mt : Nat
  unused3 : Nat
  unused4 : Nat
deriving DecidableEq

/-- Members one to eight of mma8451_register_trig_cfg, read through the generic cast. -/
def mma8451_register_trig_cfg.as_generic (data : mma8451_register_trig_cfg) : mma8451_register_generic :=
  { bit7 := data.unused1, bit6 := data.unused2, bit5 := data.trig_trans, bit4 := data.trig_lndprt,
    bit3 := data.trig_pulse, bit2 := data.trig_ff_mt, bit1 := data.unused3, bit0 := data.unused4 }

/-- Members one to eight of mma8451_register_trig_cfg, stored through the generic cast. -/
def mma8451_register_trig_cfg.with_generic (data : mma8451_register_trig_cfg)
    (g : mma8451_register_generic) : mma8451_register_trig_cfg :=
  { data with
    unused1 := g.bit7
    unused2 := g.bit6
    trig_trans := g.bit5
    trig_lndprt := g.bit4
    trig_pulse := g.bit3
    trig_ff_mt := g.bit2
    unused3 := g.bit1
    unused4 := g.bit0 }

structure mma8451_register_sysmod where
  fgerr : Nat
  fgt_4 : Nat
  fgt_3 : Nat
  fgt_2 : Nat
  fgt_1 : Nat
  fgt_0 : Nat
  sysmod1 : Nat
  sysmod0 : Nat
  fgt : Nat
  mode : Nat
deriving DecidableEq

/-- Members one to eight of mma8451_register_sysmod, read through the generic cast. -/
def mma8451_register_sysmod.as_generic (data : mma8451_register_sysmod) : mma8451_register_generic :=
  { bit7 := data.fgerr, bit6 := data.fgt_4, bit5 := data.fgt_3, bit4 := data.fgt_2,
    bit3 := data.fgt_1, bit2 := data.fgt_0, bit1 := data.sysmod1, bit0 := data.sysmod0 }

/-- Members one to eight of mma8451_register_sysmod, stored through the generic cast. -/
def mma8451_register_sysmod.with_generic (data : mma8451_register_sysmod)
    (g : mma8451_register_generic) : mma8451_register_sysmod :=
  { data with
    fgerr := g.bit7
    fgt_4 := g.bit6
    fgt_3 := g.bit5
    fgt_2 := g.bit4
    fgt_1 := g.bit3
    fgt_0 := g.bit2
    sysmod1 := g.bit1
    sysmod0 := g.bit0 }

structure mma8451_register_int_source where
  src_aslp : Nat
  src_fifo : Nat
  src_trans : Nat
  src_lndprt : Nat
  src_pulse : Nat
  src_ff_mt : Nat
  unused : Nat
  src_drdy : Nat
deriving DecidableEq

/-- Members one to eight of mma8451_register_int_source, read through the generic cast. -/
def mma8451_register_int_source.as_generic (data : mma8451_register_int_source) : mma8451_register_generic :=
  { bit7 := data.src_aslp, bit6 := data.src_fifo, bit5 := data.src_trans, bit4 := data.src_lndprt,
    bit3 := data.src_pulse, bit2 := data.src_ff_mt, bit1 := data.unused, bit0 := data.src_drdy }

/-- Members one to eight of mma8451_register_int_source, stored through the generic cast. -/
def mma8451_register_int_source.with_generic (data : mma8451_register_int_source)
    (g : mma8451_register_generic) : mma8451_register_int_source :=
  { data with
    src_aslp := g.bit7
    src_fifo := g.bit6
    src_trans := g.bit5
    src_lndprt := g.bit4
    src_pulse := g.bit3
    src_ff_mt := g.bit2
    unused := g.bit1
    src_drdy := g.bit0 }

structure mma8451_register_xyz_data_cfg where
  unused1 : Nat
  unused2 : Nat
  unused3 : Nat
  hpf_out : Nat
  unused4 : Nat
  unused5 : Nat
  fs1 : Nat
  fs0 : Nat
  fs : Nat
deriving DecidableEq

/-- Members one to eight of mma8451_register_xyz_data_cfg, read through the generic cast. -/
def mma8451_register_xyz_data_cfg.as_generic (data : mma8451_register_xyz_data_cfg) : mma8451_register_generic :=
  { bit7 := data.unused1, bit6 := data.unused2, bit5 := data.unused3, bit4 := data.hpf_out,
    bit3 := data.unused4, bit2 := data.unused5, bit1 := data.fs1, bit0 := data.fs0 }

/-- Members one to eight of mma8451_register_xyz_data_cfg, stored through the generic cast. -/
def mma8451_register_xyz_data_cfg.with_generic (data : mma8451_register_xyz_data_cfg)
    (g : mma8451_register_generic) : mma8451_register_xyz_data_cfg :=
  { data with
    unused1 := g.bit7
    unused2 := g.bit6
    unused3 := g.bit5
    hpf_out := g.bit4
    unused4 := g.bit3
    unused5 := g.bit2
    fs1 := g.bit1
    fs0 := g.bit0 }

structure mma8451_register_hp_filter_cutoff where
  unused1 : Nat
  unused2 : Nat
  pulse_hpf_byp : Nat
  pulse_lpf_en : Nat
  unused3 : Nat
  unused4 : Nat
  sel1 : Nat
  sel0 : Nat
deriving DecidableEq

/-- Members one to eight of mma8451_register_hp_filter_cutoff, read through the generic cast. -/
def mma8451_register_hp_filter_cutoff.as_generic (data : mma8451_register_hp_filter_cutoff) : mma8451_register_generic :=
  { bit7 := data.unused1, bit6 := data.unused2, bit5 := data.pulse_hpf_byp, bit4 := data.pulse_lpf_en,
    bit3 := data.unused3, bit2 := data.unused4, bit1 := data.sel1, bit0 := data.sel0 }

/-- Members one to eight of mma8451_register_hp_filter_cutoff, stored through the generic cast. -/
def mma8451_register_hp_filter_cutoff.with_generic (data : mma8451_register_hp_filter_cutoff)
    (g : mma8451_register_generic) : mma8451_register_hp_filter_cutoff :=
  { data with
    unused1 := g.bit7
    unused2 := g.bit6
    pulse_hpf_byp := g.bit5
    pulse_lpf_en := g.bit4
    unused3 := g.bit3
    unused4 := g.bit2
    sel1 := g.bit1
    sel0 := g.bit0 }

structure mma8451_register_pl_status where
  newlp : Nat
  lo : Nat
  unused1 : Nat
  unused2 : Nat
  unused3 : Nat
  lapo1 : Nat
  lapo0 : Nat
  bafro : Nat
deriving DecidableEq

/-- Members one to eight of mma8451_register_pl_status, read through the generic cast. -/
def mma8451_register_pl_status.as_generic (data : mma8451_register_pl_status) : mma8451_register_generic :=
  { bit7 := data.newlp, bit6 := data.lo, bit5 := data.unused1, bit4 := data.unused2,
    bit3 := data.unused3, bit2 := data.lapo1, bit1 := data.lapo0, bit0 := data.bafro }

/-- Members one to eight of mma8451_register_pl_status, stored through the generic cast. -/
def mma8451_register_pl_status.with_generic (data : mma8451_register_pl_status)
    (g : mma8451_register_generic) : mma8451_register_pl_status :=
  { data with
    newlp := g.bit7
    lo := g.bit6
    unused1 := g.bit5
    unused2 := g.bit4
    unused3 := g.bit3
    lapo1 := g.bit2
    lapo0 := g.bit1
    bafro := g.bit0 }

structure mma8451_register_pl_cfg where
  dbcntm : Nat
  pl_en : Nat
  unused1 : Nat
  unused2 : Nat
  unused3 : Nat
  unused4 : Nat
  unused5 : Nat
  unused6 : Nat
deriving DecidableEq

/-- Members one to eight of mma8451_register_pl_cfg, read through the generic cast. -/
def mma8451_register_pl_cfg.as_generic (data : mma8451_register_pl_cfg) : mma8451_register_generic :=
  { bit7 := data.dbcntm, bit6 := data.pl_en, bit5 := data.unused1, bit4 := data.unused2,
    bit3 := data.unused3, bit2 := data.unused4, bit1 := data.unused5, bit0 := data.unused6 }

/-- Members one to eight of mma8451_register_pl_cfg, stored through the generic cast. -/
def mma8451_register_pl_cfg.with_generic (data : mma8451_register_pl_cfg)
    (g : mma8451_register_generic) : mma8451_register_pl_cfg :=
  { data with
    dbcntm := g.bit7
    pl_en := g.bit6
    unused1 := g.bit5
    unused2 := g.bit4
    unused3 := g.bit3
    unused4 := g.bit2
    unused5 := g.bit1
    unused6 := g.bit0 }

structure mma8451_register_pl_bf_zcomp where
  bkfr1 : Nat
  bkfr0 : Nat
  unused1 : Nat
  unused2 : Nat
  unused3 : Nat
  zlock2 : Nat
  zlock1 : Nat
  zlock0 : Nat
  bkfr : Nat
  zlock : Nat
deriving DecidableEq

/-- Members one to eight of mma8451_register_pl_bf_zcomp, read through the generic cast. -/
def mma8451_register_pl_bf_zcomp.as_generic (data : mma8451_register_pl_bf_zcomp) : mma8451_register_generic :=
  { bit7 := data.bkfr1, bit6 := data.bkfr0, bit5 := data.unused1, bit4 := data.unused2,
    bit3 := data.unused3, bit2 := data.zlock2, bit1 := data.zlock1, bit0 := data.zlock0 }

/-- Members one to eight of mma8451_register_pl_bf_zcomp, stored through the generic cast. -/
def mma8451_register_pl_bf_zcomp.with_generic (data : mma8451_register_pl_bf_zcomp)
    (g : mma8451_register_generic) : mma8451_register_pl_bf_zcomp :=
  { data with
    bkfr1 := g.bit7
    bkfr0 := g.bit6
    unused1 := g.bit5
    unused2 := g.bit4
    unused3 := g.bit3
    zlock2 := g.bit2
    zlock1 := g.bit1
    zlock0 := g.bit0 }

structure mma8451_register_p_l_ths_reg where
  p_l_ths4 : Nat
  p_l_ths3 : Nat
  p_l_ths2 : Nat
  p_l_ths1 : Nat
  p_l_ths0 : Nat
  hys2 : Nat
  hys1 : Nat
  hys0 : Nat
  p_l_ths : Nat
  hys : Nat
deriving DecidableEq

/-- Members one to eight of mma8451_register_p_l_ths_reg, read through the generic cast. -/
def mma8451_register_p_l_ths_reg.as_generic (data : mma8451_register_p_l_ths_reg) : mma8451_register_generic :=
  { bit7 := data.p_l_ths4, bit6 := data.p_l_ths3, bit5 := data.p_l_ths2, bit4 := data.p_l_ths1,
    bit3 := data.p_l_ths0, bit2 := data.hys2, bit1 := data.hys1, bit0 := data.hys0 }

/-- Members one to eight of mma8451_register_p_l_ths_reg, stored through the generic cast. -/
def mma8451_register_p_l_ths_reg.with_generic (data : mma8451_register_p_l_ths_reg)
    (g : mma8451_register_generic) : mma8451_register_p_l_ths_reg :=
  { data with
    p_l_ths4 := g.bit7
    p_l_ths3 := g.bit6
    p_l_ths2 := g.bit5
    p_l_ths1 := g.bit4
    p_l_ths0 := g.bit3
    hys2 := g.bit2
    hys1 := g.bit1
    hys0 := g.bit0 }

structure mma8451_register_ff_mt_cfg where
  ele : Nat
  oae : Nat
  zefe : Nat
  yefe : Nat
  xefe : Nat
  unused1 : Nat
  unused2 : Nat
  unused3 : Nat
deriving DecidableEq

/-- Members one to eight of mma8451_register_ff_mt_cfg, read through the generic cast. -/
def mma8451_register_ff_mt_cfg.as_generic (data : mma8451_register_ff_mt_cfg) : mma8451_register_generic :=
  { bit7 := data.ele, bit6 := data.oae, bit5 := data.zefe, bit4 := data.yefe,
    bit3 := data.xefe, bit2 := data.unused1, bit1 := data.unused2, bit0 := data.unused3 }

/-- Members one to eight of mma8451_register_ff_mt_cfg, stored through the generic cast. -/
def mma8451_register_ff_mt_cfg.with_generic (data : mma8451_register_ff_mt_cfg)
    (g : mma8451_register_generic) : mma8451_register_ff_mt_cfg :=
  { data with
    ele := g.bit7
    oae := g.bit6
    zefe := g.bit5
    yefe := g.bit4
    xefe := g.bit3
    unused1 := g.bit2
    unused2 := g.bit1
    unused3 := g.bit0 }

structure mma8451_register_ff_mt_src where
  ea : Nat
  unused1 : Nat
  zhe : Nat
  zhp : Nat
  yhe : Nat
  yhp : Nat
  xhe : Nat
  xhp : Nat
deriving DecidableEq

/-- Members one to eight of mma8451_register_ff_mt_src, read through the generic cast. -/
def mma8451_register_ff_mt_src.as_generic (data : mma8451_register_ff_mt_src) : mma8451_register_generic :=
  { bit7 := data.ea, bit6 := data.unused1, bit5 := data.zhe, bit4 := data.zhp,
    bit3 := data.yhe, bit2 := data.yhp, bit1 := data.xhe, bit0 := data.xhp }

/-- Members one to eight of mma8451_register_ff_mt_src, stored through the generic cast. -/
def mma8451_register_ff_mt_src.with_generic (data : mma8451_register_ff_mt_src)
    (g : mma8451_register_generic) : mma8451_register_ff_mt_src :=
  { data with
    ea := g.bit7
    unused1 := g.bit6
    zhe := g.bit5
    zhp := g.bit4
    yhe := g.bit3
    yhp := g.bit2
    xhe := g.bit1
    xhp := g.bit0 }

structure mma8451_register_ff_mt_ths where
  dbcntm : Nat
  ths6 : Nat
  ths5 : Nat
  ths4 : Nat
  ths3 : Nat
  ths2 : Nat
  ths1 : Nat
  ths0 : Nat
  ths : Nat
deriving DecidableEq

/-- Members one to eight of mma8451_register_ff_mt_ths, read through the generic cast. -/
def mma8451_register_ff_mt_ths.as_generic (data : mma8451_register_ff_mt_ths) : mma8451_register_generic :=
  { bit7 := data.dbcntm, bit6 := data.ths6, bit5 := data.ths5, bit4 := data.ths4,
    bit3 := data.ths3, bit2 := data.ths2, bit1 := data.ths1, bit0 := data.ths0 }

/-- Members one to eight of mma8451_register_ff_mt_ths, stored through the generic cast. -/
def mma8451_register_ff_mt_ths.with_generic (data : mma8451_register_ff_mt_ths)
    (g : mma8451_register_generic) : mma8451_register_ff_mt_ths :=
  { data with
    dbcntm := g.bit7
    ths6 := g.bit6
    ths5 := g.bit5
    ths4 := g.bit4
    ths3 := g.bit3
    ths2 := g.bit2
    ths1 := g.bit1
    ths0 := g.bit0 }

structure mma8451_register_transient_cfg where
  unused1 : Nat
  unused2 : Nat
  unused3 : Nat
  ele : Nat
  ztefe : Nat
  ytefe : Nat
  xtefe : Nat
  hpf_byp : Nat
deriving DecidableEq

/-- Members one to eight of mma8451_register_transient_cfg, read through the generic cast. -/
def mma8451_register_transient_cfg.as_generic (data : mma8451_register_transient_cfg) : mma8451_register_generic :=
  { bit7 := data.unused1, bit6 := data.unused2, bit5 := data.unused3, bit4 := data.ele,
    bit3 := data.ztefe, bit2 := data.ytefe, bit1 := data.xtefe, bit0 := data.hpf_byp }

/-- Members one to eight of mma8451_register_transient_cfg, stored through the generic cast. -/
def mma8451_register_transient_cfg.with_generic (data : mma8451_register_transient_cfg)
    (g : mma8451_register_generic) : mma8451_register_transient_cfg :=
  { data with
    unused1 := g.bit7
    unused2 := g.bit6
    unused3 := g.bit5
    ele := g.bit4
    ztefe := g.bit3
    ytefe := g.bit2
    xtefe := g.bit1
    hpf_byp := g.bit0 }

structure mma8451_register_transient_scr where
  unused : Nat
  ea : Nat
  ztranse : Nat
  z_trans_pol : Nat
  ytranse : Nat
  y_trans_pol : Nat
  xtranse : Nat
  x_trans_pol : Nat
deriving DecidableEq

/-- Members one to eight of mma8451_register_transient_scr, read through the generic cast. -/
def mma8451_register_transient_scr.as_generic (data : mma8451_register_transient_scr) : mma8451_register_generic :=
  { bit7 := data.unused, bit6 := data.ea, bit5 := data.ztranse, bit4 := data.z_trans_pol,
    bit3 := data.ytranse, bit2 := data.y_trans_pol, bit1 := data.xtranse, bit0 := data.x_trans_pol }

/-- Members one to eight of mma8451_register_transient_scr, stored through the generic cast. -/
def mma8451_register_transient_scr.with_generic (data : mma8451_register_transient_scr)
    (g : mma8451_register_generic) : mma8451_register_transient_scr :=
  { data with
    unused := g.bit7
    ea := g.bit6
    ztranse := g.bit5
    z_trans_pol := g.bit4
    ytranse := g.bit3
    y_trans_pol := g.bit2
    xtranse := g.bit1
    x_trans_pol := g.bit0 }

structure mma8451_register_transient_ths where
  dbcntm : Nat
  ths6 : Nat
  ths5 : Nat
  ths4 : Nat
  ths3 : Nat
  ths2 : Nat
  ths1 : Nat
  ths0 : Nat
  ths : Nat
deriving DecidableEq

/-- Members one to eight of mma8451_register_transient_ths, read through the generic cast. -/
def mma8451_register_transient_ths.as_generic (data : mma8451_register_transient_ths) : mma8451_register_generic :=
  { bit7 := data.dbcntm, bit6 := data.ths6, bit5 := data.ths5, bit4 := data.ths4,
    bit3 := data.ths3, bit2 := data.ths2, bit1 := data.ths1, bit0 := data.ths0 }

/-- Members one to eight of mma8451_register_transient_ths, stored through the generic cast. -/
def mma8451_register_transient_ths.with_generic (data : mma8451_register_transient_ths)
    (g : mma8451_register_generic) : mma8451_register_transient_ths :=
  { data with
    dbcntm := g.bit7
    ths6 := g.bit6
    ths5 := g.bit5
    ths4 := g.bit4
    ths3 := g.bit3
    ths2 := g.bit2
    ths1 := g.bit1
    ths0 := g.bit0 }

structure mma8451_register_pulse_cfg where
  dpa : Nat
  ele : Nat
  zdpefe : Nat
  zspefe : Nat
  ydpefe : Nat
  yspefe : Nat
  xdpefe : Nat
  xspefe : Nat
deriving DecidableEq

/-- Members one to eight of mma8451_register_pulse_cfg, read through the generic cast. -/
def mma8451_register_pulse_cfg.as_generic (data : mma8451_register_pulse_cfg) : mma8451_register_generic :=
  { bit7 := data.dpa, bit6 := data.ele, bit5 := data.zdpefe, bit4 := data.zspefe,
    bit3 := data.ydpefe, bit2 := data.yspefe, bit1 := data.xdpefe, bit0 := data.xspefe }

/-- Members one to eight of mma8451_register_pulse_cfg, stored through the generic cast. -/
def mma8451_register_pulse_cfg.with_generic (data : mma8451_register_pulse_cfg)
    (g : mma8451_register_generic) : mma8451_register_pulse_cfg :=
  { data with
    dpa := g.bit7
    ele := g.bit6
    zdpefe := g.bit5
    zspefe := g.bit4
    ydpefe := g.bit3
    yspefe := g.bit2
    xdpefe := g.bit1
    xspefe := g.bit0 }

structure mma8451_register_pulse_src where
  ea : Nat
  axz : Nat
  axy : Nat
  axx : Nat
  dpe : Nat
  polz : Nat
  poly : Nat
  polx : Nat
deriving DecidableEq

/-- Members one to eight of mma8451_register_pulse_src, read through the generic cast. -/
def mma8451_register_pulse_src.as_generic (data : mma8451_register_pulse_src) : mma8451_register_generic :=
  { bit7 := data.ea, bit6 := data.axz, bit5 := data.axy, bit4 := data.axx,
    bit3 := data.dpe, bit2 := data.polz, bit1 := data.poly, bit0 := data.polx }

/-- Members one to eight of mma8451_register_pulse_src, stored through the generic cast. -/
def mma8451_register_pulse_src.with_generic (data : mma8451_register_pulse_src)
    (g : mma8451_register_generic) : mma8451_register_pulse_src :=
  { data with
    ea := g.bit7
    axz := g.bit6
    axy := g.bit5
    axx := g.bit4
    dpe := g.bit3
    polz := g.bit2
    poly := g.bit1
    polx := g.bit0 }

structure mma8451_register_pulse_ths where
  unused : Nat
  ths6 : Nat
  ths5 : Nat
  ths4 : Nat
  ths3 : Nat
  ths2 : Nat
  ths1 : Nat
  ths0 : Nat
  ths : Nat
deriving DecidableEq

/-- Members one to eight of mma8451_register_pulse_ths, read through the generic cast. -/
def mma8451_register_pulse_ths.as_generic (data : mma8451_register_pulse_ths) : mma8451_register_generic :=
  { bit7 := data.unused, bit6 := data.ths6, bit5 := data.ths5, bit4 := data.ths4,
    bit3 := data.ths3, bit2 := data.ths2, bit1 := data.ths1, bit0 := data.ths0 }

/-- Members one to eight of mma8451_register_pulse_ths, stored through the generic cast. -/
def mma8451_register_pulse_ths.with_generic (data : mma8451_register_pulse_ths)
    (g : mma8451_register_generic) : mma8451_register_pulse_ths :=
  { data with
    unused := g.bit7
    ths6 := g.bit6
    ths5 := g.bit5
    ths4 := g.bit4
    ths3 := g.bit3
    ths2 := g.bit2
    ths1 := g.bit1
    ths0 := g.bit0 }

structure mma8451_register_ctrl_reg1 where
  aslp_rate1 : Nat
  aslp_rate0 : Nat
  dr2 : Nat
  dr1 : Nat
  dr0 : Nat
  lnoise : Nat
  f_read : Nat
  active : Nat
  aslp_rate : Nat
  dr : Nat
deriving DecidableEq

/-- Members one to eight of mma8451_register_ctrl_reg1, read through the generic cast. -/
def mma8451_register_ctrl_reg1.as_generic (data : mma8451_register_ctrl_reg1) : mma8451_register_generic :=
  { bit7 := data.aslp_rate1, bit6 := data.aslp_rate0, bit5 := data.dr2, bit4 := data.dr1,
    bit3 := data.dr0, bit2 := data.lnoise, bit1 := data.f_read, bit0 := data.active }

/-- Members one to eight of mma8451_register_ctrl_reg1, stored through the generic cast. -/
def mma8451_register_ctrl_reg1.with_generic (data : mma8451_register_ctrl_reg1)
    (g : mma8451_register_generic) : mma8451_register_ctrl_reg1 :=
  { data with
    aslp_rate1 := g.bit7
    aslp_rate0 := g.bit6
    dr2 := g.bit5
    dr1 := g.bit4
    dr0 := g.bit3
    lnoise := g.bit2
    f_read := g.bit1
    active := g.bit0 }

structure mma8451_register_ctrl_reg2 where
  st : Nat
  rst : Nat
  unused : Nat
  smods1 : Nat
  smods0 : Nat
  slpe : Nat
  mods1 : Nat
  mods0 : Nat
  smods : Nat
  mods : Nat
deriving DecidableEq

/-- Members one to eight of mma8451_register_ctrl_reg2, read through the generic cast. -/
def mma8451_register_ctrl_reg2.as_generic (data : mma8451_register_ctrl_reg2) : mma8451_register_generic :=
  { bit7 := data.st, bit6 := data.rst, bit5 := data.unused, bit4 := data.smods1,
    bit3 := data.smods0, bit2 := data.slpe, bit1 := data.mods1, bit0 := data.mods0 }

/-- Members one to eight of mma8451_register_ctrl_reg2, stored through the generic cast. -/
def mma8451_register_ctrl_reg2.with_generic (data : mma8451_register_ctrl_reg2)
    (g : mma8451_register_generic) : mma8451_register_ctrl_reg2 :=
  { data with
    st := g.bit7
    rst := g.bit6
    unused := g.bit5
    smods1 := g.bit4
    smods0 := g.bit3
    slpe := g.bit2
    mods1 := g.bit1
    mods0 := g.bit0 }

structure mma8451_register_ctrl_reg3 where
  fifo_gate : Nat
  wake_trans : Nat
  wake_lndprt : Nat
  wake_pulse : Nat
  wake_ff_mt : Nat
  unused : Nat
  ipol : Nat
  pp_od : Nat
deriving DecidableEq

/-- Members one to eight of mma8451_register_ctrl_reg3, read through the generic cast. -/
def mma8451_register_ctrl_reg3.as_generic (data : mma8451_register_ctrl_reg3) : mma8451_register_generic :=
  { bit7 := data.fifo_gate, bit6 := data.wake_trans, bit5 := data.wake_lndprt, bit4 := data.wake_pulse,
    bit3 := data.wake_ff_mt, bit2 := data.unused, bit1 := data.ipol, bit0 := data.pp_od }

/-- Members one to eight of mma8451_register_ctrl_reg3, stored through the generic cast. -/
def mma8451_register_ctrl_reg3.with_generic (data : mma8451_register_ctrl_reg3)
    (g : mma8451_register_generic) : mma8451_register_ctrl_reg3 :=
  { data with
    fifo_gate := g.bit7
    wake_trans := g.bit6
    wake_lndprt := g.bit5
    wake_pulse := g.bit4
    wake_ff_mt := g.bit3
    unused := g.bit2
    ipol := g.bit1
    pp_od := g.bit0 }

structure mma8451_register_ctrl_reg4 where
  int_en_aslp : Nat
  int_en_fifo : Nat
  int_en_trans : Nat
  int_en_lndprt : Nat
  int_en_pulse : Nat
  int_en_ff_mt : Nat
  unused : Nat
  int_en_drdy : Nat
deriving DecidableEq

/-- Members one to eight of mma8451_register_ctrl_reg4, read through the generic cast. -/
def mma8451_register_ctrl_reg4.as_generic (data : mma8451_register_ctrl_reg4) : mma8451_register_generic :=
  { bit7 := data.int_en_aslp, bit6 := data.int_en_fifo, bit5 := data.int_en_trans, bit4 := data.int_en_lndprt,
    bit3 := data.int_en_pulse, bit2 := data.int_en_ff_mt, bit1 := data.unused, bit0 := data.int_en_drdy }

/-- Members one to eight of mma8451_register_ctrl_reg4, stored through the generic cast. -/
def mma8451_register_ctrl_reg4.with_generic (data : mma8451_register_ctrl_reg4)
    (g : mma8451_register_generic) : mma8451_register_ctrl_reg4 :=
  { data with
    int_en_aslp := g.bit7
    int_en_fifo := g.bit6
    int_en_trans := g.bit5
    int_en_lndprt := g.bit4
    int_en_pulse := g.bit3
    int_en_ff_mt := g.bit2
    unused := g.bit1
    int_en_drdy := g.bit0 }

structure mma8451_register_ctrl_reg5 where
  int_cfg_aslp : Nat
  int_cfg_fifo : Nat
  int_cfg_trans : Nat
  int_cfg_lndprt : Nat
  int_cfg_pulse : Nat
  int_cfg_ff_mt : Nat
  unused : Nat
  int_cfg_drdy : Nat
deriving DecidableEq

/-- Members one to eight of mma8451_register_ctrl_reg5, read through the generic cast. -/
def mma8451_register_ctrl_reg5.as_generic (data : mma8451_register_ctrl_reg5) : mma8451_register_generic :=
  { bit7 := data.int_cfg_aslp, bit6 := data.int_cfg_fifo, bit5 := data.int_cfg_trans, bit4 := data.int_cfg_lndprt,
    bit3 := data.int_cfg_pulse, bit2 := data.int_cfg_ff_mt, bit1 := data.unused, bit0 := data.int_cfg_drdy }

/-- Members one to eight of mma8451_register_ctrl_reg5, stored through the generic cast. -/
def mma8451_register_ctrl_reg5.with_generic (data : mma8451_register_ctrl_reg5)
    (g : mma8451_register_generic) : mma8451_register_ctrl_reg5 :=
  { data with
    int_cfg_aslp := g.bit7
    int_cfg_fifo := g.bit6
    int_cfg_trans := g.bit5
    int_cfg_lndprt := g.bit4
    int_cfg_pulse := g.bit3
    int_cfg_ff_mt := g.bit2
    unused := g.bit1
    int_cfg_drdy := g.bit0 }

def mma8451_get_status (device : mma8451) (data : mma8451_register_status) :
    result mma8451_register_status :=
  let r := mma8451_get_register device MMA8451_REGISTER_STATUS (some data.as_generic) none
  let device := r.device
  let data := match r.data.1 with
    | some g => data.with_generic g
    | none => data
  if r.ret = 0 then ⟨0, device, data⟩ else
  ⟨1, device, data⟩

def mma8451_get_f_status (device : mma8451) (data : mma8451_register_f_status) :
    result mma8451_register_f_status :=
  let r := mma8451_get_register device MMA8451_REGISTER_F_STATUS (some data.as_generic) none
  let device := r.device
  let data := match r.data.1 with
    | some g => data.with_generic g
    | none => data
  if r.ret = 0 then ⟨0, device, data⟩ else
  let data := { data with f_cnt := 0 }
  let data := { data with f_cnt := (data.f_cnt + (data.f_cnt5 <<< 5)) % 256 }
  let data := { data with f_cnt := (data.f_cnt + (data.f_cnt4 <<< 4)) % 256 }
  let data := { data with f_cnt := (data.f_cnt + (data.f_cnt3 <<< 3)) % 256 }
  let data := { data with f_cnt := (data.f_cnt + (data.f_cnt2 <<< 2)) % 256 }
  let data := { data with f_cnt := (data.f_cnt + (data.f_cnt1 <<< 1)) % 256 }
  let data := { data with f_cnt := (data.f_cnt + data.f_cnt0) % 256 }
  ⟨1, device, data⟩

def mma8451_get_f_setup (device : mma8451) (data : mma8451_register_f_setup) :
    result mma8451_register_f_setup :=
  let r := mma8451_get_register device MMA8451_REGISTER_F_SETUP (some data.as_generic) none
  let device := r.device
  let data := match r.data.1 with
    | some g => data.with_generic g
    | none => data
  if r.ret = 0 then ⟨0, device, data⟩ else
  let data := { data with f_mode := 0 }
  let data := { data with f_mode := (data.f_mode + (data.f_mode1 <<< 1)) % 4294967296 }
  let data := { data with f_mode := (data.f_mode + data.f_mode0) % 4294967296 }
  let data := { data with f_wmrk := 0 }
  let data := { data with f_wmrk := (data.f_wmrk + (data.f_wmrk5 <<< 5)) % 256 }
  let data := { data with f_wmrk := (data.f_wmrk + (data.f_wmrk4 <<< 4)) % 256 }
  let data := { data with f_wmrk := (data.f_wmrk + (data.f_wmrk3 <<< 3)) % 256 }
  let data := { data with f_wmrk := (data.f_wmrk + (data.f_wmrk2 <<< 2)) % 256 }
  let data := { data with f_wmrk := (data.f_wmrk + (data.f_wmrk1 <<< 1)) % 256 }
  let data := { data with f_wmrk := (data.f_wmrk + data.f_wmrk0) % 256 }
  ⟨1, device, data⟩

def mma8451_set_f_setup (device : mma8451) (data : mma8451_register_f_setup) :
    result mma8451_register_f_setup :=
  let data := { data with f_mode1 := (data.f_mode >>> 1) &&& 0x1 }
  let data := { data with f_mode0 := data.f_mode &&& 0x1 }
  let data := { data with f_wmrk5 := (data.f_wmrk >>> 5) &&& 0x1 }
  let data := { data with f_wmrk4 := (data.f_wmrk >>> 4) &&& 0x1 }
  let data := { data with f_wmrk3 := (data.f_wmrk >>> 3) &&& 0x1 }
  let data := { data with f_wmrk2 := (data.f_wmrk >>> 2) &&& 0x1 }
  let data := { data with f_wmrk1 := (data.f_wmrk >>> 1) &&& 0x1 }
  let data := { data with f_wmrk0 := data.f_wmrk &&& 0x1 }
  let r := mma8451_set_register device MMA8451_REGISTER_F_SETUP (some data.as_generic) 0
  let device := r.device
  if r.ret = 0 then ⟨0, device, data⟩ else
  ⟨1, device, data⟩

def mma8451_get_trig_cfg (device : mma8451) (data : mma8451_register_trig_cfg) :
    result mma8451_register_trig_cfg :=
  let r := mma8451_get_register device MMA8451_REGISTER_TRIG_CFG (some data.as_generic) none
  let device := r.device
  let data := match r.data.1 with
    | some g => data.with_generic g
    | none => data
  if r.ret = 0 then ⟨0, device, data⟩ else
  ⟨1, device, data⟩

def mma8451_set_trig_cfg (device : mma8451) (data : mma8451_register_trig_cfg) :
    result mma8451_register_trig_cfg :=
  let r := mma8451_set_register device MMA8451_REGISTER_TRIG_CFG (some data.as_generic) 0
  let device := r.device
  if r.ret = 0 then ⟨0, device, data⟩ else
  ⟨1, device, data⟩

def mma8451_get_sysmod (device : mma8451) (data : mma8451_register_sysmod) :
    result mma8451_register_sysmod :=
  let r := mma8451_get_register device MMA8451_REGISTER_SYSMOD (some data.as_generic) none
  let device := r.device
  let data := match r.data.1 with
    | some g => data.with_generic g
    | none => data
  if r.ret = 0 then ⟨0, device, data⟩ else
  let data := { data with fgt := 0 }
  let data := { data with fgt := (data.fgt + (data.fgt_4 <<< 4)) % 256 }
  let data := { data with fgt := (data.fgt + (data.fgt_3 <<< 3)) % 256 }
  let data := { data with fgt := (data.fgt + (data.fgt_2 <<< 2)) % 256 }
  let data := { data with fgt := (data.fgt + (data.fgt_1 <<< 1)) % 256 }
  let data := { data with fgt := (data.fgt + data.fgt_0) % 256 }
  let data := { data with mode := 0 }
  let data := { data with mode := (data.mode + (data.sysmod1 <<< 1)) % 4294967296 }
  let data := { data with mode := (data.mode + data.sysmod0) % 4294967296 }
  ⟨1, device, data⟩

def mma8451_get_int_source (device : mma8451) (data : mma8451_register_int_source) :
    result mma8451_register_int_source :=
  let r := mma8451_get_register device MMA8451_REGISTER_INT_SOURCE (some data.as_generic) none
  let device := r.device
  let data := match r.data.1 with
    | some g => data.with_generic g
    | none => data
  if r.ret = 0 then ⟨0, device, data⟩ else
  ⟨1, device, data⟩

def mma8451_get_whoami (device : mma8451) (whoami : Nat) : result Nat :=
  let r := mma8451_get_register device MMA8451_REGISTER_WHO_AM_I none (some whoami)
  let device := r.device
  let whoami := match r.data.2 with
    | some value => value
    | none => whoami
  if r.ret = 0 then ⟨0, device, whoami⟩ else
  ⟨1, device, whoami⟩

def mma8451_get_xyz_data_cfg (device : mma8451) (data : mma8451_register_xyz_data_cfg) :
    result mma8451_register_xyz_data_cfg :=
  let r := mma8451_get_register device MMA8451_REGISTER_XYZ_DATA_CFG (some data.as_generic) none
  let device := r.device
  let data := match r.data.1 with
    | some g => data.with_generic g
    | none => data
  if r.ret = 0 then ⟨0, device, data⟩ else
  let data := { data with fs := 0 }
  let data := { data with fs := (data.fs + (data.fs1 <<< 1)) % 4294967296 }
  let data := { data with fs := (data.fs + (data.fs0)) % 4294967296 }
  ⟨1, device, data⟩

def mma8451_set_xyz_data_cfg (device : mma8451) (data : mma8451_register_xyz_data_cfg) :
    result mma8451_register_xyz_data_cfg :=
  let data := { data with fs1 := (data.fs >>> 1) &&& 0x1 }
  let data := { data with fs0 := (data.fs) &&& 0x1 }
  let r := mma8451_set_register device MMA8451_REGISTER_XYZ_DATA_CFG (some data.as_generic) 0
  let device := r.device
  if r.ret = 0 then ⟨0, device, data⟩ else
  let device := { device with range := data.fs }
  ⟨1, device, data⟩

def mma8451_get_hp_filter_cutoff (device : mma8451) (data : mma8451_register_hp_filter_cutoff) :
    result mma8451_register_hp_filter_cutoff :=
  let r := mma8451_get_register device MMA8451_REGISTER_HP_FILTER_CUTOFF (some data.as_generic) none
  let device := r.device
  let data := match r.data.1 with
    | some g => data.with_generic g
    | none => data
  if r.ret = 0 then ⟨0, device, data⟩ else
  ⟨1, device, data⟩

def mma8451_set_hp_filter_cutoff (device : mma8451) (data : mma8451_register_hp_filter_cutoff) :
    result mma8451_register_hp_filter_cutoff :=
  let r := mma8451_set_register device MMA8451_REGISTER_HP_FILTER_CUTOFF (some data.as_generic) 0
  let device := r.device
  if r.ret = 0 then ⟨0, device, data⟩ else
  ⟨1, device, data⟩

def mma8451_get_pl_status (device : mma8451) (data : mma8451_register_pl_status) :
    result mma8451_register_pl_status :=
  let r := mma8451_get_register device MMA8451_REGISTER_PL_STATUS (some data.as_generic) none
  let device := r.device
  let data := match r.data.1 with
    | some g => data.with_generic g
    | none => data
  if r.ret = 0 then ⟨0, device, data⟩ else
  ⟨1, device, data⟩

def mma8451_get_pl_cfg (device : mma8451) (data : mma8451_register_pl_cfg) :
    result mma8451_register_pl_cfg :=
  let r := mma8451_get_register device MMA8451_REGISTER_PL_CFG (some data.as_generic) none
  let device := r.device
  let data := match r.data.1 with
    | some g => data.with_generic g
    | none => data
  if r.ret = 0 then ⟨0, device, data⟩ else
  ⟨1, device, data⟩

def mma8451_set_pl_cfg (device : mma8451) (data : mma8451_register_pl_cfg) :
    result mma8451_register_pl_cfg :=
  let r := mma8451_set_register device MMA8451_REGISTER_PL_CFG (some data.as_generic) 0
  let device := r.device
  if r.ret = 0 then ⟨0, device, data⟩ else
  ⟨1, device, data⟩

def mma8451_get_pl_count (device : mma8451) (count : Nat) : result Nat :=
  let r := mma8451_get_register device MMA8451_REGISTER_PL_COUNT none (some count)
  let device := r.device
  let count := match r.data.2 with
    | some value => value
    | none => count
  if r.ret = 0 then ⟨0, device, count⟩ else
  ⟨1, device, count⟩

def mma8451_set_pl_count (device : mma8451) (count : Nat) : result Unit :=
  let r := mma8451_set_register device MMA8451_REGISTER_PL_COUNT none count
  let device := r.device
  if r.ret = 0 then ⟨0, device, ()⟩ else
  ⟨1, device, ()⟩

def mma8451_get_pl_bf_zcomp (device : mma8451) (data : mma8451_register_pl_bf_zcomp) :
    result mma8451_register_pl_bf_zcomp :=
  let r := mma8451_get_register device MMA8451_REGISTER_PL_BF_ZCOMP (some data.as_generic) none
  let device := r.device
  let data := match r.data.1 with
    | some g => data.with_generic g
    | none => data
  if r.ret = 0 then ⟨0, device, data⟩ else
  let data := { data with bkfr := 0 }
  let data := { data with bkfr := (data.bkfr + (data.bkfr1 <<< 1)) % 256 }
  let data := { data with bkfr := (data.bkfr + (data.bkfr0)) % 256 }
  let data := { data with zlock := 0 }
  let data := { data with zlock := (data.zlock + (data.zlock2 <<< 2)) % 256 }
  let data := { data with zlock := (data.zlock + (data.zlock1 <<< 1)) % 256 }
  let data := { data with zlock := (data.zlock + (data.zlock0)) % 256 }
  ⟨1, device, data⟩

def mma8451_set_pl_bf_zcomp (device : mma8451) (data : mma8451_register_pl_bf_zcomp) :
    result mma8451_register_pl_bf_zcomp :=
  let data := { data with bkfr1 := (data.bkfr >>> 1) &&& 0x1 }
  let data := { data with bkfr0 := (data.bkfr) &&& 0x1 }
  let data := { data with zlock2 := (data.zlock >>> 2) &&& 0x1 }
  let data := { data with zlock1 := (data.zlock >>> 1) &&& 0x1 }
  let data := { data with zlock0 := (data.zlock) &&& 0x1 }
  let r := mma8451_set_register device MMA8451_REGISTER_PL_BF_ZCOMP (some data.as_generic) 0
  let device := r.device
  if r.ret = 0 then ⟨0, device, data⟩ else
  ⟨1, device, data⟩

def mma8451_get_p_l_ths_reg (device : mma8451) (data : mma8451_register_p_l_ths_reg) :
    result mma8451_register_p_l_ths_reg :=
  let r := mma8451_get_register device MMA8451_REGISTER_P_L_THS_REG (some data.as_generic) none
  let device := r.device
  let data := match r.data.1 with
    | some g => data.with_generic g
    | none => data
  if r.ret = 0 then ⟨0, device, data⟩ else
  let data := { data with p_l_ths := 0 }
  let data := { data with p_l_ths := (data.p_l_ths + (data.p_l_ths4 <<< 4)) % 256 }
  let data := { data with p_l_ths := (data.p_l_ths + (data.p_l_ths3 <<< 3)) % 256 }
  let data := { data with p_l_ths := (data.p_l_ths + (data.p_l_ths2 <<< 2)) % 256 }
  let data := { data with p_l_ths := (data.p_l_ths + (data.p_l_ths1 <<< 1)) % 256 }
  let data := { data with p_l_ths := (data.p_l_ths + (data.p_l_ths0)) % 256 }
  let data := { data with hys := 0 }
  let data := { data with hys := (data.hys + (data.hys2 <<< 2)) % 256 }
  let data := { data with hys := (data.hys + (data.hys1 <<< 1)) % 256 }
  let data := { data with hys := (data.hys + (data.hys0)) % 256 }
  ⟨1, device, data⟩

def mma8451_set_p_l_ths_reg (device : mma8451) (data : mma8451_register_p_l_ths_reg) :
    result mma8451_register_p_l_ths_reg :=
  let data := { data with p_l_ths4 := (data.p_l_ths >>> 4) &&& 0x1 }
  let data := { data with p_l_ths3 := (data.p_l_ths >>> 3) &&& 0x1 }
  let data := { data with p_l_ths2 := (data.p_l_ths >>> 2) &&& 0x1 }
  let data := { data with p_l_ths1 := (data.p_l_ths >>> 1) &&& 0x1 }
  let data := { data with p_l_ths0 := (data.p_l_ths) &&& 0x1 }
  let data := { data with hys2 := (data.hys >>> 2) &&& 0x1 }
  let data := { data with hys1 := (data.hys >>> 1) &&& 0x1 }
  let data := { data with hys0 := (data.hys) &&& 0x1 }
  let r := mma8451_set_register device MMA8451_REGISTER_P_L_THS_REG (some data.as_generic) 0
  let device := r.device
  if r.ret = 0 then ⟨0, device, data⟩ else
  ⟨1, device, data⟩

def mma8451_get_ff_mt_ths (device : mma8451) (data : mma8451_register_ff_mt_ths) :
    result mma8451_register_ff_mt_ths :=
  let r := mma8451_get_register device MMA8451_REGISTER_FF_MT_THS (some data.as_generic) none
  let device := r.device
  let data := match r.data.1 with
    | some g => data.with_generic g
    | none => data
  if r.ret = 0 then ⟨0, device, data⟩ else
  let data := { data with ths := 0 }
  let data := { data with ths := (data.ths + (data.ths6 <<< 6)) % 256 }
  let data := { data with ths := (data.ths + (data.ths5 <<< 5)) % 256 }
  let data := { data with ths := (data.ths + (data.ths4 <<< 4)) % 256 }
  let data := { data with ths := (data.ths + (data.ths3 <<< 3)) % 256 }
  let data := { data with ths := (data.ths + (data.ths2 <<< 2)) % 256 }
  let data := { data with ths := (data.ths + (data.ths1 <<< 1)) % 256 }
  let data := { data with ths := (data.ths + (data.ths0)) % 256 }
  ⟨1, device, data⟩

def mma8451_set_ff_mt_ths (device : mma8451) (data : mma8451_register_ff_mt_ths) :
    result mma8451_register_ff_mt_ths :=
  let data := { data with ths6 := (data.ths >>> 6) &&& 0x1 }
  let data := { data with ths5 := (data.ths >>> 5) &&& 0x1 }
  let data := { data with ths4 := (data.ths >>> 4) &&& 0x1 }
  let data := { data with ths3 := (data.ths >>> 3) &&& 0x1 }
  let data := { data with ths2 := (data.ths >>> 2) &&& 0x1 }
  let data := { data with ths1 := (data.ths >>> 1) &&& 0x1 }
  let data := { data with ths0 := (data.ths) &&& 0x1 }
  let r := mma8451_set_register device MMA8451_REGISTER_FF_MT_THS (some data.as_generic) 0
  let device := r.device
  if r.ret = 0 then ⟨0, device, data⟩ else
  ⟨1, device, data⟩

def mma8451_get_ff_mt_count (device : mma8451) (count : Nat) : result Nat :=
  let r := mma8451_get_register device MMA8451_REGISTER_FF_MT_COUNT none (some count)
  let device := r.device
  let count := match r.data.2 with
    | some value => value
    | none => count
  if r.ret = 0 then ⟨0, device, count⟩ else
  ⟨1, device, count⟩

def mma8451_set_ff_mt_count (device : mma8451) (count : Nat) : result Unit :=
  let r := mma8451_set_register device MMA8451_REGISTER_FF_MT_COUNT none count
  let device := r.device
  if r.ret = 0 then ⟨0, device, ()⟩ else
  ⟨1, device, ()⟩

def mma8451_get_ff_mt_cfg (device : mma8451) (data : mma8451_register_ff_mt_cfg) :
    result mma8451_register_ff_mt_cfg :=
  let r := mma8451_get_register device MMA8451_REGISTER_FF_MT_CFG (some data.as_generic) none
  let device := r.device
  let data := match r.data.1 with
    | some g => data.with_generic g
    | none => data
  if r.ret = 0 then ⟨0, device, data⟩ else
  ⟨1, device, data⟩

def mma8451_set_ff_mt_cfg (device : mma8451) (data : mma8451_register_ff_mt_cfg) :
    result mma8451_register_ff_mt_cfg :=
  let r := mma8451_set_register device MMA8451_REGISTER_FF_MT_CFG (some data.as_generic) 0
  let device := r.device
  if r.ret = 0 then ⟨0, device, data⟩ else
  ⟨1, device, data⟩

def mma8451_get_ff_mt_src (device : mma8451) (data : mma8451_register_ff_mt_src) :
    result mma8451_register_ff_mt_src :=
  let r := mma8451_get_register device MMA8451_REGISTER_FF_MT_SRC (some data.as_generic) none
  let device := r.device
  let data := match r.data.1 with
    | some g => data.with_generic g
    | none => data
  if r.ret = 0 then ⟨0, device, data⟩ else
  ⟨1, device, data⟩

def mma8451_get_transient_cfg (device : mma8451) (data : mma8451_register_transient_cfg) :
    result mma8451_register_transient_cfg :=
  let r := mma8451_get_register device MMA8451_REGISTER_TRANSIENT_CFG (some data.as_generic) none
  let device := r.device
  let data := match r.data.1 with
    | some g => data.with_generic g
    | none => data
  if r.ret = 0 then ⟨0, device, data⟩ else
  ⟨1, device, data⟩

def mma8451_set_transient_cfg (device : mma8451) (data : mma8451_register_transient_cfg) :
    result mma8451_register_transient_cfg :=
  let r := mma8451_set_register device MMA8451_REGISTER_TRANSIENT_CFG (some data.as_generic) 0
  let device := r.device
  if r.ret = 0 then ⟨0, device, data⟩ else
  ⟨1, device, data⟩

def mma8451_get_transient_scr (device : mma8451) (data : mma8451_register_transient_scr) :
    result mma8451_register_transient_scr :=
  let r := mma8451_get_register device MMA8451_REGISTER_TRANSIENT_SCR (some data.as_generic) none
  let device := r.device
  let data := match r.data.1 with
    | some g => data.with_generic g
    | none => data
  if r.ret = 0 then ⟨0, device, data⟩ else
  ⟨1, device, data⟩

def mma8451_get_transient_ths (device : mma8451) (data : mma8451_register_transient_ths) :
    result mma8451_register_transient_ths :=
  let r := mma8451_get_register device MMA8451_REGISTER_TRANSIENT_THS (some data.as_generic) none
  let device := r.device
  let data := match r.data.1 with
    | some g => data.with_generic g
    | none => data
  if r.ret = 0 then ⟨0, device, data⟩ else
  let data := { data with ths := 0 }
  let data := { data with ths := (data.ths + (data.ths6 <<< 6)) % 256 }
  let data := { data with ths := (data.ths + (data.ths5 <<< 5)) % 256 }
  let data := { data with ths := (data.ths + (data.ths4 <<< 4)) % 256 }
  let data := { data with ths := (data.ths + (data.ths3 <<< 3)) % 256 }
  let data := { data with ths := (data.ths + (data.ths2 <<< 2)) % 256 }
  let data := { data with ths := (data.ths + (data.ths1 <<< 1)) % 256 }
  let data := { data with ths := (data.ths + (data.ths0)) % 256 }
  ⟨1, device, data⟩

def mma8451_set_transient_ths (device : mma8451) (data : mma8451_register_transient_ths) :
    result mma8451_register_transient_ths :=
  let data := { data with ths6 := (data.ths >>> 6) &&& 0x1 }
  let data := { data with ths5 := (data.ths >>> 5) &&& 0x1 }
  let data := { data with ths4 := (data.ths >>> 4) &&& 0x1 }
  let data := { data with ths3 := (data.ths >>> 3) &&& 0x1 }
  let data := { data with ths2 := (data.ths >>> 2) &&& 0x1 }
  let data := { data with ths1 := (data.ths >>> 1) &&& 0x1 }
  let data := { data with ths0 := (data.ths) &&& 0x1 }
  let r := mma8451_set_register device MMA8451_REGISTER_TRANSIENT_THS (some data.as_generic) 0
  let device := r.device
  if r.ret = 0 then ⟨0, device, data⟩ else
  ⟨1, device, data⟩

def mma8451_get_transient_count (device : mma8451) (count : Nat) : result Nat :=
  let r := mma8451_get_register device MMA8451_REGISTER_TRANSIENT_COUNT none (some count)
  let device := r.device
  let count := match r.data.2 with
    | some value => value
    | none => count
  if r.ret = 0 then ⟨0, device, count⟩ else
  ⟨1, device, count⟩

def mma8451_set_transient_count (device : mma8451) (count : Nat) : result Unit :=
  let r := mma8451_set_register device MMA8451_REGISTER_TRANSIENT_COUNT none count
  let device := r.device
  if r.ret = 0 then ⟨0, device, ()⟩ else
  ⟨1, device, ()⟩

def mma8451_get_pulse_cfg (device : mma8451) (data : mma8451_register_pulse_cfg) :
    result mma8451_register_pulse_cfg :=
  let r := mma8451_get_register device MMA8451_REGISTER_PULSE_CFG (some data.as_generic) none
  let device := r.device
  let data := match r.data.1 with
    | some g => data.with_generic g
    | none => data
  if r.ret = 0 then ⟨0, device, data⟩ else
  ⟨1, device, data⟩

def mma8451_set_pulse_cfg (device : mma8451) (data : mma8451_register_pulse_cfg) :
    result mma8451_register_pulse_cfg :=
  let r := mma8451_set_register device MMA8451_REGISTER_PULSE_CFG (some data.as_generic) 0
  let device := r.device
  if r.ret = 0 then ⟨0, device, data⟩ else
  ⟨1, device, data⟩

def mma8451_get_pulse_src (device : mma8451) (data : mma8451_register_pulse_src) :
    result mma8451_register_pulse_src :=
  let r := mma8451_get_register device MMA8451_REGISTER_PULSE_SRC (some data.as_generic) none
  let device := r.device
  let data := match r.data.1 with
    | some g => data.with_generic g
    | none => data
  if r.ret = 0 then ⟨0, device, data⟩ else
  ⟨1, device, data⟩

def mma8451_get_pulse_thsx (device : mma8451) (data : mma8451_register_pulse_ths) :
    result mma8451_register_pulse_ths :=
  let r := mma8451_get_register device MMA8451_REGISTER_PULSE_THSX (some data.as_generic) none
  let device := r.device
  let data := match r.data.1 with
    | some g => data.with_generic g
    | none => data
  if r.ret = 0 then ⟨0, device, data⟩ else
  let data := { data with ths := 0 }
  let data := { data with ths := (data.ths + (data.ths6 <<< 6)) % 256 }
  let data := { data with ths := (data.ths + (data.ths5 <<< 5)) % 256 }
  let data := { data with ths := (data.ths + (data.ths4 <<< 4)) % 256 }
  let data := { data with ths := (data.ths + (data.ths3 <<< 3)) % 256 }
  let data := { data with ths := (data.ths + (data.ths2 <<< 2)) % 256 }
  let data := { data with ths := (data.ths + (data.ths1 <<< 1)) % 256 }
  let data := { data with ths := (data.ths + (data.ths0)) % 256 }
  ⟨1, device, data⟩

def mma8451_set_pulse_thsx (device : mma8451) (data : mma8451_register_pulse_ths) :
    result mma8451_register_pulse_ths :=
  let data := { data with ths6 := (data.ths >>> 6) &&& 0x1 }
  let data := { data with ths5 := (data.ths >>> 5) &&& 0x1 }
  let data := { data with ths4 := (data.ths >>> 4) &&& 0x1 }
  let data := { data with ths3 := (data.ths >>> 3) &&& 0x1 }
  let data := { data with ths2 := (data.ths >>> 2) &&& 0x1 }
  let data := { data with ths1 := (data.ths >>> 1) &&& 0x1 }
  let data := { data with ths0 := (data.ths) &&& 0x1 }
  let r := mma8451_set_register device MMA8451_REGISTER_PULSE_THSX (some data.as_generic) 0
  let device := r.device
  if r.ret = 0 then ⟨0, device, data⟩ else
  ⟨1, device, data⟩

def mma8451_get_pulse_thsy (device : mma8451) (data : mma8451_register_pulse_ths) :
    result mma8451_register_pulse_ths :=
  let r := mma8451_get_register device MMA8451_REGISTER_PULSE_THSY (some data.as_generic) none
  let device := r.device
  let data := match r.data.1 with
    | some g => data.with_generic g
    | none => data
  if r.ret = 0 then ⟨0, device, data⟩ else
  let data := { data with ths := 0 }
  let data := { data with ths := (data.ths + (data.ths6 <<< 6)) % 256 }
  let data := { data with ths := (data.ths + (data.ths5 <<< 5)) % 256 }
  let data := { data with ths := (data.ths + (data.ths4 <<< 4)) % 256 }
  let data := { data with ths := (data.ths + (data.ths3 <<< 3)) % 256 }
  let data := { data with ths := (data.ths + (data.ths2 <<< 2)) % 256 }
  let data := { data with ths := (data.ths + (data.ths1 <<< 1)) % 256 }
  let data := { data with ths := (data.ths + (data.ths0)) % 256 }
  ⟨1, device, data⟩

def mma8451_set_pulse_thsy (device : mma8451) (data : mma8451_register_pulse_ths) :
    result mma8451_register_pulse_ths :=
  let data := { data with ths6 := (data.ths >>> 6) &&& 0x1 }
  let data := { data with ths5 := (data.ths >>> 5) &&& 0x1 }
  let data := { data with ths4 := (data.ths >>> 4) &&& 0x1 }
  let data := { data with ths3 := (data.ths >>> 3) &&& 0x1 }
  let data := { data with ths2 := (data.ths >>> 2) &&& 0x1 }
  let data := { data with ths1 := (data.ths >>> 1) &&& 0x1 }
  let data := { data with ths0 := (data.ths) &&& 0x1 }
  let r := mma8451_set_register device MMA8451_REGISTER_PULSE_THSY (some data.as_generic) 0
  let device := r.device
  if r.ret = 0 then ⟨0, device, data⟩ else
  ⟨1, device, data⟩

def mma8451_get_pulse_thsz (device : mma8451) (data : mma8451_register_pulse_ths) :
    result mma8451_register_pulse_ths :=
  let r := mma8451_get_register device MMA8451_REGISTER_PULSE_THSZ (some data.as_generic) none
  let device := r.device
  let data := match r.data.1 with
    | some g => data.with_generic g
    | none => data
  if r.ret = 0 then ⟨0, device, data⟩ else
  let data := { data with ths := 0 }
  let data := { data with ths := (data.ths + (data.ths6 <<< 6)) % 256 }
  let data := { data with ths := (data.ths + (data.ths5 <<< 5)) % 256 }
  let data := { data with ths := (data.ths + (data.ths4 <<< 4)) % 256 }
  let data := { data with ths := (data.ths + (data.ths3 <<< 3)) % 256 }
  let data := { data with ths := (data.ths + (data.ths2 <<< 2)) % 256 }
  let data := { data with ths := (data.ths + (data.ths1 <<< 1)) % 256 }
  let data := { data with ths := (data.ths + (data.ths0)) % 256 }
  ⟨1, device, data⟩

def mma8451_set_pulse_thsz (device : mma8451) (data : mma8451_register_pulse_ths) :
    result mma8451_register_pulse_ths :=
  let data := { data with ths6 := (data.ths >>> 6) &&& 0x1 }
  let data := { data with ths5 := (data.ths >>> 5) &&& 0x1 }
  let data := { data with ths4 := (data.ths >>> 4) &&& 0x1 }
  let data := { data with ths3 := (data.ths >>> 3) &&& 0x1 }
  let data := { data with ths2 := (data.ths >>> 2) &&& 0x1 }
  let data := { data with ths1 := (data.ths >>> 1) &&& 0x1 }
  let data := { data with ths0 := (data.ths) &&& 0x1 }
  let r := mma8451_set_register device MMA8451_REGISTER_PULSE_THSZ (some data.as_generic) 0
  let device := r.device
  if r.ret = 0 then ⟨0, device, data⟩ else
  ⟨1, device, data⟩

def mma8451_get_pulse_tmlt (device : mma8451) (tmlt : Nat) : result Nat :=
  let r := mma8451_get_register device MMA8451_REGISTER_PULSE_TMLT none (some tmlt)
  let device := r.device
  let tmlt := match r.data.2 with
    | some value => value
    | none => tmlt
  if r.ret = 0 then ⟨0, device, tmlt⟩ else
  ⟨1, device, tmlt⟩

def mma8451_set_pulse_tmlt (device : mma8451) (tmlt : Nat) : result Unit :=
  let r := mma8451_set_register device MMA8451_REGISTER_PULSE_TMLT none tmlt
  let device := r.device
  if r.ret = 0 then ⟨0, device, ()⟩ else
  ⟨1, device, ()⟩

def mma8451_get_pulse_ltcy (device : mma8451) (ltcy : Nat) : result Nat :=
  let r := mma8451_get_register device MMA8451_REGISTER_PULSE_LTCY none (some ltcy)
  let device := r.device
  let ltcy := match r.data.2 with
    | some value => value
    | none => ltcy
  if r.ret = 0 then ⟨0, device, ltcy⟩ else
  ⟨1, device, ltcy⟩

def mma8451_set_pulse_ltcy (device : mma8451) (ltcy : Nat) : result Unit :=
  let r := mma8451_set_register device MMA8451_REGISTER_PULSE_LTCY none ltcy
  let device := r.device
  if r.ret = 0 then ⟨0, device, ()⟩ else
  ⟨1, device, ()⟩

def mma8451_get_pulse_wind (device : mma8451) (wind : Nat) : result Nat :=
  let r := mma8451_get_register device MMA8451_REGISTER_PULSE_WIND none (some wind)
  let device := r.device
  let wind := match r.data.2 with
    | some value => value
    | none => wind
  if r.ret = 0 then ⟨0, device, wind⟩ else
  ⟨1, device, wind⟩

def mma8451_set_pulse_wind (device : mma8451) (wind : Nat) : result Unit :=
  let r := mma8451_set_register device MMA8451_REGISTER_PULSE_WIND none wind
  let device := r.device
  if r.ret = 0 then ⟨0, device, ()⟩ else
  ⟨1, device, ()⟩

def mma8451_get_aslp_count (device : mma8451) (count : Nat) : result Nat :=
  let r := mma8451_get_register device MMA8451_REGISTER_ASLP_COUNT none (some count)
  let device := r.device
  let count := match r.data.2 with
    | some value => value
    | none => count
  if r.ret = 0 then ⟨0, device, count⟩ else
  ⟨1, device, count⟩

def mma8451_set_aslp_count (device : mma8451) (count : Nat) : result Unit :=
  let r := mma8451_set_register device MMA8451_REGISTER_ASLP_COUNT none count
  let device := r.device
  if r.ret = 0 then ⟨0, device, ()⟩ else
  ⟨1, device, ()⟩

def mma8451_get_ctrl_reg1 (device : mma8451) (data : mma8451_register_ctrl_reg1) :
    result mma8451_register_ctrl_reg1 :=
  let r := mma8451_get_register device MMA8451_REGISTER_CTRL_REG1 (some data.as_generic) none
  let device := r.device
  let data := match r.data.1 with
    | some g => data.with_generic g
    | none => data
  if r.ret = 0 then ⟨0, device, data⟩ else
  let data := { data with aslp_rate := 0 }
  let data := { data with aslp_rate := (data.aslp_rate + (data.aslp_rate1 <<< 1)) % 4294967296 }
  let data := { data with aslp_rate := (data.aslp_rate + (data.aslp_rate0)) % 4294967296 }
  let data := { data with dr := 0 }
  let data := { data with dr := (data.dr + (data.dr2 <<< 2)) % 4294967296 }
  let data := { data with dr := (data.dr + (data.dr1 <<< 1)) % 4294967296 }
  let data := { data with dr := (data.dr + (data.dr0)) % 4294967296 }
  ⟨1, device, data⟩

def mma8451_set_ctrl_reg1 (device : mma8451) (data : mma8451_register_ctrl_reg1) :
    result mma8451_register_ctrl_reg1 :=
  let data := { data with aslp_rate1 := (data.aslp_rate >>> 1) &&& 0x1 }
  let data := { data with aslp_rate0 := (data.aslp_rate) &&& 0x1 }
  let data := { data with dr2 := (data.dr >>> 2) &&& 0x1 }
  let data := { data with dr1 := (data.dr >>> 1) &&& 0x1 }
  let data := { data with dr0 := (data.dr) &&& 0x1 }
  let r := mma8451_set_register device MMA8451_REGISTER_CTRL_REG1 (some data.as_generic) 0
  let device := r.device
  if r.ret = 0 then ⟨0, device, data⟩ else
  let device := { device with data_size := data.f_read }
  ⟨1, device, data⟩

def mma8451_get_ctrl_reg2 (device : mma8451) (data : mma8451_register_ctrl_reg2) :
    result mma8451_register_ctrl_reg2 :=
  let r := mma8451_get_register device MMA8451_REGISTER_CTRL_REG2 (some data.as_generic) none
  let device := r.device
  let data := match r.data.1 with
    | some g => data.with_generic g
    | none => data
  if r.ret = 0 then ⟨0, device, data⟩ else
  let data := { data with smods := 0 }
  let data := { data with smods := (data.smods + (data.smods1 <<< 1)) % 4294967296 }
  let data := { data with smods := (data.smods + (data.smods0)) % 4294967296 }
  let data := { data with mods := 0 }
  let data := { data with mods := (data.mods + (data.mods1 <<< 1)) % 4294967296 }
  let data := { data with mods := (data.mods + (data.mods0)) % 4294967296 }
  ⟨1, device, data⟩

def mma8451_set_ctrl_reg2 (device : mma8451) (data : mma8451_register_ctrl_reg2) :
    result mma8451_register_ctrl_reg2 :=
  let data := { data with smods1 := (data.smods >>> 1) &&& 0x1 }
  let data := { data with smods0 := (data.smods) &&& 0x1 }
  let data := { data with mods1 := (data.mods >>> 1) &&& 0x1 }
  let data := { data with mods0 := (data.mods) &&& 0x1 }
  let r := mma8451_set_register device MMA8451_REGISTER_CTRL_REG2 (some data.as_generic) 0
  let device := r.device
  if r.ret = 0 then ⟨0, device, data⟩ else
  ⟨1, device, data⟩

def mma8451_get_ctrl_reg3 (device : mma8451) (data : mma8451_register_ctrl_reg3) :
    result mma8451_register_ctrl_reg3 :=
  let r := mma8451_get_register device MMA8451_REGISTER_CTRL_REG3 (some data.as_generic) none
  let device := r.device
  let data := match r.data.1 with
    | some g => data.with_generic g
    | none => data
  if r.ret = 0 then ⟨0, device, data⟩ else
  ⟨1, device, data⟩

def mma8451_set_ctrl_reg3 (device : mma8451) (data : mma8451_register_ctrl_reg3) :
    result mma8451_register_ctrl_reg3 :=
  let r := mma8451_set_register device MMA8451_REGISTER_CTRL_REG3 (some data.as_generic) 0
  let device := r.device
  if r.ret = 0 then ⟨0, device, data⟩ else
  ⟨1, device, data⟩

def mma8451_get_ctrl_reg4 (device : mma8451) (data : mma8451_register_ctrl_reg4) :
    result mma8451_register_ctrl_reg4 :=
  let r := mma8451_get_register device MMA8451_REGISTER_CTRL_REG4 (some data.as_generic) none
  let device := r.device
  let data := match r.data.1 with
    | some g => data.with_generic g
    | none => data
  if r.ret = 0 then ⟨0, device, data⟩ else
  ⟨1, device, data⟩

def mma8451_set_ctrl_reg4 (device : mma8451) (data : mma8451_register_ctrl_reg4) :
    result mma8451_register_ctrl_reg4 :=
  let r := mma8451_set_register device MMA8451_REGISTER_CTRL_REG4 (some data.as_generic) 0
  let device := r.device
  if r.ret = 0 then ⟨0, device, data⟩ else
  ⟨1, device, data⟩

def mma8451_get_ctrl_reg5 (device : mma8451) (data : mma8451_register_ctrl_reg5) :
    result mma8451_register_ctrl_reg5 :=
  let r := mma8451_get_register device MMA8451_REGISTER_CTRL_REG5 (some data.as_generic) none
  let device := r.device
  let data := match r.data.1 with
    | some g => data.with_generic g
    | none => data
  if r.ret = 0 then ⟨0, device, data⟩ else
  ⟨1, device, data⟩

def mma8451_set_ctrl_reg5 (device : mma8451) (data : mma8451_register_ctrl_reg5) :
    result mma8451_register_ctrl_reg5 :=
  let r := mma8451_set_register device MMA8451_REGISTER_CTRL_REG5 (some data.as_generic) 0
  let device := r.device
  if r.ret = 0 then ⟨0, device, data⟩ else
  ⟨1, device, data⟩

def mma8451_get_off_x (device : mma8451) (offset : Nat) : result Nat :=
  let r := mma8451_get_register device MMA8451_REGISTER_OFF_X none (some offset)
  let device := r.device
  let offset := match r.data.2 with
    | some value => value
    | none => offset
  if r.ret = 0 then ⟨0, device, offset⟩ else
  ⟨1, device, offset⟩

def mma8451_set_off_x (device : mma8451) (offset : Nat) : result Unit :=
  let r := mma8451_set_register device MMA8451_REGISTER_OFF_X none offset
  let device := r.device
  if r.ret = 0 then ⟨0, device, ()⟩ else
  ⟨1, device, ()⟩

def mma8451_get_off_y (device : mma8451) (offset : Nat) : result Nat :=
  let r := mma8451_get_register device MMA8451_REGISTER_OFF_Y none (some offset)
  let device := r.device
  let offset := match r.data.2 with
    | some value => value
    | none => offset
  if r.ret = 0 then ⟨0, device, offset⟩ else
  ⟨1, device, offset⟩

def mma8451_set_off_y (device : mma8451) (offset : Nat) : result Unit :=
  let r := mma8451_set_register device MMA8451_REGISTER_OFF_Y none offset
  let device := r.device
  if r.ret = 0 then ⟨0, device, ()⟩ else
  ⟨1, device, ()⟩

def mma8451_get_off_z (device : mma8451) (offset : Nat) : result Nat :=
  let r := mma8451_get_register device MMA8451_REGISTER_OFF_Z none (some offset)
  let device := r.device
  let offset := match r.data.2 with
    | some value => value
    | none => offset
  if r.ret = 0 then ⟨0, device, offset⟩ else
  ⟨1, device, offset⟩

def mma8451_set_off_z (device : mma8451) (offset : Nat) : result Unit :=
  let r := mma8451_set_register device MMA8451_REGISTER_OFF_Z none offset
  let device := r.device
  if r.ret = 0 then ⟨0, device, ()⟩ else
  ⟨1, device, ()⟩

/-! ## High-level operations (mma8451.c lines 31-275)

A local struct declared without initialiser holds indeterminate values before
the getter fills it; it is the last parameter (`cfg`, `whoami`) of these
definitions. -/

/-- Source: mma8451.c lines 31-60. `path` is what open(path, O_RDWR) gives:
the errno of a failed open, or the bus of the opened descriptor. The result is
the returned pointer (`none` for NULL) and errno after the call. -/
def mma8451_open (path : Except Nat i2c_bus) (addr : Nat) (whoami : Nat) :
    Option mma8451 × Nat :=
  match path with
  | .error errno => (none, errno)
  | .ok file =>
    let dev : mma8451 :=
      { file := file, addr := addr, range := 0, data_size := 0, last_error := .empty }
    let r := mma8451_get_whoami dev whoami
    let dev := r.device
    let whoami := r.data
    if r.ret = 0 then (none, dev.file.errno) else
    if whoami ≠ MMA8451_ID then (none, EOPNOTSUPP) else
    let dev := { dev with range := MMA8451_RANGE_2G }
    let dev := { dev with data_size := MMA8451_14BIT_OUTPUT }
    (some dev, dev.file.errno)

/-- Source: mma8451.c lines 72-88. -/
def mma8451_reset (device : mma8451) (cfg : mma8451_register_ctrl_reg2) : result Unit :=
  let r := mma8451_get_ctrl_reg2 device cfg
  let device := r.device
  let cfg := r.data
  if r.ret = 0 then ⟨0, device, ()⟩ else
  let cfg := { cfg with rst := 1 }
  let r := mma8451_set_ctrl_reg2 device cfg
  let device := r.device
  if r.ret = 0 then ⟨0, device, ()⟩ else
  let device := { device with range := MMA8451_RANGE_2G }
  let device := { device with data_size := MMA8451_14BIT_OUTPUT }
  ⟨1, device, ()⟩

/-- Source: mma8451.c lines 150-163. -/
def mma8451_set_range (device : mma8451) (range : Nat)
    (cfg : mma8451_register_xyz_data_cfg) : result Unit :=
  let r := mma8451_get_xyz_data_cfg device cfg
  let device := r.device
  let cfg := r.data
  if r.ret = 0 then ⟨0, device, ()⟩ else
  let cfg := { cfg with fs := range }
  let r := mma8451_set_xyz_data_cfg device cfg
  let device := r.device
  if r.ret = 0 then ⟨0, device, ()⟩ else
  ⟨1, device, ()⟩

/-- Source: mma8451.c lines 164-177. -/
def mma8451_set_power_mode (device : mma8451) (mode : Nat)
    (cfg : mma8451_register_ctrl_reg2) : result Unit :=
  let r := mma8451_get_ctrl_reg2 device cfg
  let device := r.device
  let cfg := r.data
  if r.ret = 0 then ⟨0, device, ()⟩ else
  let cfg := { cfg with mods := mode }
  let r := mma8451_set_ctrl_reg2 device cfg
  let device := r.device
  if r.ret = 0 then ⟨0, device, ()⟩ else
  ⟨1, device, ()⟩

/-- Source: mma8451.c lines 178-191. -/
def mma8451_set_output_size (device : mma8451) (size : Nat)
    (cfg : mma8451_register_ctrl_reg1) : result Unit :=
  let r := mma8451_get_ctrl_reg1 device cfg
  let device := r.device
  let cfg := r.data
  if r.ret = 0 then ⟨0, device, ()⟩ else
  let cfg := { cfg with f_read := size % 256 }
  let r := mma8451_set_ctrl_reg1 device cfg
  let device := r.device
  if r.ret = 0 then ⟨0, device, ()⟩ else
  ⟨1, device, ()⟩

/-- Source: mma8451.c lines 192-205. -/
def mma8451_set_data_rate (device : mma8451) (rate : Nat)
    (cfg : mma8451_register_ctrl_reg1) : result Unit :=
  let r := mma8451_get_ctrl_reg1 device cfg
  let device := r.device
  let cfg := r.data
  if r.ret = 0 then ⟨0, device, ()⟩ else
  let cfg := { cfg with dr := rate }
  let r := mma8451_set_ctrl_reg1 device cfg
  let device := r.device
  if r.ret = 0 then ⟨0, device, ()⟩ else
  ⟨1, device, ()⟩

/-- Source: mma8451.c lines 206-219. -/
def mma8451_set_low_noise (device : mma8451) (low_noise : Nat)
    (cfg : mma8451_register_ctrl_reg1) : result Unit :=
  let r := mma8451_get_ctrl_reg1 device cfg
  let device := r.device
  let cfg := r.data
  if r.ret = 0 then ⟨0, device, ()⟩ else
  let cfg := { cfg with lnoise := if low_noise > 0 then 1 else 0 }
  let r := mma8451_set_ctrl_reg1 device cfg
  let device := r.device
  if r.ret = 0 then ⟨0, device, ()⟩ else
  ⟨1, device, ()⟩

/-- Source: mma8451.c lines 220-233. -/
def mma8451_set_orientation_detection (device : mma8451) (orientation : Nat)
    (cfg : mma8451_register_pl_cfg) : result Unit :=
  let r := mma8451_get_pl_cfg device cfg
  let device := r.device
  let cfg := r.data
  if r.ret = 0 then ⟨0, device, ()⟩ else
  let cfg := { cfg with pl_en := if orientation > 0 then 1 else 0 }
  let r := mma8451_set_pl_cfg device cfg
  let device := r.device
  if r.ret = 0 then ⟨0, device, ()⟩ else
  ⟨1, device, ()⟩

/-- Source: mma8451.c lines 234-247. -/
def mma8451_set_interrupt_enable (device : mma8451) (enable : Nat)
    (cfg : mma8451_register_ctrl_reg4) : result Unit :=
  let r := mma8451_get_ctrl_reg4 device cfg
  let device := r.device
  let cfg := r.data
  if r.ret = 0 then ⟨0, device, ()⟩ else
  let cfg := { cfg with int_en_drdy := if enable > 0 then 1 else 0 }
  let r := mma8451_set_ctrl_reg4 device cfg
  let device := r.device
  if r.ret = 0 then ⟨0, device, ()⟩ else
  ⟨1, device, ()⟩

/-- Source: mma8451.c lines 248-261. -/
def mma8451_set_interrupt_pin1 (device : mma8451) (pin1 : Nat)
    (cfg : mma8451_register_ctrl_reg5) : result Unit :=
  let r := mma8451_get_ctrl_reg5 device cfg
  let device := r.device
  let cfg := r.data
  if r.ret = 0 then ⟨0, device, ()⟩ else
  let cfg := { cfg with int_cfg_drdy := if pin1 > 0 then 1 else 0 }
  let r := mma8451_set_ctrl_reg5 device cfg
  let device := r.device
  if r.ret = 0 then ⟨0, device, ()⟩ else
  ⟨1, device, ()⟩

/-- Source: mma8451.c lines 262-275. -/
def mma8451_set_active (device : mma8451) (active : Nat)
    (cfg : mma8451_register_ctrl_reg1) : result Unit :=
  let r := mma8451_get_ctrl_reg1 device cfg
  let device := r.device
  let cfg := r.data
  if r.ret = 0 then ⟨0, device, ()⟩ else
  let cfg := { cfg with active := if active > 0 then 1 else 0 }
  let r := mma8451_set_ctrl_reg1 device cfg
  let device := r.device
  if r.ret = 0 then ⟨0, device, ()⟩ else
  ⟨1, device, ()⟩

/-! ## Acceleration samples (mma8451.c lines 90-148) -/

structure mma8451_acceleration where
  x : ℚ
  y : ℚ
  z : ℚ
deriving DecidableEq

/-- Source: mma8451.c lines 97-103, the 14-bit branch before scaling: each
axis assembled from its byte pair and sign-extended. -/
def acceleration_raw_14bit (tmp : Nat → Nat) : mma8451_acceleration :=
  let x : ℚ := (((tmp 0 <<< 6) ||| (tmp 1 >>> 2) : Nat) : ℚ)
  let y : ℚ := (((tmp 2 <<< 6) ||| (tmp 3 >>> 2) : Nat) : ℚ)
  let z : ℚ := (((tmp 4 <<< 6) ||| (tmp 5 >>> 2) : Nat) : ℚ)
  let x := x - (if x > (MAX_14BIT_VALUE : ℚ) then (MAX_14BIT_SIGNED : ℚ) else 0)
  let y := y - (if y > (MAX_14BIT_VALUE : ℚ) then (MAX_14BIT_SIGNED : ℚ) else 0)
  let z := z - (if z > (MAX_14BIT_VALUE : ℚ) then (MAX_14BIT_SIGNED : ℚ) else 0)
  { x := x, y := y, z := z }

/-- Source: mma8451.c lines 105-117, the scaling of the 14-bit branch. -/
def acceleration_scale_14bit (range : Nat) (data : mma8451_acceleration) :
    mma8451_acceleration :=
  if range = MMA8451_RANGE_2G then
    { x := data.x / RANGE_DIV_2G_14BIT, y := data.y / RANGE_DIV_2G_14BIT,
      z := data.z / RANGE_DIV_2G_14BIT }
  else if range = MMA8451_RANGE_4G then
    { x := data.x / RANGE_DIV_4G_14BIT, y := data.y / RANGE_DIV_4G_14BIT,
      z := data.z / RANGE_DIV_4G_14BIT }
  else if range = MMA8451_RANGE_8G then
    { x := data.x / RANGE_DIV_8G_14BIT, y := data.y / RANGE_DIV_8G_14BIT,
      z := data.z / RANGE_DIV_8G_14BIT }
  else data

/-- Source: mma8451.c lines 124-130, the 8-bit branch before scaling. -/
def acceleration_raw_8bit (tmp : Nat → Nat) : mma8451_acceleration :=
  let x : ℚ := ((tmp 0 : Nat) : ℚ)
  let y : ℚ := ((tmp 1 : Nat) : ℚ)
  let z : ℚ := ((tmp 2 : Nat) : ℚ)
  let x := x - (if x > (MAX_8BIT_VALUE : ℚ) then (MAX_8BIT_SIGNED : ℚ) else 0)
  let y := y - (if y > (MAX_8BIT_VALUE : ℚ) then (MAX_8BIT_SIGNED : ℚ) else 0)
  let z := z - (if z > (MAX_8BIT_VALUE : ℚ) then (MAX_8BIT_SIGNED : ℚ) else 0)
  { x := x, y := y, z := z }

/-- Source: mma8451.c lines 132-144, the scaling of the 8-bit branch. -/
def acceleration_scale_8bit (range : Nat) (data : mma8451_acceleration) :
    mma8451_acceleration :=
  if range = MMA8451_RANGE_2G then
    { x := data.x / RANGE_DIV_2G_8BIT, y := data.y / RANGE_DIV_2G_8BIT,
      z := data.z / RANGE_DIV_2G_8BIT }
  else if range = MMA8451_RANGE_4G then
    { x := data.x / RANGE_DIV_4G_8BIT, y := data.y / RANGE_DIV_4G_8BIT,
      z := data.z / RANGE_DIV_4G_8BIT }
  else if range = MMA8451_RANGE_8G then
    { x := data.x / RANGE_DIV_8G_8BIT, y := data.y / RANGE_DIV_8G_8BIT,
      z := data.z / RANGE_DIV_8G_8BIT }
  else data

/-- Source: mma8451.c lines 90-148. -/
def mma8451_get_acceleration (device : mma8451) (data : mma8451_acceleration) :
    result mma8451_acceleration :=
  if device.data_size = MMA8451_14BIT_OUTPUT then
    match mma8451_get_i2c_register_block device.file device.addr
        MMA8451_REGISTER_OUT_X_MSB 6 with
    | (file, none) => ⟨0, { device with file := file }, data⟩
    | (file, some tmp) =>
      ⟨1, { device with file := file },
        acceleration_scale_14bit device.range (acceleration_raw_14bit tmp)⟩
  else
    match mma8451_get_i2c_register_block device.file device.addr
        MMA8451_REGISTER_OUT_X_MSB 3 with
    | (file, none) => ⟨0, { device with file := file }, data⟩
    | (file, some tmp) =>
      ⟨1, { device with file := file },
        acceleration_scale_8bit device.range (acceleration_raw_8bit tmp)⟩

/-! ## Observations on the bus -/

/-- The byte the next single-register read on the bus delivers, `none` when
the next ioctl fails. -/
def next_read (file : i2c_bus) : Option Nat :=
  match file.outcomes file.calls.length with
  | .failure _ => none
  | .success inbuf => some (inbuf 0 % 256)

/-- The bytes the next block read on the bus delivers, `none` when the next
ioctl fails. -/
def next_block (file : i2c_bus) : Option (Nat → Nat) :=
  match file.outcomes file.calls.length with
  | .failure _ => none
  | .success inbuf => some (fun i => inbuf i % 256)

/-- The requests made between two states of the handle. -/
def issued (before after : mma8451) : List (List i2c_msg) :=
  after.file.calls.drop before.file.calls.length

/-- The request that writes `value` to register `reg` of the slave `addr`. -/
def write_request (addr reg value : Nat) : List i2c_msg :=
  [{ addr := addr, flags := 0, len := 2, buf := [reg, value] }]

/-- The value byte of the register write made between two states of the
handle, when exactly one request was made and it is a register write. -/
def written_byte (before after : mma8451) : Option Nat :=
  match issued before after with
  | [[{ addr := _, flags := 0, len := 2, buf := [_, value] }]] => some value
  | _ => none


/-! ## Vocabulary of the statements -/

/-- The request that reads `cnt` bytes starting at register `reg` of the
slave `addr`: the register number is written, then the bytes are read. -/
def read_request (addr reg cnt : Nat) : List i2c_msg :=
  [{ addr := addr, flags := 0, len := 1, buf := [reg] },
   { addr := addr, flags := I2C_M_RD, len := cnt, buf := [] }]

/-- The handle after one more request that the transport served. -/
def logged (device : mma8451) (packets : List i2c_msg) : mma8451 :=
  { device with file := { device.file with calls := device.file.calls ++ [packets] } }

/-- The handle after one more request that the transport refused with
`errno`, the message `err` left in last_error. -/
def refused (device : mma8451) (packets : List i2c_msg) (errno : Nat) (err : error_text) :
    mma8451 :=
  { device with
    file := { device.file with calls := device.file.calls ++ [packets], errno := errno }
    last_error := err }

/-- The eight binary digits of a byte, most significant first. -/
def digits (b : Nat) : mma8451_register_generic :=
  { bit7 := b / 128 % 2, bit6 := b / 64 % 2, bit5 := b / 32 % 2, bit4 := b / 16 % 2,
    bit3 := b / 8 % 2, bit2 := b / 4 % 2, bit1 := b / 2 % 2, bit0 := b % 2 }

/-- The byte whose digits are the low bits of the eight fields. -/
def weighted (g : mma8451_register_generic) : Nat :=
  g.bit7 % 2 * 128 + g.bit6 % 2 * 64 + g.bit5 % 2 * 32 + g.bit4 % 2 * 16 +
    g.bit3 % 2 * 8 + g.bit2 % 2 * 4 + g.bit1 % 2 * 2 + g.bit0 % 2

/-- The session fields of the handle are the same in both states. -/
def same_session (before after : mma8451) : Prop :=
  after.range = before.range ∧ after.data_size = before.data_size

/-- The outcome of the k-th ioctl from now on the bus of the handle. -/
def outcome_at (device : mma8451) (k : Nat) : ioctl_outcome :=
  device.file.outcomes (device.file.calls.length + k)

/-- The handle calloc and mma8451_open set up (range 2G, 14-bit output, slave
address 0x1C) on a bus that follows a script: the n-th ioctl fails with EIO
when the n-th entry is `none` or the script is over, and otherwise succeeds
and delivers the listed bytes (zero past the end of the list). -/
def scripted (script : List (Option (List Nat))) : mma8451 :=
  { file :=
      { outcomes := fun n =>
          match script.getD n none with
          | none => .failure 5
          | some bytes => .success (fun i => bytes.getD i 0)
        calls := []
        errno := 0 }
    addr := 0x1C
    range := MMA8451_RANGE_2G
    data_size := MMA8451_14BIT_OUTPUT
    last_error := .empty }

/-- Reading register `reg` with `get` when the device answers `b`, and
handing the struct unchanged to `set`, makes one request: the write of `b` to
`reg`. -/
def writes_back {α : Type} (get set : mma8451 → α → result α) (device : mma8451)
    (reg b : Nat) : Prop :=
  ∀ data : α,
    (get device data).ret = 1 ∧
      issued (get device data).device (set (get device data).device (get device data).data).device =
        [write_request device.addr reg b]

/-- The masking law of a composite field of `w` bits whose lowest bit is bit
`lo` of the register: the byte `set` writes for the value `v` decodes, with
`get`, to `v & ((1 << w) - 1)`, and the byte written for any other value `v2`
has the same bits above and below the field. -/
def masking_law {α : Type} (get set : mma8451 → α → result α) (put : Nat → α → α)
    (field : α → Nat) (lo w : Nat) : Prop :=
  ∀ (device : mma8451) (data : α) (v : Nat),
    ∃ byte, written_byte device (set device (put v data)).device = some byte ∧
      (∀ (device2 : mma8451) (data2 : α), next_read device2.file = some byte →
        field (get device2 data2).data = v &&& ((1 <<< w) - 1)) ∧
      (∀ v2 : Nat, ∃ byte2,
        written_byte device (set device (put v2 data)).device = some byte2 ∧
          byte2 / 2 ^ (lo + w) = byte / 2 ^ (lo + w) ∧ byte2 % 2 ^ lo = byte % 2 ^ lo)

/-- The discipline of an operation that reads register `reg`, changes a field
and writes the register back, told by the outcomes of the next two ioctls: a
refused read ends the operation with 0 after that one request; a refused
write ends it with 0 after the read and the write; it returns 1 when both
are served, again after exactly the read and the write. -/
def read_modify_write (device : mma8451) (reg : Nat) (r : result Unit) : Prop :=
  match outcome_at device 0, outcome_at device 1 with
  | .failure _, _ => r.ret = 0 ∧ issued device r.device = [read_request device.addr reg 1]
  | .success _, .failure _ =>
    r.ret = 0 ∧ ∃ value, issued device r.device =
      [read_request device.addr reg 1, write_request device.addr reg value]
  | .success _, .success _ =>
    r.ret = 1 ∧ ∃ value, issued device r.device =
      [read_request device.addr reg 1, write_request device.addr reg value]

/-! ## Bytes and bits -/

set_option maxRecDepth 1000000 in
theorem byte_bits (b : Nat) (h : b < 256) :
    (if b &&& 0x80 > 0 then 1 else 0) = b / 128 % 2 ∧
    (if b &&& 0x40 > 0 then 1 else 0) = b / 64 % 2 ∧
    (if b &&& 0x20 > 0 then 1 else 0) = b / 32 % 2 ∧
    (if b &&& 0x10 > 0 then 1 else 0) = b / 16 % 2 ∧
    (if b &&& 0x08 > 0 then 1 else 0) = b / 8 % 2 ∧
    (if b &&& 0x04 > 0 then 1 else 0) = b / 4 % 2 ∧
    (if b &&& 0x02 > 0 then 1 else 0) = b / 2 % 2 ∧
    (if b &&& 0x01 > 0 then 1 else 0) = b % 2 := by
  revert b
  decide

theorem set_register_value (g : mma8451_register_generic) :
    ((((((((0 + ((g.bit7 &&& 0x1) <<< 7)) % 256 + ((g.bit6 &&& 0x1) <<< 6)) % 256 +
      ((g.bit5 &&& 0x1) <<< 5)) % 256 + ((g.bit4 &&& 0x1) <<< 4)) % 256 +
      ((g.bit3 &&& 0x1) <<< 3)) % 256 + ((g.bit2 &&& 0x1) <<< 2)) % 256 +
      ((g.bit1 &&& 0x1) <<< 1)) % 256 + (g.bit0 &&& 0x1)) % 256 = weighted g := by
  obtain ⟨b7, b6, b5, b4, b3, b2, b1, b0⟩ := g
  simp only [Nat.and_one_is_mod, Nat.shiftLeft_eq, weighted]
  omega

theorem weighted_lt (g : mma8451_register_generic) : weighted g < 256 := by
  obtain ⟨b7, b6, b5, b4, b3, b2, b1, b0⟩ := g
  simp only [weighted]
  omega

set_option maxRecDepth 1000000 in
theorem weighted_digits : ∀ b < 256, weighted (digits b) = b := by
  decide

theorem compose_bits7 (v : Nat) :
    v / 64 % 2 * 64 + v / 32 % 2 * 32 + v / 16 % 2 * 16 + v / 8 % 2 * 8 + v / 4 % 2 * 4 +
      v / 2 % 2 * 2 + v % 2 = v % 128 := by
  have h6 : v / 64 % 2 = v % 128 / 64 % 2 := by omega
  have h5 : v / 32 % 2 = v % 128 / 32 % 2 := by omega
  have h4 : v / 16 % 2 = v % 128 / 16 % 2 := by omega
  have h3 : v / 8 % 2 = v % 128 / 8 % 2 := by omega
  have h2 : v / 4 % 2 = v % 128 / 4 % 2 := by omega
  have h1 : v / 2 % 2 = v % 128 / 2 % 2 := by omega
  have h0 : v % 2 = v % 128 % 2 := by omega
  rw [h6, h5, h4, h3, h2, h1, h0]
  have hu : v % 128 < 128 := Nat.mod_lt _ (by decide)
  generalize v % 128 = u at hu
  clear h6 h5 h4 h3 h2 h1 h0
  revert u
  decide

theorem compose_bits6 (v : Nat) :
    v / 32 % 2 * 32 + v / 16 % 2 * 16 + v / 8 % 2 * 8 + v / 4 % 2 * 4 +
      v / 2 % 2 * 2 + v % 2 = v % 64 := by
  have h5 : v / 32 % 2 = v % 64 / 32 % 2 := by omega
  have h4 : v / 16 % 2 = v % 64 / 16 % 2 := by omega
  have h3 : v / 8 % 2 = v % 64 / 8 % 2 := by omega
  have h2 : v / 4 % 2 = v % 64 / 4 % 2 := by omega
  have h1 : v / 2 % 2 = v % 64 / 2 % 2 := by omega
  have h0 : v % 2 = v % 64 % 2 := by omega
  rw [h5, h4, h3, h2, h1, h0]
  have hu : v % 64 < 64 := Nat.mod_lt _ (by decide)
  generalize v % 64 = u at hu
  clear h5 h4 h3 h2 h1 h0
  revert u
  decide

theorem compose_bits5 (v : Nat) :
    v / 16 % 2 * 16 + v / 8 % 2 * 8 + v / 4 % 2 * 4 + v / 2 % 2 * 2 + v % 2 = v % 32 := by
  omega

theorem compose_bits3 (v : Nat) : v / 4 % 2 * 4 + v / 2 % 2 * 2 + v % 2 = v % 8 := by
  omega

theorem compose_bits2 (v : Nat) : v / 2 % 2 * 2 + v % 2 = v % 4 := by
  omega

/-! ## The generic register accessors on a scripted bus -/

theorem next_read_lt {file : i2c_bus} {b : Nat} (h : next_read file = some b) : b < 256 := by
  unfold next_read at h
  split at h
  · simp at h
  · simp only [Option.some.injEq] at h
    omega

theorem next_read_of_failure {file : i2c_bus} {e : Nat}
    (h : file.outcomes file.calls.length = .failure e) : next_read file = none := by
  simp only [next_read, h]

theorem get_register_of_read {device : mma8451} {b : Nat} (h : next_read device.file = some b)
    (reg : Nat) (data : Option mma8451_register_generic) (byteData : Option Nat) :
    mma8451_get_register device reg data byteData =
      ⟨1, logged device (read_request device.addr (reg % 256) 1),
        (data.map fun _ => digits b, byteData.map fun _ => b)⟩ := by
  have hb := next_read_lt h
  obtain ⟨h7, h6, h5, h4, h3, h2, h1, h0⟩ := byte_bits b hb
  unfold next_read at h
  split at h
  · simp at h
  · rename_i inbuf hout
    simp only [Option.some.injEq] at h
    simp only [mma8451_get_register, mma8451_get_i2c_register, ioctl, hout, h, digits, logged,
      read_request]
    simp only [h7, h6, h5, h4, h3, h2, h1, h0]

theorem get_register_of_failure {device : mma8451} {e : Nat}
    (h : outcome_at device 0 = .failure e)
    (reg : Nat) (data : Option mma8451_register_generic) (byteData : Option Nat) :
    mma8451_get_register device reg data byteData =
      ⟨0, refused device (read_request device.addr (reg % 256) 1) e
        (.unable_to_get (reg % 256) e), (data, byteData)⟩ := by
  simp only [outcome_at, Nat.add_zero] at h
  simp only [mma8451_get_register, mma8451_get_i2c_register, ioctl, h, refused, read_request]

theorem set_register_of_success {device : mma8451} {inbuf : Nat → Nat}
    (h : outcome_at device 0 = .success inbuf)
    (reg : Nat) (g : mma8451_register_generic) (byteData : Nat) :
    mma8451_set_register device reg (some g) byteData =
      ⟨1, logged device (write_request device.addr (reg % 256) (weighted g)), ()⟩ := by
  simp only [outcome_at, Nat.add_zero] at h
  simp only [mma8451_set_register, mma8451_set_i2c_register, ioctl, h, set_register_value,
    write_request, Nat.mod_eq_of_lt (weighted_lt g), logged]

theorem set_register_of_failure {device : mma8451} {e : Nat}
    (h : outcome_at device 0 = .failure e)
    (reg : Nat) (g : mma8451_register_generic) (byteData : Nat) :
    mma8451_set_register device reg (some g) byteData =
      ⟨0, refused device (write_request device.addr (reg % 256) (weighted g)) e
        (.unable_to_set (reg % 256) e), ()⟩ := by
  simp only [outcome_at, Nat.add_zero] at h
  simp only [mma8451_set_register, mma8451_set_i2c_register, ioctl, h, set_register_value,
    write_request, Nat.mod_eq_of_lt (weighted_lt g), refused]

theorem get_register_session (device : mma8451) (reg : Nat)
    (data : Option mma8451_register_generic) (byteData : Option Nat) :
    same_session device (mma8451_get_register device reg data byteData).device := by
  simp only [mma8451_get_register, mma8451_get_i2c_register, ioctl, same_session]
  cases device.file.outcomes device.file.calls.length <;> exact ⟨rfl, rfl⟩

theorem set_register_session (device : mma8451) (reg : Nat)
    (data : Option mma8451_register_generic) (byteData : Nat) :
    same_session device (mma8451_set_register device reg data byteData).device := by
  simp only [mma8451_set_register, mma8451_set_i2c_register, ioctl, same_session]
  cases device.file.outcomes device.file.calls.length <;> exact ⟨rfl, rfl⟩

theorem outcome_at_logged (device : mma8451) (packets : List i2c_msg) (k : Nat) :
    outcome_at (logged device packets) k = outcome_at device (k + 1) := by
  simp only [outcome_at, logged, List.length_append, List.length_singleton]
  congr 1
  omega

theorem next_read_some_of_success {device : mma8451} {inbuf : Nat → Nat}
    (h : outcome_at device 0 = .success inbuf) : next_read device.file = some (inbuf 0 % 256) := by
  simp only [outcome_at, Nat.add_zero] at h
  simp only [next_read, h]

theorem issued_logged (device : mma8451) (packets : List i2c_msg) :
    issued device (logged device packets) = [packets] := by
  simp [issued, logged]

theorem issued_refused (device : mma8451) (packets : List i2c_msg) (e : Nat) (err : error_text) :
    issued device (refused device packets e err) = [packets] := by
  simp [issued, refused]

/-! ## The typed accessors on a scripted bus -/

set_option maxRecDepth 1000000 in
theorem get_status_of_read {device : mma8451} {b : Nat}
    (h : next_read device.file = some b) (data : mma8451_register_status) :
    mma8451_get_status device data =
      ⟨1, logged device (read_request device.addr MMA8451_REGISTER_STATUS 1),
        { zyxow := b / 128 % 2,
          zow := b / 64 % 2,
          yow := b / 32 % 2,
          xow := b / 16 % 2,
          zyxdr := b / 8 % 2,
          zdr := b / 4 % 2,
          ydr := b / 2 % 2,
          xdr := b % 2 }⟩ := by
  have hb := next_read_lt h
  simp only [mma8451_get_status, get_register_of_read h, Option.map,
    mma8451_register_status.with_generic, digits, if_neg (show ¬ (1 = 0) by decide),
    result.mk.injEq, mma8451_register_status.mk.injEq, true_and, and_true]
  clear h
  rfl

theorem get_status_of_failure {device : mma8451} {e : Nat}
    (h : outcome_at device 0 = .failure e) (data : mma8451_register_status) :
    mma8451_get_status device data =
      ⟨0, refused device (read_request device.addr MMA8451_REGISTER_STATUS 1) e
        (.unable_to_get MMA8451_REGISTER_STATUS e), data⟩ := by
  simp only [mma8451_get_status, get_register_of_failure h, if_pos]
  rfl

set_option maxRecDepth 1000000 in
theorem get_f_status_of_read {device : mma8451} {b : Nat}
    (h : next_read device.file = some b) (data : mma8451_register_f_status) :
    mma8451_get_f_status device data =
      ⟨1, logged device (read_request device.addr MMA8451_REGISTER_F_STATUS 1),
        { f_ovf := b / 128 % 2,
          f_wmrk_flag := b / 64 % 2,
          f_cnt5 := b / 32 % 2,
          f_cnt4 := b / 16 % 2,
          f_cnt3 := b / 8 % 2,
          f_cnt2 := b / 4 % 2,
          f_cnt1 := b / 2 % 2,
          f_cnt0 := b % 2,
          f_cnt := b % 64 }⟩ := by
  have hb := next_read_lt h
  simp only [mma8451_get_f_status, get_register_of_read h, Option.map,
    mma8451_register_f_status.with_generic, digits, if_neg (show ¬ (1 = 0) by decide),
    result.mk.injEq, mma8451_register_f_status.mk.injEq, true_and, and_true]
  clear h
  refine ⟨rfl, ?_⟩
  revert b
  decide

theorem get_f_status_of_failure {device : mma8451} {e : Nat}
    (h : outcome_at device 0 = .failure e) (data : mma8451_register_f_status) :
    mma8451_get_f_status device data =
      ⟨0, refused device (read_request device.addr MMA8451_REGISTER_F_STATUS 1) e
        (.unable_to_get MMA8451_REGISTER_F_STATUS e), data⟩ := by
  simp only [mma8451_get_f_status, get_register_of_failure h, if_pos]
  rfl

set_option maxRecDepth 1000000 in
theorem get_f_setup_of_read {device : mma8451} {b : Nat}
    (h : next_read device.file = some b) (data : mma8451_register_f_setup) :
    mma8451_get_f_setup device data =
      ⟨1, logged device (read_request device.addr MMA8451_REGISTER_F_SETUP 1),
        { f_mode1 := b / 128 % 2,
          f_mode0 := b / 64 % 2,
          f_wmrk5 := b / 32 % 2,
          f_wmrk4 := b / 16 % 2,
          f_wmrk3 := b / 8 % 2,
          f_wmrk2 := b / 4 % 2,
          f_wmrk1 := b / 2 % 2,
          f_wmrk0 := b % 2,
          f_mode := b / 64,
          f_wmrk := b % 64 }⟩ := by
  have hb := next_read_lt h
  simp only [mma8451_get_f_setup, get_register_of_read h, Option.map,
    mma8451_register_f_setup.with_generic, digits, if_neg (show ¬ (1 = 0) by decide),
    result.mk.injEq, mma8451_register_f_setup.mk.injEq, true_and, and_true]
  clear h
  refine ⟨rfl, ?_, ?_⟩ <;> (revert b; decide)

theorem get_f_setup_of_failure {device : mma8451} {e : Nat}
    (h : outcome_at device 0 = .failure e) (data : mma8451_register_f_setup) :
    mma8451_get_f_setup device data =
      ⟨0, refused device (read_request device.addr MMA8451_REGISTER_F_SETUP 1) e
        (.unable_to_get MMA8451_REGISTER_F_SETUP e), data⟩ := by
  simp only [mma8451_get_f_setup, get_register_of_failure h, if_pos]
  rfl

theorem set_f_setup_value (data : mma8451_register_f_setup) :
    weighted ({ data with
        f_mode1 := (data.f_mode >>> 1) &&& 0x1,
        f_mode0 := (data.f_mode) &&& 0x1,
        f_wmrk5 := (data.f_wmrk >>> 5) &&& 0x1,
        f_wmrk4 := (data.f_wmrk >>> 4) &&& 0x1,
        f_wmrk3 := (data.f_wmrk >>> 3) &&& 0x1,
        f_wmrk2 := (data.f_wmrk >>> 2) &&& 0x1,
        f_wmrk1 := (data.f_wmrk >>> 1) &&& 0x1,
        f_wmrk0 := (data.f_wmrk) &&& 0x1 } : mma8451_register_f_setup).as_generic =
      data.f_mode % 4 * 64 + data.f_wmrk % 64 := by
  simp only [weighted, mma8451_register_f_setup.as_generic, Nat.and_one_is_mod,
    Nat.shiftRight_eq_div_pow, Nat.mod_mod, Nat.reducePow]
  have := compose_bits6 data.f_wmrk
  omega

theorem set_f_setup_of_success {device : mma8451} {inbuf : Nat → Nat}
    (h : outcome_at device 0 = .success inbuf) (data : mma8451_register_f_setup) :
    mma8451_set_f_setup device data =
      ⟨1, logged device (write_request device.addr MMA8451_REGISTER_F_SETUP
          (data.f_mode % 4 * 64 + data.f_wmrk % 64)),
        ({ data with
        f_mode1 := (data.f_mode >>> 1) &&& 0x1,
        f_mode0 := (data.f_mode) &&& 0x1,
        f_wmrk5 := (data.f_wmrk >>> 5) &&& 0x1,
        f_wmrk4 := (data.f_wmrk >>> 4) &&& 0x1,
        f_wmrk3 := (data.f_wmrk >>> 3) &&& 0x1,
        f_wmrk2 := (data.f_wmrk >>> 2) &&& 0x1,
        f_wmrk1 := (data.f_wmrk >>> 1) &&& 0x1,
        f_wmrk0 := (data.f_wmrk) &&& 0x1 } : mma8451_register_f_setup)⟩ := by
  have hv := set_f_setup_value data
  unfold mma8451_set_f_setup
  simp only [set_register_of_success h, hv, if_pos, if_neg (show ¬ (1 = 0) by decide)]
  rfl

theorem set_f_setup_of_failure {device : mma8451} {e : Nat}
    (h : outcome_at device 0 = .failure e) (data : mma8451_register_f_setup) :
    mma8451_set_f_setup device data =
      ⟨0, refused device (write_request device.addr MMA8451_REGISTER_F_SETUP
          (data.f_mode % 4 * 64 + data.f_wmrk % 64)) e
          (.unable_to_set MMA8451_REGISTER_F_SETUP e),
        ({ data with
        f_mode1 := (data.f_mode >>> 1) &&& 0x1,
        f_mode0 := (data.f_mode) &&& 0x1,
        f_wmrk5 := (data.f_wmrk >>> 5) &&& 0x1,
        f_wmrk4 := (data.f_wmrk >>> 4) &&& 0x1,
        f_wmrk3 := (data.f_wmrk >>> 3) &&& 0x1,
        f_wmrk2 := (data.f_wmrk >>> 2) &&& 0x1,
        f_wmrk1 := (data.f_wmrk >>> 1) &&& 0x1,
        f_wmrk0 := (data.f_wmrk) &&& 0x1 } : mma8451_register_f_setup)⟩ := by
  have hv := set_f_setup_value data
  unfold mma8451_set_f_setup
  simp only [set_register_of_failure h, hv, if_pos, if_neg (show ¬ (1 = 0) by decide)]
  rfl

theorem set_f_setup_issued (device : mma8451) (data : mma8451_register_f_setup) :
    issued device (mma8451_set_f_setup device data).device =
      [write_request device.addr MMA8451_REGISTER_F_SETUP
        (data.f_mode % 4 * 64 + data.f_wmrk % 64)] := by
  cases h : outcome_at device 0 with
  | failure e => rw [set_f_setup_of_failure h]; simp [issued, refused]
  | success inbuf => rw [set_f_setup_of_success h]; simp [issued, logged]

set_option maxRecDepth 1000000 in
theorem get_trig_cfg_of_read {device : mma8451} {b : Nat}
    (h : next_read device.file = some b) (data : mma8451_register_trig_cfg) :
    mma8451_get_trig_cfg device data =
      ⟨1, logged device (read_request device.addr MMA8451_REGISTER_TRIG_CFG 1),
        { unused1 := b / 128 % 2,
          unused2 := b / 64 % 2,
          trig_trans := b / 32 % 2,
          trig_lndprt := b / 16 % 2,
          trig_pulse := b / 8 % 2,
          trig_ff_mt := b / 4 % 2,
          unused3 := b / 2 % 2,
          unused4 := b % 2 }⟩ := by
  have hb := next_read_lt h
  simp only [mma8451_get_trig_cfg, get_register_of_read h, Option.map,
    mma8451_register_trig_cfg.with_generic, digits, if_neg (show ¬ (1 = 0) by decide),
    result.mk.injEq, mma8451_register_trig_cfg.mk.injEq, true_and, and_true]
  clear h
  rfl

theorem get_trig_cfg_of_failure {device : mma8451} {e : Nat}
    (h : outcome_at device 0 = .failure e) (data : mma8451_register_trig_cfg) :
    mma8451_get_trig_cfg device data =
      ⟨0, refused device (read_request device.addr MMA8451_REGISTER_TRIG_CFG 1) e
        (.unable_to_get MMA8451_REGISTER_TRIG_CFG e), data⟩ := by
  simp only [mma8451_get_trig_cfg, get_register_of_failure h, if_pos]
  rfl

theorem set_trig_cfg_value (data : mma8451_register_trig_cfg) :
    weighted data.as_generic =
      data.unused1 % 2 * 128 + data.unused2 % 2 * 64 + data.trig_trans % 2 * 32 + data.trig_lndprt % 2 * 16 + data.trig_pulse % 2 * 8 + data.trig_ff_mt % 2 * 4 + data.unused3 % 2 * 2 + data.unused4 % 2 := by
  simp only [weighted, mma8451_register_trig_cfg.as_generic, Nat.and_one_is_mod,
    Nat.shiftRight_eq_div_pow, Nat.mod_mod, Nat.reducePow]

theorem set_trig_cfg_of_success {device : mma8451} {inbuf : Nat → Nat}
    (h : outcome_at device 0 = .success inbuf) (data : mma8451_register_trig_cfg) :
    mma8451_set_trig_cfg device data =
      ⟨1, logged device (write_request device.addr MMA8451_REGISTER_TRIG_CFG
          (data.unused1 % 2 * 128 + data.unused2 % 2 * 64 + data.trig_trans % 2 * 32 + data.trig_lndprt % 2 * 16 + data.trig_pulse % 2 * 8 + data.trig_ff_mt % 2 * 4 + data.unused3 % 2 * 2 + data.unused4 % 2)),
        data⟩ := by
  have hv := set_trig_cfg_value data
  unfold mma8451_set_trig_cfg
  simp only [set_register_of_success h, hv, if_pos, if_neg (show ¬ (1 = 0) by decide)]
  rfl

theorem set_trig_cfg_of_failure {device : mma8451} {e : Nat}
    (h : outcome_at device 0 = .failure e) (data : mma8451_register_trig_cfg) :
    mma8451_set_trig_cfg device data =
      ⟨0, refused device (write_request device.addr MMA8451_REGISTER_TRIG_CFG
          (data.unused1 % 2 * 128 + data.unused2 % 2 * 64 + data.trig_trans % 2 * 32 + data.trig_lndprt % 2 * 16 + data.trig_pulse % 2 * 8 + data.trig_ff_mt % 2 * 4 + data.unused3 % 2 * 2 + data.unused4 % 2)) e
          (.unable_to_set MMA8451_REGISTER_TRIG_CFG e),
        data⟩ := by
  have hv := set_trig_cfg_value data
  unfold mma8451_set_trig_cfg
  simp only [set_register_of_failure h, hv, if_pos, if_neg (show ¬ (1 = 0) by decide)]
  rfl

theorem set_trig_cfg_issued (device : mma8451) (data : mma8451_register_trig_cfg) :
    issued device (mma8451_set_trig_cfg device data).device =
      [write_request device.addr MMA8451_REGISTER_TRIG_CFG
        (data.unused1 % 2 * 128 + data.unused2 % 2 * 64 + data.trig_trans % 2 * 32 + data.trig_lndprt % 2 * 16 + data.trig_pulse % 2 * 8 + data.trig_ff_mt % 2 * 4 + data.unused3 % 2 * 2 + data.unused4 % 2)] := by
  cases h : outcome_at device 0 with
  | failure e => rw [set_trig_cfg_of_failure h]; simp [issued, refused]
  | success inbuf => rw [set_trig_cfg_of_success h]; simp [issued, logged]

set_option maxRecDepth 1000000 in
theorem get_sysmod_of_read {device : mma8451} {b : Nat}
    (h : next_read device.file = some b) (data : mma8451_register_sysmod) :
    mma8451_get_sysmod device data =
      ⟨1, logged device (read_request device.addr MMA8451_REGISTER_SYSMOD 1),
        { fgerr := b / 128 % 2,
          fgt_4 := b / 64 % 2,
          fgt_3 := b / 32 % 2,
          fgt_2 := b / 16 % 2,
          fgt_1 := b / 8 % 2,
          fgt_0 := b / 4 % 2,
          sysmod1 := b / 2 % 2,
          sysmod0 := b % 2,
          fgt := b / 4 % 32,
          mode := b % 4 }⟩ := by
  have hb := next_read_lt h
  simp only [mma8451_get_sysmod, get_register_of_read h, Option.map,
    mma8451_register_sysmod.with_generic, digits, if_neg (show ¬ (1 = 0) by decide),
    result.mk.injEq, mma8451_register_sysmod.mk.injEq, true_and, and_true]
  clear h
  refine ⟨rfl, ?_, ?_⟩ <;> (revert b; decide)

theorem get_sysmod_of_failure {device : mma8451} {e : Nat}
    (h : outcome_at device 0 = .failure e) (data : mma8451_register_sysmod) :
    mma8451_get_sysmod device data =
      ⟨0, refused device (read_request device.addr MMA8451_REGISTER_SYSMOD 1) e
        (.unable_to_get MMA8451_REGISTER_SYSMOD e), data⟩ := by
  simp only [mma8451_get_sysmod, get_register_of_failure h, if_pos]
  rfl

set_option maxRecDepth 1000000 in
theorem get_int_source_of_read {device : mma8451} {b : Nat}
    (h : next_read device.file = some b) (data : mma8451_register_int_source) :
    mma8451_get_int_source device data =
      ⟨1, logged device (read_request device.addr MMA8451_REGISTER_INT_SOURCE 1),
        { src_aslp := b / 128 % 2,
          src_fifo := b / 64 % 2,
          src_trans := b / 32 % 2,
          src_lndprt := b / 16 % 2,
          src_pulse := b / 8 % 2,
          src_ff_mt := b / 4 % 2,
          unused := b / 2 % 2,
          src_drdy := b % 2 }⟩ := by
  have hb := next_read_lt h
  simp only [mma8451_get_int_source, get_register_of_read h, Option.map,
    mma8451_register_int_source.with_generic, digits, if_neg (show ¬ (1 = 0) by decide),
    result.mk.injEq, mma8451_register_int_source.mk.injEq, true_and, and_true]
  clear h
  rfl

theorem get_int_source_of_failure {device : mma8451} {e : Nat}
    (h : outcome_at device 0 = .failure e) (data : mma8451_register_int_source) :
    mma8451_get_int_source device data =
      ⟨0, refused device (read_request device.addr MMA8451_REGISTER_INT_SOURCE 1) e
        (.unable_to_get MMA8451_REGISTER_INT_SOURCE e), data⟩ := by
  simp only [mma8451_get_int_source, get_register_of_failure h, if_pos]
  rfl

set_option maxRecDepth 1000000 in
theorem get_xyz_data_cfg_of_read {device : mma8451} {b : Nat}
    (h : next_read device.file = some b) (data : mma8451_register_xyz_data_cfg) :
    mma8451_get_xyz_data_cfg device data =
      ⟨1, logged device (read_request device.addr MMA8451_REGISTER_XYZ_DATA_CFG 1),
        { unused1 := b / 128 % 2,
          unused2 := b / 64 % 2,
          unused3 := b / 32 % 2,
          hpf_out := b / 16 % 2,
          unused4 := b / 8 % 2,
          unused5 := b / 4 % 2,
          fs1 := b / 2 % 2,
          fs0 := b % 2,
          fs := b % 4 }⟩ := by
  have hb := next_read_lt h
  simp only [mma8451_get_xyz_data_cfg, get_register_of_read h, Option.map,
    mma8451_register_xyz_data_cfg.with_generic, digits, if_neg (show ¬ (1 = 0) by decide),
    result.mk.injEq, mma8451_register_xyz_data_cfg.mk.injEq, true_and, and_true]
  clear h
  refine ⟨rfl, ?_⟩
  revert b
  decide

theorem get_xyz_data_cfg_of_failure {device : mma8451} {e : Nat}
    (h : outcome_at device 0 = .failure e) (data : mma8451_register_xyz_data_cfg) :
    mma8451_get_xyz_data_cfg device data =
      ⟨0, refused device (read_request device.addr MMA8451_REGISTER_XYZ_DATA_CFG 1) e
        (.unable_to_get MMA8451_REGISTER_XYZ_DATA_CFG e), data⟩ := by
  simp only [mma8451_get_xyz_data_cfg, get_register_of_failure h, if_pos]
  rfl

theorem set_xyz_data_cfg_value (data : mma8451_register_xyz_data_cfg) :
    weighted ({ data with
        fs1 := (data.fs >>> 1) &&& 0x1,
        fs0 := (data.fs) &&& 0x1 } : mma8451_register_xyz_data_cfg).as_generic =
      data.unused1 % 2 * 128 + data.unused2 % 2 * 64 + data.unused3 % 2 * 32 + data.hpf_out % 2 * 16 + data.unused4 % 2 * 8 + data.unused5 % 2 * 4 + data.fs % 4 := by
  simp only [weighted, mma8451_register_xyz_data_cfg.as_generic, Nat.and_one_is_mod,
    Nat.shiftRight_eq_div_pow, Nat.mod_mod, Nat.reducePow]
  omega

theorem set_xyz_data_cfg_of_success {device : mma8451} {inbuf : Nat → Nat}
    (h : outcome_at device 0 = .success inbuf) (data : mma8451_register_xyz_data_cfg) :
    mma8451_set_xyz_data_cfg device data =
      ⟨1, { logged device (write_request device.addr MMA8451_REGISTER_XYZ_DATA_CFG
          (data.unused1 % 2 * 128 + data.unused2 % 2 * 64 + data.unused3 % 2 * 32 + data.hpf_out % 2 * 16 + data.unused4 % 2 * 8 + data.unused5 % 2 * 4 + data.fs % 4)) with
          range := data.fs },
        ({ data with
        fs1 := (data.fs >>> 1) &&& 0x1,
        fs0 := (data.fs) &&& 0x1 } : mma8451_register_xyz_data_cfg)⟩ := by
  have hv := set_xyz_data_cfg_value data
  unfold mma8451_set_xyz_data_cfg
  simp only [set_register_of_success h, hv, if_pos, if_neg (show ¬ (1 = 0) by decide)]
  rfl

theorem set_xyz_data_cfg_of_failure {device : mma8451} {e : Nat}
    (h : outcome_at device 0 = .failure e) (data : mma8451_register_xyz_data_cfg) :
    mma8451_set_xyz_data_cfg device data =
      ⟨0, refused device (write_request device.addr MMA8451_REGISTER_XYZ_DATA_CFG
          (data.unused1 % 2 * 128 + data.unused2 % 2 * 64 + data.unused3 % 2 * 32 + data.hpf_out % 2 * 16 + data.unused4 % 2 * 8 + data.unused5 % 2 * 4 + data.fs % 4)) e
          (.unable_to_set MMA8451_REGISTER_XYZ_DATA_CFG e),
        ({ data with
        fs1 := (data.fs >>> 1) &&& 0x1,
        fs0 := (data.fs) &&& 0x1 } : mma8451_register_xyz_data_cfg)⟩ := by
  have hv := set_xyz_data_cfg_value data
  unfold mma8451_set_xyz_data_cfg
  simp only [set_register_of_failure h, hv, if_pos, if_neg (show ¬ (1 = 0) by decide)]
  rfl

theorem set_xyz_data_cfg_issued (device : mma8451) (data : mma8451_register_xyz_data_cfg) :
    issued device (mma8451_set_xyz_data_cfg device data).device =
      [write_request device.addr MMA8451_REGISTER_XYZ_DATA_CFG
        (data.unused1 % 2 * 128 + data.unused2 % 2 * 64 + data.unused3 % 2 * 32 + data.hpf_out % 2 * 16 + data.unused4 % 2 * 8 + data.unused5 % 2 * 4 + data.fs % 4)] := by
  cases h : outcome_at device 0 with
  | failure e => rw [set_xyz_data_cfg_of_failure h]; simp [issued, refused]
  | success inbuf => rw [set_xyz_data_cfg_of_success h]; simp [issued, logged]

set_option maxRecDepth 1000000 in
theorem get_hp_filter_cutoff_of_read {device : mma8451} {b : Nat}
    (h : next_read device.file = some b) (data : mma8451_register_hp_filter_cutoff) :
    mma8451_get_hp_filter_cutoff device data =
      ⟨1, logged device (read_request device.addr MMA8451_REGISTER_HP_FILTER_CUTOFF 1),
        { unused1 := b / 128 % 2,
          unused2 := b / 64 % 2,
          pulse_hpf_byp := b / 32 % 2,
          pulse_lpf_en := b / 16 % 2,
          unused3 := b / 8 % 2,
          unused4 := b / 4 % 2,
          sel1 := b / 2 % 2,
          sel0 := b % 2 }⟩ := by
  have hb := next_read_lt h
  simp only [mma8451_get_hp_filter_cutoff, get_register_of_read h, Option.map,
    mma8451_register_hp_filter_cutoff.with_generic, digits, if_neg (show ¬ (1 = 0) by decide),
    result.mk.injEq, mma8451_register_hp_filter_cutoff.mk.injEq, true_and, and_true]
  clear h
  rfl

theorem get_hp_filter_cutoff_of_failure {device : mma8451} {e : Nat}
    (h : outcome_at device 0 = .failure e) (data : mma8451_register_hp_filter_cutoff) :
    mma8451_get_hp_filter_cutoff device data =
      ⟨0, refused device (read_request device.addr MMA8451_REGISTER_HP_FILTER_CUTOFF 1) e
        (.unable_to_get MMA8451_REGISTER_HP_FILTER_CUTOFF e), data⟩ := by
  simp only [mma8451_get_hp_filter_cutoff, get_register_of_failure h, if_pos]
  rfl

theorem set_hp_filter_cutoff_value (data : mma8451_register_hp_filter_cutoff) :
    weighted data.as_generic =
      data.unused1 % 2 * 128 + data.unused2 % 2 * 64 + data.pulse_hpf_byp % 2 * 32 + data.pulse_lpf_en % 2 * 16 + data.unused3 % 2 * 8 + data.unused4 % 2 * 4 + data.sel1 % 2 * 2 + data.sel0 % 2 := by
  simp only [weighted, mma8451_register_hp_filter_cutoff.as_generic, Nat.and_one_is_mod,
    Nat.shiftRight_eq_div_pow, Nat.mod_mod, Nat.reducePow]

theorem set_hp_filter_cutoff_of_success {device : mma8451} {inbuf : Nat → Nat}
    (h : outcome_at device 0 = .success inbuf) (data : mma8451_register_hp_filter_cutoff) :
    mma8451_set_hp_filter_cutoff device data =
      ⟨1, logged device (write_request device.addr MMA8451_REGISTER_HP_FILTER_CUTOFF
          (data.unused1 % 2 * 128 + data.unused2 % 2 * 64 + data.pulse_hpf_byp % 2 * 32 + data.pulse_lpf_en % 2 * 16 + data.unused3 % 2 * 8 + data.unused4 % 2 * 4 + data.sel1 % 2 * 2 + data.sel0 % 2)),
        data⟩ := by
  have hv := set_hp_filter_cutoff_value data
  unfold mma8451_set_hp_filter_cutoff
  simp only [set_register_of_success h, hv, if_pos, if_neg (show ¬ (1 = 0) by decide)]
  rfl

theorem set_hp_filter_cutoff_of_failure {device : mma8451} {e : Nat}
    (h : outcome_at device 0 = .failure e) (data : mma8451_register_hp_filter_cutoff) :
    mma8451_set_hp_filter_cutoff device data =
      ⟨0, refused device (write_request device.addr MMA8451_REGISTER_HP_FILTER_CUTOFF
          (data.unused1 % 2 * 128 + data.unused2 % 2 * 64 + data.pulse_hpf_byp % 2 * 32 + data.pulse_lpf_en % 2 * 16 + data.unused3 % 2 * 8 + data.unused4 % 2 * 4 + data.sel1 % 2 * 2 + data.sel0 % 2)) e
          (.unable_to_set MMA8451_REGISTER_HP_FILTER_CUTOFF e),
        data⟩ := by
  have hv := set_hp_filter_cutoff_value data
  unfold mma8451_set_hp_filter_cutoff
  simp only [set_register_of_failure h, hv, if_pos, if_neg (show ¬ (1 = 0) by decide)]
  rfl

theorem set_hp_filter_cutoff_issued (device : mma8451) (data : mma8451_register_hp_filter_cutoff) :
    issued device (mma8451_set_hp_filter_cutoff device data).device =
      [write_request device.addr MMA8451_REGISTER_HP_FILTER_CUTOFF
        (data.unused1 % 2 * 128 + data.unused2 % 2 * 64 + data.pulse_hpf_byp % 2 * 32 + data.pulse_lpf_en % 2 * 16 + data.unused3 % 2 * 8 + data.unused4 % 2 * 4 + data.sel1 % 2 * 2 + data.sel0 % 2)] := by
  cases h : outcome_at device 0 with
  | failure e => rw [set_hp_filter_cutoff_of_failure h]; simp [issued, refused]
  | success inbuf => rw [set_hp_filter_cutoff_of_success h]; simp [issued, logged]

set_option maxRecDepth 1000000 in
theorem get_pl_status_of_read {device : mma8451} {b : Nat}
    (h : next_read device.file = some b) (data : mma8451_register_pl_status) :
    mma8451_get_pl_status device data =
      ⟨1, logged device (read_request device.addr MMA8451_REGISTER_PL_STATUS 1),
        { newlp := b / 128 % 2,
          lo := b / 64 % 2,
          unused1 := b / 32 % 2,
          unused2 := b / 16 % 2,
          unused3 := b / 8 % 2,
          lapo1 := b / 4 % 2,
          lapo0 := b / 2 % 2,
          bafro := b % 2 }⟩ := by
  have hb := next_read_lt h
  simp only [mma8451_get_pl_status, get_register_of_read h, Option.map,
    mma8451_register_pl_status.with_generic, digits, if_neg (show ¬ (1 = 0) by decide),
    result.mk.injEq, mma8451_register_pl_status.mk.injEq, true_and, and_true]
  clear h
  rfl

theorem get_pl_status_of_failure {device : mma8451} {e : Nat}
    (h : outcome_at device 0 = .failure e) (data : mma8451_register_pl_status) :
    mma8451_get_pl_status device data =
      ⟨0, refused device (read_request device.addr MMA8451_REGISTER_PL_STATUS 1) e
        (.unable_to_get MMA8451_REGISTER_PL_STATUS e), data⟩ := by
  simp only [mma8451_get_pl_status, get_register_of_failure h, if_pos]
  rfl

set_option maxRecDepth 1000000 in
theorem get_pl_cfg_of_read {device : mma8451} {b : Nat}
    (h : next_read device.file = some b) (data : mma8451_register_pl_cfg) :
    mma8451_get_pl_cfg device data =
      ⟨1, logged device (read_request device.addr MMA8451_REGISTER_PL_CFG 1),
        { dbcntm := b / 128 % 2,
          pl_en := b / 64 % 2,
          unused1 := b / 32 % 2,
          unused2 := b / 16 % 2,
          unused3 := b / 8 % 2,
          unused4 := b / 4 % 2,
          unused5 := b / 2 % 2,
          unused6 := b % 2 }⟩ := by
  have hb := next_read_lt h
  simp only [mma8451_get_pl_cfg, get_register_of_read h, Option.map,
    mma8451_register_pl_cfg.with_generic, digits, if_neg (show ¬ (1 = 0) by decide),
    result.mk.injEq, mma8451_register_pl_cfg.mk.injEq, true_and, and_true]
  clear h
  rfl

theorem get_pl_cfg_of_failure {device : mma8451} {e : Nat}
    (h : outcome_at device 0 = .failure e) (data : mma8451_register_pl_cfg) :
    mma8451_get_pl_cfg device data =
      ⟨0, refused device (read_request device.addr MMA8451_REGISTER_PL_CFG 1) e
        (.unable_to_get MMA8451_REGISTER_PL_CFG e), data⟩ := by
  simp only [mma8451_get_pl_cfg, get_register_of_failure h, if_pos]
  rfl

theorem set_pl_cfg_value (data : mma8451_register_pl_cfg) :
    weighted data.as_generic =
      data.dbcntm % 2 * 128 + data.pl_en % 2 * 64 + data.unused1 % 2 * 32 + data.unused2 % 2 * 16 + data.unused3 % 2 * 8 + data.unused4 % 2 * 4 + data.unused5 % 2 * 2 + data.unused6 % 2 := by
  simp only [weighted, mma8451_register_pl_cfg.as_generic, Nat.and_one_is_mod,
    Nat.shiftRight_eq_div_pow, Nat.mod_mod, Nat.reducePow]

theorem set_pl_cfg_of_success {device : mma8451} {inbuf : Nat → Nat}
    (h : outcome_at device 0 = .success inbuf) (data : mma8451_register_pl_cfg) :
    mma8451_set_pl_cfg device data =
      ⟨1, logged device (write_request device.addr MMA8451_REGISTER_PL_CFG
          (data.dbcntm % 2 * 128 + data.pl_en % 2 * 64 + data.unused1 % 2 * 32 + data.unused2 % 2 * 16 + data.unused3 % 2 * 8 + data.unused4 % 2 * 4 + data.unused5 % 2 * 2 + data.unused6 % 2)),
        data⟩ := by
  have hv := set_pl_cfg_value data
  unfold mma8451_set_pl_cfg
  simp only [set_register_of_success h, hv, if_pos, if_neg (show ¬ (1 = 0) by decide)]
  rfl

theorem set_pl_cfg_of_failure {device : mma8451} {e : Nat}
    (h : outcome_at device 0 = .failure e) (data : mma8451_register_pl_cfg) :
    mma8451_set_pl_cfg device data =
      ⟨0, refused device (write_request device.addr MMA8451_REGISTER_PL_CFG
          (data.dbcntm % 2 * 128 + data.pl_en % 2 * 64 + data.unused1 % 2 * 32 + data.unused2 % 2 * 16 + data.unused3 % 2 * 8 + data.unused4 % 2 * 4 + data.unused5 % 2 * 2 + data.unused6 % 2)) e
          (.unable_to_set MMA8451_REGISTER_PL_CFG e),
        data⟩ := by
  have hv := set_pl_cfg_value data
  unfold mma8451_set_pl_cfg
  simp only [set_register_of_failure h, hv, if_pos, if_neg (show ¬ (1 = 0) by decide)]
  rfl

theorem set_pl_cfg_issued (device : mma8451) (data : mma8451_register_pl_cfg) :
    issued device (mma8451_set_pl_cfg device data).device =
      [write_request device.addr MMA8451_REGISTER_PL_CFG
        (data.dbcntm % 2 * 128 + data.pl_en % 2 * 64 + data.unused1 % 2 * 32 + data.unused2 % 2 * 16 + data.unused3 % 2 * 8 + data.unused4 % 2 * 4 + data.unused5 % 2 * 2 + data.unused6 % 2)] := by
  cases h : outcome_at device 0 with
  | failure e => rw [set_pl_cfg_of_failure h]; simp [issued, refused]
  | success inbuf => rw [set_pl_cfg_of_success h]; simp [issued, logged]

set_option maxRecDepth 1000000 in
theorem get_pl_bf_zcomp_of_read {device : mma8451} {b : Nat}
    (h : next_read device.file = some b) (data : mma8451_register_pl_bf_zcomp) :
    mma8451_get_pl_bf_zcomp device data =
      ⟨1, logged device (read_request device.addr MMA8451_REGISTER_PL_BF_ZCOMP 1),
        { bkfr1 := b / 128 % 2,
          bkfr0 := b / 64 % 2,
          unused1 := b / 32 % 2,
          unused2 := b / 16 % 2,
          unused3 := b / 8 % 2,
          zlock2 := b / 4 % 2,
          zlock1 := b / 2 % 2,
          zlock0 := b % 2,
          bkfr := b / 64,
          zlock := b % 8 }⟩ := by
  have hb := next_read_lt h
  simp only [mma8451_get_pl_bf_zcomp, get_register_of_read h, Option.map,
    mma8451_register_pl_bf_zcomp.with_generic, digits, if_neg (show ¬ (1 = 0) by decide),
    result.mk.injEq, mma8451_register_pl_bf_zcomp.mk.injEq, true_and, and_true]
  clear h
  refine ⟨rfl, ?_, ?_⟩ <;> (revert b; decide)

theorem get_pl_bf_zcomp_of_failure {device : mma8451} {e : Nat}
    (h : outcome_at device 0 = .failure e) (data : mma8451_register_pl_bf_zcomp) :
    mma8451_get_pl_bf_zcomp device data =
      ⟨0, refused device (read_request device.addr MMA8451_REGISTER_PL_BF_ZCOMP 1) e
        (.unable_to_get MMA8451_REGISTER_PL_BF_ZCOMP e), data⟩ := by
  simp only [mma8451_get_pl_bf_zcomp, get_register_of_failure h, if_pos]
  rfl

theorem set_pl_bf_zcomp_value (data : mma8451_register_pl_bf_zcomp) :
    weighted ({ data with
        bkfr1 := (data.bkfr >>> 1) &&& 0x1,
        bkfr0 := (data.bkfr) &&& 0x1,
        zlock2 := (data.zlock >>> 2) &&& 0x1,
        zlock1 := (data.zlock >>> 1) &&& 0x1,
        zlock0 := (data.zlock) &&& 0x1 } : mma8451_register_pl_bf_zcomp).as_generic =
      data.bkfr % 4 * 64 + data.unused1 % 2 * 32 + data.unused2 % 2 * 16 + data.unused3 % 2 * 8 + data.zlock % 8 := by
  simp only [weighted, mma8451_register_pl_bf_zcomp.as_generic, Nat.and_one_is_mod,
    Nat.shiftRight_eq_div_pow, Nat.mod_mod, Nat.reducePow]
  omega

theorem set_pl_bf_zcomp_of_success {device : mma8451} {inbuf : Nat → Nat}
    (h : outcome_at device 0 = .success inbuf) (data : mma8451_register_pl_bf_zcomp) :
    mma8451_set_pl_bf_zcomp device data =
      ⟨1, logged device (write_request device.addr MMA8451_REGISTER_PL_BF_ZCOMP
          (data.bkfr % 4 * 64 + data.unused1 % 2 * 32 + data.unused2 % 2 * 16 + data.unused3 % 2 * 8 + data.zlock % 8)),
        ({ data with
        bkfr1 := (data.bkfr >>> 1) &&& 0x1,
        bkfr0 := (data.bkfr) &&& 0x1,
        zlock2 := (data.zlock >>> 2) &&& 0x1,
        zlock1 := (data.zlock >>> 1) &&& 0x1,
        zlock0 := (data.zlock) &&& 0x1 } : mma8451_register_pl_bf_zcomp)⟩ := by
  have hv := set_pl_bf_zcomp_value data
  unfold mma8451_set_pl_bf_zcomp
  simp only [set_register_of_success h, hv, if_pos, if_neg (show ¬ (1 = 0) by decide)]
  rfl

theorem set_pl_bf_zcomp_of_failure {device : mma8451} {e : Nat}
    (h : outcome_at device 0 = .failure e) (data : mma8451_register_pl_bf_zcomp) :
    mma8451_set_pl_bf_zcomp device data =
      ⟨0, refused device (write_request device.addr MMA8451_REGISTER_PL_BF_ZCOMP
          (data.bkfr % 4 * 64 + data.unused1 % 2 * 32 + data.unused2 % 2 * 16 + data.unused3 % 2 * 8 + data.zlock % 8)) e
          (.unable_to_set MMA8451_REGISTER_PL_BF_ZCOMP e),
        ({ data with
        bkfr1 := (data.bkfr >>> 1) &&& 0x1,
        bkfr0 := (data.bkfr) &&& 0x1,
        zlock2 := (data.zlock >>> 2) &&& 0x1,
        zlock1 := (data.zlock >>> 1) &&& 0x1,
        zlock0 := (data.zlock) &&& 0x1 } : mma8451_register_pl_bf_zcomp)⟩ := by
  have hv := set_pl_bf_zcomp_value data
  unfold mma8451_set_pl_bf_zcomp
  simp only [set_register_of_failure h, hv, if_pos, if_neg (show ¬ (1 = 0) by decide)]
  rfl

theorem set_pl_bf_zcomp_issued (device : mma8451) (data : mma8451_register_pl_bf_zcomp) :
    issued device (mma8451_set_pl_bf_zcomp device data).device =
      [write_request device.addr MMA8451_REGISTER_PL_BF_ZCOMP
        (data.bkfr % 4 * 64 + data.unused1 % 2 * 32 + data.unused2 % 2 * 16 + data.unused3 % 2 * 8 + data.zlock % 8)] := by
  cases h : outcome_at device 0 with
  | failure e => rw [set_pl_bf_zcomp_of_failure h]; simp [issued, refused]
  | success inbuf => rw [set_pl_bf_zcomp_of_success h]; simp [issued, logged]

set_option maxRecDepth 1000000 in
theorem get_p_l_ths_reg_of_read {device : mma8451} {b : Nat}
    (h : next_read device.file = some b) (data : mma8451_register_p_l_ths_reg) :
    mma8451_get_p_l_ths_reg device data =
      ⟨1, logged device (read_request device.addr MMA8451_REGISTER_P_L_THS_REG 1),
        { p_l_ths4 := b / 128 % 2,
          p_l_ths3 := b / 64 % 2,
          p_l_ths2 := b / 32 % 2,
          p_l_ths1 := b / 16 % 2,
          p_l_ths0 := b / 8 % 2,
          hys2 := b / 4 % 2,
          hys1 := b / 2 % 2,
          hys0 := b % 2,
          p_l_ths := b / 8,
          hys := b % 8 }⟩ := by
  have hb := next_read_lt h
  simp only [mma8451_get_p_l_ths_reg, get_register_of_read h, Option.map,
    mma8451_register_p_l_ths_reg.with_generic, digits, if_neg (show ¬ (1 = 0) by decide),
    result.mk.injEq, mma8451_register_p_l_ths_reg.mk.injEq, true_and, and_true]
  clear h
  refine ⟨rfl, ?_, ?_⟩ <;> (revert b; decide)

theorem get_p_l_ths_reg_of_failure {device : mma8451} {e : Nat}
    (h : outcome_at device 0 = .failure e) (data : mma8451_register_p_l_ths_reg) :
    mma8451_get_p_l_ths_reg device data =
      ⟨0, refused device (read_request device.addr MMA8451_REGISTER_P_L_THS_REG 1) e
        (.unable_to_get MMA8451_REGISTER_P_L_THS_REG e), data⟩ := by
  simp only [mma8451_get_p_l_ths_reg, get_register_of_failure h, if_pos]
  rfl

theorem set_p_l_ths_reg_value (data : mma8451_register_p_l_ths_reg) :
    weighted ({ data with
        p_l_ths4 := (data.p_l_ths >>> 4) &&& 0x1,
        p_l_ths3 := (data.p_l_ths >>> 3) &&& 0x1,
        p_l_ths2 := (data.p_l_ths >>> 2) &&& 0x1,
        p_l_ths1 := (data.p_l_ths >>> 1) &&& 0x1,
        p_l_ths0 := (data.p_l_ths) &&& 0x1,
        hys2 := (data.hys >>> 2) &&& 0x1,
        hys1 := (data.hys >>> 1) &&& 0x1,
        hys0 := (data.hys) &&& 0x1 } : mma8451_register_p_l_ths_reg).as_generic =
      data.p_l_ths % 32 * 8 + data.hys % 8 := by
  simp only [weighted, mma8451_register_p_l_ths_reg.as_generic, Nat.and_one_is_mod,
    Nat.shiftRight_eq_div_pow, Nat.mod_mod, Nat.reducePow]
  have := compose_bits5 data.p_l_ths
  omega

theorem set_p_l_ths_reg_of_success {device : mma8451} {inbuf : Nat → Nat}
    (h : outcome_at device 0 = .success inbuf) (data : mma8451_register_p_l_ths_reg) :
    mma8451_set_p_l_ths_reg device data =
      ⟨1, logged device (write_request device.addr MMA8451_REGISTER_P_L_THS_REG
          (data.p_l_ths % 32 * 8 + data.hys % 8)),
        ({ data with
        p_l_ths4 := (data.p_l_ths >>> 4) &&& 0x1,
        p_l_ths3 := (data.p_l_ths >>> 3) &&& 0x1,
        p_l_ths2 := (data.p_l_ths >>> 2) &&& 0x1,
        p_l_ths1 := (data.p_l_ths >>> 1) &&& 0x1,
        p_l_ths0 := (data.p_l_ths) &&& 0x1,
        hys2 := (data.hys >>> 2) &&& 0x1,
        hys1 := (data.hys >>> 1) &&& 0x1,
        hys0 := (data.hys) &&& 0x1 } : mma8451_register_p_l_ths_reg)⟩ := by
  have hv := set_p_l_ths_reg_value data
  unfold mma8451_set_p_l_ths_reg
  simp only [set_register_of_success h, hv, if_pos, if_neg (show ¬ (1 = 0) by decide)]
  rfl

theorem set_p_l_ths_reg_of_failure {device : mma8451} {e : Nat}
    (h : outcome_at device 0 = .failure e) (data : mma8451_register_p_l_ths_reg) :
    mma8451_set_p_l_ths_reg device data =
      ⟨0, refused device (write_request device.addr MMA8451_REGISTER_P_L_THS_REG
          (data.p_l_ths % 32 * 8 + data.hys % 8)) e
          (.unable_to_set MMA8451_REGISTER_P_L_THS_REG e),
        ({ data with
        p_l_ths4 := (data.p_l_ths >>> 4) &&& 0x1,
        p_l_ths3 := (data.p_l_ths >>> 3) &&& 0x1,
        p_l_ths2 := (data.p_l_ths >>> 2) &&& 0x1,
        p_l_ths1 := (data.p_l_ths >>> 1) &&& 0x1,
        p_l_ths0 := (data.p_l_ths) &&& 0x1,
        hys2 := (data.hys >>> 2) &&& 0x1,
        hys1 := (data.hys >>> 1) &&& 0x1,
        hys0 := (data.hys) &&& 0x1 } : mma8451_register_p_l_ths_reg)⟩ := by
  have hv := set_p_l_ths_reg_value data
  unfold mma8451_set_p_l_ths_reg
  simp only [set_register_of_failure h, hv, if_pos, if_neg (show ¬ (1 = 0) by decide)]
  rfl

theorem set_p_l_ths_reg_issued (device : mma8451) (data : mma8451_register_p_l_ths_reg) :
    issued device (mma8451_set_p_l_ths_reg device data).device =
      [write_request device.addr MMA8451_REGISTER_P_L_THS_REG
        (data.p_l_ths % 32 * 8 + data.hys % 8)] := by
  cases h : outcome_at device 0 with
  | failure e => rw [set_p_l_ths_reg_of_failure h]; simp [issued, refused]
  | success inbuf => rw [set_p_l_ths_reg_of_success h]; simp [issued, logged]

set_option maxRecDepth 1000000 in
theorem get_ff_mt_ths_of_read {device : mma8451} {b : Nat}
    (h : next_read device.file = some b) (data : mma8451_register_ff_mt_ths) :
    mma8451_get_ff_mt_ths device data =
      ⟨1, logged device (read_request device.addr MMA8451_REGISTER_FF_MT_THS 1),
        { dbcntm := b / 128 % 2,
          ths6 := b / 64 % 2,
          ths5 := b / 32 % 2,
          ths4 := b / 16 % 2,
          ths3 := b / 8 % 2,
          ths2 := b / 4 % 2,
          ths1 := b / 2 % 2,
          ths0 := b % 2,
          ths := b % 128 }⟩ := by
  have hb := next_read_lt h
  simp only [mma8451_get_ff_mt_ths, get_register_of_read h, Option.map,
    mma8451_register_ff_mt_ths.with_generic, digits, if_neg (show ¬ (1 = 0) by decide),
    result.mk.injEq, mma8451_register_ff_mt_ths.mk.injEq, true_and, and_true]
  clear h
  refine ⟨rfl, ?_⟩
  revert b
  decide

theorem get_ff_mt_ths_of_failure {device : mma8451} {e : Nat}
    (h : outcome_at device 0 = .failure e) (data : mma8451_register_ff_mt_ths) :
    mma8451_get_ff_mt_ths device data =
      ⟨0, refused device (read_request device.addr MMA8451_REGISTER_FF_MT_THS 1) e
        (.unable_to_get MMA8451_REGISTER_FF_MT_THS e), data⟩ := by
  simp only [mma8451_get_ff_mt_ths, get_register_of_failure h, if_pos]
  rfl

theorem set_ff_mt_ths_value (data : mma8451_register_ff_mt_ths) :
    weighted ({ data with
        ths6 := (data.ths >>> 6) &&& 0x1,
        ths5 := (data.ths >>> 5) &&& 0x1,
        ths4 := (data.ths >>> 4) &&& 0x1,
        ths3 := (data.ths >>> 3) &&& 0x1,
        ths2 := (data.ths >>> 2) &&& 0x1,
        ths1 := (data.ths >>> 1) &&& 0x1,
        ths0 := (data.ths) &&& 0x1 } : mma8451_register_ff_mt_ths).as_generic =
      data.dbcntm % 2 * 128 + data.ths % 128 := by
  simp only [weighted, mma8451_register_ff_mt_ths.as_generic, Nat.and_one_is_mod,
    Nat.shiftRight_eq_div_pow, Nat.mod_mod, Nat.reducePow]
  have := compose_bits7 data.ths
  omega

theorem set_ff_mt_ths_of_success {device : mma8451} {inbuf : Nat → Nat}
    (h : outcome_at device 0 = .success inbuf) (data : mma8451_register_ff_mt_ths) :
    mma8451_set_ff_mt_ths device data =
      ⟨1, logged device (write_request device.addr MMA8451_REGISTER_FF_MT_THS
          (data.dbcntm % 2 * 128 + data.ths % 128)),
        ({ data with
        ths6 := (data.ths >>> 6) &&& 0x1,
        ths5 := (data.ths >>> 5) &&& 0x1,
        ths4 := (data.ths >>> 4) &&& 0x1,
        ths3 := (data.ths >>> 3) &&& 0x1,
        ths2 := (data.ths >>> 2) &&& 0x1,
        ths1 := (data.ths >>> 1) &&& 0x1,
        ths0 := (data.ths) &&& 0x1 } : mma8451_register_ff_mt_ths)⟩ := by
  have hv := set_ff_mt_ths_value data
  unfold mma8451_set_ff_mt_ths
  simp only [set_register_of_success h, hv, if_pos, if_neg (show ¬ (1 = 0) by decide)]
  rfl

theorem set_ff_mt_ths_of_failure {device : mma8451} {e : Nat}
    (h : outcome_at device 0 = .failure e) (data : mma8451_register_ff_mt_ths) :
    mma8451_set_ff_mt_ths device data =
      ⟨0, refused device (write_request device.addr MMA8451_REGISTER_FF_MT_THS
          (data.dbcntm % 2 * 128 + data.ths % 128)) e
          (.unable_to_set MMA8451_REGISTER_FF_MT_THS e),
        ({ data with
        ths6 := (data.ths >>> 6) &&& 0x1,
        ths5 := (data.ths >>> 5) &&& 0x1,
        ths4 := (data.ths >>> 4) &&& 0x1,
        ths3 := (data.ths >>> 3) &&& 0x1,
        ths2 := (data.ths >>> 2) &&& 0x1,
        ths1 := (data.ths >>> 1) &&& 0x1,
        ths0 := (data.ths) &&& 0x1 } : mma8451_register_ff_mt_ths)⟩ := by
  have hv := set_ff_mt_ths_value data
  unfold mma8451_set_ff_mt_ths
  simp only [set_register_of_failure h, hv, if_pos, if_neg (show ¬ (1 = 0) by decide)]
  rfl

theorem set_ff_mt_ths_issued (device : mma8451) (data : mma8451_register_ff_mt_ths) :
    issued device (mma8451_set_ff_mt_ths device data).device =
      [write_request device.addr MMA8451_REGISTER_FF_MT_THS
        (data.dbcntm % 2 * 128 + data.ths % 128)] := by
  cases h : outcome_at device 0 with
  | failure e => rw [set_ff_mt_ths_of_failure h]; simp [issued, refused]
  | success inbuf => rw [set_ff_mt_ths_of_success h]; simp [issued, logged]

set_option maxRecDepth 1000000 in
theorem get_ff_mt_cfg_of_read {device : mma8451} {b : Nat}
    (h : next_read device.file = some b) (data : mma8451_register_ff_mt_cfg) :
    mma8451_get_ff_mt_cfg device data =
      ⟨1, logged device (read_request device.addr MMA8451_REGISTER_FF_MT_CFG 1),
        { ele := b / 128 % 2,
          oae := b / 64 % 2,
          zefe := b / 32 % 2,
          yefe := b / 16 % 2,
          xefe := b / 8 % 2,
          unused1 := b / 4 % 2,
          unused2 := b / 2 % 2,
          unused3 := b % 2 }⟩ := by
  have hb := next_read_lt h
  simp only [mma8451_get_ff_mt_cfg, get_register_of_read h, Option.map,
    mma8451_register_ff_mt_cfg.with_generic, digits, if_neg (show ¬ (1 = 0) by decide),
    result.mk.injEq, mma8451_register_ff_mt_cfg.mk.injEq, true_and, and_true]
  clear h
  rfl

theorem get_ff_mt_cfg_of_failure {device : mma8451} {e : Nat}
    (h : outcome_at device 0 = .failure e) (data : mma8451_register_ff_mt_cfg) :
    mma8451_get_ff_mt_cfg device data =
      ⟨0, refused device (read_request device.addr MMA8451_REGISTER_FF_MT_CFG 1) e
        (.unable_to_get MMA8451_REGISTER_FF_MT_CFG e), data⟩ := by
  simp only [mma8451_get_ff_mt_cfg, get_register_of_failure h, if_pos]
  rfl

theorem set_ff_mt_cfg_value (data : mma8451_register_ff_mt_cfg) :
    weighted data.as_generic =
      data.ele % 2 * 128 + data.oae % 2 * 64 + data.zefe % 2 * 32 + data.yefe % 2 * 16 + data.xefe % 2 * 8 + data.unused1 % 2 * 4 + data.unused2 % 2 * 2 + data.unused3 % 2 := by
  simp only [weighted, mma8451_register_ff_mt_cfg.as_generic, Nat.and_one_is_mod,
    Nat.shiftRight_eq_div_pow, Nat.mod_mod, Nat.reducePow]

theorem set_ff_mt_cfg_of_success {device : mma8451} {inbuf : Nat → Nat}
    (h : outcome_at device 0 = .success inbuf) (data : mma8451_register_ff_mt_cfg) :
    mma8451_set_ff_mt_cfg device data =
      ⟨1, logged device (write_request device.addr MMA8451_REGISTER_FF_MT_CFG
          (data.ele % 2 * 128 + data.oae % 2 * 64 + data.zefe % 2 * 32 + data.yefe % 2 * 16 + data.xefe % 2 * 8 + data.unused1 % 2 * 4 + data.unused2 % 2 * 2 + data.unused3 % 2)),
        data⟩ := by
  have hv := set_ff_mt_cfg_value data
  unfold mma8451_set_ff_mt_cfg
  simp only [set_register_of_success h, hv, if_pos, if_neg (show ¬ (1 = 0) by decide)]
  rfl

theorem set_ff_mt_cfg_of_failure {device : mma8451} {e : Nat}
    (h : outcome_at device 0 = .failure e) (data : mma8451_register_ff_mt_cfg) :
    mma8451_set_ff_mt_cfg device data =
      ⟨0, refused device (write_request device.addr MMA8451_REGISTER_FF_MT_CFG
          (data.ele % 2 * 128 + data.oae % 2 * 64 + data.zefe % 2 * 32 + data.yefe % 2 * 16 + data.xefe % 2 * 8 + data.unused1 % 2 * 4 + data.unused2 % 2 * 2 + data.unused3 % 2)) e
          (.unable_to_set MMA8451_REGISTER_FF_MT_CFG e),
        data⟩ := by
  have hv := set_ff_mt_cfg_value data
  unfold mma8451_set_ff_mt_cfg
  simp only [set_register_of_failure h, hv, if_pos, if_neg (show ¬ (1 = 0) by decide)]
  rfl

theorem set_ff_mt_cfg_issued (device : mma8451) (data : mma8451_register_ff_mt_cfg) :
    issued device (mma8451_set_ff_mt_cfg device data).device =
      [write_request device.addr MMA8451_REGISTER_FF_MT_CFG
        (data.ele % 2 * 128 + data.oae % 2 * 64 + data.zefe % 2 * 32 + data.yefe % 2 * 16 + data.xefe % 2 * 8 + data.unused1 % 2 * 4 + data.unused2 % 2 * 2 + data.unused3 % 2)] := by
  cases h : outcome_at device 0 with
  | failure e => rw [set_ff_mt_cfg_of_failure h]; simp [issued, refused]
  | success inbuf => rw [set_ff_mt_cfg_of_success h]; simp [issued, logged]

set_option maxRecDepth 1000000 in
theorem get_ff_mt_src_of_read {device : mma8451} {b : Nat}
    (h : next_read device.file = some b) (data : mma8451_register_ff_mt_src) :
    mma8451_get_ff_mt_src device data =
      ⟨1, logged device (read_request device.addr MMA8451_REGISTER_FF_MT_SRC 1),
        { ea := b / 128 % 2,
          unused1 := b / 64 % 2,
          zhe := b / 32 % 2,
          zhp := b / 16 % 2,
          yhe := b / 8 % 2,
          yhp := b / 4 % 2,
          xhe := b / 2 % 2,
          xhp := b % 2 }⟩ := by
  have hb := next_read_lt h
  simp only [mma8451_get_ff_mt_src, get_register_of_read h, Option.map,
    mma8451_register_ff_mt_src.with_generic, digits, if_neg (show ¬ (1 = 0) by decide),
    result.mk.injEq, mma8451_register_ff_mt_src.mk.injEq, true_and, and_true]
  clear h
  rfl

theorem get_ff_mt_src_of_failure {device : mma8451} {e : Nat}
    (h : outcome_at device 0 = .failure e) (data : mma8451_register_ff_mt_src) :
    mma8451_get_ff_mt_src device data =
      ⟨0, refused device (read_request device.addr MMA8451_REGISTER_FF_MT_SRC 1) e
        (.unable_to_get MMA8451_REGISTER_FF_MT_SRC e), data⟩ := by
  simp only [mma8451_get_ff_mt_src, get_register_of_failure h, if_pos]
  rfl

set_option maxRecDepth 1000000 in
theorem get_transient_cfg_of_read {device : mma8451} {b : Nat}
    (h : next_read device.file = some b) (data : mma8451_register_transient_cfg) :
    mma8451_get_transient_cfg device data =
      ⟨1, logged device (read_request device.addr MMA8451_REGISTER_TRANSIENT_CFG 1),
        { unused1 := b / 128 % 2,
          unused2 := b / 64 % 2,
          unused3 := b / 32 % 2,
          ele := b / 16 % 2,
          ztefe := b / 8 % 2,
          ytefe := b / 4 % 2,
          xtefe := b / 2 % 2,
          hpf_byp := b % 2 }⟩ := by
  have hb := next_read_lt h
  simp only [mma8451_get_transient_cfg, get_register_of_read h, Option.map,
    mma8451_register_transient_cfg.with_generic, digits, if_neg (show ¬ (1 = 0) by decide),
    result.mk.injEq, mma8451_register_transient_cfg.mk.injEq, true_and, and_true]
  clear h
  rfl

theorem get_transient_cfg_of_failure {device : mma8451} {e : Nat}
    (h : outcome_at device 0 = .failure e) (data : mma8451_register_transient_cfg) :
    mma8451_get_transient_cfg device data =
      ⟨0, refused device (read_request device.addr MMA8451_REGISTER_TRANSIENT_CFG 1) e
        (.unable_to_get MMA8451_REGISTER_TRANSIENT_CFG e), data⟩ := by
  simp only [mma8451_get_transient_cfg, get_register_of_failure h, if_pos]
  rfl

theorem set_transient_cfg_value (data : mma8451_register_transient_cfg) :
    weighted data.as_generic =
      data.unused1 % 2 * 128 + data.unused2 % 2 * 64 + data.unused3 % 2 * 32 + data.ele % 2 * 16 + data.ztefe % 2 * 8 + data.ytefe % 2 * 4 + data.xtefe % 2 * 2 + data.hpf_byp % 2 := by
  simp only [weighted, mma8451_register_transient_cfg.as_generic, Nat.and_one_is_mod,
    Nat.shiftRight_eq_div_pow, Nat.mod_mod, Nat.reducePow]

theorem set_transient_cfg_of_success {device : mma8451} {inbuf : Nat → Nat}
    (h : outcome_at device 0 = .success inbuf) (data : mma8451_register_transient_cfg) :
    mma8451_set_transient_cfg device data =
      ⟨1, logged device (write_request device.addr MMA8451_REGISTER_TRANSIENT_CFG
          (data.unused1 % 2 * 128 + data.unused2 % 2 * 64 + data.unused3 % 2 * 32 + data.ele % 2 * 16 + data.ztefe % 2 * 8 + data.ytefe % 2 * 4 + data.xtefe % 2 * 2 + data.hpf_byp % 2)),
        data⟩ := by
  have hv := set_transient_cfg_value data
  unfold mma8451_set_transient_cfg
  simp only [set_register_of_success h, hv, if_pos, if_neg (show ¬ (1 = 0) by decide)]
  rfl

theorem set_transient_cfg_of_failure {device : mma8451} {e : Nat}
    (h : outcome_at device 0 = .failure e) (data : mma8451_register_transient_cfg) :
    mma8451_set_transient_cfg device data =
      ⟨0, refused device (write_request device.addr MMA8451_REGISTER_TRANSIENT_CFG
          (data.unused1 % 2 * 128 + data.unused2 % 2 * 64 + data.unused3 % 2 * 32 + data.ele % 2 * 16 + data.ztefe % 2 * 8 + data.ytefe % 2 * 4 + data.xtefe % 2 * 2 + data.hpf_byp % 2)) e
          (.unable_to_set MMA8451_REGISTER_TRANSIENT_CFG e),
        data⟩ := by
  have hv := set_transient_cfg_value data
  unfold mma8451_set_transient_cfg
  simp only [set_register_of_failure h, hv, if_pos, if_neg (show ¬ (1 = 0) by decide)]
  rfl

theorem set_transient_cfg_issued (device : mma8451) (data : mma8451_register_transient_cfg) :
    issued device (mma8451_set_transient_cfg device data).device =
      [write_request device.addr MMA8451_REGISTER_TRANSIENT_CFG
        (data.unused1 % 2 * 128 + data.unused2 % 2 * 64 + data.unused3 % 2 * 32 + data.ele % 2 * 16 + data.ztefe % 2 * 8 + data.ytefe % 2 * 4 + data.xtefe % 2 * 2 + data.hpf_byp % 2)] := by
  cases h : outcome_at device 0 with
  | failure e => rw [set_transient_cfg_of_failure h]; simp [issued, refused]
  | success inbuf => rw [set_transient_cfg_of_success h]; simp [issued, logged]

set_option maxRecDepth 1000000 in
theorem get_transient_scr_of_read {device : mma8451} {b : Nat}
    (h : next_read device.file = some b) (data : mma8451_register_transient_scr) :
    mma8451_get_transient_scr device data =
      ⟨1, logged device (read_request device.addr MMA8451_REGISTER_TRANSIENT_SCR 1),
        { unused := b / 128 % 2,
          ea := b / 64 % 2,
          ztranse := b / 32 % 2,
          z_trans_pol := b / 16 % 2,
          ytranse := b / 8 % 2,
          y_trans_pol := b / 4 % 2,
          xtranse := b / 2 % 2,
          x_trans_pol := b % 2 }⟩ := by
  have hb := next_read_lt h
  simp only [mma8451_get_transient_scr, get_register_of_read h, Option.map,
    mma8451_register_transient_scr.with_generic, digits, if_neg (show ¬ (1 = 0) by decide),
    result.mk.injEq, mma8451_register_transient_scr.mk.injEq, true_and, and_true]
  clear h
  rfl

theorem get_transient_scr_of_failure {device : mma8451} {e : Nat}
    (h : outcome_at device 0 = .failure e) (data : mma8451_register_transient_scr) :
    mma8451_get_transient_scr device data =
      ⟨0, refused device (read_request device.addr MMA8451_REGISTER_TRANSIENT_SCR 1) e
        (.unable_to_get MMA8451_REGISTER_TRANSIENT_SCR e), data⟩ := by
  simp only [mma8451_get_transient_scr, get_register_of_failure h, if_pos]
  rfl

set_option maxRecDepth 1000000 in
theorem get_transient_ths_of_read {device : mma8451} {b : Nat}
    (h : next_read device.file = some b) (data : mma8451_register_transient_ths) :
    mma8451_get_transient_ths device data =
      ⟨1, logged device (read_request device.addr MMA8451_REGISTER_TRANSIENT_THS 1),
        { dbcntm := b / 128 % 2,
          ths6 := b / 64 % 2,
          ths5 := b / 32 % 2,
          ths4 := b / 16 % 2,
          ths3 := b / 8 % 2,
          ths2 := b / 4 % 2,
          ths1 := b / 2 % 2,
          ths0 := b % 2,
          ths := b % 128 }⟩ := by
  have hb := next_read_lt h
  simp only [mma8451_get_transient_ths, get_register_of_read h, Option.map,
    mma8451_register_transient_ths.with_generic, digits, if_neg (show ¬ (1 = 0) by decide),
    result.mk.injEq, mma8451_register_transient_ths.mk.injEq, true_and, and_true]
  clear h
  refine ⟨rfl, ?_⟩
  revert b
  decide

theorem get_transient_ths_of_failure {device : mma8451} {e : Nat}
    (h : outcome_at device 0 = .failure e) (data : mma8451_register_transient_ths) :
    mma8451_get_transient_ths device data =
      ⟨0, refused device (read_request device.addr MMA8451_REGISTER_TRANSIENT_THS 1) e
        (.unable_to_get MMA8451_REGISTER_TRANSIENT_THS e), data⟩ := by
  simp only [mma8451_get_transient_ths, get_register_of_failure h, if_pos]
  rfl

theorem set_transient_ths_value (data : mma8451_register_transient_ths) :
    weighted ({ data with
        ths6 := (data.ths >>> 6) &&& 0x1,
        ths5 := (data.ths >>> 5) &&& 0x1,
        ths4 := (data.ths >>> 4) &&& 0x1,
        ths3 := (data.ths >>> 3) &&& 0x1,
        ths2 := (data.ths >>> 2) &&& 0x1,
        ths1 := (data.ths >>> 1) &&& 0x1,
        ths0 := (data.ths) &&& 0x1 } : mma8451_register_transient_ths).as_generic =
      data.dbcntm % 2 * 128 + data.ths % 128 := by
  simp only [weighted, mma8451_register_transient_ths.as_generic, Nat.and_one_is_mod,
    Nat.shiftRight_eq_div_pow, Nat.mod_mod, Nat.reducePow]
  have := compose_bits7 data.ths
  omega

theorem set_transient_ths_of_success {device : mma8451} {inbuf : Nat → Nat}
    (h : outcome_at device 0 = .success inbuf) (data : mma8451_register_transient_ths) :
    mma8451_set_transient_ths device data =
      ⟨1, logged device (write_request device.addr MMA8451_REGISTER_TRANSIENT_THS
          (data.dbcntm % 2 * 128 + data.ths % 128)),
        ({ data with
        ths6 := (data.ths >>> 6) &&& 0x1,
        ths5 := (data.ths >>> 5) &&& 0x1,
        ths4 := (data.ths >>> 4) &&& 0x1,
        ths3 := (data.ths >>> 3) &&& 0x1,
        ths2 := (data.ths >>> 2) &&& 0x1,
        ths1 := (data.ths >>> 1) &&& 0x1,
        ths0 := (data.ths) &&& 0x1 } : mma8451_register_transient_ths)⟩ := by
  have hv := set_transient_ths_value data
  unfold mma8451_set_transient_ths
  simp only [set_register_of_success h, hv, if_pos, if_neg (show ¬ (1 = 0) by decide)]
  rfl

theorem set_transient_ths_of_failure {device : mma8451} {e : Nat}
    (h : outcome_at device 0 = .failure e) (data : mma8451_register_transient_ths) :
    mma8451_set_transient_ths device data =
      ⟨0, refused device (write_request device.addr MMA8451_REGISTER_TRANSIENT_THS
          (data.dbcntm % 2 * 128 + data.ths % 128)) e
          (.unable_to_set MMA8451_REGISTER_TRANSIENT_THS e),
        ({ data with
        ths6 := (data.ths >>> 6) &&& 0x1,
        ths5 := (data.ths >>> 5) &&& 0x1,
        ths4 := (data.ths >>> 4) &&& 0x1,
        ths3 := (data.ths >>> 3) &&& 0x1,
        ths2 := (data.ths >>> 2) &&& 0x1,
        ths1 := (data.ths >>> 1) &&& 0x1,
        ths0 := (data.ths) &&& 0x1 } : mma8451_register_transient_ths)⟩ := by
  have hv := set_transient_ths_value data
  unfold mma8451_set_transient_ths
  simp only [set_register_of_failure h, hv, if_pos, if_neg (show ¬ (1 = 0) by decide)]
  rfl

theorem set_transient_ths_issued (device : mma8451) (data : mma8451_register_transient_ths) :
    issued device (mma8451_set_transient_ths device data).device =
      [write_request device.addr MMA8451_REGISTER_TRANSIENT_THS
        (data.dbcntm % 2 * 128 + data.ths % 128)] := by
  cases h : outcome_at device 0 with
  | failure e => rw [set_transient_ths_of_failure h]; simp [issued, refused]
  | success inbuf => rw [set_transient_ths_of_success h]; simp [issued, logged]

set_option maxRecDepth 1000000 in
theorem get_pulse_cfg_of_read {device : mma8451} {b : Nat}
    (h : next_read device.file = some b) (data : mma8451_register_pulse_cfg) :
    mma8451_get_pulse_cfg device data =
      ⟨1, logged device (read_request device.addr MMA8451_REGISTER_PULSE_CFG 1),
        { dpa := b / 128 % 2,
          ele := b / 64 % 2,
          zdpefe := b / 32 % 2,
          zspefe := b / 16 % 2,
          ydpefe := b / 8 % 2,
          yspefe := b / 4 % 2,
          xdpefe := b / 2 % 2,
          xspefe := b % 2 }⟩ := by
  have hb := next_read_lt h
  simp only [mma8451_get_pulse_cfg, get_register_of_read h, Option.map,
    mma8451_register_pulse_cfg.with_generic, digits, if_neg (show ¬ (1 = 0) by decide),
    result.mk.injEq, mma8451_register_pulse_cfg.mk.injEq, true_and, and_true]
  clear h
  rfl

theorem get_pulse_cfg_of_failure {device : mma8451} {e : Nat}
    (h : outcome_at device 0 = .failure e) (data : mma8451_register_pulse_cfg) :
    mma8451_get_pulse_cfg device data =
      ⟨0, refused device (read_request device.addr MMA8451_REGISTER_PULSE_CFG 1) e
        (.unable_to_get MMA8451_REGISTER_PULSE_CFG e), data⟩ := by
  simp only [mma8451_get_pulse_cfg, get_register_of_failure h, if_pos]
  rfl

theorem set_pulse_cfg_value (data : mma8451_register_pulse_cfg) :
    weighted data.as_generic =
      data.dpa % 2 * 128 + data.ele % 2 * 64 + data.zdpefe % 2 * 32 + data.zspefe % 2 * 16 + data.ydpefe % 2 * 8 + data.yspefe % 2 * 4 + data.xdpefe % 2 * 2 + data.xspefe % 2 := by
  simp only [weighted, mma8451_register_pulse_cfg.as_generic, Nat.and_one_is_mod,
    Nat.shiftRight_eq_div_pow, Nat.mod_mod, Nat.reducePow]

theorem set_pulse_cfg_of_success {device : mma8451} {inbuf : Nat → Nat}
    (h : outcome_at device 0 = .success inbuf) (data : mma8451_register_pulse_cfg) :
    mma8451_set_pulse_cfg device data =
      ⟨1, logged device (write_request device.addr MMA8451_REGISTER_PULSE_CFG
          (data.dpa % 2 * 128 + data.ele % 2 * 64 + data.zdpefe % 2 * 32 + data.zspefe % 2 * 16 + data.ydpefe % 2 * 8 + data.yspefe % 2 * 4 + data.xdpefe % 2 * 2 + data.xspefe % 2)),
        data⟩ := by
  have hv := set_pulse_cfg_value data
  unfold mma8451_set_pulse_cfg
  simp only [set_register_of_success h, hv, if_pos, if_neg (show ¬ (1 = 0) by decide)]
  rfl

theorem set_pulse_cfg_of_failure {device : mma8451} {e : Nat}
    (h : outcome_at device 0 = .failure e) (data : mma8451_register_pulse_cfg) :
    mma8451_set_pulse_cfg device data =
      ⟨0, refused device (write_request device.addr MMA8451_REGISTER_PULSE_CFG
          (data.dpa % 2 * 128 + data.ele % 2 * 64 + data.zdpefe % 2 * 32 + data.zspefe % 2 * 16 + data.ydpefe % 2 * 8 + data.yspefe % 2 * 4 + data.xdpefe % 2 * 2 + data.xspefe % 2)) e
          (.unable_to_set MMA8451_REGISTER_PULSE_CFG e),
        data⟩ := by
  have hv := set_pulse_cfg_value data
  unfold mma8451_set_pulse_cfg
  simp only [set_register_of_failure h, hv, if_pos, if_neg (show ¬ (1 = 0) by decide)]
  rfl

theorem set_pulse_cfg_issued (device : mma8451) (data : mma8451_register_pulse_cfg) :
    issued device (mma8451_set_pulse_cfg device data).device =
      [write_request device.addr MMA8451_REGISTER_PULSE_CFG
        (data.dpa % 2 * 128 + data.ele % 2 * 64 + data.zdpefe % 2 * 32 + data.zspefe % 2 * 16 + data.ydpefe % 2 * 8 + data.yspefe % 2 * 4 + data.xdpefe % 2 * 2 + data.xspefe % 2)] := by
  cases h : outcome_at device 0 with
  | failure e => rw [set_pulse_cfg_of_failure h]; simp [issued, refused]
  | success inbuf => rw [set_pulse_cfg_of_success h]; simp [issued, logged]

set_option maxRecDepth 1000000 in
theorem get_pulse_src_of_read {device : mma8451} {b : Nat}
    (h : next_read device.file = some b) (data : mma8451_register_pulse_src) :
    mma8451_get_pulse_src device data =
      ⟨1, logged device (read_request device.addr MMA8451_REGISTER_PULSE_SRC 1),
        { ea := b / 128 % 2,
          axz := b / 64 % 2,
          axy := b / 32 % 2,
          axx := b / 16 % 2,
          dpe := b / 8 % 2,
          polz := b / 4 % 2,
          poly := b / 2 % 2,
          polx := b % 2 }⟩ := by
  have hb := next_read_lt h
  simp only [mma8451_get_pulse_src, get_register_of_read h, Option.map,
    mma8451_register_pulse_src.with_generic, digits, if_neg (show ¬ (1 = 0) by decide),
    result.mk.injEq, mma8451_register_pulse_src.mk.injEq, true_and, and_true]
  clear h
  rfl

theorem get_pulse_src_of_failure {device : mma8451} {e : Nat}
    (h : outcome_at device 0 = .failure e) (data : mma8451_register_pulse_src) :
    mma8451_get_pulse_src device data =
      ⟨0, refused device (read_request device.addr MMA8451_REGISTER_PULSE_SRC 1) e
        (.unable_to_get MMA8451_REGISTER_PULSE_SRC e), data⟩ := by
  simp only [mma8451_get_pulse_src, get_register_of_failure h, if_pos]
  rfl

set_option maxRecDepth 1000000 in
theorem get_pulse_thsx_of_read {device : mma8451} {b : Nat}
    (h : next_read device.file = some b) (data : mma8451_register_pulse_ths) :
    mma8451_get_pulse_thsx device data =
      ⟨1, logged device (read_request device.addr MMA8451_REGISTER_PULSE_THSX 1),
        { unused := b / 128 % 2,
          ths6 := b / 64 % 2,
          ths5 := b / 32 % 2,
          ths4 := b / 16 % 2,
          ths3 := b / 8 % 2,
          ths2 := b / 4 % 2,
          ths1 := b / 2 % 2,
          ths0 := b % 2,
          ths := b % 128 }⟩ := by
  have hb := next_read_lt h
  simp only [mma8451_get_pulse_thsx, get_register_of_read h, Option.map,
    mma8451_register_pulse_ths.with_generic, digits, if_neg (show ¬ (1 = 0) by decide),
    result.mk.injEq, mma8451_register_pulse_ths.mk.injEq, true_and, and_true]
  clear h
  refine ⟨rfl, ?_⟩
  revert b
  decide

theorem get_pulse_thsx_of_failure {device : mma8451} {e : Nat}
    (h : outcome_at device 0 = .failure e) (data : mma8451_register_pulse_ths) :
    mma8451_get_pulse_thsx device data =
      ⟨0, refused device (read_request device.addr MMA8451_REGISTER_PULSE_THSX 1) e
        (.unable_to_get MMA8451_REGISTER_PULSE_THSX e), data⟩ := by
  simp only [mma8451_get_pulse_thsx, get_register_of_failure h, if_pos]
  rfl

theorem set_pulse_thsx_value (data : mma8451_register_pulse_ths) :
    weighted ({ data with
        ths6 := (data.ths >>> 6) &&& 0x1,
        ths5 := (data.ths >>> 5) &&& 0x1,
        ths4 := (data.ths >>> 4) &&& 0x1,
        ths3 := (data.ths >>> 3) &&& 0x1,
        ths2 := (data.ths >>> 2) &&& 0x1,
        ths1 := (data.ths >>> 1) &&& 0x1,
        ths0 := (data.ths) &&& 0x1 } : mma8451_register_pulse_ths).as_generic =
      data.unused % 2 * 128 + data.ths % 128 := by
  simp only [weighted, mma8451_register_pulse_ths.as_generic, Nat.and_one_is_mod,
    Nat.shiftRight_eq_div_pow, Nat.mod_mod, Nat.reducePow]
  have := compose_bits7 data.ths
  omega

theorem set_pulse_thsx_of_success {device : mma8451} {inbuf : Nat → Nat}
    (h : outcome_at device 0 = .success inbuf) (data : mma8451_register_pulse_ths) :
    mma8451_set_pulse_thsx device data =
      ⟨1, logged device (write_request device.addr MMA8451_REGISTER_PULSE_THSX
          (data.unused % 2 * 128 + data.ths % 128)),
        ({ data with
        ths6 := (data.ths >>> 6) &&& 0x1,
        ths5 := (data.ths >>> 5) &&& 0x1,
        ths4 := (data.ths >>> 4) &&& 0x1,
        ths3 := (data.ths >>> 3) &&& 0x1,
        ths2 := (data.ths >>> 2) &&& 0x1,
        ths1 := (data.ths >>> 1) &&& 0x1,
        ths0 := (data.ths) &&& 0x1 } : mma8451_register_pulse_ths)⟩ := by
  have hv := set_pulse_thsx_value data
  unfold mma8451_set_pulse_thsx
  simp only [set_register_of_success h, hv, if_pos, if_neg (show ¬ (1 = 0) by decide)]
  rfl

theorem set_pulse_thsx_of_failure {device : mma8451} {e : Nat}
    (h : outcome_at device 0 = .failure e) (data : mma8451_register_pulse_ths) :
    mma8451_set_pulse_thsx device data =
      ⟨0, refused device (write_request device.addr MMA8451_REGISTER_PULSE_THSX
          (data.unused % 2 * 128 + data.ths % 128)) e
          (.unable_to_set MMA8451_REGISTER_PULSE_THSX e),
        ({ data with
        ths6 := (data.ths >>> 6) &&& 0x1,
        ths5 := (data.ths >>> 5) &&& 0x1,
        ths4 := (data.ths >>> 4) &&& 0x1,
        ths3 := (data.ths >>> 3) &&& 0x1,
        ths2 := (data.ths >>> 2) &&& 0x1,
        ths1 := (data.ths >>> 1) &&& 0x1,
        ths0 := (data.ths) &&& 0x1 } : mma8451_register_pulse_ths)⟩ := by
  have hv := set_pulse_thsx_value data
  unfold mma8451_set_pulse_thsx
  simp only [set_register_of_failure h, hv, if_pos, if_neg (show ¬ (1 = 0) by decide)]
  rfl

theorem set_pulse_thsx_issued (device : mma8451) (data : mma8451_register_pulse_ths) :
    issued device (mma8451_set_pulse_thsx device data).device =
      [write_request device.addr MMA8451_REGISTER_PULSE_THSX
        (data.unused % 2 * 128 + data.ths % 128)] := by
  cases h : outcome_at device 0 with
  | failure e => rw [set_pulse_thsx_of_failure h]; simp [issued, refused]
  | success inbuf => rw [set_pulse_thsx_of_success h]; simp [issued, logged]

set_option maxRecDepth 1000000 in
theorem get_pulse_thsy_of_read {device : mma8451} {b : Nat}
    (h : next_read device.file = some b) (data : mma8451_register_pulse_ths) :
    mma8451_get_pulse_thsy device data =
      ⟨1, logged device (read_request device.addr MMA8451_REGISTER_PULSE_THSY 1),
        { unused := b / 128 % 2,
          ths6 := b / 64 % 2,
          ths5 := b / 32 % 2,
          ths4 := b / 16 % 2,
          ths3 := b / 8 % 2,
          ths2 := b / 4 % 2,
          ths1 := b / 2 % 2,
          ths0 := b % 2,
          ths := b % 128 }⟩ := by
  have hb := next_read_lt h
  simp only [mma8451_get_pulse_thsy, get_register_of_read h, Option.map,
    mma8451_register_pulse_ths.with_generic, digits, if_neg (show ¬ (1 = 0) by decide),
    result.mk.injEq, mma8451_register_pulse_ths.mk.injEq, true_and, and_true]
  clear h
  refine ⟨rfl, ?_⟩
  revert b
  decide

theorem get_pulse_thsy_of_failure {device : mma8451} {e : Nat}
    (h : outcome_at device 0 = .failure e) (data : mma8451_register_pulse_ths) :
    mma8451_get_pulse_thsy device data =
      ⟨0, refused device (read_request device.addr MMA8451_REGISTER_PULSE_THSY 1) e
        (.unable_to_get MMA8451_REGISTER_PULSE_THSY e), data⟩ := by
  simp only [mma8451_get_pulse_thsy, get_register_of_failure h, if_pos]
  rfl

theorem set_pulse_thsy_value (data : mma8451_register_pulse_ths) :
    weighted ({ data with
        ths6 := (data.ths >>> 6) &&& 0x1,
        ths5 := (data.ths >>> 5) &&& 0x1,
        ths4 := (data.ths >>> 4) &&& 0x1,
        ths3 := (data.ths >>> 3) &&& 0x1,
        ths2 := (data.ths >>> 2) &&& 0x1,
        ths1 := (data.ths >>> 1) &&& 0x1,
        ths0 := (data.ths) &&& 0x1 } : mma8451_register_pulse_ths).as_generic =
      data.unused % 2 * 128 + data.ths % 128 := by
  simp only [weighted, mma8451_register_pulse_ths.as_generic, Nat.and_one_is_mod,
    Nat.shiftRight_eq_div_pow, Nat.mod_mod, Nat.reducePow]
  have := compose_bits7 data.ths
  omega

theorem set_pulse_thsy_of_success {device : mma8451} {inbuf : Nat → Nat}
    (h : outcome_at device 0 = .success inbuf) (data : mma8451_register_pulse_ths) :
    mma8451_set_pulse_thsy device data =
      ⟨1, logged device (write_request device.addr MMA8451_REGISTER_PULSE_THSY
          (data.unused % 2 * 128 + data.ths % 128)),
        ({ data with
        ths6 := (data.ths >>> 6) &&& 0x1,
        ths5 := (data.ths >>> 5) &&& 0x1,
        ths4 := (data.ths >>> 4) &&& 0x1,
        ths3 := (data.ths >>> 3) &&& 0x1,
        ths2 := (data.ths >>> 2) &&& 0x1,
        ths1 := (data.ths >>> 1) &&& 0x1,
        ths0 := (data.ths) &&& 0x1 } : mma8451_register_pulse_ths)⟩ := by
  have hv := set_pulse_thsy_value data
  unfold mma8451_set_pulse_thsy
  simp only [set_register_of_success h, hv, if_pos, if_neg (show ¬ (1 = 0) by decide)]
  rfl

theorem set_pulse_thsy_of_failure {device : mma8451} {e : Nat}
    (h : outcome_at device 0 = .failure e) (data : mma8451_register_pulse_ths) :
    mma8451_set_pulse_thsy device data =
      ⟨0, refused device (write_request device.addr MMA8451_REGISTER_PULSE_THSY
          (data.unused % 2 * 128 + data.ths % 128)) e
          (.unable_to_set MMA8451_REGISTER_PULSE_THSY e),
        ({ data with
        ths6 := (data.ths >>> 6) &&& 0x1,
        ths5 := (data.ths >>> 5) &&& 0x1,
        ths4 := (data.ths >>> 4) &&& 0x1,
        ths3 := (data.ths >>> 3) &&& 0x1,
        ths2 := (data.ths >>> 2) &&& 0x1,
        ths1 := (data.ths >>> 1) &&& 0x1,
        ths0 := (data.ths) &&& 0x1 } : mma8451_register_pulse_ths)⟩ := by
  have hv := set_pulse_thsy_value data
  unfold mma8451_set_pulse_thsy
  simp only [set_register_of_failure h, hv, if_pos, if_neg (show ¬ (1 = 0) by decide)]
  rfl

theorem set_pulse_thsy_issued (device : mma8451) (data : mma8451_register_pulse_ths) :
    issued device (mma8451_set_pulse_thsy device data).device =
      [write_request device.addr MMA8451_REGISTER_PULSE_THSY
        (data.unused % 2 * 128 + data.ths % 128)] := by
  cases h : outcome_at device 0 with
  | failure e => rw [set_pulse_thsy_of_failure h]; simp [issued, refused]
  | success inbuf => rw [set_pulse_thsy_of_success h]; simp [issued, logged]

set_option maxRecDepth 1000000 in
theorem get_pulse_thsz_of_read {device : mma8451} {b : Nat}
    (h : next_read device.file = some b) (data : mma8451_register_pulse_ths) :
    mma8451_get_pulse_thsz device data =
      ⟨1, logged device (read_request device.addr MMA8451_REGISTER_PULSE_THSZ 1),
        { unused := b / 128 % 2,
          ths6 := b / 64 % 2,
          ths5 := b / 32 % 2,
          ths4 := b / 16 % 2,
          ths3 := b / 8 % 2,
          ths2 := b / 4 % 2,
          ths1 := b / 2 % 2,
          ths0 := b % 2,
          ths := b % 128 }⟩ := by
  have hb := next_read_lt h
  simp only [mma8451_get_pulse_thsz, get_register_of_read h, Option.map,
    mma8451_register_pulse_ths.with_generic, digits, if_neg (show ¬ (1 = 0) by decide),
    result.mk.injEq, mma8451_register_pulse_ths.mk.injEq, true_and, and_true]
  clear h
  refine ⟨rfl, ?_⟩
  revert b
  decide

theorem get_pulse_thsz_of_failure {device : mma8451} {e : Nat}
    (h : outcome_at device 0 = .failure e) (data : mma8451_register_pulse_ths) :
    mma8451_get_pulse_thsz device data =
      ⟨0, refused device (read_request device.addr MMA8451_REGISTER_PULSE_THSZ 1) e
        (.unable_to_get MMA8451_REGISTER_PULSE_THSZ e), data⟩ := by
  simp only [mma8451_get_pulse_thsz, get_register_of_failure h, if_pos]
  rfl

theorem set_pulse_thsz_value (data : mma8451_register_pulse_ths) :
    weighted ({ data with
        ths6 := (data.ths >>> 6) &&& 0x1,
        ths5 := (data.ths >>> 5) &&& 0x1,
        ths4 := (data.ths >>> 4) &&& 0x1,
        ths3 := (data.ths >>> 3) &&& 0x1,
        ths2 := (data.ths >>> 2) &&& 0x1,
        ths1 := (data.ths >>> 1) &&& 0x1,
        ths0 := (data.ths) &&& 0x1 } : mma8451_register_pulse_ths).as_generic =
      data.unused % 2 * 128 + data.ths % 128 := by
  simp only [weighted, mma8451_register_pulse_ths.as_generic, Nat.and_one_is_mod,
    Nat.shiftRight_eq_div_pow, Nat.mod_mod, Nat.reducePow]
  have := compose_bits7 data.ths
  omega

theorem set_pulse_thsz_of_success {device : mma8451} {inbuf : Nat → Nat}
    (h : outcome_at device 0 = .success inbuf) (data : mma8451_register_pulse_ths) :
    mma8451_set_pulse_thsz device data =
      ⟨1, logged device (write_request device.addr MMA8451_REGISTER_PULSE_THSZ
          (data.unused % 2 * 128 + data.ths % 128)),
        ({ data with
        ths6 := (data.ths >>> 6) &&& 0x1,
        ths5 := (data.ths >>> 5) &&& 0x1,
        ths4 := (data.ths >>> 4) &&& 0x1,
        ths3 := (data.ths >>> 3) &&& 0x1,
        ths2 := (data.ths >>> 2) &&& 0x1,
        ths1 := (data.ths >>> 1) &&& 0x1,
        ths0 := (data.ths) &&& 0x1 } : mma8451_register_pulse_ths)⟩ := by
  have hv := set_pulse_thsz_value data
  unfold mma8451_set_pulse_thsz
  simp only [set_register_of_success h, hv, if_pos, if_neg (show ¬ (1 = 0) by decide)]
  rfl

theorem set_pulse_thsz_of_failure {device : mma8451} {e : Nat}
    (h : outcome_at device 0 = .failure e) (data : mma8451_register_pulse_ths) :
    mma8451_set_pulse_thsz device data =
      ⟨0, refused device (write_request device.addr MMA8451_REGISTER_PULSE_THSZ
          (data.unused % 2 * 128 + data.ths % 128)) e
          (.unable_to_set MMA8451_REGISTER_PULSE_THSZ e),
        ({ data with
        ths6 := (data.ths >>> 6) &&& 0x1,
        ths5 := (data.ths >>> 5) &&& 0x1,
        ths4 := (data.ths >>> 4) &&& 0x1,
        ths3 := (data.ths >>> 3) &&& 0x1,
        ths2 := (data.ths >>> 2) &&& 0x1,
        ths1 := (data.ths >>> 1) &&& 0x1,
        ths0 := (data.ths) &&& 0x1 } : mma8451_register_pulse_ths)⟩ := by
  have hv := set_pulse_thsz_value data
  unfold mma8451_set_pulse_thsz
  simp only [set_register_of_failure h, hv, if_pos, if_neg (show ¬ (1 = 0) by decide)]
  rfl

theorem set_pulse_thsz_issued (device : mma8451) (data : mma8451_register_pulse_ths) :
    issued device (mma8451_set_pulse_thsz device data).device =
      [write_request device.addr MMA8451_REGISTER_PULSE_THSZ
        (data.unused % 2 * 128 + data.ths % 128)] := by
  cases h : outcome_at device 0 with
  | failure e => rw [set_pulse_thsz_of_failure h]; simp [issued, refused]
  | success inbuf => rw [set_pulse_thsz_of_success h]; simp [issued, logged]

set_option maxRecDepth 1000000 in
theorem get_ctrl_reg1_of_read {device : mma8451} {b : Nat}
    (h : next_read device.file = some b) (data : mma8451_register_ctrl_reg1) :
    mma8451_get_ctrl_reg1 device data =
      ⟨1, logged device (read_request device.addr MMA8451_REGISTER_CTRL_REG1 1),
        { aslp_rate1 := b / 128 % 2,
          aslp_rate0 := b / 64 % 2,
          dr2 := b / 32 % 2,
          dr1 := b / 16 % 2,
          dr0 := b / 8 % 2,
          lnoise := b / 4 % 2,
          f_read := b / 2 % 2,
          active := b % 2,
          aslp_rate := b / 64,
          dr := b / 8 % 8 }⟩ := by
  have hb := next_read_lt h
  simp only [mma8451_get_ctrl_reg1, get_register_of_read h, Option.map,
    mma8451_register_ctrl_reg1.with_generic, digits, if_neg (show ¬ (1 = 0) by decide),
    result.mk.injEq, mma8451_register_ctrl_reg1.mk.injEq, true_and, and_true]
  clear h
  refine ⟨rfl, ?_, ?_⟩ <;> (revert b; decide)

theorem get_ctrl_reg1_of_failure {device : mma8451} {e : Nat}
    (h : outcome_at device 0 = .failure e) (data : mma8451_register_ctrl_reg1) :
    mma8451_get_ctrl_reg1 device data =
      ⟨0, refused device (read_request device.addr MMA8451_REGISTER_CTRL_REG1 1) e
        (.unable_to_get MMA8451_REGISTER_CTRL_REG1 e), data⟩ := by
  simp only [mma8451_get_ctrl_reg1, get_register_of_failure h, if_pos]
  rfl

theorem set_ctrl_reg1_value (data : mma8451_register_ctrl_reg1) :
    weighted ({ data with
        aslp_rate1 := (data.aslp_rate >>> 1) &&& 0x1,
        aslp_rate0 := (data.aslp_rate) &&& 0x1,
        dr2 := (data.dr >>> 2) &&& 0x1,
        dr1 := (data.dr >>> 1) &&& 0x1,
        dr0 := (data.dr) &&& 0x1 } : mma8451_register_ctrl_reg1).as_generic =
      data.aslp_rate % 4 * 64 + data.dr % 8 * 8 + data.lnoise % 2 * 4 + data.f_read % 2 * 2 + data.active % 2 := by
  simp only [weighted, mma8451_register_ctrl_reg1.as_generic, Nat.and_one_is_mod,
    Nat.shiftRight_eq_div_pow, Nat.mod_mod, Nat.reducePow]
  omega

theorem set_ctrl_reg1_of_success {device : mma8451} {inbuf : Nat → Nat}
    (h : outcome_at device 0 = .success inbuf) (data : mma8451_register_ctrl_reg1) :
    mma8451_set_ctrl_reg1 device data =
      ⟨1, { logged device (write_request device.addr MMA8451_REGISTER_CTRL_REG1
          (data.aslp_rate % 4 * 64 + data.dr % 8 * 8 + data.lnoise % 2 * 4 + data.f_read % 2 * 2 + data.active % 2)) with
          data_size := data.f_read },
        ({ data with
        aslp_rate1 := (data.aslp_rate >>> 1) &&& 0x1,
        aslp_rate0 := (data.aslp_rate) &&& 0x1,
        dr2 := (data.dr >>> 2) &&& 0x1,
        dr1 := (data.dr >>> 1) &&& 0x1,
        dr0 := (data.dr) &&& 0x1 } : mma8451_register_ctrl_reg1)⟩ := by
  have hv := set_ctrl_reg1_value data
  unfold mma8451_set_ctrl_reg1
  simp only [set_register_of_success h, hv, if_pos, if_neg (show ¬ (1 = 0) by decide)]
  rfl

theorem set_ctrl_reg1_of_failure {device : mma8451} {e : Nat}
    (h : outcome_at device 0 = .failure e) (data : mma8451_register_ctrl_reg1) :
    mma8451_set_ctrl_reg1 device data =
      ⟨0, refused device (write_request device.addr MMA8451_REGISTER_CTRL_REG1
          (data.aslp_rate % 4 * 64 + data.dr % 8 * 8 + data.lnoise % 2 * 4 + data.f_read % 2 * 2 + data.active % 2)) e
          (.unable_to_set MMA8451_REGISTER_CTRL_REG1 e),
        ({ data with
        aslp_rate1 := (data.aslp_rate >>> 1) &&& 0x1,
        aslp_rate0 := (data.aslp_rate) &&& 0x1,
        dr2 := (data.dr >>> 2) &&& 0x1,
        dr1 := (data.dr >>> 1) &&& 0x1,
        dr0 := (data.dr) &&& 0x1 } : mma8451_register_ctrl_reg1)⟩ := by
  have hv := set_ctrl_reg1_value data
  unfold mma8451_set_ctrl_reg1
  simp only [set_register_of_failure h, hv, if_pos, if_neg (show ¬ (1 = 0) by decide)]
  rfl

theorem set_ctrl_reg1_issued (device : mma8451) (data : mma8451_register_ctrl_reg1) :
    issued device (mma8451_set_ctrl_reg1 device data).device =
      [write_request device.addr MMA8451_REGISTER_CTRL_REG1
        (data.aslp_rate % 4 * 64 + data.dr % 8 * 8 + data.lnoise % 2 * 4 + data.f_read % 2 * 2 + data.active % 2)] := by
  cases h : outcome_at device 0 with
  | failure e => rw [set_ctrl_reg1_of_failure h]; simp [issued, refused]
  | success inbuf => rw [set_ctrl_reg1_of_success h]; simp [issued, logged]

set_option maxRecDepth 1000000 in
theorem get_ctrl_reg2_of_read {device : mma8451} {b : Nat}
    (h : next_read device.file = some b) (data : mma8451_register_ctrl_reg2) :
    mma8451_get_ctrl_reg2 device data =
      ⟨1, logged device (read_request device.addr MMA8451_REGISTER_CTRL_REG2 1),
        { st := b / 128 % 2,
          rst := b / 64 % 2,
          unused := b / 32 % 2,
          smods1 := b / 16 % 2,
          smods0 := b / 8 % 2,
          slpe := b / 4 % 2,
          mods1 := b / 2 % 2,
          mods0 := b % 2,
          smods := b / 8 % 4,
          mods := b % 4 }⟩ := by
  have hb := next_read_lt h
  simp only [mma8451_get_ctrl_reg2, get_register_of_read h, Option.map,
    mma8451_register_ctrl_reg2.with_generic, digits, if_neg (show ¬ (1 = 0) by decide),
    result.mk.injEq, mma8451_register_ctrl_reg2.mk.injEq, true_and, and_true]
  clear h
  refine ⟨rfl, ?_, ?_⟩ <;> (revert b; decide)

theorem get_ctrl_reg2_of_failure {device : mma8451} {e : Nat}
    (h : outcome_at device 0 = .failure e) (data : mma8451_register_ctrl_reg2) :
    mma8451_get_ctrl_reg2 device data =
      ⟨0, refused device (read_request device.addr MMA8451_REGISTER_CTRL_REG2 1) e
        (.unable_to_get MMA8451_REGISTER_CTRL_REG2 e), data⟩ := by
  simp only [mma8451_get_ctrl_reg2, get_register_of_failure h, if_pos]
  rfl

theorem set_ctrl_reg2_value (data : mma8451_register_ctrl_reg2) :
    weighted ({ data with
        smods1 := (data.smods >>> 1) &&& 0x1,
        smods0 := (data.smods) &&& 0x1,
        mods1 := (data.mods >>> 1) &&& 0x1,
        mods0 := (data.mods) &&& 0x1 } : mma8451_register_ctrl_reg2).as_generic =
      data.st % 2 * 128 + data.rst % 2 * 64 + data.unused % 2 * 32 + data.smods % 4 * 8 + data.slpe % 2 * 4 + data.mods % 4 := by
  simp only [weighted, mma8451_register_ctrl_reg2.as_generic, Nat.and_one_is_mod,
    Nat.shiftRight_eq_div_pow, Nat.mod_mod, Nat.reducePow]
  omega

theorem set_ctrl_reg2_of_success {device : mma8451} {inbuf : Nat → Nat}
    (h : outcome_at device 0 = .success inbuf) (data : mma8451_register_ctrl_reg2) :
    mma8451_set_ctrl_reg2 device data =
      ⟨1, logged device (write_request device.addr MMA8451_REGISTER_CTRL_REG2
          (data.st % 2 * 128 + data.rst % 2 * 64 + data.unused % 2 * 32 + data.smods % 4 * 8 + data.slpe % 2 * 4 + data.mods % 4)),
        ({ data with
        smods1 := (data.smods >>> 1) &&& 0x1,
        smods0 := (data.smods) &&& 0x1,
        mods1 := (data.mods >>> 1) &&& 0x1,
        mods0 := (data.mods) &&& 0x1 } : mma8451_register_ctrl_reg2)⟩ := by
  have hv := set_ctrl_reg2_value data
  unfold mma8451_set_ctrl_reg2
  simp only [set_register_of_success h, hv, if_pos, if_neg (show ¬ (1 = 0) by decide)]
  rfl

theorem set_ctrl_reg2_of_failure {device : mma8451} {e : Nat}
    (h : outcome_at device 0 = .failure e) (data : mma8451_register_ctrl_reg2) :
    mma8451_set_ctrl_reg2 device data =
      ⟨0, refused device (write_request device.addr MMA8451_REGISTER_CTRL_REG2
          (data.st % 2 * 128 + data.rst % 2 * 64 + data.unused % 2 * 32 + data.smods % 4 * 8 + data.slpe % 2 * 4 + data.mods % 4)) e
          (.unable_to_set MMA8451_REGISTER_CTRL_REG2 e),
        ({ data with
        smods1 := (data.smods >>> 1) &&& 0x1,
        smods0 := (data.smods) &&& 0x1,
        mods1 := (data.mods >>> 1) &&& 0x1,
        mods0 := (data.mods) &&& 0x1 } : mma8451_register_ctrl_reg2)⟩ := by
  have hv := set_ctrl_reg2_value data
  unfold mma8451_set_ctrl_reg2
  simp only [set_register_of_failure h, hv, if_pos, if_neg (show ¬ (1 = 0) by decide)]
  rfl

theorem set_ctrl_reg2_issued (device : mma8451) (data : mma8451_register_ctrl_reg2) :
    issued device (mma8451_set_ctrl_reg2 device data).device =
      [write_request device.addr MMA8451_REGISTER_CTRL_REG2
        (data.st % 2 * 128 + data.rst % 2 * 64 + data.unused % 2 * 32 + data.smods % 4 * 8 + data.slpe % 2 * 4 + data.mods % 4)] := by
  cases h : outcome_at device 0 with
  | failure e => rw [set_ctrl_reg2_of_failure h]; simp [issued, refused]
  | success inbuf => rw [set_ctrl_reg2_of_success h]; simp [issued, logged]

set_option maxRecDepth 1000000 in
theorem get_ctrl_reg3_of_read {device : mma8451} {b : Nat}
    (h : next_read device.file = some b) (data : mma8451_register_ctrl_reg3) :
    mma8451_get_ctrl_reg3 device data =
      ⟨1, logged device (read_request device.addr MMA8451_REGISTER_CTRL_REG3 1),
        { fifo_gate := b / 128 % 2,
          wake_trans := b / 64 % 2,
          wake_lndprt := b / 32 % 2,
          wake_pulse := b / 16 % 2,
          wake_ff_mt := b / 8 % 2,
          unused := b / 4 % 2,
          ipol := b / 2 % 2,
          pp_od := b % 2 }⟩ := by
  have hb := next_read_lt h
  simp only [mma8451_get_ctrl_reg3, get_register_of_read h, Option.map,
    mma8451_register_ctrl_reg3.with_generic, digits, if_neg (show ¬ (1 = 0) by decide),
    result.mk.injEq, mma8451_register_ctrl_reg3.mk.injEq, true_and, and_true]
  clear h
  rfl

theorem get_ctrl_reg3_of_failure {device : mma8451} {e : Nat}
    (h : outcome_at device 0 = .failure e) (data : mma8451_register_ctrl_reg3) :
    mma8451_get_ctrl_reg3 device data =
      ⟨0, refused device (read_request device.addr MMA8451_REGISTER_CTRL_REG3 1) e
        (.unable_to_get MMA8451_REGISTER_CTRL_REG3 e), data⟩ := by
  simp only [mma8451_get_ctrl_reg3, get_register_of_failure h, if_pos]
  rfl

theorem set_ctrl_reg3_value (data : mma8451_register_ctrl_reg3) :
    weighted data.as_generic =
      data.fifo_gate % 2 * 128 + data.wake_trans % 2 * 64 + data.wake_lndprt % 2 * 32 + data.wake_pulse % 2 * 16 + data.wake_ff_mt % 2 * 8 + data.unused % 2 * 4 + data.ipol % 2 * 2 + data.pp_od % 2 := by
  simp only [weighted, mma8451_register_ctrl_reg3.as_generic, Nat.and_one_is_mod,
    Nat.shiftRight_eq_div_pow, Nat.mod_mod, Nat.reducePow]

theorem set_ctrl_reg3_of_success {device : mma8451} {inbuf : Nat → Nat}
    (h : outcome_at device 0 = .success inbuf) (data : mma8451_register_ctrl_reg3) :
    mma8451_set_ctrl_reg3 device data =
      ⟨1, logged device (write_request device.addr MMA8451_REGISTER_CTRL_REG3
          (data.fifo_gate % 2 * 128 + data.wake_trans % 2 * 64 + data.wake_lndprt % 2 * 32 + data.wake_pulse % 2 * 16 + data.wake_ff_mt % 2 * 8 + data.unused % 2 * 4 + data.ipol % 2 * 2 + data.pp_od % 2)),
        data⟩ := by
  have hv := set_ctrl_reg3_value data
  unfold mma8451_set_ctrl_reg3
  simp only [set_register_of_success h, hv, if_pos, if_neg (show ¬ (1 = 0) by decide)]
  rfl

theorem set_ctrl_reg3_of_failure {device : mma8451} {e : Nat}
    (h : outcome_at device 0 = .failure e) (data : mma8451_register_ctrl_reg3) :
    mma8451_set_ctrl_reg3 device data =
      ⟨0, refused device (write_request device.addr MMA8451_REGISTER_CTRL_REG3
          (data.fifo_gate % 2 * 128 + data.wake_trans % 2 * 64 + data.wake_lndprt % 2 * 32 + data.wake_pulse % 2 * 16 + data.wake_ff_mt % 2 * 8 + data.unused % 2 * 4 + data.ipol % 2 * 2 + data.pp_od % 2)) e
          (.unable_to_set MMA8451_REGISTER_CTRL_REG3 e),
        data⟩ := by
  have hv := set_ctrl_reg3_value data
  unfold mma8451_set_ctrl_reg3
  simp only [set_register_of_failure h, hv, if_pos, if_neg (show ¬ (1 = 0) by decide)]
  rfl

theorem set_ctrl_reg3_issued (device : mma8451) (data : mma8451_register_ctrl_reg3) :
    issued device (mma8451_set_ctrl_reg3 device data).device =
      [write_request device.addr MMA8451_REGISTER_CTRL_REG3
        (data.fifo_gate % 2 * 128 + data.wake_trans % 2 * 64 + data.wake_lndprt % 2 * 32 + data.wake_pulse % 2 * 16 + data.wake_ff_mt % 2 * 8 + data.unused % 2 * 4 + data.ipol % 2 * 2 + data.pp_od % 2)] := by
  cases h : outcome_at device 0 with
  | failure e => rw [set_ctrl_reg3_of_failure h]; simp [issued, refused]
  | success inbuf => rw [set_ctrl_reg3_of_success h]; simp [issued, logged]

set_option maxRecDepth 1000000 in
theorem get_ctrl_reg4_of_read {device : mma8451} {b : Nat}
    (h : next_read device.file = some b) (data : mma8451_register_ctrl_reg4) :
    mma8451_get_ctrl_reg4 device data =
      ⟨1, logged device (read_request device.addr MMA8451_REGISTER_CTRL_REG4 1),
        { int_en_aslp := b / 128 % 2,
          int_en_fifo := b / 64 % 2,
          int_en_trans := b / 32 % 2,
          int_en_lndprt := b / 16 % 2,
          int_en_pulse := b / 8 % 2,
          int_en_ff_mt := b / 4 % 2,
          unused := b / 2 % 2,
          int_en_drdy := b % 2 }⟩ := by
  have hb := next_read_lt h
  simp only [mma8451_get_ctrl_reg4, get_register_of_read h, Option.map,
    mma8451_register_ctrl_reg4.with_generic, digits, if_neg (show ¬ (1 = 0) by decide),
    result.mk.injEq, mma8451_register_ctrl_reg4.mk.injEq, true_and, and_true]
  clear h
  rfl

theorem get_ctrl_reg4_of_failure {device : mma8451} {e : Nat}
    (h : outcome_at device 0 = .failure e) (data : mma8451_register_ctrl_reg4) :
    mma8451_get_ctrl_reg4 device data =
      ⟨0, refused device (read_request device.addr MMA8451_REGISTER_CTRL_REG4 1) e
        (.unable_to_get MMA8451_REGISTER_CTRL_REG4 e), data⟩ := by
  simp only [mma8451_get_ctrl_reg4, get_register_of_failure h, if_pos]
  rfl

theorem set_ctrl_reg4_value (data : mma8451_register_ctrl_reg4) :
    weighted data.as_generic =
      data.int_en_aslp % 2 * 128 + data.int_en_fifo % 2 * 64 + data.int_en_trans % 2 * 32 + data.int_en_lndprt % 2 * 16 + data.int_en_pulse % 2 * 8 + data.int_en_ff_mt % 2 * 4 + data.unused % 2 * 2 + data.int_en_drdy % 2 := by
  simp only [weighted, mma8451_register_ctrl_reg4.as_generic, Nat.and_one_is_mod,
    Nat.shiftRight_eq_div_pow, Nat.mod_mod, Nat.reducePow]

theorem set_ctrl_reg4_of_success {device : mma8451} {inbuf : Nat → Nat}
    (h : outcome_at device 0 = .success inbuf) (data : mma8451_register_ctrl_reg4) :
    mma8451_set_ctrl_reg4 device data =
      ⟨1, logged device (write_request device.addr MMA8451_REGISTER_CTRL_REG4
          (data.int_en_aslp % 2 * 128 + data.int_en_fifo % 2 * 64 + data.int_en_trans % 2 * 32 + data.int_en_lndprt % 2 * 16 + data.int_en_pulse % 2 * 8 + data.int_en_ff_mt % 2 * 4 + data.unused % 2 * 2 + data.int_en_drdy % 2)),
        data⟩ := by
  have hv := set_ctrl_reg4_value data
  unfold mma8451_set_ctrl_reg4
  simp only [set_register_of_success h, hv, if_pos, if_neg (show ¬ (1 = 0) by decide)]
  rfl

theorem set_ctrl_reg4_of_failure {device : mma8451} {e : Nat}
    (h : outcome_at device 0 = .failure e) (data : mma8451_register_ctrl_reg4) :
    mma8451_set_ctrl_reg4 device data =
      ⟨0, refused device (write_request device.addr MMA8451_REGISTER_CTRL_REG4
          (data.int_en_aslp % 2 * 128 + data.int_en_fifo % 2 * 64 + data.int_en_trans % 2 * 32 + data.int_en_lndprt % 2 * 16 + data.int_en_pulse % 2 * 8 + data.int_en_ff_mt % 2 * 4 + data.unused % 2 * 2 + data.int_en_drdy % 2)) e
          (.unable_to_set MMA8451_REGISTER_CTRL_REG4 e),
        data⟩ := by
  have hv := set_ctrl_reg4_value data
  unfold mma8451_set_ctrl_reg4
  simp only [set_register_of_failure h, hv, if_pos, if_neg (show ¬ (1 = 0) by decide)]
  rfl

theorem set_ctrl_reg4_issued (device : mma8451) (data : mma8451_register_ctrl_reg4) :
    issued device (mma8451_set_ctrl_reg4 device data).device =
      [write_request device.addr MMA8451_REGISTER_CTRL_REG4
        (data.int_en_aslp % 2 * 128 + data.int_en_fifo % 2 * 64 + data.int_en_trans % 2 * 32 + data.int_en_lndprt % 2 * 16 + data.int_en_pulse % 2 * 8 + data.int_en_ff_mt % 2 * 4 + data.unused % 2 * 2 + data.int_en_drdy % 2)] := by
  cases h : outcome_at device 0 with
  | failure e => rw [set_ctrl_reg4_of_failure h]; simp [issued, refused]
  | success inbuf => rw [set_ctrl_reg4_of_success h]; simp [issued, logged]

set_option maxRecDepth 1000000 in
theorem get_ctrl_reg5_of_read {device : mma8451} {b : Nat}
    (h : next_read device.file = some b) (data : mma8451_register_ctrl_reg5) :
    mma8451_get_ctrl_reg5 device data =
      ⟨1, logged device (read_request device.addr MMA8451_REGISTER_CTRL_REG5 1),
        { int_cfg_aslp := b / 128 % 2,
          int_cfg_fifo := b / 64 % 2,
          int_cfg_trans := b / 32 % 2,
          int_cfg_lndprt := b / 16 % 2,
          int_cfg_pulse := b / 8 % 2,
          int_cfg_ff_mt := b / 4 % 2,
          unused := b / 2 % 2,
          int_cfg_drdy := b % 2 }⟩ := by
  have hb := next_read_lt h
  simp only [mma8451_get_ctrl_reg5, get_register_of_read h, Option.map,
    mma8451_register_ctrl_reg5.with_generic, digits, if_neg (show ¬ (1 = 0) by decide),
    result.mk.injEq, mma8451_register_ctrl_reg5.mk.injEq, true_and, and_true]
  clear h
  rfl

theorem get_ctrl_reg5_of_failure {device : mma8451} {e : Nat}
    (h : outcome_at device 0 = .failure e) (data : mma8451_register_ctrl_reg5) :
    mma8451_get_ctrl_reg5 device data =
      ⟨0, refused device (read_request device.addr MMA8451_REGISTER_CTRL_REG5 1) e
        (.unable_to_get MMA8451_REGISTER_CTRL_REG5 e), data⟩ := by
  simp only [mma8451_get_ctrl_reg5, get_register_of_failure h, if_pos]
  rfl

theorem set_ctrl_reg5_value (data : mma8451_register_ctrl_reg5) :
    weighted data.as_generic =
      data.int_cfg_aslp % 2 * 128 + data.int_cfg_fifo % 2 * 64 + data.int_cfg_trans % 2 * 32 + data.int_cfg_lndprt % 2 * 16 + data.int_cfg_pulse % 2 * 8 + data.int_cfg_ff_mt % 2 * 4 + data.unused % 2 * 2 + data.int_cfg_drdy % 2 := by
  simp only [weighted, mma8451_register_ctrl_reg5.as_generic, Nat.and_one_is_mod,
    Nat.shiftRight_eq_div_pow, Nat.mod_mod, Nat.reducePow]

theorem set_ctrl_reg5_of_success {device : mma8451} {inbuf : Nat → Nat}
    (h : outcome_at device 0 = .success inbuf) (data : mma8451_register_ctrl_reg5) :
    mma8451_set_ctrl_reg5 device data =
      ⟨1, logged device (write_request device.addr MMA8451_REGISTER_CTRL_REG5
          (data.int_cfg_aslp % 2 * 128 + data.int_cfg_fifo % 2 * 64 + data.int_cfg_trans % 2 * 32 + data.int_cfg_lndprt % 2 * 16 + data.int_cfg_pulse % 2 * 8 + data.int_cfg_ff_mt % 2 * 4 + data.unused % 2 * 2 + data.int_cfg_drdy % 2)),
        data⟩ := by
  have hv := set_ctrl_reg5_value data
  unfold mma8451_set_ctrl_reg5
  simp only [set_register_of_success h, hv, if_pos, if_neg (show ¬ (1 = 0) by decide)]
  rfl

theorem set_ctrl_reg5_of_failure {device : mma8451} {e : Nat}
    (h : outcome_at device 0 = .failure e) (data : mma8451_register_ctrl_reg5) :
    mma8451_set_ctrl_reg5 device data =
      ⟨0, refused device (write_request device.addr MMA8451_REGISTER_CTRL_REG5
          (data.int_cfg_aslp % 2 * 128 + data.int_cfg_fifo % 2 * 64 + data.int_cfg_trans % 2 * 32 + data.int_cfg_lndprt % 2 * 16 + data.int_cfg_pulse % 2 * 8 + data.int_cfg_ff_mt % 2 * 4 + data.unused % 2 * 2 + data.int_cfg_drdy % 2)) e
          (.unable_to_set MMA8451_REGISTER_CTRL_REG5 e),
        data⟩ := by
  have hv := set_ctrl_reg5_value data
  unfold mma8451_set_ctrl_reg5
  simp only [set_register_of_failure h, hv, if_pos, if_neg (show ¬ (1 = 0) by decide)]
  rfl

theorem set_ctrl_reg5_issued (device : mma8451) (data : mma8451_register_ctrl_reg5) :
    issued device (mma8451_set_ctrl_reg5 device data).device =
      [write_request device.addr MMA8451_REGISTER_CTRL_REG5
        (data.int_cfg_aslp % 2 * 128 + data.int_cfg_fifo % 2 * 64 + data.int_cfg_trans % 2 * 32 + data.int_cfg_lndprt % 2 * 16 + data.int_cfg_pulse % 2 * 8 + data.int_cfg_ff_mt % 2 * 4 + data.unused % 2 * 2 + data.int_cfg_drdy % 2)] := by
  cases h : outcome_at device 0 with
  | failure e => rw [set_ctrl_reg5_of_failure h]; simp [issued, refused]
  | success inbuf => rw [set_ctrl_reg5_of_success h]; simp [issued, logged]

/-! ## Reading a register and writing it back -/

theorem written_byte_of_issued {before after : mma8451} {addr reg value : Nat}
    (h : issued before after = [write_request addr reg value]) :
    written_byte before after = some value := by
  simp only [written_byte, h, write_request]

set_option maxRecDepth 1000000 in
theorem f_setup_round_trip {device : mma8451} {b : Nat}
    (h : next_read device.file = some b) :
    writes_back mma8451_get_f_setup mma8451_set_f_setup device MMA8451_REGISTER_F_SETUP b := by
  intro data
  have hb := next_read_lt h
  have hv : ∀ b < 256, (b / 64) % 4 * 64 + (b % 64) % 64 = b := by
    decide
  rw [get_f_setup_of_read h]
  refine ⟨rfl, ?_⟩
  rw [set_f_setup_issued]
  show [write_request device.addr MMA8451_REGISTER_F_SETUP ((b / 64) % 4 * 64 + (b % 64) % 64)] = _
  rw [hv b hb]

set_option maxRecDepth 1000000 in
theorem trig_cfg_round_trip {device : mma8451} {b : Nat}
    (h : next_read device.file = some b) :
    writes_back mma8451_get_trig_cfg mma8451_set_trig_cfg device MMA8451_REGISTER_TRIG_CFG b := by
  intro data
  have hb := next_read_lt h
  have hv : ∀ b < 256, (b / 128 % 2) % 2 * 128 + (b / 64 % 2) % 2 * 64 + (b / 32 % 2) % 2 * 32 + (b / 16 % 2) % 2 * 16 + (b / 8 % 2) % 2 * 8 + (b / 4 % 2) % 2 * 4 + (b / 2 % 2) % 2 * 2 + (b % 2) % 2 = b := by
    decide
  rw [get_trig_cfg_of_read h]
  refine ⟨rfl, ?_⟩
  rw [set_trig_cfg_issued]
  show [write_request device.addr MMA8451_REGISTER_TRIG_CFG ((b / 128 % 2) % 2 * 128 + (b / 64 % 2) % 2 * 64 + (b / 32 % 2) % 2 * 32 + (b / 16 % 2) % 2 * 16 + (b / 8 % 2) % 2 * 8 + (b / 4 % 2) % 2 * 4 + (b / 2 % 2) % 2 * 2 + (b % 2) % 2)] = _
  rw [hv b hb]

set_option maxRecDepth 1000000 in
theorem xyz_data_cfg_round_trip {device : mma8451} {b : Nat}
    (h : next_read device.file = some b) :
    writes_back mma8451_get_xyz_data_cfg mma8451_set_xyz_data_cfg device MMA8451_REGISTER_XYZ_DATA_CFG b := by
  intro data
  have hb := next_read_lt h
  have hv : ∀ b < 256, (b / 128 % 2) % 2 * 128 + (b / 64 % 2) % 2 * 64 + (b / 32 % 2) % 2 * 32 + (b / 16 % 2) % 2 * 16 + (b / 8 % 2) % 2 * 8 + (b / 4 % 2) % 2 * 4 + (b % 4) % 4 = b := by
    decide
  rw [get_xyz_data_cfg_of_read h]
  refine ⟨rfl, ?_⟩
  rw [set_xyz_data_cfg_issued]
  show [write_request device.addr MMA8451_REGISTER_XYZ_DATA_CFG ((b / 128 % 2) % 2 * 128 + (b / 64 % 2) % 2 * 64 + (b / 32 % 2) % 2 * 32 + (b / 16 % 2) % 2 * 16 + (b / 8 % 2) % 2 * 8 + (b / 4 % 2) % 2 * 4 + (b % 4) % 4)] = _
  rw [hv b hb]

set_option maxRecDepth 1000000 in
theorem hp_filter_cutoff_round_trip {device : mma8451} {b : Nat}
    (h : next_read device.file = some b) :
    writes_back mma8451_get_hp_filter_cutoff mma8451_set_hp_filter_cutoff device MMA8451_REGISTER_HP_FILTER_CUTOFF b := by
  intro data
  have hb := next_read_lt h
  have hv : ∀ b < 256, (b / 128 % 2) % 2 * 128 + (b / 64 % 2) % 2 * 64 + (b / 32 % 2) % 2 * 32 + (b / 16 % 2) % 2 * 16 + (b / 8 % 2) % 2 * 8 + (b / 4 % 2) % 2 * 4 + (b / 2 % 2) % 2 * 2 + (b % 2) % 2 = b := by
    decide
  rw [get_hp_filter_cutoff_of_read h]
  refine ⟨rfl, ?_⟩
  rw [set_hp_filter_cutoff_issued]
  show [write_request device.addr MMA8451_REGISTER_HP_FILTER_CUTOFF ((b / 128 % 2) % 2 * 128 + (b / 64 % 2) % 2 * 64 + (b / 32 % 2) % 2 * 32 + (b / 16 % 2) % 2 * 16 + (b / 8 % 2) % 2 * 8 + (b / 4 % 2) % 2 * 4 + (b / 2 % 2) % 2 * 2 + (b % 2) % 2)] = _
  rw [hv b hb]

set_option maxRecDepth 1000000 in
theorem pl_cfg_round_trip {device : mma8451} {b : Nat}
    (h : next_read device.file = some b) :
    writes_back mma8451_get_pl_cfg mma8451_set_pl_cfg device MMA8451_REGISTER_PL_CFG b := by
  intro data
  have hb := next_read_lt h
  have hv : ∀ b < 256, (b / 128 % 2) % 2 * 128 + (b / 64 % 2) % 2 * 64 + (b / 32 % 2) % 2 * 32 + (b / 16 % 2) % 2 * 16 + (b / 8 % 2) % 2 * 8 + (b / 4 % 2) % 2 * 4 + (b / 2 % 2) % 2 * 2 + (b % 2) % 2 = b := by
    decide
  rw [get_pl_cfg_of_read h]
  refine ⟨rfl, ?_⟩
  rw [set_pl_cfg_issued]
  show [write_request device.addr MMA8451_REGISTER_PL_CFG ((b / 128 % 2) % 2 * 128 + (b / 64 % 2) % 2 * 64 + (b / 32 % 2) % 2 * 32 + (b / 16 % 2) % 2 * 16 + (b / 8 % 2) % 2 * 8 + (b / 4 % 2) % 2 * 4 + (b / 2 % 2) % 2 * 2 + (b % 2) % 2)] = _
  rw [hv b hb]

set_option maxRecDepth 1000000 in
theorem pl_bf_zcomp_round_trip {device : mma8451} {b : Nat}
    (h : next_read device.file = some b) :
    writes_back mma8451_get_pl_bf_zcomp mma8451_set_pl_bf_zcomp device MMA8451_REGISTER_PL_BF_ZCOMP b := by
  intro data
  have hb := next_read_lt h
  have hv : ∀ b < 256, (b / 64) % 4 * 64 + (b / 32 % 2) % 2 * 32 + (b / 16 % 2) % 2 * 16 + (b / 8 % 2) % 2 * 8 + (b % 8) % 8 = b := by
    decide
  rw [get_pl_bf_zcomp_of_read h]
  refine ⟨rfl, ?_⟩
  rw [set_pl_bf_zcomp_issued]
  show [write_request device.addr MMA8451_REGISTER_PL_BF_ZCOMP ((b / 64) % 4 * 64 + (b / 32 % 2) % 2 * 32 + (b / 16 % 2) % 2 * 16 + (b / 8 % 2) % 2 * 8 + (b % 8) % 8)] = _
  rw [hv b hb]

set_option maxRecDepth 1000000 in
theorem p_l_ths_reg_round_trip {device : mma8451} {b : Nat}
    (h : next_read device.file = some b) :
    writes_back mma8451_get_p_l_ths_reg mma8451_set_p_l_ths_reg device MMA8451_REGISTER_P_L_THS_REG b := by
  intro data
  have hb := next_read_lt h
  have hv : ∀ b < 256, (b / 8) % 32 * 8 + (b % 8) % 8 = b := by
    decide
  rw [get_p_l_ths_reg_of_read h]
  refine ⟨rfl, ?_⟩
  rw [set_p_l_ths_reg_issued]
  show [write_request device.addr MMA8451_REGISTER_P_L_THS_REG ((b / 8) % 32 * 8 + (b % 8) % 8)] = _
  rw [hv b hb]

set_option maxRecDepth 1000000 in
theorem ff_mt_ths_round_trip {device : mma8451} {b : Nat}
    (h : next_read device.file = some b) :
    writes_back mma8451_get_ff_mt_ths mma8451_set_ff_mt_ths device MMA8451_REGISTER_FF_MT_THS b := by
  intro data
  have hb := next_read_lt h
  have hv : ∀ b < 256, (b / 128 % 2) % 2 * 128 + (b % 128) % 128 = b := by
    decide
  rw [get_ff_mt_ths_of_read h]
  refine ⟨rfl, ?_⟩
  rw [set_ff_mt_ths_issued]
  show [write_request device.addr MMA8451_REGISTER_FF_MT_THS ((b / 128 % 2) % 2 * 128 + (b % 128) % 128)] = _
  rw [hv b hb]

set_option maxRecDepth 1000000 in
theorem ff_mt_cfg_round_trip {device : mma8451} {b : Nat}
    (h : next_read device.file = some b) :
    writes_back mma8451_get_ff_mt_cfg mma8451_set_ff_mt_cfg device MMA8451_REGISTER_FF_MT_CFG b := by
  intro data
  have hb := next_read_lt h
  have hv : ∀ b < 256, (b / 128 % 2) % 2 * 128 + (b / 64 % 2) % 2 * 64 + (b / 32 % 2) % 2 * 32 + (b / 16 % 2) % 2 * 16 + (b / 8 % 2) % 2 * 8 + (b / 4 % 2) % 2 * 4 + (b / 2 % 2) % 2 * 2 + (b % 2) % 2 = b := by
    decide
  rw [get_ff_mt_cfg_of_read h]
  refine ⟨rfl, ?_⟩
  rw [set_ff_mt_cfg_issued]
  show [write_request device.addr MMA8451_REGISTER_FF_MT_CFG ((b / 128 % 2) % 2 * 128 + (b / 64 % 2) % 2 * 64 + (b / 32 % 2) % 2 * 32 + (b / 16 % 2) % 2 * 16 + (b / 8 % 2) % 2 * 8 + (b / 4 % 2) % 2 * 4 + (b / 2 % 2) % 2 * 2 + (b % 2) % 2)] = _
  rw [hv b hb]

set_option maxRecDepth 1000000 in
theorem transient_cfg_round_trip {device : mma8451} {b : Nat}
    (h : next_read device.file = some b) :
    writes_back mma8451_get_transient_cfg mma8451_set_transient_cfg device MMA8451_REGISTER_TRANSIENT_CFG b := by
  intro data
  have hb := next_read_lt h
  have hv : ∀ b < 256, (b / 128 % 2) % 2 * 128 + (b / 64 % 2) % 2 * 64 + (b / 32 % 2) % 2 * 32 + (b / 16 % 2) % 2 * 16 + (b / 8 % 2) % 2 * 8 + (b / 4 % 2) % 2 * 4 + (b / 2 % 2) % 2 * 2 + (b % 2) % 2 = b := by
    decide
  rw [get_transient_cfg_of_read h]
  refine ⟨rfl, ?_⟩
  rw [set_transient_cfg_issued]
  show [write_request device.addr MMA8451_REGISTER_TRANSIENT_CFG ((b / 128 % 2) % 2 * 128 + (b / 64 % 2) % 2 * 64 + (b / 32 % 2) % 2 * 32 + (b / 16 % 2) % 2 * 16 + (b / 8 % 2) % 2 * 8 + (b / 4 % 2) % 2 * 4 + (b / 2 % 2) % 2 * 2 + (b % 2) % 2)] = _
  rw [hv b hb]

set_option maxRecDepth 1000000 in
theorem transient_ths_round_trip {device : mma8451} {b : Nat}
    (h : next_read device.file = some b) :
    writes_back mma8451_get_transient_ths mma8451_set_transient_ths device MMA8451_REGISTER_TRANSIENT_THS b := by
  intro data
  have hb := next_read_lt h
  have hv : ∀ b < 256, (b / 128 % 2) % 2 * 128 + (b % 128) % 128 = b := by
    decide
  rw [get_transient_ths_of_read h]
  refine ⟨rfl, ?_⟩
  rw [set_transient_ths_issued]
  show [write_request device.addr MMA8451_REGISTER_TRANSIENT_THS ((b / 128 % 2) % 2 * 128 + (b % 128) % 128)] = _
  rw [hv b hb]

set_option maxRecDepth 1000000 in
theorem pulse_cfg_round_trip {device : mma8451} {b : Nat}
    (h : next_read device.file = some b) :
    writes_back mma8451_get_pulse_cfg mma8451_set_pulse_cfg device MMA8451_REGISTER_PULSE_CFG b := by
  intro data
  have hb := next_read_lt h
  have hv : ∀ b < 256, (b / 128 % 2) % 2 * 128 + (b / 64 % 2) % 2 * 64 + (b / 32 % 2) % 2 * 32 + (b / 16 % 2) % 2 * 16 + (b / 8 % 2) % 2 * 8 + (b / 4 % 2) % 2 * 4 + (b / 2 % 2) % 2 * 2 + (b % 2) % 2 = b := by
    decide
  rw [get_pulse_cfg_of_read h]
  refine ⟨rfl, ?_⟩
  rw [set_pulse_cfg_issued]
  show [write_request device.addr MMA8451_REGISTER_PULSE_CFG ((b / 128 % 2) % 2 * 128 + (b / 64 % 2) % 2 * 64 + (b / 32 % 2) % 2 * 32 + (b / 16 % 2) % 2 * 16 + (b / 8 % 2) % 2 * 8 + (b / 4 % 2) % 2 * 4 + (b / 2 % 2) % 2 * 2 + (b % 2) % 2)] = _
  rw [hv b hb]

set_option maxRecDepth 1000000 in
theorem pulse_thsx_round_trip {device : mma8451} {b : Nat}
    (h : next_read device.file = some b) :
    writes_back mma8451_get_pulse_thsx mma8451_set_pulse_thsx device MMA8451_REGISTER_PULSE_THSX b := by
  intro data
  have hb := next_read_lt h
  have hv : ∀ b < 256, (b / 128 % 2) % 2 * 128 + (b % 128) % 128 = b := by
    decide
  rw [get_pulse_thsx_of_read h]
  refine ⟨rfl, ?_⟩
  rw [set_pulse_thsx_issued]
  show [write_request device.addr MMA8451_REGISTER_PULSE_THSX ((b / 128 % 2) % 2 * 128 + (b % 128) % 128)] = _
  rw [hv b hb]

set_option maxRecDepth 1000000 in
theorem pulse_thsy_round_trip {device : mma8451} {b : Nat}
    (h : next_read device.file = some b) :
    writes_back mma8451_get_pulse_thsy mma8451_set_pulse_thsy device MMA8451_REGISTER_PULSE_THSY b := by
  intro data
  have hb := next_read_lt h
  have hv : ∀ b < 256, (b / 128 % 2) % 2 * 128 + (b % 128) % 128 = b := by
    decide
  rw [get_pulse_thsy_of_read h]
  refine ⟨rfl, ?_⟩
  rw [set_pulse_thsy_issued]
  show [write_request device.addr MMA8451_REGISTER_PULSE_THSY ((b / 128 % 2) % 2 * 128 + (b % 128) % 128)] = _
  rw [hv b hb]

set_option maxRecDepth 1000000 in
theorem pulse_thsz_round_trip {device : mma8451} {b : Nat}
    (h : next_read device.file = some b) :
    writes_back mma8451_get_pulse_thsz mma8451_set_pulse_thsz device MMA8451_REGISTER_PULSE_THSZ b := by
  intro data
  have hb := next_read_lt h
  have hv : ∀ b < 256, (b / 128 % 2) % 2 * 128 + (b % 128) % 128 = b := by
    decide
  rw [get_pulse_thsz_of_read h]
  refine ⟨rfl, ?_⟩
  rw [set_pulse_thsz_issued]
  show [write_request device.addr MMA8451_REGISTER_PULSE_THSZ ((b / 128 % 2) % 2 * 128 + (b % 128) % 128)] = _
  rw [hv b hb]

set_option maxRecDepth 1000000 in
theorem ctrl_reg1_round_trip {device : mma8451} {b : Nat}
    (h : next_read device.file = some b) :
    writes_back mma8451_get_ctrl_reg1 mma8451_set_ctrl_reg1 device MMA8451_REGISTER_CTRL_REG1 b := by
  intro data
  have hb := next_read_lt h
  have hv : ∀ b < 256, (b / 64) % 4 * 64 + (b / 8 % 8) % 8 * 8 + (b / 4 % 2) % 2 * 4 + (b / 2 % 2) % 2 * 2 + (b % 2) % 2 = b := by
    decide
  rw [get_ctrl_reg1_of_read h]
  refine ⟨rfl, ?_⟩
  rw [set_ctrl_reg1_issued]
  show [write_request device.addr MMA8451_REGISTER_CTRL_REG1 ((b / 64) % 4 * 64 + (b / 8 % 8) % 8 * 8 + (b / 4 % 2) % 2 * 4 + (b / 2 % 2) % 2 * 2 + (b % 2) % 2)] = _
  rw [hv b hb]

set_option maxRecDepth 1000000 in
theorem ctrl_reg2_round_trip {device : mma8451} {b : Nat}
    (h : next_read device.file = some b) :
    writes_back mma8451_get_ctrl_reg2 mma8451_set_ctrl_reg2 device MMA8451_REGISTER_CTRL_REG2 b := by
  intro data
  have hb := next_read_lt h
  have hv : ∀ b < 256, (b / 128 % 2) % 2 * 128 + (b / 64 % 2) % 2 * 64 + (b / 32 % 2) % 2 * 32 + (b / 8 % 4) % 4 * 8 + (b / 4 % 2) % 2 * 4 + (b % 4) % 4 = b := by
    decide
  rw [get_ctrl_reg2_of_read h]
  refine ⟨rfl, ?_⟩
  rw [set_ctrl_reg2_issued]
  show [write_request device.addr MMA8451_REGISTER_CTRL_REG2 ((b / 128 % 2) % 2 * 128 + (b / 64 % 2) % 2 * 64 + (b / 32 % 2) % 2 * 32 + (b / 8 % 4) % 4 * 8 + (b / 4 % 2) % 2 * 4 + (b % 4) % 4)] = _
  rw [hv b hb]

set_option maxRecDepth 1000000 in
theorem ctrl_reg3_round_trip {device : mma8451} {b : Nat}
    (h : next_read device.file = some b) :
    writes_back mma8451_get_ctrl_reg3 mma8451_set_ctrl_reg3 device MMA8451_REGISTER_CTRL_REG3 b := by
  intro data
  have hb := next_read_lt h
  have hv : ∀ b < 256, (b / 128 % 2) % 2 * 128 + (b / 64 % 2) % 2 * 64 + (b / 32 % 2) % 2 * 32 + (b / 16 % 2) % 2 * 16 + (b / 8 % 2) % 2 * 8 + (b / 4 % 2) % 2 * 4 + (b / 2 % 2) % 2 * 2 + (b % 2) % 2 = b := by
    decide
  rw [get_ctrl_reg3_of_read h]
  refine ⟨rfl, ?_⟩
  rw [set_ctrl_reg3_issued]
  show [write_request device.addr MMA8451_REGISTER_CTRL_REG3 ((b / 128 % 2) % 2 * 128 + (b / 64 % 2) % 2 * 64 + (b / 32 % 2) % 2 * 32 + (b / 16 % 2) % 2 * 16 + (b / 8 % 2) % 2 * 8 + (b / 4 % 2) % 2 * 4 + (b / 2 % 2) % 2 * 2 + (b % 2) % 2)] = _
  rw [hv b hb]

set_option maxRecDepth 1000000 in
theorem ctrl_reg4_round_trip {device : mma8451} {b : Nat}
    (h : next_read device.file = some b) :
    writes_back mma8451_get_ctrl_reg4 mma8451_set_ctrl_reg4 device MMA8451_REGISTER_CTRL_REG4 b := by
  intro data
  have hb := next_read_lt h
  have hv : ∀ b < 256, (b / 128 % 2) % 2 * 128 + (b / 64 % 2) % 2 * 64 + (b / 32 % 2) % 2 * 32 + (b / 16 % 2) % 2 * 16 + (b / 8 % 2) % 2 * 8 + (b / 4 % 2) % 2 * 4 + (b / 2 % 2) % 2 * 2 + (b % 2) % 2 = b := by
    decide
  rw [get_ctrl_reg4_of_read h]
  refine ⟨rfl, ?_⟩
  rw [set_ctrl_reg4_issued]
  show [write_request device.addr MMA8451_REGISTER_CTRL_REG4 ((b / 128 % 2) % 2 * 128 + (b / 64 % 2) % 2 * 64 + (b / 32 % 2) % 2 * 32 + (b / 16 % 2) % 2 * 16 + (b / 8 % 2) % 2 * 8 + (b / 4 % 2) % 2 * 4 + (b / 2 % 2) % 2 * 2 + (b % 2) % 2)] = _
  rw [hv b hb]

set_option maxRecDepth 1000000 in
theorem ctrl_reg5_round_trip {device : mma8451} {b : Nat}
    (h : next_read device.file = some b) :
    writes_back mma8451_get_ctrl_reg5 mma8451_set_ctrl_reg5 device MMA8451_REGISTER_CTRL_REG5 b := by
  intro data
  have hb := next_read_lt h
  have hv : ∀ b < 256, (b / 128 % 2) % 2 * 128 + (b / 64 % 2) % 2 * 64 + (b / 32 % 2) % 2 * 32 + (b / 16 % 2) % 2 * 16 + (b / 8 % 2) % 2 * 8 + (b / 4 % 2) % 2 * 4 + (b / 2 % 2) % 2 * 2 + (b % 2) % 2 = b := by
    decide
  rw [get_ctrl_reg5_of_read h]
  refine ⟨rfl, ?_⟩
  rw [set_ctrl_reg5_issued]
  show [write_request device.addr MMA8451_REGISTER_CTRL_REG5 ((b / 128 % 2) % 2 * 128 + (b / 64 % 2) % 2 * 64 + (b / 32 % 2) % 2 * 32 + (b / 16 % 2) % 2 * 16 + (b / 8 % 2) % 2 * 8 + (b / 4 % 2) % 2 * 4 + (b / 2 % 2) % 2 * 2 + (b % 2) % 2)] = _
  rw [hv b hb]

/-! ## The masking law of the composite fields -/

theorem f_setup_f_mode_masking :
    masking_law mma8451_get_f_setup mma8451_set_f_setup
      (fun v data => { data with f_mode := v }) (fun data => data.f_mode) 6 2 := by
  intro device data v
  refine ⟨v % 4 * 64 + data.f_wmrk % 64, ?_, ?_, ?_⟩
  · exact written_byte_of_issued (set_f_setup_issued device _)
  · intro device2 data2 h2
    rw [get_f_setup_of_read h2]
    show (v % 4 * 64 + data.f_wmrk % 64) / 64 = v &&& ((1 <<< 2) - 1)
    rw [show ((1 <<< 2) - 1) = 2 ^ 2 - 1 from rfl, Nat.and_pow_two_sub_one_eq_mod]
    omega
  · intro v2
    refine ⟨v2 % 4 * 64 + data.f_wmrk % 64, ?_, ?_, ?_⟩
    · exact written_byte_of_issued (set_f_setup_issued device _)
    · simp only [Nat.reduceAdd, Nat.reducePow]
      omega
    · simp only [Nat.reducePow]
      omega

theorem f_setup_f_wmrk_masking :
    masking_law mma8451_get_f_setup mma8451_set_f_setup
      (fun v data => { data with f_wmrk := v }) (fun data => data.f_wmrk) 0 6 := by
  intro device data v
  refine ⟨data.f_mode % 4 * 64 + v % 64, ?_, ?_, ?_⟩
  · exact written_byte_of_issued (set_f_setup_issued device _)
  · intro device2 data2 h2
    rw [get_f_setup_of_read h2]
    show (data.f_mode % 4 * 64 + v % 64) % 64 = v &&& ((1 <<< 6) - 1)
    rw [show ((1 <<< 6) - 1) = 2 ^ 6 - 1 from rfl, Nat.and_pow_two_sub_one_eq_mod]
    omega
  · intro v2
    refine ⟨data.f_mode % 4 * 64 + v2 % 64, ?_, ?_, ?_⟩
    · exact written_byte_of_issued (set_f_setup_issued device _)
    · simp only [Nat.reduceAdd, Nat.reducePow]
      omega
    · simp only [Nat.reducePow]
      omega

theorem xyz_data_cfg_fs_masking :
    masking_law mma8451_get_xyz_data_cfg mma8451_set_xyz_data_cfg
      (fun v data => { data with fs := v }) (fun data => data.fs) 0 2 := by
  intro device data v
  refine ⟨data.unused1 % 2 * 128 + data.unused2 % 2 * 64 + data.unused3 % 2 * 32 + data.hpf_out % 2 * 16 + data.unused4 % 2 * 8 + data.unused5 % 2 * 4 + v % 4, ?_, ?_, ?_⟩
  · exact written_byte_of_issued (set_xyz_data_cfg_issued device _)
  · intro device2 data2 h2
    rw [get_xyz_data_cfg_of_read h2]
    show (data.unused1 % 2 * 128 + data.unused2 % 2 * 64 + data.unused3 % 2 * 32 + data.hpf_out % 2 * 16 + data.unused4 % 2 * 8 + data.unused5 % 2 * 4 + v % 4) % 4 = v &&& ((1 <<< 2) - 1)
    rw [show ((1 <<< 2) - 1) = 2 ^ 2 - 1 from rfl, Nat.and_pow_two_sub_one_eq_mod]
    omega
  · intro v2
    refine ⟨data.unused1 % 2 * 128 + data.unused2 % 2 * 64 + data.unused3 % 2 * 32 + data.hpf_out % 2 * 16 + data.unused4 % 2 * 8 + data.unused5 % 2 * 4 + v2 % 4, ?_, ?_, ?_⟩
    · exact written_byte_of_issued (set_xyz_data_cfg_issued device _)
    · simp only [Nat.reduceAdd, Nat.reducePow]
      omega
    · simp only [Nat.reducePow]
      omega

theorem pl_bf_zcomp_bkfr_masking :
    masking_law mma8451_get_pl_bf_zcomp mma8451_set_pl_bf_zcomp
      (fun v data => { data with bkfr := v }) (fun data => data.bkfr) 6 2 := by
  intro device data v
  refine ⟨v % 4 * 64 + data.unused1 % 2 * 32 + data.unused2 % 2 * 16 + data.unused3 % 2 * 8 + data.zlock % 8, ?_, ?_, ?_⟩
  · exact written_byte_of_issued (set_pl_bf_zcomp_issued device _)
  · intro device2 data2 h2
    rw [get_pl_bf_zcomp_of_read h2]
    show (v % 4 * 64 + data.unused1 % 2 * 32 + data.unused2 % 2 * 16 + data.unused3 % 2 * 8 + data.zlock % 8) / 64 = v &&& ((1 <<< 2) - 1)
    rw [show ((1 <<< 2) - 1) = 2 ^ 2 - 1 from rfl, Nat.and_pow_two_sub_one_eq_mod]
    omega
  · intro v2
    refine ⟨v2 % 4 * 64 + data.unused1 % 2 * 32 + data.unused2 % 2 * 16 + data.unused3 % 2 * 8 + data.zlock % 8, ?_, ?_, ?_⟩
    · exact written_byte_of_issued (set_pl_bf_zcomp_issued device _)
    · simp only [Nat.reduceAdd, Nat.reducePow]
      omega
    · simp only [Nat.reducePow]
      omega

theorem pl_bf_zcomp_zlock_masking :
    masking_law mma8451_get_pl_bf_zcomp mma8451_set_pl_bf_zcomp
      (fun v data => { data with zlock := v }) (fun data => data.zlock) 0 3 := by
  intro device data v
  refine ⟨data.bkfr % 4 * 64 + data.unused1 % 2 * 32 + data.unused2 % 2 * 16 + data.unused3 % 2 * 8 + v % 8, ?_, ?_, ?_⟩
  · exact written_byte_of_issued (set_pl_bf_zcomp_issued device _)
  · intro device2 data2 h2
    rw [get_pl_bf_zcomp_of_read h2]
    show (data.bkfr % 4 * 64 + data.unused1 % 2 * 32 + data.unused2 % 2 * 16 + data.unused3 % 2 * 8 + v % 8) % 8 = v &&& ((1 <<< 3) - 1)
    rw [show ((1 <<< 3) - 1) = 2 ^ 3 - 1 from rfl, Nat.and_pow_two_sub_one_eq_mod]
    omega
  · intro v2
    refine ⟨data.bkfr % 4 * 64 + data.unused1 % 2 * 32 + data.unused2 % 2 * 16 + data.unused3 % 2 * 8 + v2 % 8, ?_, ?_, ?_⟩
    · exact written_byte_of_issued (set_pl_bf_zcomp_issued device _)
    · simp only [Nat.reduceAdd, Nat.reducePow]
      omega
    · simp only [Nat.reducePow]
      omega

theorem p_l_ths_reg_p_l_ths_masking :
    masking_law mma8451_get_p_l_ths_reg mma8451_set_p_l_ths_reg
      (fun v data => { data with p_l_ths := v }) (fun data => data.p_l_ths) 3 5 := by
  intro device data v
  refine ⟨v % 32 * 8 + data.hys % 8, ?_, ?_, ?_⟩
  · exact written_byte_of_issued (set_p_l_ths_reg_issued device _)
  · intro device2 data2 h2
    rw [get_p_l_ths_reg_of_read h2]
    show (v % 32 * 8 + data.hys % 8) / 8 = v &&& ((1 <<< 5) - 1)
    rw [show ((1 <<< 5) - 1) = 2 ^ 5 - 1 from rfl, Nat.and_pow_two_sub_one_eq_mod]
    omega
  · intro v2
    refine ⟨v2 % 32 * 8 + data.hys % 8, ?_, ?_, ?_⟩
    · exact written_byte_of_issued (set_p_l_ths_reg_issued device _)
    · simp only [Nat.reduceAdd, Nat.reducePow]
      omega
    · simp only [Nat.reducePow]
      omega

theorem p_l_ths_reg_hys_masking :
    masking_law mma8451_get_p_l_ths_reg mma8451_set_p_l_ths_reg
      (fun v data => { data with hys := v }) (fun data => data.hys) 0 3 := by
  intro device data v
  refine ⟨data.p_l_ths % 32 * 8 + v % 8, ?_, ?_, ?_⟩
  · exact written_byte_of_issued (set_p_l_ths_reg_issued device _)
  · intro device2 data2 h2
    rw [get_p_l_ths_reg_of_read h2]
    show (data.p_l_ths % 32 * 8 + v % 8) % 8 = v &&& ((1 <<< 3) - 1)
    rw [show ((1 <<< 3) - 1) = 2 ^ 3 - 1 from rfl, Nat.and_pow_two_sub_one_eq_mod]
    omega
  · intro v2
    refine ⟨data.p_l_ths % 32 * 8 + v2 % 8, ?_, ?_, ?_⟩
    · exact written_byte_of_issued (set_p_l_ths_reg_issued device _)
    · simp only [Nat.reduceAdd, Nat.reducePow]
      omega
    · simp only [Nat.reducePow]
      omega

theorem ff_mt_ths_ths_masking :
    masking_law mma8451_get_ff_mt_ths mma8451_set_ff_mt_ths
      (fun v data => { data with ths := v }) (fun data => data.ths) 0 7 := by
  intro device data v
  refine ⟨data.dbcntm % 2 * 128 + v % 128, ?_, ?_, ?_⟩
  · exact written_byte_of_issued (set_ff_mt_ths_issued device _)
  · intro device2 data2 h2
    rw [get_ff_mt_ths_of_read h2]
    show (data.dbcntm % 2 * 128 + v % 128) % 128 = v &&& ((1 <<< 7) - 1)
    rw [show ((1 <<< 7) - 1) = 2 ^ 7 - 1 from rfl, Nat.and_pow_two_sub_one_eq_mod]
    omega
  · intro v2
    refine ⟨data.dbcntm % 2 * 128 + v2 % 128, ?_, ?_, ?_⟩
    · exact written_byte_of_issued (set_ff_mt_ths_issued device _)
    · simp only [Nat.reduceAdd, Nat.reducePow]
      omega
    · simp only [Nat.reducePow]
      omega

theorem transient_ths_ths_masking :
    masking_law mma8451_get_transient_ths mma8451_set_transient_ths
      (fun v data => { data with ths := v }) (fun data => data.ths) 0 7 := by
  intro device data v
  refine ⟨data.dbcntm % 2 * 128 + v % 128, ?_, ?_, ?_⟩
  · exact written_byte_of_issued (set_transient_ths_issued device _)
  · intro device2 data2 h2
    rw [get_transient_ths_of_read h2]
    show (data.dbcntm % 2 * 128 + v % 128) % 128 = v &&& ((1 <<< 7) - 1)
    rw [show ((1 <<< 7) - 1) = 2 ^ 7 - 1 from rfl, Nat.and_pow_two_sub_one_eq_mod]
    omega
  · intro v2
    refine ⟨data.dbcntm % 2 * 128 + v2 % 128, ?_, ?_, ?_⟩
    · exact written_byte_of_issued (set_transient_ths_issued device _)
    · simp only [Nat.reduceAdd, Nat.reducePow]
      omega
    · simp only [Nat.reducePow]
      omega

theorem pulse_thsx_ths_masking :
    masking_law mma8451_get_pulse_thsx mma8451_set_pulse_thsx
      (fun v data => { data with ths := v }) (fun data => data.ths) 0 7 := by
  intro device data v
  refine ⟨data.unused % 2 * 128 + v % 128, ?_, ?_, ?_⟩
  · exact written_byte_of_issued (set_pulse_thsx_issued device _)
  · intro device2 data2 h2
    rw [get_pulse_thsx_of_read h2]
    show (data.unused % 2 * 128 + v % 128) % 128 = v &&& ((1 <<< 7) - 1)
    rw [show ((1 <<< 7) - 1) = 2 ^ 7 - 1 from rfl, Nat.and_pow_two_sub_one_eq_mod]
    omega
  · intro v2
    refine ⟨data.unused % 2 * 128 + v2 % 128, ?_, ?_, ?_⟩
    · exact written_byte_of_issued (set_pulse_thsx_issued device _)
    · simp only [Nat.reduceAdd, Nat.reducePow]
      omega
    · simp only [Nat.reducePow]
      omega

theorem pulse_thsy_ths_masking :
    masking_law mma8451_get_pulse_thsy mma8451_set_pulse_thsy
      (fun v data => { data with ths := v }) (fun data => data.ths) 0 7 := by
  intro device data v
  refine ⟨data.unused % 2 * 128 + v % 128, ?_, ?_, ?_⟩
  · exact written_byte_of_issued (set_pulse_thsy_issued device _)
  · intro device2 data2 h2
    rw [get_pulse_thsy_of_read h2]
    show (data.unused % 2 * 128 + v % 128) % 128 = v &&& ((1 <<< 7) - 1)
    rw [show ((1 <<< 7) - 1) = 2 ^ 7 - 1 from rfl, Nat.and_pow_two_sub_one_eq_mod]
    omega
  · intro v2
    refine ⟨data.unused % 2 * 128 + v2 % 128, ?_, ?_, ?_⟩
    · exact written_byte_of_issued (set_pulse_thsy_issued device _)
    · simp only [Nat.reduceAdd, Nat.reducePow]
      omega
    · simp only [Nat.reducePow]
      omega

theorem pulse_thsz_ths_masking :
    masking_law mma8451_get_pulse_thsz mma8451_set_pulse_thsz
      (fun v data => { data with ths := v }) (fun data => data.ths) 0 7 := by
  intro device data v
  refine ⟨data.unused % 2 * 128 + v % 128, ?_, ?_, ?_⟩
  · exact written_byte_of_issued (set_pulse_thsz_issued device _)
  · intro device2 data2 h2
    rw [get_pulse_thsz_of_read h2]
    show (data.unused % 2 * 128 + v % 128) % 128 = v &&& ((1 <<< 7) - 1)
    rw [show ((1 <<< 7) - 1) = 2 ^ 7 - 1 from rfl, Nat.and_pow_two_sub_one_eq_mod]
    omega
  · intro v2
    refine ⟨data.unused % 2 * 128 + v2 % 128, ?_, ?_, ?_⟩
    · exact written_byte_of_issued (set_pulse_thsz_issued device _)
    · simp only [Nat.reduceAdd, Nat.reducePow]
      omega
    · simp only [Nat.reducePow]
      omega

theorem ctrl_reg1_aslp_rate_masking :
    masking_law mma8451_get_ctrl_reg1 mma8451_set_ctrl_reg1
      (fun v data => { data with aslp_rate := v }) (fun data => data.aslp_rate) 6 2 := by
  intro device data v
  refine ⟨v % 4 * 64 + data.dr % 8 * 8 + data.lnoise % 2 * 4 + data.f_read % 2 * 2 + data.active % 2, ?_, ?_, ?_⟩
  · exact written_byte_of_issued (set_ctrl_reg1_issued device _)
  · intro device2 data2 h2
    rw [get_ctrl_reg1_of_read h2]
    show (v % 4 * 64 + data.dr % 8 * 8 + data.lnoise % 2 * 4 + data.f_read % 2 * 2 + data.active % 2) / 64 = v &&& ((1 <<< 2) - 1)
    rw [show ((1 <<< 2) - 1) = 2 ^ 2 - 1 from rfl, Nat.and_pow_two_sub_one_eq_mod]
    omega
  · intro v2
    refine ⟨v2 % 4 * 64 + data.dr % 8 * 8 + data.lnoise % 2 * 4 + data.f_read % 2 * 2 + data.active % 2, ?_, ?_, ?_⟩
    · exact written_byte_of_issued (set_ctrl_reg1_issued device _)
    · simp only [Nat.reduceAdd, Nat.reducePow]
      omega
    · simp only [Nat.reducePow]
      omega

theorem ctrl_reg1_dr_masking :
    masking_law mma8451_get_ctrl_reg1 mma8451_set_ctrl_reg1
      (fun v data => { data with dr := v }) (fun data => data.dr) 3 3 := by
  intro device data v
  refine ⟨data.aslp_rate % 4 * 64 + v % 8 * 8 + data.lnoise % 2 * 4 + data.f_read % 2 * 2 + data.active % 2, ?_, ?_, ?_⟩
  · exact written_byte_of_issued (set_ctrl_reg1_issued device _)
  · intro device2 data2 h2
    rw [get_ctrl_reg1_of_read h2]
    show (data.aslp_rate % 4 * 64 + v % 8 * 8 + data.lnoise % 2 * 4 + data.f_read % 2 * 2 + data.active % 2) / 8 % 8 = v &&& ((1 <<< 3) - 1)
    rw [show ((1 <<< 3) - 1) = 2 ^ 3 - 1 from rfl, Nat.and_pow_two_sub_one_eq_mod]
    omega
  · intro v2
    refine ⟨data.aslp_rate % 4 * 64 + v2 % 8 * 8 + data.lnoise % 2 * 4 + data.f_read % 2 * 2 + data.active % 2, ?_, ?_, ?_⟩
    · exact written_byte_of_issued (set_ctrl_reg1_issued device _)
    · simp only [Nat.reduceAdd, Nat.reducePow]
      omega
    · simp only [Nat.reducePow]
      omega

theorem ctrl_reg2_smods_masking :
    masking_law mma8451_get_ctrl_reg2 mma8451_set_ctrl_reg2
      (fun v data => { data with smods := v }) (fun data => data.smods) 3 2 := by
  intro device data v
  refine ⟨data.st % 2 * 128 + data.rst % 2 * 64 + data.unused % 2 * 32 + v % 4 * 8 + data.slpe % 2 * 4 + data.mods % 4, ?_, ?_, ?_⟩
  · exact written_byte_of_issued (set_ctrl_reg2_issued device _)
  · intro device2 data2 h2
    rw [get_ctrl_reg2_of_read h2]
    show (data.st % 2 * 128 + data.rst % 2 * 64 + data.unused % 2 * 32 + v % 4 * 8 + data.slpe % 2 * 4 + data.mods % 4) / 8 % 4 = v &&& ((1 <<< 2) - 1)
    rw [show ((1 <<< 2) - 1) = 2 ^ 2 - 1 from rfl, Nat.and_pow_two_sub_one_eq_mod]
    omega
  · intro v2
    refine ⟨data.st % 2 * 128 + data.rst % 2 * 64 + data.unused % 2 * 32 + v2 % 4 * 8 + data.slpe % 2 * 4 + data.mods % 4, ?_, ?_, ?_⟩
    · exact written_byte_of_issued (set_ctrl_reg2_issued device _)
    · simp only [Nat.reduceAdd, Nat.reducePow]
      omega
    · simp only [Nat.reducePow]
      omega

theorem ctrl_reg2_mods_masking :
    masking_law mma8451_get_ctrl_reg2 mma8451_set_ctrl_reg2
      (fun v data => { data with mods := v }) (fun data => data.mods) 0 2 := by
  intro device data v
  refine ⟨data.st % 2 * 128 + data.rst % 2 * 64 + data.unused % 2 * 32 + data.smods % 4 * 8 + data.slpe % 2 * 4 + v % 4, ?_, ?_, ?_⟩
  · exact written_byte_of_issued (set_ctrl_reg2_issued device _)
  · intro device2 data2 h2
    rw [get_ctrl_reg2_of_read h2]
    show (data.st % 2 * 128 + data.rst % 2 * 64 + data.unused % 2 * 32 + data.smods % 4 * 8 + data.slpe % 2 * 4 + v % 4) % 4 = v &&& ((1 <<< 2) - 1)
    rw [show ((1 <<< 2) - 1) = 2 ^ 2 - 1 from rfl, Nat.and_pow_two_sub_one_eq_mod]
    omega
  · intro v2
    refine ⟨data.st % 2 * 128 + data.rst % 2 * 64 + data.unused % 2 * 32 + data.smods % 4 * 8 + data.slpe % 2 * 4 + v2 % 4, ?_, ?_, ?_⟩
    · exact written_byte_of_issued (set_ctrl_reg2_issued device _)
    · simp only [Nat.reduceAdd, Nat.reducePow]
      omega
    · simp only [Nat.reducePow]
      omega

/-! ## The register codec (claims C1 to C4) -/

theorem set_register_issued (device : mma8451) (reg : Nat) (g : mma8451_register_generic)
    (byteData : Nat) :
    issued device (mma8451_set_register device reg (some g) byteData).device =
      [write_request device.addr (reg % 256) (weighted g)] := by
  cases h : outcome_at device 0 with
  | failure e => rw [set_register_of_failure h]; simp [issued, refused]
  | success inbuf => rw [set_register_of_success h]; simp [issued, logged]

/-- Claim C1: when the device answers the byte b, mma8451_get_register decodes it
into bit7..bit0 and mma8451_set_register, given those eight fields, writes
exactly b; and for each all-flag register with a getter and a setter (TRIG_CFG,
HP_FILTER_CUTOFF, PL_CFG, FF_MT_CFG, TRANSIENT_CFG, PULSE_CFG, CTRL_REG3,
CTRL_REG4, CTRL_REG5) the getter followed by the setter writes b back to that
register. -/
theorem flag_registers_round_trip (device : mma8451) (b : Nat)
    (h : next_read device.file = some b) :
    (∀ (reg reg2 : Nat) (g : mma8451_register_generic) (byteData : Nat),
      ∃ g2, (mma8451_get_register device reg (some g) none).ret = 1 ∧
        (mma8451_get_register device reg (some g) none).data.1 = some g2 ∧
        issued (mma8451_get_register device reg (some g) none).device
          (mma8451_set_register (mma8451_get_register device reg (some g) none).device
            reg2 (some g2) byteData).device =
          [write_request device.addr (reg2 % 256) b]) ∧
    writes_back mma8451_get_trig_cfg mma8451_set_trig_cfg device
      MMA8451_REGISTER_TRIG_CFG b ∧
    writes_back mma8451_get_hp_filter_cutoff mma8451_set_hp_filter_cutoff device
      MMA8451_REGISTER_HP_FILTER_CUTOFF b ∧
    writes_back mma8451_get_pl_cfg mma8451_set_pl_cfg device
      MMA8451_REGISTER_PL_CFG b ∧
    writes_back mma8451_get_ff_mt_cfg mma8451_set_ff_mt_cfg device
      MMA8451_REGISTER_FF_MT_CFG b ∧
    writes_back mma8451_get_transient_cfg mma8451_set_transient_cfg device
      MMA8451_REGISTER_TRANSIENT_CFG b ∧
    writes_back mma8451_get_pulse_cfg mma8451_set_pulse_cfg device
      MMA8451_REGISTER_PULSE_CFG b ∧
    writes_back mma8451_get_ctrl_reg3 mma8451_set_ctrl_reg3 device
      MMA8451_REGISTER_CTRL_REG3 b ∧
    writes_back mma8451_get_ctrl_reg4 mma8451_set_ctrl_reg4 device
      MMA8451_REGISTER_CTRL_REG4 b ∧
    writes_back mma8451_get_ctrl_reg5 mma8451_set_ctrl_reg5 device
      MMA8451_REGISTER_CTRL_REG5 b := by
  refine ⟨?_, trig_cfg_round_trip h, hp_filter_cutoff_round_trip h, pl_cfg_round_trip h, ff_mt_cfg_round_trip h, transient_cfg_round_trip h, pulse_cfg_round_trip h, ctrl_reg3_round_trip h, ctrl_reg4_round_trip h, ctrl_reg5_round_trip h⟩
  intro reg reg2 g byteData
  rw [get_register_of_read h]
  refine ⟨digits b, rfl, rfl, ?_⟩
  rw [set_register_issued, weighted_digits b (next_read_lt h)]
  rfl

/-- Witness of C1: a device that answers 0xA5 to every read. -/
theorem flag_registers_round_trip_witness :
    next_read (scripted [some [0xA5], some []]).file = some 0xA5 ∧
      writes_back mma8451_get_trig_cfg mma8451_set_trig_cfg (scripted [some [0xA5], some []])
        MMA8451_REGISTER_TRIG_CFG 0xA5 :=
  ⟨rfl, (flag_registers_round_trip (scripted [some [0xA5], some []]) 0xA5 rfl).2.1⟩

/-- Claim C2: when the device answers the byte b, for each packed register with a
getter and a setter (F_SETUP, XYZ_DATA_CFG, PL_BF_ZCOMP, P_L_THS_REG, FF_MT_THS,
TRANSIENT_THS, PULSE_THSX, PULSE_THSY, PULSE_THSZ, CTRL_REG1, CTRL_REG2) the
struct the getter decodes, passed unchanged to the setter, makes the setter write
b to that register. -/
theorem packed_registers_round_trip (device : mma8451) (b : Nat)
    (h : next_read device.file = some b) :
    writes_back mma8451_get_f_setup mma8451_set_f_setup device
      MMA8451_REGISTER_F_SETUP b ∧
    writes_back mma8451_get_xyz_data_cfg mma8451_set_xyz_data_cfg device
      MMA8451_REGISTER_XYZ_DATA_CFG b ∧
    writes_back mma8451_get_pl_bf_zcomp mma8451_set_pl_bf_zcomp device
      MMA8451_REGISTER_PL_BF_ZCOMP b ∧
    writes_back mma8451_get_p_l_ths_reg mma8451_set_p_l_ths_reg device
      MMA8451_REGISTER_P_L_THS_REG b ∧
    writes_back mma8451_get_ff_mt_ths mma8451_set_ff_mt_ths device
      MMA8451_REGISTER_FF_MT_THS b ∧
    writes_back mma8451_get_transient_ths mma8451_set_transient_ths device
      MMA8451_REGISTER_TRANSIENT_THS b ∧
    writes_back mma8451_get_pulse_thsx mma8451_set_pulse_thsx device
      MMA8451_REGISTER_PULSE_THSX b ∧
    writes_back mma8451_get_pulse_thsy mma8451_set_pulse_thsy device
      MMA8451_REGISTER_PULSE_THSY b ∧
    writes_back mma8451_get_pulse_thsz mma8451_set_pulse_thsz device
      MMA8451_REGISTER_PULSE_THSZ b ∧
    writes_back mma8451_get_ctrl_reg1 mma8451_set_ctrl_reg1 device
      MMA8451_REGISTER_CTRL_REG1 b ∧
    writes_back mma8451_get_ctrl_reg2 mma8451_set_ctrl_reg2 device
      MMA8451_REGISTER_CTRL_REG2 b :=
  ⟨f_setup_round_trip h, xyz_data_cfg_round_trip h, pl_bf_zcomp_round_trip h, p_l_ths_reg_round_trip h, ff_mt_ths_round_trip h, transient_ths_round_trip h, pulse_thsx_round_trip h, pulse_thsy_round_trip h, pulse_thsz_round_trip h, ctrl_reg1_round_trip h, ctrl_reg2_round_trip h⟩

/-- Witness of C2: a device that answers 0x5B to the read of CTRL_REG1. -/
theorem packed_registers_round_trip_witness :
    next_read (scripted [some [0x5B], none]).file = some 0x5B ∧
      writes_back mma8451_get_ctrl_reg1 mma8451_set_ctrl_reg1 (scripted [some [0x5B], none])
        MMA8451_REGISTER_CTRL_REG1 0x5B :=
  ⟨rfl, (packed_registers_round_trip (scripted [some [0x5B], none]) 0x5B rfl).2.2.2.2.2.2.2.2.2.1⟩

/-- Claim C3: the masking law for every packed integer field (f_mode 2 bits, f_wmrk
6, fs 2, bkfr 2, zlock 3, p_l_ths 5, hys 3, ths 7 in its five registers,
aslp_rate 2, dr 3, smods 2, mods 2): for every value v put in the composite
field, also v at or above 2^w, the byte the setter writes decodes to
v & ((1 << w) - 1), and the bits of that byte outside the field are the same
for every v. -/
theorem composite_fields_masking :
    masking_law mma8451_get_f_setup mma8451_set_f_setup
      (fun v data => { data with f_mode := v }) (fun data => data.f_mode) 6 2 ∧
    masking_law mma8451_get_f_setup mma8451_set_f_setup
      (fun v data => { data with f_wmrk := v }) (fun data => data.f_wmrk) 0 6 ∧
    masking_law mma8451_get_xyz_data_cfg mma8451_set_xyz_data_cfg
      (fun v data => { data with fs := v }) (fun data => data.fs) 0 2 ∧
    masking_law mma8451_get_pl_bf_zcomp mma8451_set_pl_bf_zcomp
      (fun v data => { data with bkfr := v }) (fun data => data.bkfr) 6 2 ∧
    masking_law mma8451_get_pl_bf_zcomp mma8451_set_pl_bf_zcomp
      (fun v data => { data with zlock := v }) (fun data => data.zlock) 0 3 ∧
    masking_law mma8451_get_p_l_ths_reg mma8451_set_p_l_ths_reg
      (fun v data => { data with p_l_ths := v }) (fun data => data.p_l_ths) 3 5 ∧
    masking_law mma8451_get_p_l_ths_reg mma8451_set_p_l_ths_reg
      (fun v data => { data with hys := v }) (fun data => data.hys) 0 3 ∧
    masking_law mma8451_get_ff_mt_ths mma8451_set_ff_mt_ths
      (fun v data => { data with ths := v }) (fun data => data.ths) 0 7 ∧
    masking_law mma8451_get_transient_ths mma8451_set_transient_ths
      (fun v data => { data with ths := v }) (fun data => data.ths) 0 7 ∧
    masking_law mma8451_get_pulse_thsx mma8451_set_pulse_thsx
      (fun v data => { data with ths := v }) (fun data => data.ths) 0 7 ∧
    masking_law mma8451_get_pulse_thsy mma8451_set_pulse_thsy
      (fun v data => { data with ths := v }) (fun data => data.ths) 0 7 ∧
    masking_law mma8451_get_pulse_thsz mma8451_set_pulse_thsz
      (fun v data => { data with ths := v }) (fun data => data.ths) 0 7 ∧
    masking_law mma8451_get_ctrl_reg1 mma8451_set_ctrl_reg1
      (fun v data => { data with aslp_rate := v }) (fun data => data.aslp_rate) 6 2 ∧
    masking_law mma8451_get_ctrl_reg1 mma8451_set_ctrl_reg1
      (fun v data => { data with dr := v }) (fun data => data.dr) 3 3 ∧
    masking_law mma8451_get_ctrl_reg2 mma8451_set_ctrl_reg2
      (fun v data => { data with smods := v }) (fun data => data.smods) 3 2 ∧
    masking_law mma8451_get_ctrl_reg2 mma8451_set_ctrl_reg2
      (fun v data => { data with mods := v }) (fun data => data.mods) 0 2 :=
  ⟨f_setup_f_mode_masking,
    f_setup_f_wmrk_masking,
    xyz_data_cfg_fs_masking,
    pl_bf_zcomp_bkfr_masking,
    pl_bf_zcomp_zlock_masking,
    p_l_ths_reg_p_l_ths_masking,
    p_l_ths_reg_hys_masking,
    ff_mt_ths_ths_masking,
    transient_ths_ths_masking,
    pulse_thsx_ths_masking,
    pulse_thsy_ths_masking,
    pulse_thsz_ths_masking,
    ctrl_reg1_aslp_rate_masking,
    ctrl_reg1_dr_masking,
    ctrl_reg2_smods_masking,
    ctrl_reg2_mods_masking⟩

set_option maxRecDepth 1000000 in
theorem byte_slices : ∀ b < 256,
    b % 64 = b &&& 0x3F ∧
    b / 64 = b >>> 6 ∧
    b / 4 % 32 = (b >>> 2) &&& 0x1F ∧
    b % 4 = b &&& 0x3 ∧
    b % 8 = b &&& 0x7 ∧
    b / 8 = b >>> 3 ∧
    b % 128 = b &&& 0x7F ∧
    b / 8 % 8 = (b >>> 3) &&& 0x7 ∧
    b / 8 % 4 = (b >>> 3) &&& 0x3 := by
  decide

/-- Claim C4: when the byte b is read successfully, the composite fields the getters
compute are the shifted and masked slices of b: F_STATUS f_cnt = b & 0x3F;
F_SETUP f_mode = b >> 6, f_wmrk = b & 0x3F; SYSMOD fgt = (b >> 2) & 0x1F,
mode = b & 3; XYZ_DATA_CFG fs = b & 3; PL_BF_ZCOMP bkfr = b >> 6, zlock = b & 7;
P_L_THS_REG p_l_ths = b >> 3, hys = b & 7; FF_MT_THS, TRANSIENT_THS, PULSE_THSX,
PULSE_THSY, PULSE_THSZ ths = b & 0x7F; CTRL_REG1 aslp_rate = b >> 6,
dr = (b >> 3) & 7; CTRL_REG2 smods = (b >> 3) & 3, mods = b & 3. -/
theorem getter_composites_are_slices (device : mma8451) (b : Nat)
    (h : next_read device.file = some b) :
    (∀ data : mma8451_register_f_status,
      (mma8451_get_f_status device data).ret = 1 ∧
      (mma8451_get_f_status device data).data.f_cnt = b &&& 0x3F) ∧
    (∀ data : mma8451_register_f_setup,
      (mma8451_get_f_setup device data).ret = 1 ∧
      (mma8451_get_f_setup device data).data.f_mode = b >>> 6 ∧
      (mma8451_get_f_setup device data).data.f_wmrk = b &&& 0x3F) ∧
    (∀ data : mma8451_register_sysmod,
      (mma8451_get_sysmod device data).ret = 1 ∧
      (mma8451_get_sysmod device data).data.fgt = (b >>> 2) &&& 0x1F ∧
      (mma8451_get_sysmod device data).data.mode = b &&& 0x3) ∧
    (∀ data : mma8451_register_xyz_data_cfg,
      (mma8451_get_xyz_data_cfg device data).ret = 1 ∧
      (mma8451_get_xyz_data_cfg device data).data.fs = b &&& 0x3) ∧
    (∀ data : mma8451_register_pl_bf_zcomp,
      (mma8451_get_pl_bf_zcomp device data).ret = 1 ∧
      (mma8451_get_pl_bf_zcomp device data).data.bkfr = b >>> 6 ∧
      (mma8451_get_pl_bf_zcomp device data).data.zlock = b &&& 0x7) ∧
    (∀ data : mma8451_register_p_l_ths_reg,
      (mma8451_get_p_l_ths_reg device data).ret = 1 ∧
      (mma8451_get_p_l_ths_reg device data).data.p_l_ths = b >>> 3 ∧
      (mma8451_get_p_l_ths_reg device data).data.hys = b &&& 0x7) ∧
    (∀ data : mma8451_register_ff_mt_ths,
      (mma8451_get_ff_mt_ths device data).ret = 1 ∧
      (mma8451_get_ff_mt_ths device data).data.ths = b &&& 0x7F) ∧
    (∀ data : mma8451_register_transient_ths,
      (mma8451_get_transient_ths device data).ret = 1 ∧
      (mma8451_get_transient_ths device data).data.ths = b &&& 0x7F) ∧
    (∀ data : mma8451_register_pulse_ths,
      (mma8451_get_pulse_thsx device data).ret = 1 ∧
      (mma8451_get_pulse_thsx device data).data.ths = b &&& 0x7F) ∧
    (∀ data : mma8451_register_pulse_ths,
      (mma8451_get_pulse_thsy device data).ret = 1 ∧
      (mma8451_get_pulse_thsy device data).data.ths = b &&& 0x7F) ∧
    (∀ data : mma8451_register_pulse_ths,
      (mma8451_get_pulse_thsz device data).ret = 1 ∧
      (mma8451_get_pulse_thsz device data).data.ths = b &&& 0x7F) ∧
    (∀ data : mma8451_register_ctrl_reg1,
      (mma8451_get_ctrl_reg1 device data).ret = 1 ∧
      (mma8451_get_ctrl_reg1 device data).data.aslp_rate = b >>> 6 ∧
      (mma8451_get_ctrl_reg1 device data).data.dr = (b >>> 3) &&& 0x7) ∧
    (∀ data : mma8451_register_ctrl_reg2,
      (mma8451_get_ctrl_reg2 device data).ret = 1 ∧
      (mma8451_get_ctrl_reg2 device data).data.smods = (b >>> 3) &&& 0x3 ∧
      (mma8451_get_ctrl_reg2 device data).data.mods = b &&& 0x3) := by
  obtain ⟨h0, h1, h2, h3, h4, h5, h6, h7, h8⟩ := byte_slices b (next_read_lt h)
  refine ⟨?_, ?_, ?_, ?_, ?_, ?_, ?_, ?_, ?_, ?_, ?_, ?_, ?_⟩
  · intro data
    rw [get_f_status_of_read h]
    exact ⟨rfl, h0⟩
  · intro data
    rw [get_f_setup_of_read h]
    exact ⟨rfl, h1, h0⟩
  · intro data
    rw [get_sysmod_of_read h]
    exact ⟨rfl, h2, h3⟩
  · intro data
    rw [get_xyz_data_cfg_of_read h]
    exact ⟨rfl, h3⟩
  · intro data
    rw [get_pl_bf_zcomp_of_read h]
    exact ⟨rfl, h1, h4⟩
  · intro data
    rw [get_p_l_ths_reg_of_read h]
    exact ⟨rfl, h5, h4⟩
  · intro data
    rw [get_ff_mt_ths_of_read h]
    exact ⟨rfl, h6⟩
  · intro data
    rw [get_transient_ths_of_read h]
    exact ⟨rfl, h6⟩
  · intro data
    rw [get_pulse_thsx_of_read h]
    exact ⟨rfl, h6⟩
  · intro data
    rw [get_pulse_thsy_of_read h]
    exact ⟨rfl, h6⟩
  · intro data
    rw [get_pulse_thsz_of_read h]
    exact ⟨rfl, h6⟩
  · intro data
    rw [get_ctrl_reg1_of_read h]
    exact ⟨rfl, h1, h7⟩
  · intro data
    rw [get_ctrl_reg2_of_read h]
    exact ⟨rfl, h8, h3⟩

/-- Witness of C4: a device that answers 0xD6. -/
theorem getter_composites_are_slices_witness :
    next_read (scripted [some [0xD6]]).file = some 0xD6 ∧
      ∀ data : mma8451_register_ctrl_reg1,
        (mma8451_get_ctrl_reg1 (scripted [some [0xD6]]) data).ret = 1 ∧
        (mma8451_get_ctrl_reg1 (scripted [some [0xD6]]) data).data.aslp_rate = 0xD6 >>> 6 ∧
        (mma8451_get_ctrl_reg1 (scripted [some [0xD6]]) data).data.dr = (0xD6 >>> 3) &&& 0x7 :=
  ⟨rfl, (getter_composites_are_slices (scripted [some [0xD6]]) 0xD6 rfl).2.2.2.2.2.2.2.2.2.2.2.1⟩

/-! ## Acceleration samples (claims C5 to C10) -/

theorem next_block_lt {file : i2c_bus} {tmp : Nat → Nat} (h : next_block file = some tmp)
    (i : Nat) : tmp i < 256 := by
  unfold next_block at h
  split at h
  · simp at h
  · simp only [Option.some.injEq] at h
    subst h
    exact Nat.mod_lt _ (by decide)

theorem get_acceleration_of_block {device : mma8451} {tmp : Nat → Nat}
    (h : next_block device.file = some tmp) (data : mma8451_acceleration) :
    mma8451_get_acceleration device data =
      if device.data_size = MMA8451_14BIT_OUTPUT then
        ⟨1, logged device (read_request device.addr 0x01 6),
          acceleration_scale_14bit device.range (acceleration_raw_14bit tmp)⟩
      else
        ⟨1, logged device (read_request device.addr 0x01 3),
          acceleration_scale_8bit device.range (acceleration_raw_8bit tmp)⟩ := by
  unfold next_block at h
  split at h
  · simp at h
  · rename_i inbuf hout
    simp only [Option.some.injEq] at h
    simp only [mma8451_get_acceleration, mma8451_get_i2c_register_block, ioctl, hout, h, logged,
      read_request, MMA8451_REGISTER_OUT_X_MSB]

theorem get_acceleration_of_failure {device : mma8451} {e : Nat}
    (h : outcome_at device 0 = .failure e) (data : mma8451_acceleration) :
    mma8451_get_acceleration device data =
      ⟨0, { device with
            file := { device.file with
              calls := device.file.calls ++
                [read_request device.addr 0x01
                  (if device.data_size = MMA8451_14BIT_OUTPUT then 6 else 3)]
              errno := e } }, data⟩ := by
  simp only [outcome_at, Nat.add_zero] at h
  simp only [mma8451_get_acceleration, mma8451_get_i2c_register_block, ioctl, h,
    read_request, MMA8451_REGISTER_OUT_X_MSB]
  split <;> rfl

theorem assemble_14bit {msb lsb : Nat} (hl : lsb < 256) :
    (msb <<< 6) ||| (lsb >>> 2) = msb * 64 + lsb / 4 := by
  have h4 : lsb / 4 < 2 ^ 6 := by
    simp only [Nat.reducePow]
    omega
  rw [Nat.shiftLeft_eq, Nat.shiftRight_eq_div_pow, Nat.mul_comm, ← Nat.mul_add_lt_is_or h4]

theorem sign_extend_14bit (r : Nat) (hr : r < 16384) :
    ((r : ℚ) - (if (r : ℚ) > (MAX_14BIT_VALUE : ℚ) then (MAX_14BIT_SIGNED : ℚ) else 0)) =
      (((BitVec.ofNat 14 r).toInt : ℤ) : ℚ) := by
  have hv : ((r : ℚ) > (MAX_14BIT_VALUE : ℚ)) ↔ 8191 < r := by
    simp only [MAX_14BIT_VALUE, gt_iff_lt]
    exact_mod_cast Iff.rfl
  simp only [hv, BitVec.toInt, BitVec.toNat_ofNat, MAX_14BIT_SIGNED]
  have hm : r % 2 ^ 14 = r := Nat.mod_eq_of_lt (by simpa using hr)
  rw [hm]
  by_cases hc : 8191 < r
  · have h2 : ¬ 2 * r < 2 ^ 14 := by
      simp only [Nat.reducePow]
      omega
    simp only [hc, h2, if_true, if_false]
    push_cast
    ring
  · have h2 : 2 * r < 2 ^ 14 := by
      simp only [Nat.reducePow]
      omega
    simp only [hc, h2, if_true, if_false]
    push_cast
    ring

theorem sign_extend_14bit_range (r : Nat) (hr : r < 16384) :
    -8192 ≤ (BitVec.ofNat 14 r).toInt ∧ (BitVec.ofNat 14 r).toInt ≤ 8191 := by
  simp only [BitVec.toInt, BitVec.toNat_ofNat]
  have hm : r % 2 ^ 14 = r := Nat.mod_eq_of_lt (by simpa using hr)
  rw [hm]
  split <;> simp only [Nat.reducePow] at * <;> omega

theorem sign_extend_8bit (b : Nat) :
    ((b : ℚ) - (if (b : ℚ) > (MAX_8BIT_VALUE : ℚ) then (MAX_8BIT_SIGNED : ℚ) else 0)) =
      (((if b ≤ 0x7F then (b : ℤ) else (b : ℤ) - 0xFF) : ℤ) : ℚ) := by
  have hv : ((b : ℚ) > (MAX_8BIT_VALUE : ℚ)) ↔ ¬ b ≤ 0x7F := by
    simp only [MAX_8BIT_VALUE, gt_iff_lt, not_le]
    exact_mod_cast Iff.rfl
  simp only [hv, MAX_8BIT_SIGNED]
  by_cases hc : b ≤ 0x7F
  · simp only [hc, not_true_eq_false, if_true, if_false]
    push_cast
    ring
  · simp only [hc, not_false_eq_true, if_true, if_false]
    push_cast
    ring

theorem raw_14bit_axes {tmp : Nat → Nat} (h : ∀ i, tmp i < 256) :
    acceleration_raw_14bit tmp =
      { x := (((BitVec.ofNat 14 (tmp 0 * 64 + tmp 1 / 4)).toInt : ℤ) : ℚ)
        y := (((BitVec.ofNat 14 (tmp 2 * 64 + tmp 3 / 4)).toInt : ℤ) : ℚ)
        z := (((BitVec.ofNat 14 (tmp 4 * 64 + tmp 5 / 4)).toInt : ℤ) : ℚ) } := by
  have h0 := h 0
  have h1 := h 1
  have h2 := h 2
  have h3 := h 3
  have h4 := h 4
  have h5 := h 5
  simp only [acceleration_raw_14bit, assemble_14bit h1, assemble_14bit h3, assemble_14bit h5]
  rw [sign_extend_14bit _ (by omega), sign_extend_14bit _ (by omega),
    sign_extend_14bit _ (by omega)]

theorem raw_8bit_axes (tmp : Nat → Nat) :
    acceleration_raw_8bit tmp =
      { x := (((if tmp 0 ≤ 0x7F then (tmp 0 : ℤ) else (tmp 0 : ℤ) - 0xFF) : ℤ) : ℚ)
        y := (((if tmp 1 ≤ 0x7F then (tmp 1 : ℤ) else (tmp 1 : ℤ) - 0xFF) : ℤ) : ℚ)
        z := (((if tmp 2 ≤ 0x7F then (tmp 2 : ℤ) else (tmp 2 : ℤ) - 0xFF) : ℤ) : ℚ) } := by
  simp only [acceleration_raw_8bit]
  rw [sign_extend_8bit, sign_extend_8bit, sign_extend_8bit]

/-- Claim C5: in 14-bit mode the sample mma8451_get_acceleration returns is the
scaling of a raw sample whose axes are, for the byte pairs (msb, lsb) read, the
two's-complement value of the 14-bit number (msb << 6) | (lsb >> 2), between
-8192 and 8191; the pair (0x00, 0x00) gives 0, (0x7F, 0xFC) gives 8191 and
(0x80, 0x00) gives -8192. -/
theorem raw_14bit_is_twos_complement (device : mma8451) (data : mma8451_acceleration)
    (tmp : Nat → Nat) (hsize : device.data_size = MMA8451_14BIT_OUTPUT)
    (h : next_block device.file = some tmp) :
    (mma8451_get_acceleration device data).ret = 1 ∧
    (mma8451_get_acceleration device data).data =
      acceleration_scale_14bit device.range (acceleration_raw_14bit tmp) ∧
    (acceleration_raw_14bit tmp).x =
      (((BitVec.ofNat 14 ((tmp 0 <<< 6) ||| (tmp 1 >>> 2))).toInt : ℤ) : ℚ) ∧
    (acceleration_raw_14bit tmp).y =
      (((BitVec.ofNat 14 ((tmp 2 <<< 6) ||| (tmp 3 >>> 2))).toInt : ℤ) : ℚ) ∧
    (acceleration_raw_14bit tmp).z =
      (((BitVec.ofNat 14 ((tmp 4 <<< 6) ||| (tmp 5 >>> 2))).toInt : ℤ) : ℚ) ∧
    (-8192 ≤ (acceleration_raw_14bit tmp).x ∧ (acceleration_raw_14bit tmp).x ≤ 8191) ∧
    (-8192 ≤ (acceleration_raw_14bit tmp).y ∧ (acceleration_raw_14bit tmp).y ≤ 8191) ∧
    (-8192 ≤ (acceleration_raw_14bit tmp).z ∧ (acceleration_raw_14bit tmp).z ≤ 8191) ∧
    (tmp 0 = 0x00 → tmp 1 = 0x00 → (acceleration_raw_14bit tmp).x = 0) ∧
    (tmp 0 = 0x7F → tmp 1 = 0xFC → (acceleration_raw_14bit tmp).x = 8191) ∧
    (tmp 0 = 0x80 → tmp 1 = 0x00 → (acceleration_raw_14bit tmp).x = -8192) := by
  have hlt := next_block_lt h
  have h0 := hlt 0
  have h1 := hlt 1
  have h2 := hlt 2
  have h3 := hlt 3
  have h4 := hlt 4
  have h5 := hlt 5
  have hx := sign_extend_14bit_range (tmp 0 * 64 + tmp 1 / 4) (by omega)
  have hy := sign_extend_14bit_range (tmp 2 * 64 + tmp 3 / 4) (by omega)
  have hz := sign_extend_14bit_range (tmp 4 * 64 + tmp 5 / 4) (by omega)
  have hx1 : (-8192 : ℚ) ≤ (((BitVec.ofNat 14 (tmp 0 * 64 + tmp 1 / 4)).toInt : ℤ) : ℚ) := by
    exact_mod_cast hx.1
  have hx2 : (((BitVec.ofNat 14 (tmp 0 * 64 + tmp 1 / 4)).toInt : ℤ) : ℚ) ≤ 8191 := by
    exact_mod_cast hx.2
  have hy1 : (-8192 : ℚ) ≤ (((BitVec.ofNat 14 (tmp 2 * 64 + tmp 3 / 4)).toInt : ℤ) : ℚ) := by
    exact_mod_cast hy.1
  have hy2 : (((BitVec.ofNat 14 (tmp 2 * 64 + tmp 3 / 4)).toInt : ℤ) : ℚ) ≤ 8191 := by
    exact_mod_cast hy.2
  have hz1 : (-8192 : ℚ) ≤ (((BitVec.ofNat 14 (tmp 4 * 64 + tmp 5 / 4)).toInt : ℤ) : ℚ) := by
    exact_mod_cast hz.1
  have hz2 : (((BitVec.ofNat 14 (tmp 4 * 64 + tmp 5 / 4)).toInt : ℤ) : ℚ) ≤ 8191 := by
    exact_mod_cast hz.2
  rw [get_acceleration_of_block h, if_pos hsize, raw_14bit_axes hlt, assemble_14bit h1,
    assemble_14bit h3, assemble_14bit h5]
  refine ⟨rfl, rfl, rfl, rfl, rfl, ⟨hx1, hx2⟩, ⟨hy1, hy2⟩, ⟨hz1, hz2⟩, ?_, ?_, ?_⟩
  · intro e0 e1
    show (((BitVec.ofNat 14 (tmp 0 * 64 + tmp 1 / 4)).toInt : ℤ) : ℚ) = 0
    rw [e0, e1]
    rfl
  · intro e0 e1
    show (((BitVec.ofNat 14 (tmp 0 * 64 + tmp 1 / 4)).toInt : ℤ) : ℚ) = 8191
    rw [e0, e1]
    rfl
  · intro e0 e1
    show (((BitVec.ofNat 14 (tmp 0 * 64 + tmp 1 / 4)).toInt : ℤ) : ℚ) = -8192
    rw [e0, e1]
    rfl

/-- Witness of C5: a block whose first pair is (0x80, 0x00). -/
theorem raw_14bit_is_twos_complement_witness :
    next_block (scripted [some [0x80, 0x00, 0x7F, 0xFC]]).file =
        some (fun i => [0x80, 0x00, 0x7F, 0xFC].getD i 0 % 256) ∧
      (acceleration_raw_14bit (fun i => [0x80, 0x00, 0x7F, 0xFC].getD i 0 % 256)).x = -8192 :=
  ⟨rfl, (raw_14bit_is_twos_complement (scripted [some [0x80, 0x00, 0x7F, 0xFC]]) ⟨0, 0, 0⟩
    (fun i => [0x80, 0x00, 0x7F, 0xFC].getD i 0 % 256) rfl rfl).2.2.2.2.2.2.2.2.2.2 rfl rfl⟩

/-- The scaling of the 14-bit branch, by range. -/
theorem scale_14bit_table {r : Nat} {K14 K8 : ℚ}
    (hr : (r, K14, K8) ∈ [(MMA8451_RANGE_2G, (4096 : ℚ), (64 : ℚ)),
      (MMA8451_RANGE_4G, 2048, 32), (MMA8451_RANGE_8G, 1024, 16)])
    (raw : mma8451_acceleration) :
    acceleration_scale_14bit r raw =
      { x := raw.x / (K14 / (980665 / 100000)), y := raw.y / (K14 / (980665 / 100000)),
        z := raw.z / (K14 / (980665 / 100000)) } := by
  simp only [List.mem_cons, Prod.mk.injEq, List.mem_singleton, List.not_mem_nil, or_false] at hr
  rcases hr with ⟨h1, h2, _⟩ | ⟨h1, h2, _⟩ | ⟨h1, h2, _⟩ <;> subst h1 <;> subst h2 <;>
    simp [acceleration_scale_14bit, MMA8451_RANGE_2G, MMA8451_RANGE_4G, MMA8451_RANGE_8G,
      RANGE_DIV_2G_14BIT, RANGE_DIV_4G_14BIT, RANGE_DIV_8G_14BIT, GRAVITY_ACCEL]

/-- The scaling of the 8-bit branch, by range. -/
theorem scale_8bit_table {r : Nat} {K14 K8 : ℚ}
    (hr : (r, K14, K8) ∈ [(MMA8451_RANGE_2G, (4096 : ℚ), (64 : ℚ)),
      (MMA8451_RANGE_4G, 2048, 32), (MMA8451_RANGE_8G, 1024, 16)])
    (raw : mma8451_acceleration) :
    acceleration_scale_8bit r raw =
      { x := raw.x / (K8 / (980665 / 100000)), y := raw.y / (K8 / (980665 / 100000)),
        z := raw.z / (K8 / (980665 / 100000)) } := by
  simp only [List.mem_cons, Prod.mk.injEq, List.mem_singleton, List.not_mem_nil, or_false] at hr
  rcases hr with ⟨h1, _, h3⟩ | ⟨h1, _, h3⟩ | ⟨h1, _, h3⟩ <;> subst h1 <;> subst h3 <;>
    simp [acceleration_scale_8bit, MMA8451_RANGE_2G, MMA8451_RANGE_4G, MMA8451_RANGE_8G,
      RANGE_DIV_2G_8BIT, RANGE_DIV_4G_8BIT, RANGE_DIV_8G_8BIT, GRAVITY_ACCEL]

theorem table_counts_pos {r : Nat} {K14 K8 : ℚ}
    (hr : (r, K14, K8) ∈ [(MMA8451_RANGE_2G, (4096 : ℚ), (64 : ℚ)),
      (MMA8451_RANGE_4G, 2048, 32), (MMA8451_RANGE_8G, 1024, 16)]) : K14 ≠ 0 ∧ K8 ≠ 0 := by
  simp only [List.mem_cons, Prod.mk.injEq, List.mem_singleton, List.not_mem_nil, or_false] at hr
  rcases hr with ⟨_, h2, h3⟩ | ⟨_, h2, h3⟩ | ⟨_, h2, h3⟩ <;> subst h2 <;> subst h3 <;>
    exact ⟨by norm_num, by norm_num⟩

theorem counts_over_divisor {K : ℚ} (hK : K ≠ 0) : K / (K / (980665 / 100000)) = 980665 / 100000 := by
  field_simp
  ring

/-- Evaluation for claim C6: in 8-bit mode at 2G the block (0x80, 0xFF, 0x7F) has the
raw axes -127, 0 and 127, where the two's-complement values of 0x80 and 0xFF
are -128 and -1; mma8451_get_acceleration returns their scaling. -/
theorem raw_8bit_at_0x80 :
    (mma8451_get_acceleration
        { scripted [some [0x80, 0xFF, 0x7F]] with data_size := MMA8451_8BIT_OUTPUT }
        ⟨0, 0, 0⟩).data =
      acceleration_scale_8bit MMA8451_RANGE_2G
        (acceleration_raw_8bit (fun i => [0x80, 0xFF, 0x7F].getD i 0 % 256)) ∧
    acceleration_raw_8bit (fun i => [0x80, 0xFF, 0x7F].getD i 0 % 256) = ⟨-127, 0, 127⟩ ∧
    (BitVec.ofNat 8 0x80).toInt = -128 ∧ (BitVec.ofNat 8 0xFF).toInt = -1 := by
  refine ⟨?_, ?_, by decide, by decide⟩
  · have hb : next_block
        ({ scripted [some [0x80, 0xFF, 0x7F]] with data_size := MMA8451_8BIT_OUTPUT } : mma8451).file =
        some (fun i => [0x80, 0xFF, 0x7F].getD i 0 % 256) := rfl
    rw [get_acceleration_of_block hb]
    rfl
  · rw [raw_8bit_axes]
    norm_num

/-- Claim C7: in 8-bit mode the sample mma8451_get_acceleration returns is the
scaling of a raw sample whose axes are, for the bytes b read, b when b <= 0x7F
and b - 0xFF when b > 0x7F. -/
theorem raw_8bit_subtracts_255 (device : mma8451) (data : mma8451_acceleration)
    (tmp : Nat → Nat) (hsize : device.data_size = MMA8451_8BIT_OUTPUT)
    (h : next_block device.file = some tmp) :
    (mma8451_get_acceleration device data).ret = 1 ∧
    (mma8451_get_acceleration device data).data =
      acceleration_scale_8bit device.range (acceleration_raw_8bit tmp) ∧
    (acceleration_raw_8bit tmp).x =
      (((if tmp 0 ≤ 0x7F then (tmp 0 : ℤ) else (tmp 0 : ℤ) - 0xFF) : ℤ) : ℚ) ∧
    (acceleration_raw_8bit tmp).y =
      (((if tmp 1 ≤ 0x7F then (tmp 1 : ℤ) else (tmp 1 : ℤ) - 0xFF) : ℤ) : ℚ) ∧
    (acceleration_raw_8bit tmp).z =
      (((if tmp 2 ≤ 0x7F then (tmp 2 : ℤ) else (tmp 2 : ℤ) - 0xFF) : ℤ) : ℚ) := by
  have hs : ¬ device.data_size = MMA8451_14BIT_OUTPUT := by
    rw [hsize]
    decide
  rw [get_acceleration_of_block h, if_neg hs, raw_8bit_axes]
  exact ⟨rfl, rfl, rfl, rfl, rfl⟩

/-- Witness of C7: the block (0x80, 0xFF, 0x7F) in 8-bit mode. -/
theorem raw_8bit_subtracts_255_witness :
    ({ scripted [some [0x80, 0xFF, 0x7F]] with data_size := MMA8451_8BIT_OUTPUT } : mma8451).data_size
        = MMA8451_8BIT_OUTPUT ∧
      (acceleration_raw_8bit (fun i => [0x80, 0xFF, 0x7F].getD i 0 % 256)).x =
        (((if 0x80 ≤ 0x7F then (0x80 : ℤ) else (0x80 : ℤ) - 0xFF) : ℤ) : ℚ) :=
  ⟨rfl, (raw_8bit_subtracts_255
    { scripted [some [0x80, 0xFF, 0x7F]] with data_size := MMA8451_8BIT_OUTPUT } ⟨0, 0, 0⟩
    (fun i => [0x80, 0xFF, 0x7F].getD i 0 % 256) rfl rfl).2.2.1⟩

/-- Claim C8: for the ranges 2G, 4G and 8G, in both widths and for every block read,
a successful mma8451_get_acceleration returns on each axis the signed raw value
divided by K / 9.80665, in exact arithmetic with 9.80665 = 980665/100000,
where K is 4096, 2048, 1024 in 14-bit mode and 64, 32, 16 otherwise. -/
theorem acceleration_is_raw_over_divisor (device : mma8451) (data : mma8451_acceleration)
    (tmp : Nat → Nat) (r : Nat) (K14 K8 : ℚ)
    (hr : (r, K14, K8) ∈ [(MMA8451_RANGE_2G, (4096 : ℚ), (64 : ℚ)),
      (MMA8451_RANGE_4G, 2048, 32), (MMA8451_RANGE_8G, 1024, 16)])
    (hrange : device.range = r) (h : next_block device.file = some tmp) :
    (mma8451_get_acceleration device data).ret = 1 ∧
    (mma8451_get_acceleration device data).data =
      if device.data_size = MMA8451_14BIT_OUTPUT then
        { x := (acceleration_raw_14bit tmp).x / (K14 / (980665 / 100000))
          y := (acceleration_raw_14bit tmp).y / (K14 / (980665 / 100000))
          z := (acceleration_raw_14bit tmp).z / (K14 / (980665 / 100000)) }
      else
        { x := (acceleration_raw_8bit tmp).x / (K8 / (980665 / 100000))
          y := (acceleration_raw_8bit tmp).y / (K8 / (980665 / 100000))
          z := (acceleration_raw_8bit tmp).z / (K8 / (980665 / 100000)) } := by
  rw [get_acceleration_of_block h, hrange]
  by_cases hs : device.data_size = MMA8451_14BIT_OUTPUT
  · rw [if_pos hs, if_pos hs]
    exact ⟨rfl, scale_14bit_table hr _⟩
  · rw [if_neg hs, if_neg hs]
    exact ⟨rfl, scale_8bit_table hr _⟩

/-- Witness of C8: the handle as opened (2G, 14-bit) reading the block (0x40, 0x00). -/
theorem acceleration_is_raw_over_divisor_witness :
    (MMA8451_RANGE_2G, (4096 : ℚ), (64 : ℚ)) ∈ [(MMA8451_RANGE_2G, (4096 : ℚ), (64 : ℚ)),
      (MMA8451_RANGE_4G, 2048, 32), (MMA8451_RANGE_8G, 1024, 16)] ∧
    (mma8451_get_acceleration (scripted [some [0x40, 0x00]]) ⟨0, 0, 0⟩).ret = 1 :=
  ⟨List.mem_cons_self _ _, (acceleration_is_raw_over_divisor (scripted [some [0x40, 0x00]])
    ⟨0, 0, 0⟩ (fun i => [0x40, 0x00].getD i 0 % 256) MMA8451_RANGE_2G 4096 64
    (List.mem_cons_self _ _) rfl rfl).1⟩

theorem raw_14bit_of_pairs (b0 b1 b2 b3 b4 b5 : Nat) (h0 : b0 < 256) (h1 : b1 < 256)
    (h2 : b2 < 256) (h3 : b3 < 256) (h4 : b4 < 256) (h5 : b5 < 256) :
    acceleration_raw_14bit (fun i => [b0, b1, b2, b3, b4, b5].getD i 0 % 256) =
      { x := (((BitVec.ofNat 14 (b0 * 64 + b1 / 4)).toInt : ℤ) : ℚ)
        y := (((BitVec.ofNat 14 (b2 * 64 + b3 / 4)).toInt : ℤ) : ℚ)
        z := (((BitVec.ofNat 14 (b4 * 64 + b5 / 4)).toInt : ℤ) : ℚ) } := by
  rw [raw_14bit_axes (fun i => Nat.mod_lt _ (by decide))]
  simp only [List.getD_cons_zero, List.getD_cons_succ, Nat.mod_eq_of_lt h0, Nat.mod_eq_of_lt h1,
    Nat.mod_eq_of_lt h2, Nat.mod_eq_of_lt h3, Nat.mod_eq_of_lt h4, Nat.mod_eq_of_lt h5]

/-- Counterexample to C9 as stated: in 14-bit 2G mode the axis bytes (0x40, 0x00), raw
4096, give 9.80665 and not 1.0. -/
theorem counts_per_g_is_not_one :
    (acceleration_raw_14bit (fun i => [0x40, 0x00, 0, 0, 0, 0].getD i 0 % 256)).x = 4096 ∧
    (mma8451_get_acceleration (scripted [some [0x40, 0x00, 0, 0, 0, 0]]) ⟨0, 0, 0⟩).data.x =
      980665 / 100000 ∧
    (mma8451_get_acceleration (scripted [some [0x40, 0x00, 0, 0, 0, 0]]) ⟨0, 0, 0⟩).data.x ≠ 1 := by
  have hb : next_block (scripted [some [0x40, 0x00, 0, 0, 0, 0]]).file =
      some (fun i => [0x40, 0x00, 0, 0, 0, 0].getD i 0 % 256) := rfl
  have hs : (scripted [some [0x40, 0x00, 0, 0, 0, 0]]).data_size = MMA8451_14BIT_OUTPUT := rfl
  have hg : (scripted [some [0x40, 0x00, 0, 0, 0, 0]]).range = MMA8451_RANGE_2G := rfl
  have hraw := raw_14bit_of_pairs 0x40 0x00 0 0 0 0 (by decide) (by decide) (by decide)
    (by decide) (by decide) (by decide)
  have hx : (((BitVec.ofNat 14 (0x40 * 64 + 0x00 / 4)).toInt : ℤ) : ℚ) = 4096 := by
    have : (BitVec.ofNat 14 (0x40 * 64 + 0x00 / 4)).toInt = 4096 := by decide
    rw [this]
    norm_num
  rw [get_acceleration_of_block hb, if_pos hs, hg, hraw,
    scale_14bit_table (List.mem_cons_self _ _)]
  simp only [hx]
  norm_num

/-- Claim C9, amended: mma8451_get_acceleration returns metres per second squared, 1 g
being 9.80665: for the ranges 2G, 4G, 8G and both widths, an axis whose signed
raw value is the counts-per-g of the configuration (4096, 2048, 1024 in 14-bit
mode, 64, 32, 16 otherwise) comes out as exactly 9.80665. -/
theorem counts_per_g_yield_gravity (device : mma8451) (data : mma8451_acceleration)
    (tmp : Nat → Nat) (r : Nat) (K14 K8 : ℚ)
    (hr : (r, K14, K8) ∈ [(MMA8451_RANGE_2G, (4096 : ℚ), (64 : ℚ)),
      (MMA8451_RANGE_4G, 2048, 32), (MMA8451_RANGE_8G, 1024, 16)])
    (hrange : device.range = r) (h : next_block device.file = some tmp) :
    (device.data_size = MMA8451_14BIT_OUTPUT →
      ((acceleration_raw_14bit tmp).x = K14 →
        (mma8451_get_acceleration device data).data.x = 980665 / 100000) ∧
      ((acceleration_raw_14bit tmp).y = K14 →
        (mma8451_get_acceleration device data).data.y = 980665 / 100000) ∧
      ((acceleration_raw_14bit tmp).z = K14 →
        (mma8451_get_acceleration device data).data.z = 980665 / 100000)) ∧
    (device.data_size ≠ MMA8451_14BIT_OUTPUT →
      ((acceleration_raw_8bit tmp).x = K8 →
        (mma8451_get_acceleration device data).data.x = 980665 / 100000) ∧
      ((acceleration_raw_8bit tmp).y = K8 →
        (mma8451_get_acceleration device data).data.y = 980665 / 100000) ∧
      ((acceleration_raw_8bit tmp).z = K8 →
        (mma8451_get_acceleration device data).data.z = 980665 / 100000)) := by
  obtain ⟨h14, h8⟩ := table_counts_pos hr
  rw [get_acceleration_of_block h, hrange]
  constructor
  · intro hs
    rw [if_pos hs, scale_14bit_table hr]
    refine ⟨fun e => ?_, fun e => ?_, fun e => ?_⟩ <;>
      (show _ / (K14 / (980665 / 100000)) = _; rw [e]; exact counts_over_divisor h14)
  · intro hs
    rw [if_neg hs, scale_8bit_table hr]
    refine ⟨fun e => ?_, fun e => ?_, fun e => ?_⟩ <;>
      (show _ / (K8 / (980665 / 100000)) = _; rw [e]; exact counts_over_divisor h8)

/-- Witness of C9 amended: the handle as opened (2G, 14-bit) reading the axis bytes
(0x40, 0x00). -/
theorem counts_per_g_yield_gravity_witness :
    (scripted [some [0x40, 0x00, 0, 0, 0, 0]]).range = MMA8451_RANGE_2G ∧
    (MMA8451_RANGE_2G, (4096 : ℚ), (64 : ℚ)) ∈ [(MMA8451_RANGE_2G, (4096 : ℚ), (64 : ℚ)),
      (MMA8451_RANGE_4G, 2048, 32), (MMA8451_RANGE_8G, 1024, 16)] ∧
    ((scripted [some [0x40, 0x00, 0, 0, 0, 0]]).data_size = MMA8451_14BIT_OUTPUT →
      (acceleration_raw_14bit (fun i => [0x40, 0x00, 0, 0, 0, 0].getD i 0 % 256)).x = 4096 →
        (mma8451_get_acceleration (scripted [some [0x40, 0x00, 0, 0, 0, 0]]) ⟨0, 0, 0⟩).data.x =
          980665 / 100000) :=
  ⟨rfl, List.mem_cons_self _ _, fun hs =>
    ((counts_per_g_yield_gravity (scripted [some [0x40, 0x00, 0, 0, 0, 0]]) ⟨0, 0, 0⟩
      (fun i => [0x40, 0x00, 0, 0, 0, 0].getD i 0 % 256) MMA8451_RANGE_2G 4096 64
      (List.mem_cons_self _ _) rfl rfl).1 hs).1⟩

theorem max_positive_scaled : (8191 : ℚ) / (4096 / (980665 / 100000)) = 1606525403 / 81920000 := by
  norm_num

/-- Counterexample to C10 as stated: in 14-bit 2G mode the axis bytes (0x7F, 0xFC), raw
8191, are scaled to a value that is not between 1.96 and 1.97. -/
theorem max_positive_is_not_near_two :
    ¬ ((196 : ℚ) / 100 <
        (mma8451_get_acceleration (scripted [some [0x7F, 0xFC, 0, 0, 0, 0]]) ⟨0, 0, 0⟩).data.x ∧
      (mma8451_get_acceleration (scripted [some [0x7F, 0xFC, 0, 0, 0, 0]]) ⟨0, 0, 0⟩).data.x <
        (197 : ℚ) / 100) := by
  have hb : next_block (scripted [some [0x7F, 0xFC, 0, 0, 0, 0]]).file =
      some (fun i => [0x7F, 0xFC, 0, 0, 0, 0].getD i 0 % 256) := rfl
  have hs : (scripted [some [0x7F, 0xFC, 0, 0, 0, 0]]).data_size = MMA8451_14BIT_OUTPUT := rfl
  have hg : (scripted [some [0x7F, 0xFC, 0, 0, 0, 0]]).range = MMA8451_RANGE_2G := rfl
  have hraw := raw_14bit_of_pairs 0x7F 0xFC 0 0 0 0 (by decide) (by decide) (by decide)
    (by decide) (by decide) (by decide)
  have hx : (((BitVec.ofNat 14 (0x7F * 64 + 0xFC / 4)).toInt : ℤ) : ℚ) = 8191 := by
    have : (BitVec.ofNat 14 (0x7F * 64 + 0xFC / 4)).toInt = 8191 := by decide
    rw [this]
    norm_num
  rw [get_acceleration_of_block hb, if_pos hs, hg, hraw,
    scale_14bit_table (List.mem_cons_self _ _)]
  simp only [hx, max_positive_scaled]
  norm_num

/-- Claim C10, amended: in 14-bit 2G mode an axis whose bytes are (0x7F, 0xFC), signed
raw 8191, is scaled by mma8451_get_acceleration to 8191 * 9.80665 / 4096, about
19.611: a value between 19.61 and 19.62. -/
theorem max_positive_sample_scaled (device : mma8451) (data : mma8451_acceleration)
    (tmp : Nat → Nat) (hsize : device.data_size = MMA8451_14BIT_OUTPUT)
    (hrange : device.range = MMA8451_RANGE_2G) (h : next_block device.file = some tmp) :
    (tmp 0 = 0x7F → tmp 1 = 0xFC →
      (acceleration_raw_14bit tmp).x = 8191 ∧
      (1961 : ℚ) / 100 < (mma8451_get_acceleration device data).data.x ∧
      (mma8451_get_acceleration device data).data.x < (1962 : ℚ) / 100) ∧
    (tmp 2 = 0x7F → tmp 3 = 0xFC →
      (acceleration_raw_14bit tmp).y = 8191 ∧
      (1961 : ℚ) / 100 < (mma8451_get_acceleration device data).data.y ∧
      (mma8451_get_acceleration device data).data.y < (1962 : ℚ) / 100) ∧
    (tmp 4 = 0x7F → tmp 5 = 0xFC →
      (acceleration_raw_14bit tmp).z = 8191 ∧
      (1961 : ℚ) / 100 < (mma8451_get_acceleration device data).data.z ∧
      (mma8451_get_acceleration device data).data.z < (1962 : ℚ) / 100) := by
  have hv : (((BitVec.ofNat 14 (0x7F * 64 + 0xFC / 4)).toInt : ℤ) : ℚ) = 8191 := by
    have : (BitVec.ofNat 14 (0x7F * 64 + 0xFC / 4)).toInt = 8191 := by decide
    rw [this]
    norm_num
  rw [get_acceleration_of_block h, if_pos hsize, hrange, raw_14bit_axes (next_block_lt h),
    scale_14bit_table (List.mem_cons_self _ _)]
  refine ⟨fun e0 e1 => ?_, fun e0 e1 => ?_, fun e0 e1 => ?_⟩ <;>
    (simp only [e0, e1, hv, max_positive_scaled]; norm_num)

/-- Witness of C10 amended: the handle as opened reading the axis bytes (0x7F, 0xFC). -/
theorem max_positive_sample_scaled_witness :
    (scripted [some [0x7F, 0xFC, 0, 0, 0, 0]]).data_size = MMA8451_14BIT_OUTPUT ∧
    (scripted [some [0x7F, 0xFC, 0, 0, 0, 0]]).range = MMA8451_RANGE_2G ∧
    (1961 : ℚ) / 100 <
      (mma8451_get_acceleration (scripted [some [0x7F, 0xFC, 0, 0, 0, 0]]) ⟨0, 0, 0⟩).data.x :=
  ⟨rfl, rfl, ((max_positive_sample_scaled (scripted [some [0x7F, 0xFC, 0, 0, 0, 0]]) ⟨0, 0, 0⟩
    (fun i => [0x7F, 0xFC, 0, 0, 0, 0].getD i 0 % 256) rfl rfl rfl).1 rfl rfl).2.1⟩

/-! ## The high-level operations on a scripted bus -/

theorem set_range_of_read_failure {device : mma8451} {e : Nat}
    (h0 : outcome_at device 0 = .failure e) (range : Nat) (cfg : mma8451_register_xyz_data_cfg) :
    mma8451_set_range device range cfg =
      ⟨0, refused device (read_request device.addr MMA8451_REGISTER_XYZ_DATA_CFG 1) e
        (.unable_to_get MMA8451_REGISTER_XYZ_DATA_CFG e), ()⟩ := by
  simp only [mma8451_set_range, get_xyz_data_cfg_of_failure h0, if_pos]

theorem set_range_of_write_failure {device : mma8451} {b e : Nat}
    (h0 : next_read device.file = some b) (h1 : outcome_at device 1 = .failure e)
    (range : Nat) (cfg : mma8451_register_xyz_data_cfg) :
    ∃ value, mma8451_set_range device range cfg =
      ⟨0, refused (logged device (read_request device.addr MMA8451_REGISTER_XYZ_DATA_CFG 1))
        (write_request device.addr MMA8451_REGISTER_XYZ_DATA_CFG value) e
        (.unable_to_set MMA8451_REGISTER_XYZ_DATA_CFG e), ()⟩ := by
  have h1q : outcome_at (logged device (read_request device.addr MMA8451_REGISTER_XYZ_DATA_CFG 1)) 0 = .failure e := by
    rw [outcome_at_logged]
    exact h1
  refine ⟨(b / 128 % 2) % 2 * 128 + (b / 64 % 2) % 2 * 64 + (b / 32 % 2) % 2 * 32 + (b / 16 % 2) % 2 * 16 + (b / 8 % 2) % 2 * 8 + (b / 4 % 2) % 2 * 4 + range % 4, ?_⟩
  simp only [mma8451_set_range, get_xyz_data_cfg_of_read h0, set_xyz_data_cfg_of_failure h1q,
    if_pos, if_neg (show ¬ (1 = 0) by decide)]
  rfl

theorem set_range_of_success {device : mma8451} {b : Nat} {inbuf : Nat → Nat}
    (h0 : next_read device.file = some b) (h1 : outcome_at device 1 = .success inbuf)
    (range : Nat) (cfg : mma8451_register_xyz_data_cfg) :
    ∃ value, mma8451_set_range device range cfg =
      ⟨1, { logged (logged device (read_request device.addr MMA8451_REGISTER_XYZ_DATA_CFG 1))
          (write_request device.addr MMA8451_REGISTER_XYZ_DATA_CFG value) with
          range := range }, ()⟩ := by
  have h1q : outcome_at (logged device (read_request device.addr MMA8451_REGISTER_XYZ_DATA_CFG 1)) 0 = .success inbuf := by
    rw [outcome_at_logged]
    exact h1
  refine ⟨(b / 128 % 2) % 2 * 128 + (b / 64 % 2) % 2 * 64 + (b / 32 % 2) % 2 * 32 + (b / 16 % 2) % 2 * 16 + (b / 8 % 2) % 2 * 8 + (b / 4 % 2) % 2 * 4 + range % 4, ?_⟩
  simp only [mma8451_set_range, get_xyz_data_cfg_of_read h0, set_xyz_data_cfg_of_success h1q,
    if_pos, if_neg (show ¬ (1 = 0) by decide)]
  rfl

theorem set_power_mode_of_read_failure {device : mma8451} {e : Nat}
    (h0 : outcome_at device 0 = .failure e) (mode : Nat) (cfg : mma8451_register_ctrl_reg2) :
    mma8451_set_power_mode device mode cfg =
      ⟨0, refused device (read_request device.addr MMA8451_REGISTER_CTRL_REG2 1) e
        (.unable_to_get MMA8451_REGISTER_CTRL_REG2 e), ()⟩ := by
  simp only [mma8451_set_power_mode, get_ctrl_reg2_of_failure h0, if_pos]

theorem set_power_mode_of_write_failure {device : mma8451} {b e : Nat}
    (h0 : next_read device.file = some b) (h1 : outcome_at device 1 = .failure e)
    (mode : Nat) (cfg : mma8451_register_ctrl_reg2) :
    ∃ value, mma8451_set_power_mode device mode cfg =
      ⟨0, refused (logged device (read_request device.addr MMA8451_REGISTER_CTRL_REG2 1))
        (write_request device.addr MMA8451_REGISTER_CTRL_REG2 value) e
        (.unable_to_set MMA8451_REGISTER_CTRL_REG2 e), ()⟩ := by
  have h1q : outcome_at (logged device (read_request device.addr MMA8451_REGISTER_CTRL_REG2 1)) 0 = .failure e := by
    rw [outcome_at_logged]
    exact h1
  refine ⟨(b / 128 % 2) % 2 * 128 + (b / 64 % 2) % 2 * 64 + (b / 32 % 2) % 2 * 32 + (b / 8 % 4) % 4 * 8 + (b / 4 % 2) % 2 * 4 + mode % 4, ?_⟩
  simp only [mma8451_set_power_mode, get_ctrl_reg2_of_read h0, set_ctrl_reg2_of_failure h1q,
    if_pos, if_neg (show ¬ (1 = 0) by decide)]
  rfl

theorem set_power_mode_of_success {device : mma8451} {b : Nat} {inbuf : Nat → Nat}
    (h0 : next_read device.file = some b) (h1 : outcome_at device 1 = .success inbuf)
    (mode : Nat) (cfg : mma8451_register_ctrl_reg2) :
    ∃ value, mma8451_set_power_mode device mode cfg =
      ⟨1, logged (logged device (read_request device.addr MMA8451_REGISTER_CTRL_REG2 1))
          (write_request device.addr MMA8451_REGISTER_CTRL_REG2 value), ()⟩ := by
  have h1q : outcome_at (logged device (read_request device.addr MMA8451_REGISTER_CTRL_REG2 1)) 0 = .success inbuf := by
    rw [outcome_at_logged]
    exact h1
  refine ⟨(b / 128 % 2) % 2 * 128 + (b / 64 % 2) % 2 * 64 + (b / 32 % 2) % 2 * 32 + (b / 8 % 4) % 4 * 8 + (b / 4 % 2) % 2 * 4 + mode % 4, ?_⟩
  simp only [mma8451_set_power_mode, get_ctrl_reg2_of_read h0, set_ctrl_reg2_of_success h1q,
    if_pos, if_neg (show ¬ (1 = 0) by decide)]
  rfl

theorem set_output_size_of_read_failure {device : mma8451} {e : Nat}
    (h0 : outcome_at device 0 = .failure e) (size : Nat) (cfg : mma8451_register_ctrl_reg1) :
    mma8451_set_output_size device size cfg =
      ⟨0, refused device (read_request device.addr MMA8451_REGISTER_CTRL_REG1 1) e
        (.unable_to_get MMA8451_REGISTER_CTRL_REG1 e), ()⟩ := by
  simp only [mma8451_set_output_size, get_ctrl_reg1_of_failure h0, if_pos]

theorem set_output_size_of_write_failure {device : mma8451} {b e : Nat}
    (h0 : next_read device.file = some b) (h1 : outcome_at device 1 = .failure e)
    (size : Nat) (cfg : mma8451_register_ctrl_reg1) :
    ∃ value, mma8451_set_output_size device size cfg =
      ⟨0, refused (logged device (read_request device.addr MMA8451_REGISTER_CTRL_REG1 1))
        (write_request device.addr MMA8451_REGISTER_CTRL_REG1 value) e
        (.unable_to_set MMA8451_REGISTER_CTRL_REG1 e), ()⟩ := by
  have h1q : outcome_at (logged device (read_request device.addr MMA8451_REGISTER_CTRL_REG1 1)) 0 = .failure e := by
    rw [outcome_at_logged]
    exact h1
  refine ⟨(b / 64) % 4 * 64 + (b / 8 % 8) % 8 * 8 + (b / 4 % 2) % 2 * 4 + (size % 256) % 2 * 2 + (b % 2) % 2, ?_⟩
  simp only [mma8451_set_output_size, get_ctrl_reg1_of_read h0, set_ctrl_reg1_of_failure h1q,
    if_pos, if_neg (show ¬ (1 = 0) by decide)]
  rfl

theorem set_output_size_of_success {device : mma8451} {b : Nat} {inbuf : Nat → Nat}
    (h0 : next_read device.file = some b) (h1 : outcome_at device 1 = .success inbuf)
    (size : Nat) (cfg : mma8451_register_ctrl_reg1) :
    ∃ value, mma8451_set_output_size device size cfg =
      ⟨1, { logged (logged device (read_request device.addr MMA8451_REGISTER_CTRL_REG1 1))
          (write_request device.addr MMA8451_REGISTER_CTRL_REG1 value) with
          data_size := size % 256 }, ()⟩ := by
  have h1q : outcome_at (logged device (read_request device.addr MMA8451_REGISTER_CTRL_REG1 1)) 0 = .success inbuf := by
    rw [outcome_at_logged]
    exact h1
  refine ⟨(b / 64) % 4 * 64 + (b / 8 % 8) % 8 * 8 + (b / 4 % 2) % 2 * 4 + (size % 256) % 2 * 2 + (b % 2) % 2, ?_⟩
  simp only [mma8451_set_output_size, get_ctrl_reg1_of_read h0, set_ctrl_reg1_of_success h1q,
    if_pos, if_neg (show ¬ (1 = 0) by decide)]
  rfl

theorem set_data_rate_of_read_failure {device : mma8451} {e : Nat}
    (h0 : outcome_at device 0 = .failure e) (rate : Nat) (cfg : mma8451_register_ctrl_reg1) :
    mma8451_set_data_rate device rate cfg =
      ⟨0, refused device (read_request device.addr MMA8451_REGISTER_CTRL_REG1 1) e
        (.unable_to_get MMA8451_REGISTER_CTRL_REG1 e), ()⟩ := by
  simp only [mma8451_set_data_rate, get_ctrl_reg1_of_failure h0, if_pos]

theorem set_data_rate_of_write_failure {device : mma8451} {b e : Nat}
    (h0 : next_read device.file = some b) (h1 : outcome_at device 1 = .failure e)
    (rate : Nat) (cfg : mma8451_register_ctrl_reg1) :
    ∃ value, mma8451_set_data_rate device rate cfg =
      ⟨0, refused (logged device (read_request device.addr MMA8451_REGISTER_CTRL_REG1 1))
        (write_request device.addr MMA8451_REGISTER_CTRL_REG1 value) e
        (.unable_to_set MMA8451_REGISTER_CTRL_REG1 e), ()⟩ := by
  have h1q : outcome_at (logged device (read_request device.addr MMA8451_REGISTER_CTRL_REG1 1)) 0 = .failure e := by
    rw [outcome_at_logged]
    exact h1
  refine ⟨(b / 64) % 4 * 64 + rate % 8 * 8 + (b / 4 % 2) % 2 * 4 + (b / 2 % 2) % 2 * 2 + (b % 2) % 2, ?_⟩
  simp only [mma8451_set_data_rate, get_ctrl_reg1_of_read h0, set_ctrl_reg1_of_failure h1q,
    if_pos, if_neg (show ¬ (1 = 0) by decide)]
  rfl

theorem set_data_rate_of_success {device : mma8451} {b : Nat} {inbuf : Nat → Nat}
    (h0 : next_read device.file = some b) (h1 : outcome_at device 1 = .success inbuf)
    (rate : Nat) (cfg : mma8451_register_ctrl_reg1) :
    ∃ value, mma8451_set_data_rate device rate cfg =
      ⟨1, { logged (logged device (read_request device.addr MMA8451_REGISTER_CTRL_REG1 1))
          (write_request device.addr MMA8451_REGISTER_CTRL_REG1 value) with
          data_size := b / 2 % 2 }, ()⟩ := by
  have h1q : outcome_at (logged device (read_request device.addr MMA8451_REGISTER_CTRL_REG1 1)) 0 = .success inbuf := by
    rw [outcome_at_logged]
    exact h1
  refine ⟨(b / 64) % 4 * 64 + rate % 8 * 8 + (b / 4 % 2) % 2 * 4 + (b / 2 % 2) % 2 * 2 + (b % 2) % 2, ?_⟩
  simp only [mma8451_set_data_rate, get_ctrl_reg1_of_read h0, set_ctrl_reg1_of_success h1q,
    if_pos, if_neg (show ¬ (1 = 0) by decide)]
  rfl

theorem set_low_noise_of_read_failure {device : mma8451} {e : Nat}
    (h0 : outcome_at device 0 = .failure e) (low_noise : Nat) (cfg : mma8451_register_ctrl_reg1) :
    mma8451_set_low_noise device low_noise cfg =
      ⟨0, refused device (read_request device.addr MMA8451_REGISTER_CTRL_REG1 1) e
        (.unable_to_get MMA8451_REGISTER_CTRL_REG1 e), ()⟩ := by
  simp only [mma8451_set_low_noise, get_ctrl_reg1_of_failure h0, if_pos]

theorem set_low_noise_of_write_failure {device : mma8451} {b e : Nat}
    (h0 : next_read device.file = some b) (h1 : outcome_at device 1 = .failure e)
    (low_noise : Nat) (cfg : mma8451_register_ctrl_reg1) :
    ∃ value, mma8451_set_low_noise device low_noise cfg =
      ⟨0, refused (logged device (read_request device.addr MMA8451_REGISTER_CTRL_REG1 1))
        (write_request device.addr MMA8451_REGISTER_CTRL_REG1 value) e
        (.unable_to_set MMA8451_REGISTER_CTRL_REG1 e), ()⟩ := by
  have h1q : outcome_at (logged device (read_request device.addr MMA8451_REGISTER_CTRL_REG1 1)) 0 = .failure e := by
    rw [outcome_at_logged]
    exact h1
  refine ⟨(b / 64) % 4 * 64 + (b / 8 % 8) % 8 * 8 + (if low_noise > 0 then 1 else 0) % 2 * 4 + (b / 2 % 2) % 2 * 2 + (b % 2) % 2, ?_⟩
  simp only [mma8451_set_low_noise, get_ctrl_reg1_of_read h0, set_ctrl_reg1_of_failure h1q,
    if_pos, if_neg (show ¬ (1 = 0) by decide)]
  rfl

theorem set_low_noise_of_success {device : mma8451} {b : Nat} {inbuf : Nat → Nat}
    (h0 : next_read device.file = some b) (h1 : outcome_at device 1 = .success inbuf)
    (low_noise : Nat) (cfg : mma8451_register_ctrl_reg1) :
    ∃ value, mma8451_set_low_noise device low_noise cfg =
      ⟨1, { logged (logged device (read_request device.addr MMA8451_REGISTER_CTRL_REG1 1))
          (write_request device.addr MMA8451_REGISTER_CTRL_REG1 value) with
          data_size := b / 2 % 2 }, ()⟩ := by
  have h1q : outcome_at (logged device (read_request device.addr MMA8451_REGISTER_CTRL_REG1 1)) 0 = .success inbuf := by
    rw [outcome_at_logged]
    exact h1
  refine ⟨(b / 64) % 4 * 64 + (b / 8 % 8) % 8 * 8 + (if low_noise > 0 then 1 else 0) % 2 * 4 + (b / 2 % 2) % 2 * 2 + (b % 2) % 2, ?_⟩
  simp only [mma8451_set_low_noise, get_ctrl_reg1_of_read h0, set_ctrl_reg1_of_success h1q,
    if_pos, if_neg (show ¬ (1 = 0) by decide)]
  rfl

theorem set_orientation_detection_of_read_failure {device : mma8451} {e : Nat}
    (h0 : outcome_at device 0 = .failure e) (orientation : Nat) (cfg : mma8451_register_pl_cfg) :
    mma8451_set_orientation_detection device orientation cfg =
      ⟨0, refused device (read_request device.addr MMA8451_REGISTER_PL_CFG 1) e
        (.unable_to_get MMA8451_REGISTER_PL_CFG e), ()⟩ := by
  simp only [mma8451_set_orientation_detection, get_pl_cfg_of_failure h0, if_pos]

theorem set_orientation_detection_of_write_failure {device : mma8451} {b e : Nat}
    (h0 : next_read device.file = some b) (h1 : outcome_at device 1 = .failure e)
    (orientation : Nat) (cfg : mma8451_register_pl_cfg) :
    ∃ value, mma8451_set_orientation_detection device orientation cfg =
      ⟨0, refused (logged device (read_request device.addr MMA8451_REGISTER_PL_CFG 1))
        (write_request device.addr MMA8451_REGISTER_PL_CFG value) e
        (.unable_to_set MMA8451_REGISTER_PL_CFG e), ()⟩ := by
  have h1q : outcome_at (logged device (read_request device.addr MMA8451_REGISTER_PL_CFG 1)) 0 = .failure e := by
    rw [outcome_at_logged]
    exact h1
  refine ⟨(b / 128 % 2) % 2 * 128 + (if orientation > 0 then 1 else 0) % 2 * 64 + (b / 32 % 2) % 2 * 32 + (b / 16 % 2) % 2 * 16 + (b / 8 % 2) % 2 * 8 + (b / 4 % 2) % 2 * 4 + (b / 2 % 2) % 2 * 2 + (b % 2) % 2, ?_⟩
  simp only [mma8451_set_orientation_detection, get_pl_cfg_of_read h0, set_pl_cfg_of_failure h1q,
    if_pos, if_neg (show ¬ (1 = 0) by decide)]
  rfl

theorem set_orientation_detection_of_success {device : mma8451} {b : Nat} {inbuf : Nat → Nat}
    (h0 : next_read device.file = some b) (h1 : outcome_at device 1 = .success inbuf)
    (orientation : Nat) (cfg : mma8451_register_pl_cfg) :
    ∃ value, mma8451_set_orientation_detection device orientation cfg =
      ⟨1, logged (logged device (read_request device.addr MMA8451_REGISTER_PL_CFG 1))
          (write_request device.addr MMA8451_REGISTER_PL_CFG value), ()⟩ := by
  have h1q : outcome_at (logged device (read_request device.addr MMA8451_REGISTER_PL_CFG 1)) 0 = .success inbuf := by
    rw [outcome_at_logged]
    exact h1
  refine ⟨(b / 128 % 2) % 2 * 128 + (if orientation > 0 then 1 else 0) % 2 * 64 + (b / 32 % 2) % 2 * 32 + (b / 16 % 2) % 2 * 16 + (b / 8 % 2) % 2 * 8 + (b / 4 % 2) % 2 * 4 + (b / 2 % 2) % 2 * 2 + (b % 2) % 2, ?_⟩
  simp only [mma8451_set_orientation_detection, get_pl_cfg_of_read h0, set_pl_cfg_of_success h1q,
    if_pos, if_neg (show ¬ (1 = 0) by decide)]
  rfl

theorem set_interrupt_enable_of_read_failure {device : mma8451} {e : Nat}
    (h0 : outcome_at device 0 = .failure e) (enable : Nat) (cfg : mma8451_register_ctrl_reg4) :
    mma8451_set_interrupt_enable device enable cfg =
      ⟨0, refused device (read_request device.addr MMA8451_REGISTER_CTRL_REG4 1) e
        (.unable_to_get MMA8451_REGISTER_CTRL_REG4 e), ()⟩ := by
  simp only [mma8451_set_interrupt_enable, get_ctrl_reg4_of_failure h0, if_pos]

theorem set_interrupt_enable_of_write_failure {device : mma8451} {b e : Nat}
    (h0 : next_read device.file = some b) (h1 : outcome_at device 1 = .failure e)
    (enable : Nat) (cfg : mma8451_register_ctrl_reg4) :
    ∃ value, mma8451_set_interrupt_enable device enable cfg =
      ⟨0, refused (logged device (read_request device.addr MMA8451_REGISTER_CTRL_REG4 1))
        (write_request device.addr MMA8451_REGISTER_CTRL_REG4 value) e
        (.unable_to_set MMA8451_REGISTER_CTRL_REG4 e), ()⟩ := by
  have h1q : outcome_at (logged device (read_request device.addr MMA8451_REGISTER_CTRL_REG4 1)) 0 = .failure e := by
    rw [outcome_at_logged]
    exact h1
  refine ⟨(b / 128 % 2) % 2 * 128 + (b / 64 % 2) % 2 * 64 + (b / 32 % 2) % 2 * 32 + (b / 16 % 2) % 2 * 16 + (b / 8 % 2) % 2 * 8 + (b / 4 % 2) % 2 * 4 + (b / 2 % 2) % 2 * 2 + (if enable > 0 then 1 else 0) % 2, ?_⟩
  simp only [mma8451_set_interrupt_enable, get_ctrl_reg4_of_read h0, set_ctrl_reg4_of_failure h1q,
    if_pos, if_neg (show ¬ (1 = 0) by decide)]
  rfl

theorem set_interrupt_enable_of_success {device : mma8451} {b : Nat} {inbuf : Nat → Nat}
    (h0 : next_read device.file = some b) (h1 : outcome_at device 1 = .success inbuf)
    (enable : Nat) (cfg : mma8451_register_ctrl_reg4) :
    ∃ value, mma8451_set_interrupt_enable device enable cfg =
      ⟨1, logged (logged device (read_request device.addr MMA8451_REGISTER_CTRL_REG4 1))
          (write_request device.addr MMA8451_REGISTER_CTRL_REG4 value), ()⟩ := by
  have h1q : outcome_at (logged device (read_request device.addr MMA8451_REGISTER_CTRL_REG4 1)) 0 = .success inbuf := by
    rw [outcome_at_logged]
    exact h1
  refine ⟨(b / 128 % 2) % 2 * 128 + (b / 64 % 2) % 2 * 64 + (b / 32 % 2) % 2 * 32 + (b / 16 % 2) % 2 * 16 + (b / 8 % 2) % 2 * 8 + (b / 4 % 2) % 2 * 4 + (b / 2 % 2) % 2 * 2 + (if enable > 0 then 1 else 0) % 2, ?_⟩
  simp only [mma8451_set_interrupt_enable, get_ctrl_reg4_of_read h0, set_ctrl_reg4_of_success h1q,
    if_pos, if_neg (show ¬ (1 = 0) by decide)]
  rfl

theorem set_interrupt_pin1_of_read_failure {device : mma8451} {e : Nat}
    (h0 : outcome_at device 0 = .failure e) (pin1 : Nat) (cfg : mma8451_register_ctrl_reg5) :
    mma8451_set_interrupt_pin1 device pin1 cfg =
      ⟨0, refused device (read_request device.addr MMA8451_REGISTER_CTRL_REG5 1) e
        (.unable_to_get MMA8451_REGISTER_CTRL_REG5 e), ()⟩ := by
  simp only [mma8451_set_interrupt_pin1, get_ctrl_reg5_of_failure h0, if_pos]

theorem set_interrupt_pin1_of_write_failure {device : mma8451} {b e : Nat}
    (h0 : next_read device.file = some b) (h1 : outcome_at device 1 = .failure e)
    (pin1 : Nat) (cfg : mma8451_register_ctrl_reg5) :
    ∃ value, mma8451_set_interrupt_pin1 device pin1 cfg =
      ⟨0, refused (logged device (read_request device.addr MMA8451_REGISTER_CTRL_REG5 1))
        (write_request device.addr MMA8451_REGISTER_CTRL_REG5 value) e
        (.unable_to_set MMA8451_REGISTER_CTRL_REG5 e), ()⟩ := by
  have h1q : outcome_at (logged device (read_request device.addr MMA8451_REGISTER_CTRL_REG5 1)) 0 = .failure e := by
    rw [outcome_at_logged]
    exact h1
  refine ⟨(b / 128 % 2) % 2 * 128 + (b / 64 % 2) % 2 * 64 + (b / 32 % 2) % 2 * 32 + (b / 16 % 2) % 2 * 16 + (b / 8 % 2) % 2 * 8 + (b / 4 % 2) % 2 * 4 + (b / 2 % 2) % 2 * 2 + (if pin1 > 0 then 1 else 0) % 2, ?_⟩
  simp only [mma8451_set_interrupt_pin1, get_ctrl_reg5_of_read h0, set_ctrl_reg5_of_failure h1q,
    if_pos, if_neg (show ¬ (1 = 0) by decide)]
  rfl

theorem set_interrupt_pin1_of_success {device : mma8451} {b : Nat} {inbuf : Nat → Nat}
    (h0 : next_read device.file = some b) (h1 : outcome_at device 1 = .success inbuf)
    (pin1 : Nat) (cfg : mma8451_register_ctrl_reg5) :
    ∃ value, mma8451_set_interrupt_pin1 device pin1 cfg =
      ⟨1, logged (logged device (read_request device.addr MMA8451_REGISTER_CTRL_REG5 1))
          (write_request device.addr MMA8451_REGISTER_CTRL_REG5 value), ()⟩ := by
  have h1q : outcome_at (logged device (read_request device.addr MMA8451_REGISTER_CTRL_REG5 1)) 0 = .success inbuf := by
    rw [outcome_at_logged]
    exact h1
  refine ⟨(b / 128 % 2) % 2 * 128 + (b / 64 % 2) % 2 * 64 + (b / 32 % 2) % 2 * 32 + (b / 16 % 2) % 2 * 16 + (b / 8 % 2) % 2 * 8 + (b / 4 % 2) % 2 * 4 + (b / 2 % 2) % 2 * 2 + (if pin1 > 0 then 1 else 0) % 2, ?_⟩
  simp only [mma8451_set_interrupt_pin1, get_ctrl_reg5_of_read h0, set_ctrl_reg5_of_success h1q,
    if_pos, if_neg (show ¬ (1 = 0) by decide)]
  rfl

theorem set_active_of_read_failure {device : mma8451} {e : Nat}
    (h0 : outcome_at device 0 = .failure e) (active : Nat) (cfg : mma8451_register_ctrl_reg1) :
    mma8451_set_active device active cfg =
      ⟨0, refused device (read_request device.addr MMA8451_REGISTER_CTRL_REG1 1) e
        (.unable_to_get MMA8451_REGISTER_CTRL_REG1 e), ()⟩ := by
  simp only [mma8451_set_active, get_ctrl_reg1_of_failure h0, if_pos]

theorem set_active_of_write_failure {device : mma8451} {b e : Nat}
    (h0 : next_read device.file = some b) (h1 : outcome_at device 1 = .failure e)
    (active : Nat) (cfg : mma8451_register_ctrl_reg1) :
    ∃ value, mma8451_set_active device active cfg =
      ⟨0, refused (logged device (read_request device.addr MMA8451_REGISTER_CTRL_REG1 1))
        (write_request device.addr MMA8451_REGISTER_CTRL_REG1 value) e
        (.unable_to_set MMA8451_REGISTER_CTRL_REG1 e), ()⟩ := by
  have h1q : outcome_at (logged device (read_request device.addr MMA8451_REGISTER_CTRL_REG1 1)) 0 = .failure e := by
    rw [outcome_at_logged]
    exact h1
  refine ⟨(b / 64) % 4 * 64 + (b / 8 % 8) % 8 * 8 + (b / 4 % 2) % 2 * 4 + (b / 2 % 2) % 2 * 2 + (if active > 0 then 1 else 0) % 2, ?_⟩
  simp only [mma8451_set_active, get_ctrl_reg1_of_read h0, set_ctrl_reg1_of_failure h1q,
    if_pos, if_neg (show ¬ (1 = 0) by decide)]
  rfl

theorem set_active_of_success {device : mma8451} {b : Nat} {inbuf : Nat → Nat}
    (h0 : next_read device.file = some b) (h1 : outcome_at device 1 = .success inbuf)
    (active : Nat) (cfg : mma8451_register_ctrl_reg1) :
    ∃ value, mma8451_set_active device active cfg =
      ⟨1, { logged (logged device (read_request device.addr MMA8451_REGISTER_CTRL_REG1 1))
          (write_request device.addr MMA8451_REGISTER_CTRL_REG1 value) with
          data_size := b / 2 % 2 }, ()⟩ := by
  have h1q : outcome_at (logged device (read_request device.addr MMA8451_REGISTER_CTRL_REG1 1)) 0 = .success inbuf := by
    rw [outcome_at_logged]
    exact h1
  refine ⟨(b / 64) % 4 * 64 + (b / 8 % 8) % 8 * 8 + (b / 4 % 2) % 2 * 4 + (b / 2 % 2) % 2 * 2 + (if active > 0 then 1 else 0) % 2, ?_⟩
  simp only [mma8451_set_active, get_ctrl_reg1_of_read h0, set_ctrl_reg1_of_success h1q,
    if_pos, if_neg (show ¬ (1 = 0) by decide)]
  rfl

theorem reset_of_read_failure {device : mma8451} {e : Nat}
    (h0 : outcome_at device 0 = .failure e) (cfg : mma8451_register_ctrl_reg2) :
    mma8451_reset device cfg =
      ⟨0, refused device (read_request device.addr MMA8451_REGISTER_CTRL_REG2 1) e
        (.unable_to_get MMA8451_REGISTER_CTRL_REG2 e), ()⟩ := by
  simp only [mma8451_reset, get_ctrl_reg2_of_failure h0, if_pos]

theorem reset_of_write_failure {device : mma8451} {b e : Nat}
    (h0 : next_read device.file = some b) (h1 : outcome_at device 1 = .failure e)
    (cfg : mma8451_register_ctrl_reg2) :
    ∃ value, mma8451_reset device cfg =
      ⟨0, refused (logged device (read_request device.addr MMA8451_REGISTER_CTRL_REG2 1))
        (write_request device.addr MMA8451_REGISTER_CTRL_REG2 value) e
        (.unable_to_set MMA8451_REGISTER_CTRL_REG2 e), ()⟩ := by
  have h1q : outcome_at (logged device (read_request device.addr MMA8451_REGISTER_CTRL_REG2 1)) 0 = .failure e := by
    rw [outcome_at_logged]
    exact h1
  refine ⟨(b / 128 % 2) % 2 * 128 + 1 % 2 * 64 + (b / 32 % 2) % 2 * 32 + (b / 8 % 4) % 4 * 8 + (b / 4 % 2) % 2 * 4 + (b % 4) % 4, ?_⟩
  simp only [mma8451_reset, get_ctrl_reg2_of_read h0, set_ctrl_reg2_of_failure h1q,
    if_pos, if_neg (show ¬ (1 = 0) by decide)]
  rfl

theorem reset_of_success {device : mma8451} {b : Nat} {inbuf : Nat → Nat}
    (h0 : next_read device.file = some b) (h1 : outcome_at device 1 = .success inbuf)
    (cfg : mma8451_register_ctrl_reg2) :
    ∃ value, mma8451_reset device cfg =
      ⟨1, { logged (logged device (read_request device.addr MMA8451_REGISTER_CTRL_REG2 1))
          (write_request device.addr MMA8451_REGISTER_CTRL_REG2 value) with
          range := MMA8451_RANGE_2G, data_size := MMA8451_14BIT_OUTPUT }, ()⟩ := by
  have h1q : outcome_at (logged device (read_request device.addr MMA8451_REGISTER_CTRL_REG2 1)) 0 = .success inbuf := by
    rw [outcome_at_logged]
    exact h1
  refine ⟨(b / 128 % 2) % 2 * 128 + 1 % 2 * 64 + (b / 32 % 2) % 2 * 32 + (b / 8 % 4) % 4 * 8 + (b / 4 % 2) % 2 * 4 + (b % 4) % 4, ?_⟩
  simp only [mma8451_reset, get_ctrl_reg2_of_read h0, set_ctrl_reg2_of_success h1q,
    if_pos, if_neg (show ¬ (1 = 0) by decide)]
  rfl

/-! ## Session state of the handle (claims C11 to C20) -/

theorem set_range_session {device : mma8451} {range : Nat} {cfg : mma8451_register_xyz_data_cfg}
    (h : (mma8451_set_range device range cfg).ret = 1) :
    (mma8451_set_range device range cfg).device.range = range ∧
      (mma8451_set_range device range cfg).device.data_size = device.data_size := by
  cases h0 : outcome_at device 0 with
  | failure e =>
    rw [set_range_of_read_failure h0] at h
    exact absurd (show (0 : Nat) = 1 from h) (by decide)
  | success inbuf =>
    cases h1 : outcome_at device 1 with
    | failure e =>
      obtain ⟨v, hv⟩ := set_range_of_write_failure (next_read_some_of_success h0) h1 range cfg
      rw [hv] at h
      exact absurd (show (0 : Nat) = 1 from h) (by decide)
    | success inbuf2 =>
      obtain ⟨v, hv⟩ := set_range_of_success (next_read_some_of_success h0) h1 range cfg
      rw [hv]
      exact ⟨rfl, rfl⟩

theorem set_output_size_session {device : mma8451} {size : Nat}
    {cfg : mma8451_register_ctrl_reg1}
    (h : (mma8451_set_output_size device size cfg).ret = 1) :
    (mma8451_set_output_size device size cfg).device.data_size = size % 256 ∧
      (mma8451_set_output_size device size cfg).device.range = device.range ∧
      (mma8451_set_output_size device size cfg).device.addr = device.addr := by
  cases h0 : outcome_at device 0 with
  | failure e =>
    rw [set_output_size_of_read_failure h0] at h
    exact absurd (show (0 : Nat) = 1 from h) (by decide)
  | success inbuf =>
    cases h1 : outcome_at device 1 with
    | failure e =>
      obtain ⟨v, hv⟩ :=
        set_output_size_of_write_failure (next_read_some_of_success h0) h1 size cfg
      rw [hv] at h
      exact absurd (show (0 : Nat) = 1 from h) (by decide)
    | success inbuf2 =>
      obtain ⟨v, hv⟩ := set_output_size_of_success (next_read_some_of_success h0) h1 size cfg
      rw [hv]
      exact ⟨rfl, rfl, rfl⟩

theorem reset_session (device : mma8451) (cfg : mma8451_register_ctrl_reg2) :
    ((mma8451_reset device cfg).ret = 1 →
      (mma8451_reset device cfg).device.range = MMA8451_RANGE_2G ∧
        (mma8451_reset device cfg).device.data_size = MMA8451_14BIT_OUTPUT) ∧
    ((mma8451_reset device cfg).ret ≠ 1 →
      (mma8451_reset device cfg).ret = 0 ∧
        same_session device (mma8451_reset device cfg).device) := by
  cases h0 : outcome_at device 0 with
  | failure e =>
    rw [reset_of_read_failure h0]
    exact ⟨fun h => absurd (show (0 : Nat) = 1 from h) (by decide), fun _ => ⟨rfl, rfl, rfl⟩⟩
  | success inbuf =>
    cases h1 : outcome_at device 1 with
    | failure e =>
      obtain ⟨v, hv⟩ := reset_of_write_failure (next_read_some_of_success h0) h1 cfg
      rw [hv]
      exact ⟨fun h => absurd (show (0 : Nat) = 1 from h) (by decide), fun _ => ⟨rfl, rfl, rfl⟩⟩
    | success inbuf2 =>
      obtain ⟨v, hv⟩ := reset_of_success (next_read_some_of_success h0) h1 cfg
      rw [hv]
      exact ⟨fun _ => ⟨rfl, rfl⟩, fun h => absurd rfl h⟩

theorem get_acceleration_issued (device : mma8451) (data : mma8451_acceleration) :
    issued device (mma8451_get_acceleration device data).device =
      [read_request device.addr 0x01
        (if device.data_size = MMA8451_14BIT_OUTPUT then 6 else 3)] := by
  cases h : outcome_at device 0 with
  | failure e =>
    rw [get_acceleration_of_failure h]
    simp [issued]
  | success inbuf =>
    have hb : next_block device.file = some (fun i => inbuf i % 256) := by
      simp only [outcome_at, Nat.add_zero] at h
      simp only [next_block, h]
    rw [get_acceleration_of_block hb]
    split <;> simp [issued, logged]

/-- Claim C11: for r among 2G, 4G, 8G, after a successful mma8451_set_range(dev, r) on
any handle the width is unchanged and the next successful
mma8451_get_acceleration divides the raw sample by the divisor of r for that
width (K / 9.80665 with K = 4096, 2048, 1024 in 14-bit mode and 64, 32, 16
otherwise); and after a successful mma8451_reset following that set_range the
next successful mma8451_get_acceleration divides the 14-bit raw sample by the
2G 14-bit divisor 4096 / 9.80665. -/
theorem last_range_selects_divisor (device : mma8451) (cfg : mma8451_register_xyz_data_cfg)
    (cfg2 : mma8451_register_ctrl_reg2) (data : mma8451_acceleration) (r : Nat) (K14 K8 : ℚ)
    (hr : (r, K14, K8) ∈ [(MMA8451_RANGE_2G, (4096 : ℚ), (64 : ℚ)),
      (MMA8451_RANGE_4G, 2048, 32), (MMA8451_RANGE_8G, 1024, 16)])
    (hset : (mma8451_set_range device r cfg).ret = 1) :
    (mma8451_set_range device r cfg).device.data_size = device.data_size ∧
    (∀ tmp, next_block (mma8451_set_range device r cfg).device.file = some tmp →
      (mma8451_get_acceleration (mma8451_set_range device r cfg).device data).ret = 1 ∧
      (mma8451_get_acceleration (mma8451_set_range device r cfg).device data).data =
        if device.data_size = MMA8451_14BIT_OUTPUT then
          { x := (acceleration_raw_14bit tmp).x / (K14 / (980665 / 100000))
            y := (acceleration_raw_14bit tmp).y / (K14 / (980665 / 100000))
            z := (acceleration_raw_14bit tmp).z / (K14 / (980665 / 100000)) }
        else
          { x := (acceleration_raw_8bit tmp).x / (K8 / (980665 / 100000))
            y := (acceleration_raw_8bit tmp).y / (K8 / (980665 / 100000))
            z := (acceleration_raw_8bit tmp).z / (K8 / (980665 / 100000)) }) ∧
    ((mma8451_reset (mma8451_set_range device r cfg).device cfg2).ret = 1 →
      ∀ tmp, next_block (mma8451_reset (mma8451_set_range device r cfg).device cfg2).device.file =
          some tmp →
        (mma8451_get_acceleration
          (mma8451_reset (mma8451_set_range device r cfg).device cfg2).device data).ret = 1 ∧
        (mma8451_get_acceleration
          (mma8451_reset (mma8451_set_range device r cfg).device cfg2).device data).data =
          { x := (acceleration_raw_14bit tmp).x / (4096 / (980665 / 100000))
            y := (acceleration_raw_14bit tmp).y / (4096 / (980665 / 100000))
            z := (acceleration_raw_14bit tmp).z / (4096 / (980665 / 100000)) }) := by
  obtain ⟨hrange, hsize⟩ := set_range_session hset
  refine ⟨hsize, ?_, ?_⟩
  · intro tmp hb
    rw [get_acceleration_of_block hb, hrange, hsize]
    by_cases hs : device.data_size = MMA8451_14BIT_OUTPUT
    · rw [if_pos hs, if_pos hs]
      exact ⟨rfl, scale_14bit_table hr _⟩
    · rw [if_neg hs, if_neg hs]
      exact ⟨rfl, scale_8bit_table hr _⟩
  · intro hreset tmp hb
    obtain ⟨hrange2, hsize2⟩ := (reset_session _ cfg2).1 hreset
    rw [get_acceleration_of_block hb, hrange2, if_pos hsize2]
    exact ⟨rfl, @scale_14bit_table MMA8451_RANGE_2G 4096 64 (List.mem_cons_self _ _) _⟩

/-- Witness of C11: the handle set to 8G beforehand, then set to 4G; the bus serves the
read and the write of XYZ_DATA_CFG. -/
theorem last_range_selects_divisor_witness :
    (mma8451_set_range { scripted [some [0x02], some []] with range := MMA8451_RANGE_8G }
        MMA8451_RANGE_4G ⟨0, 0, 0, 0, 0, 0, 0, 0, 0⟩).ret = 1 ∧
      (mma8451_set_range { scripted [some [0x02], some []] with range := MMA8451_RANGE_8G }
        MMA8451_RANGE_4G ⟨0, 0, 0, 0, 0, 0, 0, 0, 0⟩).device.data_size =
        MMA8451_14BIT_OUTPUT :=
  ⟨rfl, (last_range_selects_divisor
    { scripted [some [0x02], some []] with range := MMA8451_RANGE_8G }
    ⟨0, 0, 0, 0, 0, 0, 0, 0, 0⟩ ⟨0, 0, 0, 0, 0, 0, 0, 0, 0, 0⟩ ⟨0, 0, 0⟩ MMA8451_RANGE_4G 2048 32
    (List.mem_cons_of_mem _ (List.mem_cons_self _ _)) rfl).1⟩

/-- Claim C12: for s among MMA8451_8BIT_OUTPUT and MMA8451_14BIT_OUTPUT, after a
successful mma8451_set_output_size(dev, s) the handle has data_size = s, and
the next mma8451_get_acceleration makes one request, a block read starting at
OUT_X_MSB (0x01) of 3 bytes when s is 8-bit and of 6 bytes when s is 14-bit. -/
theorem output_size_selects_block (device : mma8451) (size : Nat)
    (cfg : mma8451_register_ctrl_reg1) (data : mma8451_acceleration)
    (hs : size = MMA8451_8BIT_OUTPUT ∨ size = MMA8451_14BIT_OUTPUT)
    (hset : (mma8451_set_output_size device size cfg).ret = 1) :
    (mma8451_set_output_size device size cfg).device.data_size = size ∧
    MMA8451_REGISTER_OUT_X_MSB = 0x01 ∧
    issued (mma8451_set_output_size device size cfg).device
      (mma8451_get_acceleration (mma8451_set_output_size device size cfg).device data).device =
      [read_request device.addr MMA8451_REGISTER_OUT_X_MSB
        (if size = MMA8451_8BIT_OUTPUT then 3 else 6)] := by
  obtain ⟨hsize, _, haddr⟩ := set_output_size_session hset
  have hmod : size % 256 = size := by
    rcases hs with h | h <;> rw [h] <;> rfl
  rw [hmod] at hsize
  refine ⟨hsize, rfl, ?_⟩
  rw [get_acceleration_issued, hsize, haddr]
  rcases hs with h | h <;> rw [h] <;> rfl

/-- Witness of C12: the handle as opened, switched to 8-bit output; the bus serves the
read and the write of CTRL_REG1. -/
theorem output_size_selects_block_witness :
    (mma8451_set_output_size (scripted [some [0x01], some []]) MMA8451_8BIT_OUTPUT
        ⟨0, 0, 0, 0, 0, 0, 0, 0, 0, 0⟩).ret = 1 ∧
      (mma8451_set_output_size (scripted [some [0x01], some []]) MMA8451_8BIT_OUTPUT
        ⟨0, 0, 0, 0, 0, 0, 0, 0, 0, 0⟩).device.data_size = MMA8451_8BIT_OUTPUT :=
  ⟨rfl, (output_size_selects_block (scripted [some [0x01], some []]) MMA8451_8BIT_OUTPUT
    ⟨0, 0, 0, 0, 0, 0, 0, 0, 0, 0⟩ ⟨0, 0, 0⟩ (Or.inl rfl) rfl).1⟩

/-- Evaluation for claim C14: with f_read = 2 the successful mma8451_set_ctrl_reg1
writes the byte 0x00, whose F_READ bit is 0 (14-bit output), and stores 2 in
data_size, so that the next mma8451_get_acceleration reads a 3-byte block and
decodes it as 8-bit samples. -/
theorem data_size_at_f_read_2 :
    (mma8451_set_ctrl_reg1 (scripted [some []]) ⟨0, 0, 0, 0, 0, 0, 2, 0, 0, 0⟩).ret = 1 ∧
    written_byte (scripted [some []])
      (mma8451_set_ctrl_reg1 (scripted [some []]) ⟨0, 0, 0, 0, 0, 0, 2, 0, 0, 0⟩).device =
      some 0x00 ∧
    (0x00 >>> 1) &&& 1 = 0 ∧
    (mma8451_set_ctrl_reg1 (scripted [some []]) ⟨0, 0, 0, 0, 0, 0, 2, 0, 0, 0⟩).device.data_size =
      2 ∧
    issued (mma8451_set_ctrl_reg1 (scripted [some []]) ⟨0, 0, 0, 0, 0, 0, 2, 0, 0, 0⟩).device
      (mma8451_get_acceleration
        (mma8451_set_ctrl_reg1 (scripted [some []]) ⟨0, 0, 0, 0, 0, 0, 2, 0, 0, 0⟩).device
        ⟨0, 0, 0⟩).device =
      [read_request 0x1C 0x01 3] := by
  have h : outcome_at (scripted [some []]) 0 = .success (fun i => ([] : List Nat).getD i 0) := rfl
  rw [get_acceleration_issued, set_ctrl_reg1_of_success h]
  exact ⟨rfl, rfl, by decide, rfl, rfl⟩

/-- Claim C15: when the bus refuses the write, mma8451_set_xyz_data_cfg and
mma8451_set_ctrl_reg1 return 0 and leave range and data_size as they were; so
do mma8451_set_range, mma8451_set_output_size, mma8451_set_data_rate,
mma8451_set_low_noise and mma8451_set_active when their read is served and
their write is refused. -/
theorem failed_write_keeps_session (device : mma8451) (e : Nat) :
    (outcome_at device 0 = .failure e →
      (∀ data, (mma8451_set_xyz_data_cfg device data).ret = 0 ∧
        same_session device (mma8451_set_xyz_data_cfg device data).device) ∧
      (∀ data, (mma8451_set_ctrl_reg1 device data).ret = 0 ∧
        same_session device (mma8451_set_ctrl_reg1 device data).device)) ∧
    (∀ b, next_read device.file = some b → outcome_at device 1 = .failure e →
      (∀ range cfg, (mma8451_set_range device range cfg).ret = 0 ∧
        same_session device (mma8451_set_range device range cfg).device) ∧
      (∀ size cfg, (mma8451_set_output_size device size cfg).ret = 0 ∧
        same_session device (mma8451_set_output_size device size cfg).device) ∧
      (∀ rate cfg, (mma8451_set_data_rate device rate cfg).ret = 0 ∧
        same_session device (mma8451_set_data_rate device rate cfg).device) ∧
      (∀ low_noise cfg, (mma8451_set_low_noise device low_noise cfg).ret = 0 ∧
        same_session device (mma8451_set_low_noise device low_noise cfg).device) ∧
      (∀ active cfg, (mma8451_set_active device active cfg).ret = 0 ∧
        same_session device (mma8451_set_active device active cfg).device)) := by
  refine ⟨fun h => ⟨fun data => ?_, fun data => ?_⟩,
    fun b h0 h1 => ⟨fun p cfg => ?_, fun p cfg => ?_, fun p cfg => ?_, fun p cfg => ?_,
      fun p cfg => ?_⟩⟩
  · rw [set_xyz_data_cfg_of_failure h]
    exact ⟨rfl, rfl, rfl⟩
  · rw [set_ctrl_reg1_of_failure h]
    exact ⟨rfl, rfl, rfl⟩
  · obtain ⟨v, hv⟩ := set_range_of_write_failure h0 h1 p cfg
    rw [hv]
    exact ⟨rfl, rfl, rfl⟩
  · obtain ⟨v, hv⟩ := set_output_size_of_write_failure h0 h1 p cfg
    rw [hv]
    exact ⟨rfl, rfl, rfl⟩
  · obtain ⟨v, hv⟩ := set_data_rate_of_write_failure h0 h1 p cfg
    rw [hv]
    exact ⟨rfl, rfl, rfl⟩
  · obtain ⟨v, hv⟩ := set_low_noise_of_write_failure h0 h1 p cfg
    rw [hv]
    exact ⟨rfl, rfl, rfl⟩
  · obtain ⟨v, hv⟩ := set_active_of_write_failure h0 h1 p cfg
    rw [hv]
    exact ⟨rfl, rfl, rfl⟩

theorem get_whoami_of_read {device : mma8451} {b : Nat} (h : next_read device.file = some b)
    (whoami : Nat) :
    mma8451_get_whoami device whoami =
      ⟨1, logged device (read_request device.addr MMA8451_REGISTER_WHO_AM_I 1), b⟩ := by
  simp only [mma8451_get_whoami, get_register_of_read h, Option.map,
    if_neg (show ¬ (1 = 0) by decide)]
  rfl

theorem get_whoami_of_failure {device : mma8451} {e : Nat}
    (h : outcome_at device 0 = .failure e) (whoami : Nat) :
    mma8451_get_whoami device whoami =
      ⟨0, refused device (read_request device.addr MMA8451_REGISTER_WHO_AM_I 1) e
        (.unable_to_get MMA8451_REGISTER_WHO_AM_I e), whoami⟩ := by
  simp only [mma8451_get_whoami, get_register_of_failure h, if_pos]
  rfl

theorem open_of_read {file : i2c_bus} {b : Nat} (h : next_read file = some b)
    (addr whoami : Nat) :
    mma8451_open (.ok file) addr whoami =
      if b ≠ MMA8451_ID then (none, EOPNOTSUPP) else
        (some { file := { file with
                  calls := file.calls ++ [read_request addr MMA8451_REGISTER_WHO_AM_I 1] }
                addr := addr
                range := MMA8451_RANGE_2G
                data_size := MMA8451_14BIT_OUTPUT
                last_error := .empty }, file.errno) := by
  have h2 : next_read (⟨file, addr, 0, 0, .empty⟩ : mma8451).file = some b := h
  simp only [mma8451_open, get_whoami_of_read h2, if_neg (show ¬ (1 = 0) by decide)]
  rfl

theorem open_of_failure {file : i2c_bus} {e : Nat}
    (h : file.outcomes file.calls.length = .failure e) (addr whoami : Nat) :
    mma8451_open (.ok file) addr whoami = (none, e) := by
  have h2 : outcome_at (⟨file, addr, 0, 0, .empty⟩ : mma8451) 0 = .failure e := by
    simp only [outcome_at, Nat.add_zero]
    exact h
  simp only [mma8451_open, get_whoami_of_failure h2, if_pos]
  rfl

/-- Counterexample to C16 as stated: a refused read of WHO_AM_I whose errno is EOPNOTSUPP
and a served read that delivers the identity byte 0x2A end mma8451_open alike,
with NULL and errno EOPNOTSUPP: errno does not tell the wrong identity from
that transport failure. -/
theorem open_failures_can_coincide :
    next_read (⟨fun _ => .failure EOPNOTSUPP, [], 0⟩ : i2c_bus) = none ∧
    mma8451_open (.ok ⟨fun _ => .failure EOPNOTSUPP, [], 0⟩) 0x1C 0 = (none, EOPNOTSUPP) ∧
    next_read (scripted [some [0x2A]]).file = some 0x2A ∧ 0x2A ≠ MMA8451_ID ∧
    mma8451_open (.ok (scripted [some [0x2A]]).file) 0x1C 0 = (none, EOPNOTSUPP) := by
  have hf : (⟨fun _ => .failure EOPNOTSUPP, [], 0⟩ : i2c_bus).outcomes
      (⟨fun _ => .failure EOPNOTSUPP, [], 0⟩ : i2c_bus).calls.length = .failure EOPNOTSUPP := rfl
  have hn : next_read (scripted [some [0x2A]]).file = some 0x2A := rfl
  rw [open_of_failure hf, open_of_read hn, if_pos (show (0x2A : Nat) ≠ MMA8451_ID by decide)]
  exact ⟨rfl, rfl, rfl, by decide, rfl⟩

/-- Claim C16, amended: when the device file opens, mma8451_open returns a handle
exactly when the read of WHO_AM_I (register 0x0D) is served and delivers 0x1A;
for any other identity byte it returns NULL with errno EOPNOTSUPP; a refused
read returns NULL with the errno of the transport, so that errno tells the two
failures apart exactly when the transport did not itself report EOPNOTSUPP;
and a returned handle has range MMA8451_RANGE_2G and data_size
MMA8451_14BIT_OUTPUT, after the single read of register 0x0D. -/
theorem open_checks_identity (file : i2c_bus) (addr whoami : Nat) :
    MMA8451_REGISTER_WHO_AM_I = 0x0D ∧ MMA8451_ID = 0x1A ∧
    ((mma8451_open (.ok file) addr whoami).1.isSome ↔ next_read file = some 0x1A) ∧
    (∀ b, next_read file = some b → b ≠ 0x1A →
      mma8451_open (.ok file) addr whoami = (none, EOPNOTSUPP)) ∧
    (∀ e, file.outcomes file.calls.length = .failure e →
      mma8451_open (.ok file) addr whoami = (none, e) ∧
      (mma8451_open (.ok file) addr whoami = (none, EOPNOTSUPP) ↔ e = EOPNOTSUPP)) ∧
    (∀ dev, (mma8451_open (.ok file) addr whoami).1 = some dev →
      dev.range = MMA8451_RANGE_2G ∧ dev.data_size = MMA8451_14BIT_OUTPUT ∧ dev.addr = addr ∧
      dev.file.calls = file.calls ++ [read_request addr 0x0D 1]) := by
  refine ⟨rfl, rfl, ?_, ?_, fun e h => ?_, ?_⟩
  · cases h : file.outcomes file.calls.length with
    | failure e =>
      rw [open_of_failure h, next_read_of_failure h]
      simp
    | success inbuf =>
      have hn : next_read file = some (inbuf 0 % 256) := by simp only [next_read, h]
      rw [open_of_read hn, hn]
      by_cases hb : inbuf 0 % 256 = MMA8451_ID
      · rw [if_neg (not_not.mpr hb), hb]
        exact ⟨fun _ => rfl, fun _ => rfl⟩
      · rw [if_pos hb]
        constructor
        · intro hc
          exact absurd hc (by simp)
        · intro hc
          exact absurd (Option.some.inj hc) hb
  · intro b hn hb
    rw [open_of_read hn, if_pos (show b ≠ MMA8451_ID from hb)]
  · rw [open_of_failure h]
    refine ⟨rfl, fun hc => ?_, fun hc => ?_⟩
    · exact (Prod.mk.inj hc).2
    · rw [hc]
  · intro dev hd
    cases h : file.outcomes file.calls.length with
    | failure e =>
      rw [open_of_failure h] at hd
      exact absurd hd (by simp)
    | success inbuf =>
      have hn : next_read file = some (inbuf 0 % 256) := by simp only [next_read, h]
      rw [open_of_read hn] at hd
      by_cases hb : inbuf 0 % 256 = MMA8451_ID
      · rw [if_neg (not_not.mpr hb)] at hd
        simp only [Option.some.injEq] at hd
        subst hd
        exact ⟨rfl, rfl, rfl, rfl⟩
      · rw [if_pos hb] at hd
        exact absurd hd (by simp)

/-- Claim C17: from any state of the handle, a successful mma8451_reset leaves range
MMA8451_RANGE_2G and data_size MMA8451_14BIT_OUTPUT; when the read of CTRL_REG2
is refused, or it is served and the write of CTRL_REG2 is refused,
mma8451_reset returns 0 and leaves range and data_size as they were. -/
theorem reset_restores_defaults (device : mma8451) (cfg : mma8451_register_ctrl_reg2) :
    ((mma8451_reset device cfg).ret = 1 →
      (mma8451_reset device cfg).device.range = MMA8451_RANGE_2G ∧
        (mma8451_reset device cfg).device.data_size = MMA8451_14BIT_OUTPUT) ∧
    (∀ e, outcome_at device 0 = .failure e →
      (mma8451_reset device cfg).ret = 0 ∧
        same_session device (mma8451_reset device cfg).device) ∧
    (∀ b e, next_read device.file = some b → outcome_at device 1 = .failure e →
      (mma8451_reset device cfg).ret = 0 ∧
        same_session device (mma8451_reset device cfg).device) ∧
    (∀ b inbuf, next_read device.file = some b → outcome_at device 1 = .success inbuf →
      (mma8451_reset device cfg).ret = 1) := by
  refine ⟨(reset_session device cfg).1, ?_, ?_, ?_⟩
  · intro e h0
    rw [reset_of_read_failure h0]
    exact ⟨rfl, rfl, rfl⟩
  · intro b e h0 h1
    obtain ⟨v, hv⟩ := reset_of_write_failure h0 h1 cfg
    rw [hv]
    exact ⟨rfl, rfl, rfl⟩
  · intro b inbuf h0 h1
    obtain ⟨v, hv⟩ := reset_of_success h0 h1 cfg
    rw [hv]

/-- Claim C18: in either width mode, when the block read is refused
mma8451_get_acceleration returns 0 and the caller's structure is as it was:
none of x, y, z is written. -/
theorem failed_block_read_keeps_output (device : mma8451) (data : mma8451_acceleration)
    (e : Nat) (h : outcome_at device 0 = .failure e) :
    (mma8451_get_acceleration device data).ret = 0 ∧
      (mma8451_get_acceleration device data).data = data := by
  rw [get_acceleration_of_failure h]
  exact ⟨rfl, rfl⟩

/-- Witness of C18: a bus that refuses the first request, in 14-bit mode. -/
theorem failed_block_read_keeps_output_witness :
    outcome_at (scripted [none]) 0 = .failure 5 ∧
      (mma8451_get_acceleration (scripted [none]) ⟨1, 2, 3⟩).data = ⟨1, 2, 3⟩ :=
  ⟨rfl, (failed_block_read_keeps_output (scripted [none]) ⟨1, 2, 3⟩ 5 rfl).2⟩

/-! ## What the accessors leave alone (claim C19) -/

theorem get_status_frame (device : mma8451) (data : mma8451_register_status) :
    same_session device (mma8451_get_status device data).device := by
  cases h : outcome_at device 0 with
  | failure e => rw [get_status_of_failure h]; exact ⟨rfl, rfl⟩
  | success inbuf => rw [get_status_of_read (next_read_some_of_success h)]; exact ⟨rfl, rfl⟩

theorem get_f_status_frame (device : mma8451) (data : mma8451_register_f_status) :
    same_session device (mma8451_get_f_status device data).device := by
  cases h : outcome_at device 0 with
  | failure e => rw [get_f_status_of_failure h]; exact ⟨rfl, rfl⟩
  | success inbuf => rw [get_f_status_of_read (next_read_some_of_success h)]; exact ⟨rfl, rfl⟩

theorem get_f_setup_frame (device : mma8451) (data : mma8451_register_f_setup) :
    same_session device (mma8451_get_f_setup device data).device := by
  cases h : outcome_at device 0 with
  | failure e => rw [get_f_setup_of_failure h]; exact ⟨rfl, rfl⟩
  | success inbuf => rw [get_f_setup_of_read (next_read_some_of_success h)]; exact ⟨rfl, rfl⟩

theorem set_f_setup_frame (device : mma8451) (data : mma8451_register_f_setup) :
    same_session device (mma8451_set_f_setup device data).device := by
  cases h : outcome_at device 0 with
  | failure e => rw [set_f_setup_of_failure h]; exact ⟨rfl, rfl⟩
  | success inbuf => rw [set_f_setup_of_success h]; exact ⟨rfl, rfl⟩

theorem get_trig_cfg_frame (device : mma8451) (data : mma8451_register_trig_cfg) :
    same_session device (mma8451_get_trig_cfg device data).device := by
  cases h : outcome_at device 0 with
  | failure e => rw [get_trig_cfg_of_failure h]; exact ⟨rfl, rfl⟩
  | success inbuf => rw [get_trig_cfg_of_read (next_read_some_of_success h)]; exact ⟨rfl, rfl⟩

theorem set_trig_cfg_frame (device : mma8451) (data : mma8451_register_trig_cfg) :
    same_session device (mma8451_set_trig_cfg device data).device := by
  cases h : outcome_at device 0 with
  | failure e => rw [set_trig_cfg_of_failure h]; exact ⟨rfl, rfl⟩
  | success inbuf => rw [set_trig_cfg_of_success h]; exact ⟨rfl, rfl⟩

theorem get_sysmod_frame (device : mma8451) (data : mma8451_register_sysmod) :
    same_session device (mma8451_get_sysmod device data).device := by
  cases h : outcome_at device 0 with
  | failure e => rw [get_sysmod_of_failure h]; exact ⟨rfl, rfl⟩
  | success inbuf => rw [get_sysmod_of_read (next_read_some_of_success h)]; exact ⟨rfl, rfl⟩

theorem get_int_source_frame (device : mma8451) (data : mma8451_register_int_source) :
    same_session device (mma8451_get_int_source device data).device := by
  cases h : outcome_at device 0 with
  | failure e => rw [get_int_source_of_failure h]; exact ⟨rfl, rfl⟩
  | success inbuf => rw [get_int_source_of_read (next_read_some_of_success h)]; exact ⟨rfl, rfl⟩

theorem get_whoami_frame (device : mma8451) (whoami : Nat) :
    same_session device (mma8451_get_whoami device whoami).device := by
  unfold mma8451_get_whoami
  simp only []
  split <;> exact get_register_session _ _ _ _

theorem get_xyz_data_cfg_frame (device : mma8451) (data : mma8451_register_xyz_data_cfg) :
    same_session device (mma8451_get_xyz_data_cfg device data).device := by
  cases h : outcome_at device 0 with
  | failure e => rw [get_xyz_data_cfg_of_failure h]; exact ⟨rfl, rfl⟩
  | success inbuf => rw [get_xyz_data_cfg_of_read (next_read_some_of_success h)]; exact ⟨rfl, rfl⟩

theorem set_xyz_data_cfg_frame (device : mma8451) (data : mma8451_register_xyz_data_cfg) :
    (mma8451_set_xyz_data_cfg device data).device.data_size = device.data_size := by
  cases h : outcome_at device 0 with
  | failure e => rw [set_xyz_data_cfg_of_failure h]; exact rfl
  | success inbuf => rw [set_xyz_data_cfg_of_success h]; exact rfl

theorem get_hp_filter_cutoff_frame (device : mma8451) (data : mma8451_register_hp_filter_cutoff) :
    same_session device (mma8451_get_hp_filter_cutoff device data).device := by
  cases h : outcome_at device 0 with
  | failure e => rw [get_hp_filter_cutoff_of_failure h]; exact ⟨rfl, rfl⟩
  | success inbuf => rw [get_hp_filter_cutoff_of_read (next_read_some_of_success h)]; exact ⟨rfl, rfl⟩

theorem set_hp_filter_cutoff_frame (device : mma8451) (data : mma8451_register_hp_filter_cutoff) :
    same_session device (mma8451_set_hp_filter_cutoff device data).device := by
  cases h : outcome_at device 0 with
  | failure e => rw [set_hp_filter_cutoff_of_failure h]; exact ⟨rfl, rfl⟩
  | success inbuf => rw [set_hp_filter_cutoff_of_success h]; exact ⟨rfl, rfl⟩

theorem get_pl_status_frame (device : mma8451) (data : mma8451_register_pl_status) :
    same_session device (mma8451_get_pl_status device data).device := by
  cases h : outcome_at device 0 with
  | failure e => rw [get_pl_status_of_failure h]; exact ⟨rfl, rfl⟩
  | success inbuf => rw [get_pl_status_of_read (next_read_some_of_success h)]; exact ⟨rfl, rfl⟩

theorem get_pl_cfg_frame (device : mma8451) (data : mma8451_register_pl_cfg) :
    same_session device (mma8451_get_pl_cfg device data).device := by
  cases h : outcome_at device 0 with
  | failure e => rw [get_pl_cfg_of_failure h]; exact ⟨rfl, rfl⟩
  | success inbuf => rw [get_pl_cfg_of_read (next_read_some_of_success h)]; exact ⟨rfl, rfl⟩

theorem set_pl_cfg_frame (device : mma8451) (data : mma8451_register_pl_cfg) :
    same_session device (mma8451_set_pl_cfg device data).device := by
  cases h : outcome_at device 0 with
  | failure e => rw [set_pl_cfg_of_failure h]; exact ⟨rfl, rfl⟩
  | success inbuf => rw [set_pl_cfg_of_success h]; exact ⟨rfl, rfl⟩

theorem get_pl_count_frame (device : mma8451) (count : Nat) :
    same_session device (mma8451_get_pl_count device count).device := by
  unfold mma8451_get_pl_count
  simp only []
  split <;> exact get_register_session _ _ _ _

theorem set_pl_count_frame (device : mma8451) (count : Nat) :
    same_session device (mma8451_set_pl_count device count).device := by
  unfold mma8451_set_pl_count
  simp only []
  split <;> exact set_register_session _ _ _ _

theorem get_pl_bf_zcomp_frame (device : mma8451) (data : mma8451_register_pl_bf_zcomp) :
    same_session device (mma8451_get_pl_bf_zcomp device data).device := by
  cases h : outcome_at device 0 with
  | failure e => rw [get_pl_bf_zcomp_of_failure h]; exact ⟨rfl, rfl⟩
  | success inbuf => rw [get_pl_bf_zcomp_of_read (next_read_some_of_success h)]; exact ⟨rfl, rfl⟩

theorem set_pl_bf_zcomp_frame (device : mma8451) (data : mma8451_register_pl_bf_zcomp) :
    same_session device (mma8451_set_pl_bf_zcomp device data).device := by
  cases h : outcome_at device 0 with
  | failure e => rw [set_pl_bf_zcomp_of_failure h]; exact ⟨rfl, rfl⟩
  | success inbuf => rw [set_pl_bf_zcomp_of_success h]; exact ⟨rfl, rfl⟩

theorem get_p_l_ths_reg_frame (device : mma8451) (data : mma8451_register_p_l_ths_reg) :
    same_session device (mma8451_get_p_l_ths_reg device data).device := by
  cases h : outcome_at device 0 with
  | failure e => rw [get_p_l_ths_reg_of_failure h]; exact ⟨rfl, rfl⟩
  | success inbuf => rw [get_p_l_ths_reg_of_read (next_read_some_of_success h)]; exact ⟨rfl, rfl⟩

theorem set_p_l_ths_reg_frame (device : mma8451) (data : mma8451_register_p_l_ths_reg) :
    same_session device (mma8451_set_p_l_ths_reg device data).device := by
  cases h : outcome_at device 0 with
  | failure e => rw [set_p_l_ths_reg_of_failure h]; exact ⟨rfl, rfl⟩
  | success inbuf => rw [set_p_l_ths_reg_of_success h]; exact ⟨rfl, rfl⟩

theorem get_ff_mt_ths_frame (device : mma8451) (data : mma8451_register_ff_mt_ths) :
    same_session device (mma8451_get_ff_mt_ths device data).device := by
  cases h : outcome_at device 0 with
  | failure e => rw [get_ff_mt_ths_of_failure h]; exact ⟨rfl, rfl⟩
  | success inbuf => rw [get_ff_mt_ths_of_read (next_read_some_of_success h)]; exact ⟨rfl, rfl⟩

theorem set_ff_mt_ths_frame (device : mma8451) (data : mma8451_register_ff_mt_ths) :
    same_session device (mma8451_set_ff_mt_ths device data).device := by
  cases h : outcome_at device 0 with
  | failure e => rw [set_ff_mt_ths_of_failure h]; exact ⟨rfl, rfl⟩
  | success inbuf => rw [set_ff_mt_ths_of_success h]; exact ⟨rfl, rfl⟩

theorem get_ff_mt_count_frame (device : mma8451) (count : Nat) :
    same_session device (mma8451_get_ff_mt_count device count).device := by
  unfold mma8451_get_ff_mt_count
  simp only []
  split <;> exact get_register_session _ _ _ _

theorem set_ff_mt_count_frame (device : mma8451) (count : Nat) :
    same_session device (mma8451_set_ff_mt_count device count).device := by
  unfold mma8451_set_ff_mt_count
  simp only []
  split <;> exact set_register_session _ _ _ _

theorem get_ff_mt_cfg_frame (device : mma8451) (data : mma8451_register_ff_mt_cfg) :
    same_session device (mma8451_get_ff_mt_cfg device data).device := by
  cases h : outcome_at device 0 with
  | failure e => rw [get_ff_mt_cfg_of_failure h]; exact ⟨rfl, rfl⟩
  | success inbuf => rw [get_ff_mt_cfg_of_read (next_read_some_of_success h)]; exact ⟨rfl, rfl⟩

theorem set_ff_mt_cfg_frame (device : mma8451) (data : mma8451_register_ff_mt_cfg) :
    same_session device (mma8451_set_ff_mt_cfg device data).device := by
  cases h : outcome_at device 0 with
  | failure e => rw [set_ff_mt_cfg_of_failure h]; exact ⟨rfl, rfl⟩
  | success inbuf => rw [set_ff_mt_cfg_of_success h]; exact ⟨rfl, rfl⟩

theorem get_ff_mt_src_frame (device : mma8451) (data : mma8451_register_ff_mt_src) :
    same_session device (mma8451_get_ff_mt_src device data).device := by
  cases h : outcome_at device 0 with
  | failure e => rw [get_ff_mt_src_of_failure h]; exact ⟨rfl, rfl⟩
  | success inbuf => rw [get_ff_mt_src_of_read (next_read_some_of_success h)]; exact ⟨rfl, rfl⟩

theorem get_transient_cfg_frame (device : mma8451) (data : mma8451_register_transient_cfg) :
    same_session device (mma8451_get_transient_cfg device data).device := by
  cases h : outcome_at device 0 with
  | failure e => rw [get_transient_cfg_of_failure h]; exact ⟨rfl, rfl⟩
  | success inbuf => rw [get_transient_cfg_of_read (next_read_some_of_success h)]; exact ⟨rfl, rfl⟩

theorem set_transient_cfg_frame (device : mma8451) (data : mma8451_register_transient_cfg) :
    same_session device (mma8451_set_transient_cfg device data).device := by
  cases h : outcome_at device 0 with
  | failure e => rw [set_transient_cfg_of_failure h]; exact ⟨rfl, rfl⟩
  | success inbuf => rw [set_transient_cfg_of_success h]; exact ⟨rfl, rfl⟩

theorem get_transient_scr_frame (device : mma8451) (data : mma8451_register_transient_scr) :
    same_session device (mma8451_get_transient_scr device data).device := by
  cases h : outcome_at device 0 with
  | failure e => rw [get_transient_scr_of_failure h]; exact ⟨rfl, rfl⟩
  | success inbuf => rw [get_transient_scr_of_read (next_read_some_of_success h)]; exact ⟨rfl, rfl⟩

theorem get_transient_ths_frame (device : mma8451) (data : mma8451_register_transient_ths) :
    same_session device (mma8451_get_transient_ths device data).device := by
  cases h : outcome_at device 0 with
  | failure e => rw [get_transient_ths_of_failure h]; exact ⟨rfl, rfl⟩
  | success inbuf => rw [get_transient_ths_of_read (next_read_some_of_success h)]; exact ⟨rfl, rfl⟩

theorem set_transient_ths_frame (device : mma8451) (data : mma8451_register_transient_ths) :
    same_session device (mma8451_set_transient_ths device data).device := by
  cases h : outcome_at device 0 with
  | failure e => rw [set_transient_ths_of_failure h]; exact ⟨rfl, rfl⟩
  | success inbuf => rw [set_transient_ths_of_success h]; exact ⟨rfl, rfl⟩

theorem get_transient_count_frame (device : mma8451) (count : Nat) :
    same_session device (mma8451_get_transient_count device count).device := by
  unfold mma8451_get_transient_count
  simp only []
  split <;> exact get_register_session _ _ _ _

theorem set_transient_count_frame (device : mma8451) (count : Nat) :
    same_session device (mma8451_set_transient_count device count).device := by
  unfold mma8451_set_transient_count
  simp only []
  split <;> exact set_register_session _ _ _ _

theorem get_pulse_cfg_frame (device : mma8451) (data : mma8451_register_pulse_cfg) :
    same_session device (mma8451_get_pulse_cfg device data).device := by
  cases h : outcome_at device 0 with
  | failure e => rw [get_pulse_cfg_of_failure h]; exact ⟨rfl, rfl⟩
  | success inbuf => rw [get_pulse_cfg_of_read (next_read_some_of_success h)]; exact ⟨rfl, rfl⟩

theorem set_pulse_cfg_frame (device : mma8451) (data : mma8451_register_pulse_cfg) :
    same_session device (mma8451_set_pulse_cfg device data).device := by
  cases h : outcome_at device 0 with
  | failure e => rw [set_pulse_cfg_of_failure h]; exact ⟨rfl, rfl⟩
  | success inbuf => rw [set_pulse_cfg_of_success h]; exact ⟨rfl, rfl⟩

theorem get_pulse_src_frame (device : mma8451) (data : mma8451_register_pulse_src) :
    same_session device (mma8451_get_pulse_src device data).device := by
  cases h : outcome_at device 0 with
  | failure e => rw [get_pulse_src_of_failure h]; exact ⟨rfl, rfl⟩
  | success inbuf => rw [get_pulse_src_of_read (next_read_some_of_success h)]; exact ⟨rfl, rfl⟩

theorem get_pulse_thsx_frame (device : mma8451) (data : mma8451_register_pulse_ths) :
    same_session device (mma8451_get_pulse_thsx device data).device := by
  cases h : outcome_at device 0 with
  | failure e => rw [get_pulse_thsx_of_failure h]; exact ⟨rfl, rfl⟩
  | success inbuf => rw [get_pulse_thsx_of_read (next_read_some_of_success h)]; exact ⟨rfl, rfl⟩

theorem set_pulse_thsx_frame (device : mma8451) (data : mma8451_register_pulse_ths) :
    same_session device (mma8451_set_pulse_thsx device data).device := by
  cases h : outcome_at device 0 with
  | failure e => rw [set_pulse_thsx_of_failure h]; exact ⟨rfl, rfl⟩
  | success inbuf => rw [set_pulse_thsx_of_success h]; exact ⟨rfl, rfl⟩

theorem get_pulse_thsy_frame (device : mma8451) (data : mma8451_register_pulse_ths) :
    same_session device (mma8451_get_pulse_thsy device data).device := by
  cases h : outcome_at device 0 with
  | failure e => rw [get_pulse_thsy_of_failure h]; exact ⟨rfl, rfl⟩
  | success inbuf => rw [get_pulse_thsy_of_read (next_read_some_of_success h)]; exact ⟨rfl, rfl⟩

theorem set_pulse_thsy_frame (device : mma8451) (data : mma8451_register_pulse_ths) :
    same_session device (mma8451_set_pulse_thsy device data).device := by
  cases h : outcome_at device 0 with
  | failure e => rw [set_pulse_thsy_of_failure h]; exact ⟨rfl, rfl⟩
  | success inbuf => rw [set_pulse_thsy_of_success h]; exact ⟨rfl, rfl⟩

theorem get_pulse_thsz_frame (device : mma8451) (data : mma8451_register_pulse_ths) :
    same_session device (mma8451_get_pulse_thsz device data).device := by
  cases h : outcome_at device 0 with
  | failure e => rw [get_pulse_thsz_of_failure h]; exact ⟨rfl, rfl⟩
  | success inbuf => rw [get_pulse_thsz_of_read (next_read_some_of_success h)]; exact ⟨rfl, rfl⟩

theorem set_pulse_thsz_frame (device : mma8451) (data : mma8451_register_pulse_ths) :
    same_session device (mma8451_set_pulse_thsz device data).device := by
  cases h : outcome_at device 0 with
  | failure e => rw [set_pulse_thsz_of_failure h]; exact ⟨rfl, rfl⟩
  | success inbuf => rw [set_pulse_thsz_of_success h]; exact ⟨rfl, rfl⟩

theorem get_pulse_tmlt_frame (device : mma8451) (tmlt : Nat) :
    same_session device (mma8451_get_pulse_tmlt device tmlt).device := by
  unfold mma8451_get_pulse_tmlt
  simp only []
  split <;> exact get_register_session _ _ _ _

theorem set_pulse_tmlt_frame (device : mma8451) (tmlt : Nat) :
    same_session device (mma8451_set_pulse_tmlt device tmlt).device := by
  unfold mma8451_set_pulse_tmlt
  simp only []
  split <;> exact set_register_session _ _ _ _

theorem get_pulse_ltcy_frame (device : mma8451) (ltcy : Nat) :
    same_session device (mma8451_get_pulse_ltcy device ltcy).device := by
  unfold mma8451_get_pulse_ltcy
  simp only []
  split <;> exact get_register_session _ _ _ _

theorem set_pulse_ltcy_frame (device : mma8451) (ltcy : Nat) :
    same_session device (mma8451_set_pulse_ltcy device ltcy).device := by
  unfold mma8451_set_pulse_ltcy
  simp only []
  split <;> exact set_register_session _ _ _ _

theorem get_pulse_wind_frame (device : mma8451) (wind : Nat) :
    same_session device (mma8451_get_pulse_wind device wind).device := by
  unfold mma8451_get_pulse_wind
  simp only []
  split <;> exact get_register_session _ _ _ _

theorem set_pulse_wind_frame (device : mma8451) (wind : Nat) :
    same_session device (mma8451_set_pulse_wind device wind).device := by
  unfold mma8451_set_pulse_wind
  simp only []
  split <;> exact set_register_session _ _ _ _

theorem get_aslp_count_frame (device : mma8451) (count : Nat) :
    same_session device (mma8451_get_aslp_count device count).device := by
  unfold mma8451_get_aslp_count
  simp only []
  split <;> exact get_register_session _ _ _ _

theorem set_aslp_count_frame (device : mma8451) (count : Nat) :
    same_session device (mma8451_set_aslp_count device count).device := by
  unfold mma8451_set_aslp_count
  simp only []
  split <;> exact set_register_session _ _ _ _

theorem get_ctrl_reg1_frame (device : mma8451) (data : mma8451_register_ctrl_reg1) :
    same_session device (mma8451_get_ctrl_reg1 device data).device := by
  cases h : outcome_at device 0 with
  | failure e => rw [get_ctrl_reg1_of_failure h]; exact ⟨rfl, rfl⟩
  | success inbuf => rw [get_ctrl_reg1_of_read (next_read_some_of_success h)]; exact ⟨rfl, rfl⟩

theorem set_ctrl_reg1_frame (device : mma8451) (data : mma8451_register_ctrl_reg1) :
    (mma8451_set_ctrl_reg1 device data).device.range = device.range := by
  cases h : outcome_at device 0 with
  | failure e => rw [set_ctrl_reg1_of_failure h]; exact rfl
  | success inbuf => rw [set_ctrl_reg1_of_success h]; exact rfl

theorem get_ctrl_reg2_frame (device : mma8451) (data : mma8451_register_ctrl_reg2) :
    same_session device (mma8451_get_ctrl_reg2 device data).device := by
  cases h : outcome_at device 0 with
  | failure e => rw [get_ctrl_reg2_of_failure h]; exact ⟨rfl, rfl⟩
  | success inbuf => rw [get_ctrl_reg2_of_read (next_read_some_of_success h)]; exact ⟨rfl, rfl⟩

theorem set_ctrl_reg2_frame (device : mma8451) (data : mma8451_register_ctrl_reg2) :
    same_session device (mma8451_set_ctrl_reg2 device data).device := by
  cases h : outcome_at device 0 with
  | failure e => rw [set_ctrl_reg2_of_failure h]; exact ⟨rfl, rfl⟩
  | success inbuf => rw [set_ctrl_reg2_of_success h]; exact ⟨rfl, rfl⟩

theorem get_ctrl_reg3_frame (device : mma8451) (data : mma8451_register_ctrl_reg3) :
    same_session device (mma8451_get_ctrl_reg3 device data).device := by
  cases h : outcome_at device 0 with
  | failure e => rw [get_ctrl_reg3_of_failure h]; exact ⟨rfl, rfl⟩
  | success inbuf => rw [get_ctrl_reg3_of_read (next_read_some_of_success h)]; exact ⟨rfl, rfl⟩

theorem set_ctrl_reg3_frame (device : mma8451) (data : mma8451_register_ctrl_reg3) :
    same_session device (mma8451_set_ctrl_reg3 device data).device := by
  cases h : outcome_at device 0 with
  | failure e => rw [set_ctrl_reg3_of_failure h]; exact ⟨rfl, rfl⟩
  | success inbuf => rw [set_ctrl_reg3_of_success h]; exact ⟨rfl, rfl⟩

theorem get_ctrl_reg4_frame (device : mma8451) (data : mma8451_register_ctrl_reg4) :
    same_session device (mma8451_get_ctrl_reg4 device data).device := by
  cases h : outcome_at device 0 with
  | failure e => rw [get_ctrl_reg4_of_failure h]; exact ⟨rfl, rfl⟩
  | success inbuf => rw [get_ctrl_reg4_of_read (next_read_some_of_success h)]; exact ⟨rfl, rfl⟩

theorem set_ctrl_reg4_frame (device : mma8451) (data : mma8451_register_ctrl_reg4) :
    same_session device (mma8451_set_ctrl_reg4 device data).device := by
  cases h : outcome_at device 0 with
  | failure e => rw [set_ctrl_reg4_of_failure h]; exact ⟨rfl, rfl⟩
  | success inbuf => rw [set_ctrl_reg4_of_success h]; exact ⟨rfl, rfl⟩

theorem get_ctrl_reg5_frame (device : mma8451) (data : mma8451_register_ctrl_reg5) :
    same_session device (mma8451_get_ctrl_reg5 device data).device := by
  cases h : outcome_at device 0 with
  | failure e => rw [get_ctrl_reg5_of_failure h]; exact ⟨rfl, rfl⟩
  | success inbuf => rw [get_ctrl_reg5_of_read (next_read_some_of_success h)]; exact ⟨rfl, rfl⟩

theorem set_ctrl_reg5_frame (device : mma8451) (data : mma8451_register_ctrl_reg5) :
    same_session device (mma8451_set_ctrl_reg5 device data).device := by
  cases h : outcome_at device 0 with
  | failure e => rw [set_ctrl_reg5_of_failure h]; exact ⟨rfl, rfl⟩
  | success inbuf => rw [set_ctrl_reg5_of_success h]; exact ⟨rfl, rfl⟩

theorem get_off_x_frame (device : mma8451) (offset : Nat) :
    same_session device (mma8451_get_off_x device offset).device := by
  unfold mma8451_get_off_x
  simp only []
  split <;> exact get_register_session _ _ _ _

theorem set_off_x_frame (device : mma8451) (offset : Nat) :
    same_session device (mma8451_set_off_x device offset).device := by
  unfold mma8451_set_off_x
  simp only []
  split <;> exact set_register_session _ _ _ _

theorem get_off_y_frame (device : mma8451) (offset : Nat) :
    same_session device (mma8451_get_off_y device offset).device := by
  unfold mma8451_get_off_y
  simp only []
  split <;> exact get_register_session _ _ _ _

theorem set_off_y_frame (device : mma8451) (offset : Nat) :
    same_session device (mma8451_set_off_y device offset).device := by
  unfold mma8451_set_off_y
  simp only []
  split <;> exact set_register_session _ _ _ _

theorem get_off_z_frame (device : mma8451) (offset : Nat) :
    same_session device (mma8451_get_off_z device offset).device := by
  unfold mma8451_get_off_z
  simp only []
  split <;> exact get_register_session _ _ _ _

theorem set_off_z_frame (device : mma8451) (offset : Nat) :
    same_session device (mma8451_set_off_z device offset).device := by
  unfold mma8451_set_off_z
  simp only []
  split <;> exact set_register_session _ _ _ _

theorem get_acceleration_frame (device : mma8451) (data : mma8451_acceleration) :
    same_session device (mma8451_get_acceleration device data).device := by
  cases h : outcome_at device 0 with
  | failure e => rw [get_acceleration_of_failure h]; exact ⟨rfl, rfl⟩
  | success inbuf =>
    have hb : next_block device.file = some (fun i => inbuf i % 256) := by
      simp only [outcome_at, Nat.add_zero] at h
      simp only [next_block, h]
    rw [get_acceleration_of_block hb]
    split <;> exact ⟨rfl, rfl⟩

/-- Claim C19: of the register-level accessors only mma8451_set_ctrl_reg1 changes
data_size and only mma8451_set_xyz_data_cfg changes range, and each can: every
other register setter, every register getter and mma8451_get_acceleration
leave range and data_size as they were, whether they return 1 or 0;
mma8451_set_xyz_data_cfg leaves data_size and mma8451_set_ctrl_reg1 leaves
range as it was. -/
theorem accessors_frame (device : mma8451) :
    (∀ data : mma8451_register_status, same_session device (mma8451_get_status device data).device) ∧
    (∀ data : mma8451_register_f_status, same_session device (mma8451_get_f_status device data).device) ∧
    (∀ data : mma8451_register_f_setup, same_session device (mma8451_get_f_setup device data).device) ∧
    (∀ data : mma8451_register_f_setup, same_session device (mma8451_set_f_setup device data).device) ∧
    (∀ data : mma8451_register_trig_cfg, same_session device (mma8451_get_trig_cfg device data).device) ∧
    (∀ data : mma8451_register_trig_cfg, same_session device (mma8451_set_trig_cfg device data).device) ∧
    (∀ data : mma8451_register_sysmod, same_session device (mma8451_get_sysmod device data).device) ∧
    (∀ data : mma8451_register_int_source, same_session device (mma8451_get_int_source device data).device) ∧
    (∀ whoami : Nat, same_session device (mma8451_get_whoami device whoami).device) ∧
    (∀ data : mma8451_register_xyz_data_cfg, same_session device (mma8451_get_xyz_data_cfg device data).device) ∧
    (∀ data : mma8451_register_xyz_data_cfg, (mma8451_set_xyz_data_cfg device data).device.data_size = device.data_size) ∧
    (∀ data : mma8451_register_hp_filter_cutoff, same_session device (mma8451_get_hp_filter_cutoff device data).device) ∧
    (∀ data : mma8451_register_hp_filter_cutoff, same_session device (mma8451_set_hp_filter_cutoff device data).device) ∧
    (∀ data : mma8451_register_pl_status, same_session device (mma8451_get_pl_status device data).device) ∧
    (∀ data : mma8451_register_pl_cfg, same_session device (mma8451_get_pl_cfg device data).device) ∧
    (∀ data : mma8451_register_pl_cfg, same_session device (mma8451_set_pl_cfg device data).device) ∧
    (∀ count : Nat, same_session device (mma8451_get_pl_count device count).device) ∧
    (∀ count : Nat, same_session device (mma8451_set_pl_count device count).device) ∧
    (∀ data : mma8451_register_pl_bf_zcomp, same_session device (mma8451_get_pl_bf_zcomp device data).device) ∧
    (∀ data : mma8451_register_pl_bf_zcomp, same_session device (mma8451_set_pl_bf_zcomp device data).device) ∧
    (∀ data : mma8451_register_p_l_ths_reg, same_session device (mma8451_get_p_l_ths_reg device data).device) ∧
    (∀ data : mma8451_register_p_l_ths_reg, same_session device (mma8451_set_p_l_ths_reg device data).device) ∧
    (∀ data : mma8451_register_ff_mt_ths, same_session device (mma8451_get_ff_mt_ths device data).device) ∧
    (∀ data : mma8451_register_ff_mt_ths, same_session device (mma8451_set_ff_mt_ths device data).device) ∧
    (∀ count : Nat, same_session device (mma8451_get_ff_mt_count device count).device) ∧
    (∀ count : Nat, same_session device (mma8451_set_ff_mt_count device count).device) ∧
    (∀ data : mma8451_register_ff_mt_cfg, same_session device (mma8451_get_ff_mt_cfg device data).device) ∧
    (∀ data : mma8451_register_ff_mt_cfg, same_session device (mma8451_set_ff_mt_cfg device data).device) ∧
    (∀ data : mma8451_register_ff_mt_src, same_session device (mma8451_get_ff_mt_src device data).device) ∧
    (∀ data : mma8451_register_transient_cfg, same_session device (mma8451_get_transient_cfg device data).device) ∧
    (∀ data : mma8451_register_transient_cfg, same_session device (mma8451_set_transient_cfg device data).device) ∧
    (∀ data : mma8451_register_transient_scr, same_session device (mma8451_get_transient_scr device data).device) ∧
    (∀ data : mma8451_register_transient_ths, same_session device (mma8451_get_transient_ths device data).device) ∧
    (∀ data : mma8451_register_transient_ths, same_session device (mma8451_set_transient_ths device data).device) ∧
    (∀ count : Nat, same_session device (mma8451_get_transient_count device count).device) ∧
    (∀ count : Nat, same_session device (mma8451_set_transient_count device count).device) ∧
    (∀ data : mma8451_register_pulse_cfg, same_session device (mma8451_get_pulse_cfg device data).device) ∧
    (∀ data : mma8451_register_pulse_cfg, same_session device (mma8451_set_pulse_cfg device data).device) ∧
    (∀ data : mma8451_register_pulse_src, same_session device (mma8451_get_pulse_src device data).device) ∧
    (∀ data : mma8451_register_pulse_ths, same_session device (mma8451_get_pulse_thsx device data).device) ∧
    (∀ data : mma8451_register_pulse_ths, same_session device (mma8451_set_pulse_thsx device data).device) ∧
    (∀ data : mma8451_register_pulse_ths, same_session device (mma8451_get_pulse_thsy device data).device) ∧
    (∀ data : mma8451_register_pulse_ths, same_session device (mma8451_set_pulse_thsy device data).device) ∧
    (∀ data : mma8451_register_pulse_ths, same_session device (mma8451_get_pulse_thsz device data).device) ∧
    (∀ data : mma8451_register_pulse_ths, same_session device (mma8451_set_pulse_thsz device data).device) ∧
    (∀ tmlt : Nat, same_session device (mma8451_get_pulse_tmlt device tmlt).device) ∧
    (∀ tmlt : Nat, same_session device (mma8451_set_pulse_tmlt device tmlt).device) ∧
    (∀ ltcy : Nat, same_session device (mma8451_get_pulse_ltcy device ltcy).device) ∧
    (∀ ltcy : Nat, same_session device (mma8451_set_pulse_ltcy device ltcy).device) ∧
    (∀ wind : Nat, same_session device (mma8451_get_pulse_wind device wind).device) ∧
    (∀ wind : Nat, same_session device (mma8451_set_pulse_wind device wind).device) ∧
    (∀ count : Nat, same_session device (mma8451_get_aslp_count device count).device) ∧
    (∀ count : Nat, same_session device (mma8451_set_aslp_count device count).device) ∧
    (∀ data : mma8451_register_ctrl_reg1, same_session device (mma8451_get_ctrl_reg1 device data).device) ∧
    (∀ data : mma8451_register_ctrl_reg1, (mma8451_set_ctrl_reg1 device data).device.range = device.range) ∧
    (∀ data : mma8451_register_ctrl_reg2, same_session device (mma8451_get_ctrl_reg2 device data).device) ∧
    (∀ data : mma8451_register_ctrl_reg2, same_session device (mma8451_set_ctrl_reg2 device data).device) ∧
    (∀ data : mma8451_register_ctrl_reg3, same_session device (mma8451_get_ctrl_reg3 device data).device) ∧
    (∀ data : mma8451_register_ctrl_reg3, same_session device (mma8451_set_ctrl_reg3 device data).device) ∧
    (∀ data : mma8451_register_ctrl_reg4, same_session device (mma8451_get_ctrl_reg4 device data).device) ∧
    (∀ data : mma8451_register_ctrl_reg4, same_session device (mma8451_set_ctrl_reg4 device data).device) ∧
    (∀ data : mma8451_register_ctrl_reg5, same_session device (mma8451_get_ctrl_reg5 device data).device) ∧
    (∀ data : mma8451_register_ctrl_reg5, same_session device (mma8451_set_ctrl_reg5 device data).device) ∧
    (∀ offset : Nat, same_session device (mma8451_get_off_x device offset).device) ∧
    (∀ offset : Nat, same_session device (mma8451_set_off_x device offset).device) ∧
    (∀ offset : Nat, same_session device (mma8451_get_off_y device offset).device) ∧
    (∀ offset : Nat, same_session device (mma8451_set_off_y device offset).device) ∧
    (∀ offset : Nat, same_session device (mma8451_get_off_z device offset).device) ∧
    (∀ offset : Nat, same_session device (mma8451_set_off_z device offset).device) ∧
    (∀ data : mma8451_acceleration,
      same_session device (mma8451_get_acceleration device data).device) ∧
    (mma8451_set_xyz_data_cfg (scripted [some []]) ⟨0, 0, 0, 0, 0, 0, 0, 1, 1⟩).device.range ≠
      (scripted [some []]).range ∧
    (mma8451_set_ctrl_reg1 (scripted [some []]) ⟨0, 0, 0, 0, 0, 0, 1, 0, 0, 0⟩).device.data_size ≠
      (scripted [some []]).data_size := by
  have h : outcome_at (scripted [some []]) 0 = .success (fun i => ([] : List Nat).getD i 0) := rfl
  refine ⟨get_status_frame device,
    get_f_status_frame device,
    get_f_setup_frame device,
    set_f_setup_frame device,
    get_trig_cfg_frame device,
    set_trig_cfg_frame device,
    get_sysmod_frame device,
    get_int_source_frame device,
    get_whoami_frame device,
    get_xyz_data_cfg_frame device,
    set_xyz_data_cfg_frame device,
    get_hp_filter_cutoff_frame device,
    set_hp_filter_cutoff_frame device,
    get_pl_status_frame device,
    get_pl_cfg_frame device,
    set_pl_cfg_frame device,
    get_pl_count_frame device,
    set_pl_count_frame device,
    get_pl_bf_zcomp_frame device,
    set_pl_bf_zcomp_frame device,
    get_p_l_ths_reg_frame device,
    set_p_l_ths_reg_frame device,
    get_ff_mt_ths_frame device,
    set_ff_mt_ths_frame device,
    get_ff_mt_count_frame device,
    set_ff_mt_count_frame device,
    get_ff_mt_cfg_frame device,
    set_ff_mt_cfg_frame device,
    get_ff_mt_src_frame device,
    get_transient_cfg_frame device,
    set_transient_cfg_frame device,
    get_transient_scr_frame device,
    get_transient_ths_frame device,
    set_transient_ths_frame device,
    get_transient_count_frame device,
    set_transient_count_frame device,
    get_pulse_cfg_frame device,
    set_pulse_cfg_frame device,
    get_pulse_src_frame device,
    get_pulse_thsx_frame device,
    set_pulse_thsx_frame device,
    get_pulse_thsy_frame device,
    set_pulse_thsy_frame device,
    get_pulse_thsz_frame device,
    set_pulse_thsz_frame device,
    get_pulse_tmlt_frame device,
    set_pulse_tmlt_frame device,
    get_pulse_ltcy_frame device,
    set_pulse_ltcy_frame device,
    get_pulse_wind_frame device,
    set_pulse_wind_frame device,
    get_aslp_count_frame device,
    set_aslp_count_frame device,
    get_ctrl_reg1_frame device,
    set_ctrl_reg1_frame device,
    get_ctrl_reg2_frame device,
    set_ctrl_reg2_frame device,
    get_ctrl_reg3_frame device,
    set_ctrl_reg3_frame device,
    get_ctrl_reg4_frame device,
    set_ctrl_reg4_frame device,
    get_ctrl_reg5_frame device,
    set_ctrl_reg5_frame device,
    get_off_x_frame device,
    set_off_x_frame device,
    get_off_y_frame device,
    set_off_y_frame device,
    get_off_z_frame device,
    set_off_z_frame device,
    get_acceleration_frame device, ?_, ?_⟩
  · rw [set_xyz_data_cfg_of_success h]
    decide
  · rw [set_ctrl_reg1_of_success h]
    decide

/-! ## Read, modify, write (claim C20) -/

theorem set_range_discipline (device : mma8451) (range : Nat) (cfg : mma8451_register_xyz_data_cfg) :
    read_modify_write device MMA8451_REGISTER_XYZ_DATA_CFG (mma8451_set_range device range cfg) := by
  unfold read_modify_write
  cases h0 : outcome_at device 0 with
  | failure e =>
    rw [set_range_of_read_failure h0]
    exact ⟨rfl, issued_refused _ _ _ _⟩
  | success inbuf =>
    cases h1 : outcome_at device 1 with
    | failure e =>
      obtain ⟨v, hv⟩ := set_range_of_write_failure (next_read_some_of_success h0) h1 range cfg
      rw [hv]
      exact ⟨rfl, v, by simp [issued, refused, logged]⟩
    | success inbuf2 =>
      obtain ⟨v, hv⟩ := set_range_of_success (next_read_some_of_success h0) h1 range cfg
      rw [hv]
      exact ⟨rfl, v, by simp [issued, logged]⟩

theorem set_power_mode_discipline (device : mma8451) (mode : Nat) (cfg : mma8451_register_ctrl_reg2) :
    read_modify_write device MMA8451_REGISTER_CTRL_REG2 (mma8451_set_power_mode device mode cfg) := by
  unfold read_modify_write
  cases h0 : outcome_at device 0 with
  | failure e =>
    rw [set_power_mode_of_read_failure h0]
    exact ⟨rfl, issued_refused _ _ _ _⟩
  | success inbuf =>
    cases h1 : outcome_at device 1 with
    | failure e =>
      obtain ⟨v, hv⟩ := set_power_mode_of_write_failure (next_read_some_of_success h0) h1 mode cfg
      rw [hv]
      exact ⟨rfl, v, by simp [issued, refused, logged]⟩
    | success inbuf2 =>
      obtain ⟨v, hv⟩ := set_power_mode_of_success (next_read_some_of_success h0) h1 mode cfg
      rw [hv]
      exact ⟨rfl, v, by simp [issued, logged]⟩

theorem set_output_size_discipline (device : mma8451) (size : Nat) (cfg : mma8451_register_ctrl_reg1) :
    read_modify_write device MMA8451_REGISTER_CTRL_REG1 (mma8451_set_output_size device size cfg) := by
  unfold read_modify_write
  cases h0 : outcome_at device 0 with
  | failure e =>
    rw [set_output_size_of_read_failure h0]
    exact ⟨rfl, issued_refused _ _ _ _⟩
  | success inbuf =>
    cases h1 : outcome_at device 1 with
    | failure e =>
      obtain ⟨v, hv⟩ := set_output_size_of_write_failure (next_read_some_of_success h0) h1 size cfg
      rw [hv]
      exact ⟨rfl, v, by simp [issued, refused, logged]⟩
    | success inbuf2 =>
      obtain ⟨v, hv⟩ := set_output_size_of_success (next_read_some_of_success h0) h1 size cfg
      rw [hv]
      exact ⟨rfl, v, by simp [issued, logged]⟩

theorem set_data_rate_discipline (device : mma8451) (rate : Nat) (cfg : mma8451_register_ctrl_reg1) :
    read_modify_write device MMA8451_REGISTER_CTRL_REG1 (mma8451_set_data_rate device rate cfg) := by
  unfold read_modify_write
  cases h0 : outcome_at device 0 with
  | failure e =>
    rw [set_data_rate_of_read_failure h0]
    exact ⟨rfl, issued_refused _ _ _ _⟩
  | success inbuf =>
    cases h1 : outcome_at device 1 with
    | failure e =>
      obtain ⟨v, hv⟩ := set_data_rate_of_write_failure (next_read_some_of_success h0) h1 rate cfg
      rw [hv]
      exact ⟨rfl, v, by simp [issued, refused, logged]⟩
    | success inbuf2 =>
      obtain ⟨v, hv⟩ := set_data_rate_of_success (next_read_some_of_success h0) h1 rate cfg
      rw [hv]
      exact ⟨rfl, v, by simp [issued, logged]⟩

theorem set_low_noise_discipline (device : mma8451) (low_noise : Nat) (cfg : mma8451_register_ctrl_reg1) :
    read_modify_write device MMA8451_REGISTER_CTRL_REG1 (mma8451_set_low_noise device low_noise cfg) := by
  unfold read_modify_write
  cases h0 : outcome_at device 0 with
  | failure e =>
    rw [set_low_noise_of_read_failure h0]
    exact ⟨rfl, issued_refused _ _ _ _⟩
  | success inbuf =>
    cases h1 : outcome_at device 1 with
    | failure e =>
      obtain ⟨v, hv⟩ := set_low_noise_of_write_failure (next_read_some_of_success h0) h1 low_noise cfg
      rw [hv]
      exact ⟨rfl, v, by simp [issued, refused, logged]⟩
    | success inbuf2 =>
      obtain ⟨v, hv⟩ := set_low_noise_of_success (next_read_some_of_success h0) h1 low_noise cfg
      rw [hv]
      exact ⟨rfl, v, by simp [issued, logged]⟩

theorem set_orientation_detection_discipline (device : mma8451) (orientation : Nat) (cfg : mma8451_register_pl_cfg) :
    read_modify_write device MMA8451_REGISTER_PL_CFG (mma8451_set_orientation_detection device orientation cfg) := by
  unfold read_modify_write
  cases h0 : outcome_at device 0 with
  | failure e =>
    rw [set_orientation_detection_of_read_failure h0]
    exact ⟨rfl, issued_refused _ _ _ _⟩
  | success inbuf =>
    cases h1 : outcome_at device 1 with
    | failure e =>
      obtain ⟨v, hv⟩ := set_orientation_detection_of_write_failure (next_read_some_of_success h0) h1 orientation cfg
      rw [hv]
      exact ⟨rfl, v, by simp [issued, refused, logged]⟩
    | success inbuf2 =>
      obtain ⟨v, hv⟩ := set_orientation_detection_of_success (next_read_some_of_success h0) h1 orientation cfg
      rw [hv]
      exact ⟨rfl, v, by simp [issued, logged]⟩

theorem set_interrupt_enable_discipline (device : mma8451) (enable : Nat) (cfg : mma8451_register_ctrl_reg4) :
    read_modify_write device MMA8451_REGISTER_CTRL_REG4 (mma8451_set_interrupt_enable device enable cfg) := by
  unfold read_modify_write
  cases h0 : outcome_at device 0 with
  | failure e =>
    rw [set_interrupt_enable_of_read_failure h0]
    exact ⟨rfl, issued_refused _ _ _ _⟩
  | success inbuf =>
    cases h1 : outcome_at device 1 with
    | failure e =>
      obtain ⟨v, hv⟩ := set_interrupt_enable_of_write_failure (next_read_some_of_success h0) h1 enable cfg
      rw [hv]
      exact ⟨rfl, v, by simp [issued, refused, logged]⟩
    | success inbuf2 =>
      obtain ⟨v, hv⟩ := set_interrupt_enable_of_success (next_read_some_of_success h0) h1 enable cfg
      rw [hv]
      exact ⟨rfl, v, by simp [issued, logged]⟩

theorem set_interrupt_pin1_discipline (device : mma8451) (pin1 : Nat) (cfg : mma8451_register_ctrl_reg5) :
    read_modify_write device MMA8451_REGISTER_CTRL_REG5 (mma8451_set_interrupt_pin1 device pin1 cfg) := by
  unfold read_modify_write
  cases h0 : outcome_at device 0 with
  | failure e =>
    rw [set_interrupt_pin1_of_read_failure h0]
    exact ⟨rfl, issued_refused _ _ _ _⟩
  | success inbuf =>
    cases h1 : outcome_at device 1 with
    | failure e =>
      obtain ⟨v, hv⟩ := set_interrupt_pin1_of_write_failure (next_read_some_of_success h0) h1 pin1 cfg
      rw [hv]
      exact ⟨rfl, v, by simp [issued, refused, logged]⟩
    | success inbuf2 =>
      obtain ⟨v, hv⟩ := set_interrupt_pin1_of_success (next_read_some_of_success h0) h1 pin1 cfg
      rw [hv]
      exact ⟨rfl, v, by simp [issued, logged]⟩

theorem set_active_discipline (device : mma8451) (active : Nat) (cfg : mma8451_register_ctrl_reg1) :
    read_modify_write device MMA8451_REGISTER_CTRL_REG1 (mma8451_set_active device active cfg) := by
  unfold read_modify_write
  cases h0 : outcome_at device 0 with
  | failure e =>
    rw [set_active_of_read_failure h0]
    exact ⟨rfl, issued_refused _ _ _ _⟩
  | success inbuf =>
    cases h1 : outcome_at device 1 with
    | failure e =>
      obtain ⟨v, hv⟩ := set_active_of_write_failure (next_read_some_of_success h0) h1 active cfg
      rw [hv]
      exact ⟨rfl, v, by simp [issued, refused, logged]⟩
    | success inbuf2 =>
      obtain ⟨v, hv⟩ := set_active_of_success (next_read_some_of_success h0) h1 active cfg
      rw [hv]
      exact ⟨rfl, v, by simp [issued, logged]⟩

theorem reset_discipline (device : mma8451) (cfg : mma8451_register_ctrl_reg2) :
    read_modify_write device MMA8451_REGISTER_CTRL_REG2 (mma8451_reset device cfg) := by
  unfold read_modify_write
  cases h0 : outcome_at device 0 with
  | failure e =>
    rw [reset_of_read_failure h0]
    exact ⟨rfl, issued_refused _ _ _ _⟩
  | success inbuf =>
    cases h1 : outcome_at device 1 with
    | failure e =>
      obtain ⟨v, hv⟩ := reset_of_write_failure (next_read_some_of_success h0) h1 cfg
      rw [hv]
      exact ⟨rfl, v, by simp [issued, refused, logged]⟩
    | success inbuf2 =>
      obtain ⟨v, hv⟩ := reset_of_success (next_read_some_of_success h0) h1 cfg
      rw [hv]
      exact ⟨rfl, v, by simp [issued, logged]⟩

/-- Claim C20: each high-level setter (mma8451_set_range, set_power_mode,
set_output_size, set_data_rate, set_low_noise, set_orientation_detection,
set_interrupt_enable, set_interrupt_pin1, set_active) and mma8451_reset first
reads its register; when that read is refused it returns 0 and has made no
write; when the write is refused it returns 0; it returns 1 when both are
served; and in every case it makes at most one read and one write. -/
theorem high_level_read_modify_write (device : mma8451) :
    (∀ (range : Nat) (cfg : mma8451_register_xyz_data_cfg),
      read_modify_write device MMA8451_REGISTER_XYZ_DATA_CFG
        (mma8451_set_range device range cfg)) ∧
    (∀ (mode : Nat) (cfg : mma8451_register_ctrl_reg2),
      read_modify_write device MMA8451_REGISTER_CTRL_REG2
        (mma8451_set_power_mode device mode cfg)) ∧
    (∀ (size : Nat) (cfg : mma8451_register_ctrl_reg1),
      read_modify_write device MMA8451_REGISTER_CTRL_REG1
        (mma8451_set_output_size device size cfg)) ∧
    (∀ (rate : Nat) (cfg : mma8451_register_ctrl_reg1),
      read_modify_write device MMA8451_REGISTER_CTRL_REG1
        (mma8451_set_data_rate device rate cfg)) ∧
    (∀ (low_noise : Nat) (cfg : mma8451_register_ctrl_reg1),
      read_modify_write device MMA8451_REGISTER_CTRL_REG1
        (mma8451_set_low_noise device low_noise cfg)) ∧
    (∀ (orientation : Nat) (cfg : mma8451_register_pl_cfg),
      read_modify_write device MMA8451_REGISTER_PL_CFG
        (mma8451_set_orientation_detection device orientation cfg)) ∧
    (∀ (enable : Nat) (cfg : mma8451_register_ctrl_reg4),
      read_modify_write device MMA8451_REGISTER_CTRL_REG4
        (mma8451_set_interrupt_enable device enable cfg)) ∧
    (∀ (pin1 : Nat) (cfg : mma8451_register_ctrl_reg5),
      read_modify_write device MMA8451_REGISTER_CTRL_REG5
        (mma8451_set_interrupt_pin1 device pin1 cfg)) ∧
    (∀ (active : Nat) (cfg : mma8451_register_ctrl_reg1),
      read_modify_write device MMA8451_REGISTER_CTRL_REG1
        (mma8451_set_active device active cfg)) ∧
    (∀ cfg : mma8451_register_ctrl_reg2,
      read_modify_write device MMA8451_REGISTER_CTRL_REG2
        (mma8451_reset device cfg)) :=
  ⟨set_range_discipline device,
    set_power_mode_discipline device,
    set_output_size_discipline device,
    set_data_rate_discipline device,
    set_low_noise_discipline device,
    set_orientation_detection_discipline device,
    set_interrupt_enable_discipline device,
    set_interrupt_pin1_discipline device,
    set_active_discipline device,
    reset_discipline device⟩

/-! ## The byte a high-level operation writes (claims C24 to C26) -/

theorem set_range_of_success_value {device : mma8451} {b : Nat} {inbuf : Nat → Nat}
    (h0 : next_read device.file = some b) (h1 : outcome_at device 1 = .success inbuf)
    (range : Nat) (cfg : mma8451_register_xyz_data_cfg) :
    mma8451_set_range device range cfg =
      ⟨1, { logged (logged device (read_request device.addr MMA8451_REGISTER_XYZ_DATA_CFG 1))
          (write_request device.addr MMA8451_REGISTER_XYZ_DATA_CFG
            ((b / 128 % 2) % 2 * 128 + (b / 64 % 2) % 2 * 64 + (b / 32 % 2) % 2 * 32 + (b / 16 % 2) % 2 * 16 + (b / 8 % 2) % 2 * 8 + (b / 4 % 2) % 2 * 4 + range % 4)) with
          range := range }, ()⟩ := by
  have h1q : outcome_at (logged device (read_request device.addr MMA8451_REGISTER_XYZ_DATA_CFG 1)) 0 = .success inbuf := by
    rw [outcome_at_logged]
    exact h1
  simp only [mma8451_set_range, get_xyz_data_cfg_of_read h0, set_xyz_data_cfg_of_success h1q,
    if_pos, if_neg (show ¬ (1 = 0) by decide)]
  rfl

theorem set_data_rate_of_success_value {device : mma8451} {b : Nat} {inbuf : Nat → Nat}
    (h0 : next_read device.file = some b) (h1 : outcome_at device 1 = .success inbuf)
    (rate : Nat) (cfg : mma8451_register_ctrl_reg1) :
    mma8451_set_data_rate device rate cfg =
      ⟨1, { logged (logged device (read_request device.addr MMA8451_REGISTER_CTRL_REG1 1))
          (write_request device.addr MMA8451_REGISTER_CTRL_REG1
            ((b / 64) % 4 * 64 + rate % 8 * 8 + (b / 4 % 2) % 2 * 4 + (b / 2 % 2) % 2 * 2 + (b % 2) % 2)) with
          data_size := b / 2 % 2 }, ()⟩ := by
  have h1q : outcome_at (logged device (read_request device.addr MMA8451_REGISTER_CTRL_REG1 1)) 0 = .success inbuf := by
    rw [outcome_at_logged]
    exact h1
  simp only [mma8451_set_data_rate, get_ctrl_reg1_of_read h0, set_ctrl_reg1_of_success h1q,
    if_pos, if_neg (show ¬ (1 = 0) by decide)]
  rfl

theorem set_power_mode_of_success_value {device : mma8451} {b : Nat} {inbuf : Nat → Nat}
    (h0 : next_read device.file = some b) (h1 : outcome_at device 1 = .success inbuf)
    (mode : Nat) (cfg : mma8451_register_ctrl_reg2) :
    mma8451_set_power_mode device mode cfg =
      ⟨1, logged (logged device (read_request device.addr MMA8451_REGISTER_CTRL_REG2 1))
          (write_request device.addr MMA8451_REGISTER_CTRL_REG2
            ((b / 128 % 2) % 2 * 128 + (b / 64 % 2) % 2 * 64 + (b / 32 % 2) % 2 * 32 + (b / 8 % 4) % 4 * 8 + (b / 4 % 2) % 2 * 4 + mode % 4)), ()⟩ := by
  have h1q : outcome_at (logged device (read_request device.addr MMA8451_REGISTER_CTRL_REG2 1)) 0 = .success inbuf := by
    rw [outcome_at_logged]
    exact h1
  simp only [mma8451_set_power_mode, get_ctrl_reg2_of_read h0, set_ctrl_reg2_of_success h1q,
    if_pos, if_neg (show ¬ (1 = 0) by decide)]
  rfl

theorem set_output_size_of_success_value {device : mma8451} {b : Nat} {inbuf : Nat → Nat}
    (h0 : next_read device.file = some b) (h1 : outcome_at device 1 = .success inbuf)
    (size : Nat) (cfg : mma8451_register_ctrl_reg1) :
    mma8451_set_output_size device size cfg =
      ⟨1, { logged (logged device (read_request device.addr MMA8451_REGISTER_CTRL_REG1 1))
          (write_request device.addr MMA8451_REGISTER_CTRL_REG1
            ((b / 64) % 4 * 64 + (b / 8 % 8) % 8 * 8 + (b / 4 % 2) % 2 * 4 + (size % 256) % 2 * 2 + (b % 2) % 2)) with
          data_size := size % 256 }, ()⟩ := by
  have h1q : outcome_at (logged device (read_request device.addr MMA8451_REGISTER_CTRL_REG1 1)) 0 = .success inbuf := by
    rw [outcome_at_logged]
    exact h1
  simp only [mma8451_set_output_size, get_ctrl_reg1_of_read h0, set_ctrl_reg1_of_success h1q,
    if_pos, if_neg (show ¬ (1 = 0) by decide)]
  rfl

theorem set_active_of_success_value {device : mma8451} {b : Nat} {inbuf : Nat → Nat}
    (h0 : next_read device.file = some b) (h1 : outcome_at device 1 = .success inbuf)
    (active : Nat) (cfg : mma8451_register_ctrl_reg1) :
    mma8451_set_active device active cfg =
      ⟨1, { logged (logged device (read_request device.addr MMA8451_REGISTER_CTRL_REG1 1))
          (write_request device.addr MMA8451_REGISTER_CTRL_REG1
            ((b / 64) % 4 * 64 + (b / 8 % 8) % 8 * 8 + (b / 4 % 2) % 2 * 4 + (b / 2 % 2) % 2 * 2 + (if active > 0 then 1 else 0) % 2)) with
          data_size := b / 2 % 2 }, ()⟩ := by
  have h1q : outcome_at (logged device (read_request device.addr MMA8451_REGISTER_CTRL_REG1 1)) 0 = .success inbuf := by
    rw [outcome_at_logged]
    exact h1
  simp only [mma8451_set_active, get_ctrl_reg1_of_read h0, set_ctrl_reg1_of_success h1q,
    if_pos, if_neg (show ¬ (1 = 0) by decide)]
  rfl

theorem set_low_noise_of_success_value {device : mma8451} {b : Nat} {inbuf : Nat → Nat}
    (h0 : next_read device.file = some b) (h1 : outcome_at device 1 = .success inbuf)
    (low_noise : Nat) (cfg : mma8451_register_ctrl_reg1) :
    mma8451_set_low_noise device low_noise cfg =
      ⟨1, { logged (logged device (read_request device.addr MMA8451_REGISTER_CTRL_REG1 1))
          (write_request device.addr MMA8451_REGISTER_CTRL_REG1
            ((b / 64) % 4 * 64 + (b / 8 % 8) % 8 * 8 + (if low_noise > 0 then 1 else 0) % 2 * 4 + (b / 2 % 2) % 2 * 2 + (b % 2) % 2)) with
          data_size := b / 2 % 2 }, ()⟩ := by
  have h1q : outcome_at (logged device (read_request device.addr MMA8451_REGISTER_CTRL_REG1 1)) 0 = .success inbuf := by
    rw [outcome_at_logged]
    exact h1
  simp only [mma8451_set_low_noise, get_ctrl_reg1_of_read h0, set_ctrl_reg1_of_success h1q,
    if_pos, if_neg (show ¬ (1 = 0) by decide)]
  rfl

theorem set_orientation_detection_of_success_value {device : mma8451} {b : Nat} {inbuf : Nat → Nat}
    (h0 : next_read device.file = some b) (h1 : outcome_at device 1 = .success inbuf)
    (orientation : Nat) (cfg : mma8451_register_pl_cfg) :
    mma8451_set_orientation_detection device orientation cfg =
      ⟨1, logged (logged device (read_request device.addr MMA8451_REGISTER_PL_CFG 1))
          (write_request device.addr MMA8451_REGISTER_PL_CFG
            ((b / 128 % 2) % 2 * 128 + (if orientation > 0 then 1 else 0) % 2 * 64 + (b / 32 % 2) % 2 * 32 + (b / 16 % 2) % 2 * 16 + (b / 8 % 2) % 2 * 8 + (b / 4 % 2) % 2 * 4 + (b / 2 % 2) % 2 * 2 + (b % 2) % 2)), ()⟩ := by
  have h1q : outcome_at (logged device (read_request device.addr MMA8451_REGISTER_PL_CFG 1)) 0 = .success inbuf := by
    rw [outcome_at_logged]
    exact h1
  simp only [mma8451_set_orientation_detection, get_pl_cfg_of_read h0, set_pl_cfg_of_success h1q,
    if_pos, if_neg (show ¬ (1 = 0) by decide)]
  rfl

theorem set_interrupt_enable_of_success_value {device : mma8451} {b : Nat} {inbuf : Nat → Nat}
    (h0 : next_read device.file = some b) (h1 : outcome_at device 1 = .success inbuf)
    (enable : Nat) (cfg : mma8451_register_ctrl_reg4) :
    mma8451_set_interrupt_enable device enable cfg =
      ⟨1, logged (logged device (read_request device.addr MMA8451_REGISTER_CTRL_REG4 1))
          (write_request device.addr MMA8451_REGISTER_CTRL_REG4
            ((b / 128 % 2) % 2 * 128 + (b / 64 % 2) % 2 * 64 + (b / 32 % 2) % 2 * 32 + (b / 16 % 2) % 2 * 16 + (b / 8 % 2) % 2 * 8 + (b / 4 % 2) % 2 * 4 + (b / 2 % 2) % 2 * 2 + (if enable > 0 then 1 else 0) % 2)), ()⟩ := by
  have h1q : outcome_at (logged device (read_request device.addr MMA8451_REGISTER_CTRL_REG4 1)) 0 = .success inbuf := by
    rw [outcome_at_logged]
    exact h1
  simp only [mma8451_set_interrupt_enable, get_ctrl_reg4_of_read h0, set_ctrl_reg4_of_success h1q,
    if_pos, if_neg (show ¬ (1 = 0) by decide)]
  rfl

theorem set_interrupt_pin1_of_success_value {device : mma8451} {b : Nat} {inbuf : Nat → Nat}
    (h0 : next_read device.file = some b) (h1 : outcome_at device 1 = .success inbuf)
    (pin1 : Nat) (cfg : mma8451_register_ctrl_reg5) :
    mma8451_set_interrupt_pin1 device pin1 cfg =
      ⟨1, logged (logged device (read_request device.addr MMA8451_REGISTER_CTRL_REG5 1))
          (write_request device.addr MMA8451_REGISTER_CTRL_REG5
            ((b / 128 % 2) % 2 * 128 + (b / 64 % 2) % 2 * 64 + (b / 32 % 2) % 2 * 32 + (b / 16 % 2) % 2 * 16 + (b / 8 % 2) % 2 * 8 + (b / 4 % 2) % 2 * 4 + (b / 2 % 2) % 2 * 2 + (if pin1 > 0 then 1 else 0) % 2)), ()⟩ := by
  have h1q : outcome_at (logged device (read_request device.addr MMA8451_REGISTER_CTRL_REG5 1)) 0 = .success inbuf := by
    rw [outcome_at_logged]
    exact h1
  simp only [mma8451_set_interrupt_pin1, get_ctrl_reg5_of_read h0, set_ctrl_reg5_of_success h1q,
    if_pos, if_neg (show ¬ (1 = 0) by decide)]
  rfl

theorem reset_of_success_value {device : mma8451} {b : Nat} {inbuf : Nat → Nat}
    (h0 : next_read device.file = some b) (h1 : outcome_at device 1 = .success inbuf)
    (cfg : mma8451_register_ctrl_reg2) :
    mma8451_reset device cfg =
      ⟨1, { logged (logged device (read_request device.addr MMA8451_REGISTER_CTRL_REG2 1))
          (write_request device.addr MMA8451_REGISTER_CTRL_REG2
            ((b / 128 % 2) % 2 * 128 + 1 % 2 * 64 + (b / 32 % 2) % 2 * 32 + (b / 8 % 4) % 4 * 8 + (b / 4 % 2) % 2 * 4 + (b % 4) % 4)) with
          range := MMA8451_RANGE_2G, data_size := MMA8451_14BIT_OUTPUT }, ()⟩ := by
  have h1q : outcome_at (logged device (read_request device.addr MMA8451_REGISTER_CTRL_REG2 1)) 0 = .success inbuf := by
    rw [outcome_at_logged]
    exact h1
  simp only [mma8451_reset, get_ctrl_reg2_of_read h0, set_ctrl_reg2_of_success h1q,
    if_pos, if_neg (show ¬ (1 = 0) by decide)]
  rfl

set_option maxRecDepth 1000000 in
theorem set_range_table : ∀ u < 4, ∀ b < 256,
    (b / 128 % 2) % 2 * 128 + (b / 64 % 2) % 2 * 64 + (b / 32 % 2) % 2 * 32 + (b / 16 % 2) % 2 * 16 + (b / 8 % 2) % 2 * 8 + (b / 4 % 2) % 2 * 4 + u % 4 =
      (b &&& 0xFC) ||| u := by
  decide

theorem set_range_written {device : mma8451} {b : Nat} {inbuf : Nat → Nat}
    (h0 : next_read device.file = some b) (h1 : outcome_at device 1 = .success inbuf)
    (range : Nat) (cfg : mma8451_register_xyz_data_cfg) :
    (mma8451_set_range device range cfg).ret = 1 ∧
    issued device (mma8451_set_range device range cfg).device =
      [read_request device.addr MMA8451_REGISTER_XYZ_DATA_CFG 1,
        write_request device.addr MMA8451_REGISTER_XYZ_DATA_CFG
          ((b &&& 0xFC) ||| (range &&& 3))] := by
  have hb := next_read_lt h0
  have hm : range &&& 3 = range % 4 := Nat.and_pow_two_sub_one_eq_mod range 2
  have key := set_range_table (range % 4) (Nat.mod_lt _ (by decide)) b hb
  have hval : (b / 128 % 2) % 2 * 128 + (b / 64 % 2) % 2 * 64 + (b / 32 % 2) % 2 * 32 + (b / 16 % 2) % 2 * 16 + (b / 8 % 2) % 2 * 8 + (b / 4 % 2) % 2 * 4 + range % 4 =
      (b &&& 0xFC) ||| (range &&& 3) := by
    rw [hm]
    simp only [Nat.mod_mod] at key ⊢
    exact key
  rw [set_range_of_success_value h0 h1, hval]
  exact ⟨rfl, by simp [issued, logged]⟩

set_option maxRecDepth 1000000 in
theorem set_data_rate_table : ∀ u < 8, ∀ b < 256,
    (b / 64) % 4 * 64 + u % 8 * 8 + (b / 4 % 2) % 2 * 4 + (b / 2 % 2) % 2 * 2 + (b % 2) % 2 =
      (b &&& 0xC7) ||| (u <<< 3) := by
  decide

theorem set_data_rate_written {device : mma8451} {b : Nat} {inbuf : Nat → Nat}
    (h0 : next_read device.file = some b) (h1 : outcome_at device 1 = .success inbuf)
    (rate : Nat) (cfg : mma8451_register_ctrl_reg1) :
    (mma8451_set_data_rate device rate cfg).ret = 1 ∧
    issued device (mma8451_set_data_rate device rate cfg).device =
      [read_request device.addr MMA8451_REGISTER_CTRL_REG1 1,
        write_request device.addr MMA8451_REGISTER_CTRL_REG1
          ((b &&& 0xC7) ||| ((rate &&& 7) <<< 3))] := by
  have hb := next_read_lt h0
  have hm : rate &&& 7 = rate % 8 := Nat.and_pow_two_sub_one_eq_mod rate 3
  have key := set_data_rate_table (rate % 8) (Nat.mod_lt _ (by decide)) b hb
  have hval : (b / 64) % 4 * 64 + rate % 8 * 8 + (b / 4 % 2) % 2 * 4 + (b / 2 % 2) % 2 * 2 + (b % 2) % 2 =
      (b &&& 0xC7) ||| ((rate &&& 7) <<< 3) := by
    rw [hm]
    simp only [Nat.mod_mod] at key ⊢
    exact key
  rw [set_data_rate_of_success_value h0 h1, hval]
  exact ⟨rfl, by simp [issued, logged]⟩

set_option maxRecDepth 1000000 in
theorem set_power_mode_table : ∀ u < 4, ∀ b < 256,
    (b / 128 % 2) % 2 * 128 + (b / 64 % 2) % 2 * 64 + (b / 32 % 2) % 2 * 32 + (b / 8 % 4) % 4 * 8 + (b / 4 % 2) % 2 * 4 + u % 4 =
      (b &&& 0xFC) ||| u := by
  decide

theorem set_power_mode_written {device : mma8451} {b : Nat} {inbuf : Nat → Nat}
    (h0 : next_read device.file = some b) (h1 : outcome_at device 1 = .success inbuf)
    (mode : Nat) (cfg : mma8451_register_ctrl_reg2) :
    (mma8451_set_power_mode device mode cfg).ret = 1 ∧
    issued device (mma8451_set_power_mode device mode cfg).device =
      [read_request device.addr MMA8451_REGISTER_CTRL_REG2 1,
        write_request device.addr MMA8451_REGISTER_CTRL_REG2
          ((b &&& 0xFC) ||| (mode &&& 3))] := by
  have hb := next_read_lt h0
  have hm : mode &&& 3 = mode % 4 := Nat.and_pow_two_sub_one_eq_mod mode 2
  have key := set_power_mode_table (mode % 4) (Nat.mod_lt _ (by decide)) b hb
  have hval : (b / 128 % 2) % 2 * 128 + (b / 64 % 2) % 2 * 64 + (b / 32 % 2) % 2 * 32 + (b / 8 % 4) % 4 * 8 + (b / 4 % 2) % 2 * 4 + mode % 4 =
      (b &&& 0xFC) ||| (mode &&& 3) := by
    rw [hm]
    simp only [Nat.mod_mod] at key ⊢
    exact key
  rw [set_power_mode_of_success_value h0 h1, hval]
  exact ⟨rfl, by simp [issued, logged]⟩

set_option maxRecDepth 1000000 in
theorem set_output_size_table : ∀ u < 2, ∀ b < 256,
    (b / 64) % 4 * 64 + (b / 8 % 8) % 8 * 8 + (b / 4 % 2) % 2 * 4 + u % 2 * 2 + (b % 2) % 2 =
      (b &&& 0xFD) ||| (u <<< 1) := by
  decide

theorem set_output_size_written {device : mma8451} {b : Nat} {inbuf : Nat → Nat}
    (h0 : next_read device.file = some b) (h1 : outcome_at device 1 = .success inbuf)
    (size : Nat) (cfg : mma8451_register_ctrl_reg1) :
    (mma8451_set_output_size device size cfg).ret = 1 ∧
    issued device (mma8451_set_output_size device size cfg).device =
      [read_request device.addr MMA8451_REGISTER_CTRL_REG1 1,
        write_request device.addr MMA8451_REGISTER_CTRL_REG1
          ((b &&& 0xFD) ||| ((size &&& 1) <<< 1))] := by
  have hb := next_read_lt h0
  have hm : size &&& 1 = size % 2 := Nat.and_pow_two_sub_one_eq_mod size 1
  have key := set_output_size_table (size % 2) (Nat.mod_lt _ (by decide)) b hb
  have hval : (b / 64) % 4 * 64 + (b / 8 % 8) % 8 * 8 + (b / 4 % 2) % 2 * 4 + (size % 256) % 2 * 2 + (b % 2) % 2 =
      (b &&& 0xFD) ||| ((size &&& 1) <<< 1) := by
    rw [hm]
    rw [show size % 256 % 2 = size % 2 from by omega]
    simp only [Nat.mod_mod] at key ⊢
    exact key
  rw [set_output_size_of_success_value h0 h1, hval]
  exact ⟨rfl, by simp [issued, logged]⟩

set_option maxRecDepth 1000000 in
theorem set_active_table : ∀ u < 2, ∀ b < 256,
    (b / 64) % 4 * 64 + (b / 8 % 8) % 8 * 8 + (b / 4 % 2) % 2 * 4 + (b / 2 % 2) % 2 * 2 + u % 2 =
      (b &&& 0xFE) ||| (if u > 0 then 0x01 else 0) := by
  decide

theorem set_active_written {device : mma8451} {b : Nat} {inbuf : Nat → Nat}
    (h0 : next_read device.file = some b) (h1 : outcome_at device 1 = .success inbuf)
    (active : Nat) (cfg : mma8451_register_ctrl_reg1) :
    (mma8451_set_active device active cfg).ret = 1 ∧
    issued device (mma8451_set_active device active cfg).device =
      [read_request device.addr MMA8451_REGISTER_CTRL_REG1 1,
        write_request device.addr MMA8451_REGISTER_CTRL_REG1
          ((b &&& 0xFE) ||| (if active > 0 then 0x01 else 0))] := by
  have hb := next_read_lt h0
  have hval : (b / 64) % 4 * 64 + (b / 8 % 8) % 8 * 8 + (b / 4 % 2) % 2 * 4 + (b / 2 % 2) % 2 * 2 + (if active > 0 then 1 else 0) % 2 =
      (b &&& 0xFE) ||| (if active > 0 then 0x01 else 0) := by
    by_cases hp : active > 0
    · simp only [hp, if_true]
      exact set_active_table 1 (by decide) b hb
    · simp only [hp, if_false]
      exact set_active_table 0 (by decide) b hb
  rw [set_active_of_success_value h0 h1, hval]
  exact ⟨rfl, by simp [issued, logged]⟩

set_option maxRecDepth 1000000 in
theorem set_low_noise_table : ∀ u < 2, ∀ b < 256,
    (b / 64) % 4 * 64 + (b / 8 % 8) % 8 * 8 + u % 2 * 4 + (b / 2 % 2) % 2 * 2 + (b % 2) % 2 =
      (b &&& 0xFB) ||| (if u > 0 then 0x04 else 0) := by
  decide

theorem set_low_noise_written {device : mma8451} {b : Nat} {inbuf : Nat → Nat}
    (h0 : next_read device.file = some b) (h1 : outcome_at device 1 = .success inbuf)
    (low_noise : Nat) (cfg : mma8451_register_ctrl_reg1) :
    (mma8451_set_low_noise device low_noise cfg).ret = 1 ∧
    issued device (mma8451_set_low_noise device low_noise cfg).device =
      [read_request device.addr MMA8451_REGISTER_CTRL_REG1 1,
        write_request device.addr MMA8451_REGISTER_CTRL_REG1
          ((b &&& 0xFB) ||| (if low_noise > 0 then 0x04 else 0))] := by
  have hb := next_read_lt h0
  have hval : (b / 64) % 4 * 64 + (b / 8 % 8) % 8 * 8 + (if low_noise > 0 then 1 else 0) % 2 * 4 + (b / 2 % 2) % 2 * 2 + (b % 2) % 2 =
      (b &&& 0xFB) ||| (if low_noise > 0 then 0x04 else 0) := by
    by_cases hp : low_noise > 0
    · simp only [hp, if_true]
      exact set_low_noise_table 1 (by decide) b hb
    · simp only [hp, if_false]
      exact set_low_noise_table 0 (by decide) b hb
  rw [set_low_noise_of_success_value h0 h1, hval]
  exact ⟨rfl, by simp [issued, logged]⟩

set_option maxRecDepth 1000000 in
theorem set_orientation_detection_table : ∀ u < 2, ∀ b < 256,
    (b / 128 % 2) % 2 * 128 + u % 2 * 64 + (b / 32 % 2) % 2 * 32 + (b / 16 % 2) % 2 * 16 + (b / 8 % 2) % 2 * 8 + (b / 4 % 2) % 2 * 4 + (b / 2 % 2) % 2 * 2 + (b % 2) % 2 =
      (b &&& 0xBF) ||| (if u > 0 then 0x40 else 0) := by
  decide

theorem set_orientation_detection_written {device : mma8451} {b : Nat} {inbuf : Nat → Nat}
    (h0 : next_read device.file = some b) (h1 : outcome_at device 1 = .success inbuf)
    (orientation : Nat) (cfg : mma8451_register_pl_cfg) :
    (mma8451_set_orientation_detection device orientation cfg).ret = 1 ∧
    issued device (mma8451_set_orientation_detection device orientation cfg).device =
      [read_request device.addr MMA8451_REGISTER_PL_CFG 1,
        write_request device.addr MMA8451_REGISTER_PL_CFG
          ((b &&& 0xBF) ||| (if orientation > 0 then 0x40 else 0))] := by
  have hb := next_read_lt h0
  have hval : (b / 128 % 2) % 2 * 128 + (if orientation > 0 then 1 else 0) % 2 * 64 + (b / 32 % 2) % 2 * 32 + (b / 16 % 2) % 2 * 16 + (b / 8 % 2) % 2 * 8 + (b / 4 % 2) % 2 * 4 + (b / 2 % 2) % 2 * 2 + (b % 2) % 2 =
      (b &&& 0xBF) ||| (if orientation > 0 then 0x40 else 0) := by
    by_cases hp : orientation > 0
    · simp only [hp, if_true]
      exact set_orientation_detection_table 1 (by decide) b hb
    · simp only [hp, if_false]
      exact set_orientation_detection_table 0 (by decide) b hb
  rw [set_orientation_detection_of_success_value h0 h1, hval]
  exact ⟨rfl, by simp [issued, logged]⟩

set_option maxRecDepth 1000000 in
theorem set_interrupt_enable_table : ∀ u < 2, ∀ b < 256,
    (b / 128 % 2) % 2 * 128 + (b / 64 % 2) % 2 * 64 + (b / 32 % 2) % 2 * 32 + (b / 16 % 2) % 2 * 16 + (b / 8 % 2) % 2 * 8 + (b / 4 % 2) % 2 * 4 + (b / 2 % 2) % 2 * 2 + u % 2 =
      (b &&& 0xFE) ||| (if u > 0 then 0x01 else 0) := by
  decide

theorem set_interrupt_enable_written {device : mma8451} {b : Nat} {inbuf : Nat → Nat}
    (h0 : next_read device.file = some b) (h1 : outcome_at device 1 = .success inbuf)
    (enable : Nat) (cfg : mma8451_register_ctrl_reg4) :
    (mma8451_set_interrupt_enable device enable cfg).ret = 1 ∧
    issued device (mma8451_set_interrupt_enable device enable cfg).device =
      [read_request device.addr MMA8451_REGISTER_CTRL_REG4 1,
        write_request device.addr MMA8451_REGISTER_CTRL_REG4
          ((b &&& 0xFE) ||| (if enable > 0 then 0x01 else 0))] := by
  have hb := next_read_lt h0
  have hval : (b / 128 % 2) % 2 * 128 + (b / 64 % 2) % 2 * 64 + (b / 32 % 2) % 2 * 32 + (b / 16 % 2) % 2 * 16 + (b / 8 % 2) % 2 * 8 + (b / 4 % 2) % 2 * 4 + (b / 2 % 2) % 2 * 2 + (if enable > 0 then 1 else 0) % 2 =
      (b &&& 0xFE) ||| (if enable > 0 then 0x01 else 0) := by
    by_cases hp : enable > 0
    · simp only [hp, if_true]
      exact set_interrupt_enable_table 1 (by decide) b hb
    · simp only [hp, if_false]
      exact set_interrupt_enable_table 0 (by decide) b hb
  rw [set_interrupt_enable_of_success_value h0 h1, hval]
  exact ⟨rfl, by simp [issued, logged]⟩

set_option maxRecDepth 1000000 in
theorem set_interrupt_pin1_table : ∀ u < 2, ∀ b < 256,
    (b / 128 % 2) % 2 * 128 + (b / 64 % 2) % 2 * 64 + (b / 32 % 2) % 2 * 32 + (b / 16 % 2) % 2 * 16 + (b / 8 % 2) % 2 * 8 + (b / 4 % 2) % 2 * 4 + (b / 2 % 2) % 2 * 2 + u % 2 =
      (b &&& 0xFE) ||| (if u > 0 then 0x01 else 0) := by
  decide

theorem set_interrupt_pin1_written {device : mma8451} {b : Nat} {inbuf : Nat → Nat}
    (h0 : next_read device.file = some b) (h1 : outcome_at device 1 = .success inbuf)
    (pin1 : Nat) (cfg : mma8451_register_ctrl_reg5) :
    (mma8451_set_interrupt_pin1 device pin1 cfg).ret = 1 ∧
    issued device (mma8451_set_interrupt_pin1 device pin1 cfg).device =
      [read_request device.addr MMA8451_REGISTER_CTRL_REG5 1,
        write_request device.addr MMA8451_REGISTER_CTRL_REG5
          ((b &&& 0xFE) ||| (if pin1 > 0 then 0x01 else 0))] := by
  have hb := next_read_lt h0
  have hval : (b / 128 % 2) % 2 * 128 + (b / 64 % 2) % 2 * 64 + (b / 32 % 2) % 2 * 32 + (b / 16 % 2) % 2 * 16 + (b / 8 % 2) % 2 * 8 + (b / 4 % 2) % 2 * 4 + (b / 2 % 2) % 2 * 2 + (if pin1 > 0 then 1 else 0) % 2 =
      (b &&& 0xFE) ||| (if pin1 > 0 then 0x01 else 0) := by
    by_cases hp : pin1 > 0
    · simp only [hp, if_true]
      exact set_interrupt_pin1_table 1 (by decide) b hb
    · simp only [hp, if_false]
      exact set_interrupt_pin1_table 0 (by decide) b hb
  rw [set_interrupt_pin1_of_success_value h0 h1, hval]
  exact ⟨rfl, by simp [issued, logged]⟩

set_option maxRecDepth 1000000 in
theorem reset_table : ∀ b < 256,
    (b / 128 % 2) % 2 * 128 + 1 % 2 * 64 + (b / 32 % 2) % 2 * 32 + (b / 8 % 4) % 4 * 8 + (b / 4 % 2) % 2 * 4 + (b % 4) % 4 =
      b ||| 0x40 := by
  decide

theorem reset_written {device : mma8451} {b : Nat} {inbuf : Nat → Nat}
    (h0 : next_read device.file = some b) (h1 : outcome_at device 1 = .success inbuf)
    (cfg : mma8451_register_ctrl_reg2) :
    (mma8451_reset device cfg).ret = 1 ∧
    issued device (mma8451_reset device cfg).device =
      [read_request device.addr MMA8451_REGISTER_CTRL_REG2 1,
        write_request device.addr MMA8451_REGISTER_CTRL_REG2
          (b ||| 0x40)] := by
  have hb := next_read_lt h0
  have hval : (b / 128 % 2) % 2 * 128 + 1 % 2 * 64 + (b / 32 % 2) % 2 * 32 + (b / 8 % 4) % 4 * 8 + (b / 4 % 2) % 2 * 4 + (b % 4) % 4 =
      b ||| 0x40 := reset_table b hb
  rw [reset_of_success_value h0 h1, hval]
  exact ⟨rfl, by simp [issued, logged]⟩

/-- Claim C24: when the read delivers the byte old and the write is served, for every
argument v, mma8451_set_range writes (old & 0xFC) | (v & 3) to XYZ_DATA_CFG
(0x0E), mma8451_set_data_rate writes (old & 0xC7) | ((v & 7) << 3) to CTRL_REG1
(0x2A), mma8451_set_power_mode writes (old & 0xFC) | (v & 3) to CTRL_REG2
(0x2B) and mma8451_set_output_size writes (old & 0xFD) | ((v & 1) << 1) to
CTRL_REG1; each returns 1 after that read and that write. -/
theorem field_setters_keep_other_bits (device : mma8451) (b v : Nat) (inbuf : Nat → Nat)
    (h0 : next_read device.file = some b) (h1 : outcome_at device 1 = .success inbuf) :
    (MMA8451_REGISTER_XYZ_DATA_CFG = 0x0E ∧ MMA8451_REGISTER_CTRL_REG1 = 0x2A ∧
      MMA8451_REGISTER_CTRL_REG2 = 0x2B) ∧
    (∀ cfg, (mma8451_set_range device v cfg).ret = 1 ∧
      issued device (mma8451_set_range device v cfg).device =
        [read_request device.addr MMA8451_REGISTER_XYZ_DATA_CFG 1,
          write_request device.addr MMA8451_REGISTER_XYZ_DATA_CFG
            ((b &&& 0xFC) ||| (v &&& 3))]) ∧
    (∀ cfg, (mma8451_set_data_rate device v cfg).ret = 1 ∧
      issued device (mma8451_set_data_rate device v cfg).device =
        [read_request device.addr MMA8451_REGISTER_CTRL_REG1 1,
          write_request device.addr MMA8451_REGISTER_CTRL_REG1
            ((b &&& 0xC7) ||| ((v &&& 7) <<< 3))]) ∧
    (∀ cfg, (mma8451_set_power_mode device v cfg).ret = 1 ∧
      issued device (mma8451_set_power_mode device v cfg).device =
        [read_request device.addr MMA8451_REGISTER_CTRL_REG2 1,
          write_request device.addr MMA8451_REGISTER_CTRL_REG2
            ((b &&& 0xFC) ||| (v &&& 3))]) ∧
    (∀ cfg, (mma8451_set_output_size device v cfg).ret = 1 ∧
      issued device (mma8451_set_output_size device v cfg).device =
        [read_request device.addr MMA8451_REGISTER_CTRL_REG1 1,
          write_request device.addr MMA8451_REGISTER_CTRL_REG1
            ((b &&& 0xFD) ||| ((v &&& 1) <<< 1))]) :=
  ⟨⟨rfl, rfl, rfl⟩, fun cfg => set_range_written h0 h1 v cfg,
    fun cfg => set_data_rate_written h0 h1 v cfg,
    fun cfg => set_power_mode_written h0 h1 v cfg,
    fun cfg => set_output_size_written h0 h1 v cfg⟩

/-- Witness of C24: the register reads 0xA5 and the argument is 6. -/
theorem field_setters_keep_other_bits_witness :
    next_read (scripted [some [0xA5], some []]).file = some 0xA5 ∧
      issued (scripted [some [0xA5], some []])
        (mma8451_set_range (scripted [some [0xA5], some []]) 6
          ⟨0, 0, 0, 0, 0, 0, 0, 0, 0⟩).device =
        [read_request 0x1C MMA8451_REGISTER_XYZ_DATA_CFG 1,
          write_request 0x1C MMA8451_REGISTER_XYZ_DATA_CFG ((0xA5 &&& 0xFC) ||| (6 &&& 3))] :=
  ⟨rfl, ((field_setters_keep_other_bits (scripted [some [0xA5], some []]) 0xA5 6
    (fun i => ([] : List Nat).getD i 0) rfl rfl).2.1 ⟨0, 0, 0, 0, 0, 0, 0, 0, 0⟩).2⟩

/-- Claim C25: when the read delivers the byte old and the write is served, for every
argument a each boolean high-level setter writes (old & ~m) | (m if a > 0 else
0) to its register: m = 0x01 of CTRL_REG1 (0x2A) for mma8451_set_active, 0x04
of CTRL_REG1 for mma8451_set_low_noise, 0x40 of PL_CFG (0x11) for
mma8451_set_orientation_detection, 0x01 of CTRL_REG4 (0x2D) for
mma8451_set_interrupt_enable and 0x01 of CTRL_REG5 (0x2E) for
mma8451_set_interrupt_pin1. -/
theorem boolean_setters_keep_other_bits (device : mma8451) (b a : Nat) (inbuf : Nat → Nat)
    (h0 : next_read device.file = some b) (h1 : outcome_at device 1 = .success inbuf) :
    (MMA8451_REGISTER_CTRL_REG1 = 0x2A ∧ MMA8451_REGISTER_PL_CFG = 0x11 ∧
      MMA8451_REGISTER_CTRL_REG4 = 0x2D ∧ MMA8451_REGISTER_CTRL_REG5 = 0x2E) ∧
    (∀ cfg, (mma8451_set_active device a cfg).ret = 1 ∧
      issued device (mma8451_set_active device a cfg).device =
        [read_request device.addr MMA8451_REGISTER_CTRL_REG1 1,
          write_request device.addr MMA8451_REGISTER_CTRL_REG1
            ((b &&& 0xFE) ||| (if a > 0 then 0x01 else 0))]) ∧
    (∀ cfg, (mma8451_set_low_noise device a cfg).ret = 1 ∧
      issued device (mma8451_set_low_noise device a cfg).device =
        [read_request device.addr MMA8451_REGISTER_CTRL_REG1 1,
          write_request device.addr MMA8451_REGISTER_CTRL_REG1
            ((b &&& 0xFB) ||| (if a > 0 then 0x04 else 0))]) ∧
    (∀ cfg, (mma8451_set_orientation_detection device a cfg).ret = 1 ∧
      issued device (mma8451_set_orientation_detection device a cfg).device =
        [read_request device.addr MMA8451_REGISTER_PL_CFG 1,
          write_request device.addr MMA8451_REGISTER_PL_CFG
            ((b &&& 0xBF) ||| (if a > 0 then 0x40 else 0))]) ∧
    (∀ cfg, (mma8451_set_interrupt_enable device a cfg).ret = 1 ∧
      issued device (mma8451_set_interrupt_enable device a cfg).device =
        [read_request device.addr MMA8451_REGISTER_CTRL_REG4 1,
          write_request device.addr MMA8451_REGISTER_CTRL_REG4
            ((b &&& 0xFE) ||| (if a > 0 then 0x01 else 0))]) ∧
    (∀ cfg, (mma8451_set_interrupt_pin1 device a cfg).ret = 1 ∧
      issued device (mma8451_set_interrupt_pin1 device a cfg).device =
        [read_request device.addr MMA8451_REGISTER_CTRL_REG5 1,
          write_request device.addr MMA8451_REGISTER_CTRL_REG5
            ((b &&& 0xFE) ||| (if a > 0 then 0x01 else 0))]) :=
  ⟨⟨rfl, rfl, rfl, rfl⟩, fun cfg => set_active_written h0 h1 a cfg,
    fun cfg => set_low_noise_written h0 h1 a cfg,
    fun cfg => set_orientation_detection_written h0 h1 a cfg,
    fun cfg => set_interrupt_enable_written h0 h1 a cfg,
    fun cfg => set_interrupt_pin1_written h0 h1 a cfg⟩

/-- Witness of C25: CTRL_REG1 reads 0x18 and the argument of mma8451_set_active is
7. -/
theorem boolean_setters_keep_other_bits_witness :
    next_read (scripted [some [0x18], some []]).file = some 0x18 ∧
      issued (scripted [some [0x18], some []])
        (mma8451_set_active (scripted [some [0x18], some []]) 7
          ⟨0, 0, 0, 0, 0, 0, 0, 0, 0, 0⟩).device =
        [read_request 0x1C MMA8451_REGISTER_CTRL_REG1 1,
          write_request 0x1C MMA8451_REGISTER_CTRL_REG1
            ((0x18 &&& 0xFE) ||| (if 7 > 0 then 0x01 else 0))] :=
  ⟨rfl, ((boolean_setters_keep_other_bits (scripted [some [0x18], some []]) 0x18 7
    (fun i => ([] : List Nat).getD i 0) rfl rfl).2.1 ⟨0, 0, 0, 0, 0, 0, 0, 0, 0, 0⟩).2⟩

set_option maxRecDepth 1000000 in
theorem reset_bit_facts : ∀ b < 256,
    ((b ||| 0x40) >>> 6) &&& 1 = 1 ∧ (b ||| 0x40) &&& 0xBF = b &&& 0xBF := by
  decide

/-- Claim C26: when the read of CTRL_REG2 delivers the byte old and the write is
served, mma8451_reset returns 1 and writes exactly old | 0x40 to CTRL_REG2
(0x2B): the software-reset bit, bit 6, is set and every other bit is as it was
read. -/
theorem reset_writes_reset_bit (device : mma8451) (b : Nat) (inbuf : Nat → Nat)
    (cfg : mma8451_register_ctrl_reg2)
    (h0 : next_read device.file = some b) (h1 : outcome_at device 1 = .success inbuf) :
    MMA8451_REGISTER_CTRL_REG2 = 0x2B ∧
    (mma8451_reset device cfg).ret = 1 ∧
    issued device (mma8451_reset device cfg).device =
      [read_request device.addr MMA8451_REGISTER_CTRL_REG2 1,
        write_request device.addr MMA8451_REGISTER_CTRL_REG2 (b ||| 0x40)] ∧
    ((b ||| 0x40) >>> 6) &&& 1 = 1 ∧ (b ||| 0x40) &&& 0xBF = b &&& 0xBF := by
  have hb := next_read_lt h0
  exact ⟨rfl, (reset_written h0 h1 cfg).1, (reset_written h0 h1 cfg).2, reset_bit_facts b hb⟩

/-- Witness of C26: CTRL_REG2 reads 0x1B. -/
theorem reset_writes_reset_bit_witness :
    next_read (scripted [some [0x1B], some []]).file = some 0x1B ∧
      issued (scripted [some [0x1B], some []])
        (mma8451_reset (scripted [some [0x1B], some []]) ⟨0, 0, 0, 0, 0, 0, 0, 0, 0, 0⟩).device =
        [read_request 0x1C MMA8451_REGISTER_CTRL_REG2 1,
          write_request 0x1C MMA8451_REGISTER_CTRL_REG2 (0x1B ||| 0x40)] :=
  ⟨rfl, (reset_writes_reset_bit (scripted [some [0x1B], some []]) 0x1B
    (fun i => ([] : List Nat).getD i 0) ⟨0, 0, 0, 0, 0, 0, 0, 0, 0, 0⟩ rfl rfl).2.2.1⟩

/-! ## The generic codec, bit by bit (claims C27 and C28) -/

set_option maxRecDepth 1000000 in
theorem digit_is_bit : ∀ b < 256,
    b / 128 % 2 = (b >>> 7) &&& 1 ∧ b / 64 % 2 = (b >>> 6) &&& 1 ∧
    b / 32 % 2 = (b >>> 5) &&& 1 ∧ b / 16 % 2 = (b >>> 4) &&& 1 ∧
    b / 8 % 2 = (b >>> 3) &&& 1 ∧ b / 4 % 2 = (b >>> 2) &&& 1 ∧
    b / 2 % 2 = (b >>> 1) &&& 1 ∧ b % 2 = b &&& 1 := by
  decide

/-- Claim C27: when the byte b is read, mma8451_get_register returns 1, gives each of
bit7..bit0 the value of the corresponding bit of b (the first field bit 7, the
eighth bit 0), so that every field is 0 or 1, and stores b itself through the
byte pointer; a NULL pointer stays NULL. -/
theorem get_register_decodes_bits (device : mma8451) (b : Nat)
    (h : next_read device.file = some b) :
    (∀ (reg : Nat) (g : mma8451_register_generic) (byteData : Nat),
      (mma8451_get_register device reg (some g) (some byteData)).ret = 1 ∧
      (mma8451_get_register device reg (some g) (some byteData)).data =
        (some { bit7 := (b >>> 7) &&& 1, bit6 := (b >>> 6) &&& 1, bit5 := (b >>> 5) &&& 1,
                bit4 := (b >>> 4) &&& 1, bit3 := (b >>> 3) &&& 1, bit2 := (b >>> 2) &&& 1,
                bit1 := (b >>> 1) &&& 1, bit0 := b &&& 1 }, some b)) ∧
    (∀ reg : Nat, (mma8451_get_register device reg none none).data = (none, none)) ∧
    ((b >>> 7) &&& 1 ≤ 1 ∧ (b >>> 6) &&& 1 ≤ 1 ∧ (b >>> 5) &&& 1 ≤ 1 ∧ (b >>> 4) &&& 1 ≤ 1 ∧
      (b >>> 3) &&& 1 ≤ 1 ∧ (b >>> 2) &&& 1 ≤ 1 ∧ (b >>> 1) &&& 1 ≤ 1 ∧ b &&& 1 ≤ 1) := by
  have hb := next_read_lt h
  obtain ⟨h7, h6, h5, h4, h3, h2, h1, h0⟩ := digit_is_bit b hb
  refine ⟨fun reg g byteData => ?_, fun reg => ?_, ?_⟩
  · rw [get_register_of_read h]
    simp only [Option.map, digits, h7, h6, h5, h4, h3, h2, h1, h0, and_self]
  · rw [get_register_of_read h]
    rfl
  · rw [← h7, ← h6, ← h5, ← h4, ← h3, ← h2, ← h1, ← h0]
    omega

/-- Witness of C27: the device answers 0xB4. -/
theorem get_register_decodes_bits_witness :
    next_read (scripted [some [0xB4]]).file = some 0xB4 ∧
      (mma8451_get_register (scripted [some [0xB4]]) MMA8451_REGISTER_SYSMOD
        (some ⟨9, 9, 9, 9, 9, 9, 9, 9⟩) (some 9)).data =
        (some ⟨1, 0, 1, 1, 0, 1, 0, 0⟩, some 0xB4) :=
  ⟨rfl, ((get_register_decodes_bits (scripted [some [0xB4]]) 0xB4 rfl).1
    MMA8451_REGISTER_SYSMOD ⟨9, 9, 9, 9, 9, 9, 9, 9⟩ 9).2⟩

theorem digits_weighted (g : mma8451_register_generic) :
    digits (weighted g) =
      ⟨g.bit7 % 2, g.bit6 % 2, g.bit5 % 2, g.bit4 % 2, g.bit3 % 2, g.bit2 % 2, g.bit1 % 2,
        g.bit0 % 2⟩ := by
  obtain ⟨b7, b6, b5, b4, b3, b2, b1, b0⟩ := g
  simp only [digits, weighted, mma8451_register_generic.mk.injEq]
  refine ⟨?_, ?_, ?_, ?_, ?_, ?_, ?_, ?_⟩ <;> omega

/-- Claim C28: for every struct handed to mma8451_set_register, whatever its field
values, bit 7 - i of the byte written is the least significant bit of the i-th
field; and when all eight fields are 0 or 1, mma8451_get_register decodes the
written byte into the same eight fields. -/
theorem set_register_encodes_low_bits (device : mma8451) (reg : Nat)
    (g : mma8451_register_generic) (byteData : Nat) :
    ∃ byte,
      issued device (mma8451_set_register device reg (some g) byteData).device =
        [write_request device.addr (reg % 256) byte] ∧
      ((byte >>> 7) &&& 1 = g.bit7 &&& 1 ∧ (byte >>> 6) &&& 1 = g.bit6 &&& 1 ∧
        (byte >>> 5) &&& 1 = g.bit5 &&& 1 ∧ (byte >>> 4) &&& 1 = g.bit4 &&& 1 ∧
        (byte >>> 3) &&& 1 = g.bit3 &&& 1 ∧ (byte >>> 2) &&& 1 = g.bit2 &&& 1 ∧
        (byte >>> 1) &&& 1 = g.bit1 &&& 1 ∧ byte &&& 1 = g.bit0 &&& 1) ∧
      (g.bit7 ≤ 1 ∧ g.bit6 ≤ 1 ∧ g.bit5 ≤ 1 ∧ g.bit4 ≤ 1 ∧ g.bit3 ≤ 1 ∧ g.bit2 ≤ 1 ∧
          g.bit1 ≤ 1 ∧ g.bit0 ≤ 1 →
        ∀ (device2 : mma8451) (reg2 : Nat) (g2 : mma8451_register_generic),
          next_read device2.file = some byte →
            (mma8451_get_register device2 reg2 (some g2) none).data.1 = some g) := by
  have hd := digits_weighted g
  obtain ⟨h7, h6, h5, h4, h3, h2, h1, h0⟩ := digit_is_bit (weighted g) (weighted_lt g)
  simp only [digits, mma8451_register_generic.mk.injEq] at hd
  obtain ⟨d7, d6, d5, d4, d3, d2, d1, d0⟩ := hd
  refine ⟨weighted g, set_register_issued device reg g byteData, ?_, ?_⟩
  · rw [← h7, ← h6, ← h5, ← h4, ← h3, ← h2, ← h1, ← h0]
    simp only [Nat.and_one_is_mod]
    exact ⟨d7, d6, d5, d4, d3, d2, d1, d0⟩
  · rintro ⟨l7, l6, l5, l4, l3, l2, l1, l0⟩ device2 reg2 g2 hn
    rw [get_register_of_read hn]
    show some (digits (weighted g)) = some g
    rw [digits_weighted]
    obtain ⟨b7, b6, b5, b4, b3, b2, b1, b0⟩ := g
    simp only at l7 l6 l5 l4 l3 l2 l1 l0
    simp only [Option.some.injEq, mma8451_register_generic.mk.injEq]
    omega

/-! ## One axis at a time (claims C23 and C30) -/

theorem scale_14bit_axes (range : Nat) (raw : mma8451_acceleration) :
    acceleration_scale_14bit range raw =
      { x := (acceleration_scale_14bit range ⟨raw.x, 0, 0⟩).x
        y := (acceleration_scale_14bit range ⟨raw.y, 0, 0⟩).x
        z := (acceleration_scale_14bit range ⟨raw.z, 0, 0⟩).x } := by
  unfold acceleration_scale_14bit
  split
  · rfl
  · split
    · rfl
    · split <;> rfl

theorem scale_8bit_axes (range : Nat) (raw : mma8451_acceleration) :
    acceleration_scale_8bit range raw =
      { x := (acceleration_scale_8bit range ⟨raw.x, 0, 0⟩).x
        y := (acceleration_scale_8bit range ⟨raw.y, 0, 0⟩).x
        z := (acceleration_scale_8bit range ⟨raw.z, 0, 0⟩).x } := by
  unfold acceleration_scale_8bit
  split
  · rfl
  · split
    · rfl
    · split <;> rfl

/-- Claim C23: there is one function of the range and a byte pair by which, in 14-bit
mode, mma8451_get_acceleration decodes x from (t[0], t[1]), y from (t[2], t[3])
and z from (t[4], t[5]) of every block t read, and one function of the range
and a byte by which, in 8-bit mode, it decodes x, y, z from t[0], t[1], t[2]:
an axis depends on no other byte of the block. -/
theorem axes_decoded_alike :
    (∃ f : Nat → Nat → Nat → ℚ, ∀ (device : mma8451) (data : mma8451_acceleration)
      (tmp : Nat → Nat), device.data_size = MMA8451_14BIT_OUTPUT →
      next_block device.file = some tmp →
        (mma8451_get_acceleration device data).ret = 1 ∧
        issued device (mma8451_get_acceleration device data).device =
          [read_request device.addr MMA8451_REGISTER_OUT_X_MSB 6] ∧
        (mma8451_get_acceleration device data).data =
          { x := f device.range (tmp 0) (tmp 1), y := f device.range (tmp 2) (tmp 3),
            z := f device.range (tmp 4) (tmp 5) }) ∧
    (∃ f : Nat → Nat → ℚ, ∀ (device : mma8451) (data : mma8451_acceleration)
      (tmp : Nat → Nat), device.data_size = MMA8451_8BIT_OUTPUT →
      next_block device.file = some tmp →
        (mma8451_get_acceleration device data).ret = 1 ∧
        issued device (mma8451_get_acceleration device data).device =
          [read_request device.addr MMA8451_REGISTER_OUT_X_MSB 3] ∧
        (mma8451_get_acceleration device data).data =
          { x := f device.range (tmp 0), y := f device.range (tmp 1),
            z := f device.range (tmp 2) }) := by
  constructor
  · refine ⟨fun range msb lsb => (acceleration_scale_14bit range
      ⟨(acceleration_raw_14bit (fun i => if i = 0 then msb else lsb)).x, 0, 0⟩).x, ?_⟩
    intro device data tmp hs hb
    refine ⟨?_, ?_, ?_⟩
    · rw [get_acceleration_of_block hb, if_pos hs]
    · rw [get_acceleration_issued, if_pos hs]
      rfl
    · rw [get_acceleration_of_block hb, if_pos hs]
      exact scale_14bit_axes _ _
  · refine ⟨fun range b => (acceleration_scale_8bit range
      ⟨(acceleration_raw_8bit (fun _ => b)).x, 0, 0⟩).x, ?_⟩
    intro device data tmp hs hb
    have hn : ¬ device.data_size = MMA8451_14BIT_OUTPUT := by
      rw [hs]
      decide
    refine ⟨?_, ?_, ?_⟩
    · rw [get_acceleration_of_block hb, if_neg hn]
    · rw [get_acceleration_issued, if_neg hn]
      rfl
    · rw [get_acceleration_of_block hb, if_neg hn]
      exact scale_8bit_axes _ _

set_option maxRecDepth 1000000 in
theorem lsb_low_bits : ∀ l < 256, (l &&& 0xFC) / 4 = l / 4 ∧ l &&& 0xFC < 256 := by
  decide

/-- Claim C30: in 14-bit mode, for every range, two blocks that agree on the MSB of an
axis and whose LSB bytes of that axis are lsb and lsb & 0xFC give
mma8451_get_acceleration the same value on that axis: the two low bits of an
LSB byte do not reach the result. -/
theorem lsb_low_bits_ignored (device device2 : mma8451) (data data2 : mma8451_acceleration)
    (tmp tmp2 : Nat → Nat)
    (hs : device.data_size = MMA8451_14BIT_OUTPUT)
    (hs2 : device2.data_size = MMA8451_14BIT_OUTPUT) (hr : device2.range = device.range)
    (hb : next_block device.file = some tmp) (hb2 : next_block device2.file = some tmp2) :
    (tmp2 0 = tmp 0 → tmp2 1 = tmp 1 &&& 0xFC →
      (mma8451_get_acceleration device2 data2).data.x =
        (mma8451_get_acceleration device data).data.x) ∧
    (tmp2 2 = tmp 2 → tmp2 3 = tmp 3 &&& 0xFC →
      (mma8451_get_acceleration device2 data2).data.y =
        (mma8451_get_acceleration device data).data.y) ∧
    (tmp2 4 = tmp 4 → tmp2 5 = tmp 5 &&& 0xFC →
      (mma8451_get_acceleration device2 data2).data.z =
        (mma8451_get_acceleration device data).data.z) := by
  have hlt := next_block_lt hb
  rw [get_acceleration_of_block hb, get_acceleration_of_block hb2, if_pos hs, if_pos hs2, hr,
    scale_14bit_axes device.range (acceleration_raw_14bit tmp),
    scale_14bit_axes device.range (acceleration_raw_14bit tmp2),
    raw_14bit_axes hlt, raw_14bit_axes (next_block_lt hb2)]
  refine ⟨fun e0 e1 => ?_, fun e0 e1 => ?_, fun e0 e1 => ?_⟩
  · show (acceleration_scale_14bit device.range
      ⟨(((BitVec.ofNat 14 (tmp2 0 * 64 + tmp2 1 / 4)).toInt : ℤ) : ℚ), 0, 0⟩).x = _
    rw [e0, e1, (lsb_low_bits (tmp 1) (hlt 1)).1]
  · show (acceleration_scale_14bit device.range
      ⟨(((BitVec.ofNat 14 (tmp2 2 * 64 + tmp2 3 / 4)).toInt : ℤ) : ℚ), 0, 0⟩).x = _
    rw [e0, e1, (lsb_low_bits (tmp 3) (hlt 3)).1]
  · show (acceleration_scale_14bit device.range
      ⟨(((BitVec.ofNat 14 (tmp2 4 * 64 + tmp2 5 / 4)).toInt : ℤ) : ℚ), 0, 0⟩).x = _
    rw [e0, e1, (lsb_low_bits (tmp 5) (hlt 5)).1]

/-- Witness of C30: the blocks (0x12, 0x37, ...) and (0x12, 0x34, ...) at 2G. -/
theorem lsb_low_bits_ignored_witness :
    next_block (scripted [some [0x12, 0x37]]).file =
        some (fun i => [0x12, 0x37].getD i 0 % 256) ∧
      (mma8451_get_acceleration (scripted [some [0x12, 0x34]]) ⟨0, 0, 0⟩).data.x =
        (mma8451_get_acceleration (scripted [some [0x12, 0x37]]) ⟨0, 0, 0⟩).data.x :=
  ⟨rfl, (lsb_low_bits_ignored (scripted [some [0x12, 0x37]]) (scripted [some [0x12, 0x34]])
    ⟨0, 0, 0⟩ ⟨0, 0, 0⟩ (fun i => [0x12, 0x37].getD i 0 % 256)
    (fun i => [0x12, 0x34].getD i 0 % 256) rfl rfl rfl rfl rfl).1 rfl rfl⟩

/-! ## The last error (claim C21) -/

/-- Evaluation for claim C21: on a bus that refuses the request, a register read and
a register write leave in last_error their message with the register number
and errno, whereas mma8451_get_acceleration returns 0 and leaves last_error as
it was, here empty, after the refused block read. -/
theorem refused_block_read_leaves_last_error :
    (mma8451_get_sysmod (scripted [none]) ⟨0, 0, 0, 0, 0, 0, 0, 0, 0, 0⟩).device.last_error =
      .unable_to_get MMA8451_REGISTER_SYSMOD 5 ∧
    (mma8451_set_ctrl_reg3 (scripted [none]) ⟨0, 0, 0, 0, 0, 0, 0, 0⟩).device.last_error =
      .unable_to_set MMA8451_REGISTER_CTRL_REG3 5 ∧
    (mma8451_get_acceleration (scripted [none]) ⟨0, 0, 0⟩).ret = 0 ∧
    issued (scripted [none]) (mma8451_get_acceleration (scripted [none]) ⟨0, 0, 0⟩).device =
      [read_request 0x1C MMA8451_REGISTER_OUT_X_MSB 6] ∧
    (mma8451_get_acceleration (scripted [none]) ⟨0, 0, 0⟩).device.file.errno = 5 ∧
    (mma8451_get_acceleration (scripted [none]) ⟨0, 0, 0⟩).device.last_error = .empty := by
  have h : outcome_at (scripted [none]) 0 = .failure 5 := rfl
  rw [get_sysmod_of_failure h, set_ctrl_reg3_of_failure h, get_acceleration_issued,
    get_acceleration_of_failure h]
  exact ⟨rfl, rfl, rfl, rfl, rfl, rfl⟩

/-! ## How many requests an operation makes (claim C22) -/

theorem get_register_issued (device : mma8451) (reg : Nat)
    (data : Option mma8451_register_generic) (byteData : Option Nat) :
    issued device (mma8451_get_register device reg data byteData).device =
      [read_request device.addr (reg % 256) 1] := by
  cases h : outcome_at device 0 with
  | failure e => rw [get_register_of_failure h]; simp [issued, refused]
  | success inbuf =>
    rw [get_register_of_read (next_read_some_of_success h)]
    simp [issued, logged]

theorem set_f_setup_ignores_bits (device : mma8451) (data data2 : mma8451_register_f_setup) :
    data2.f_mode = data.f_mode → data2.f_wmrk = data.f_wmrk →
      ∃ byte,
        issued device (mma8451_set_f_setup device data).device =
          [write_request device.addr MMA8451_REGISTER_F_SETUP byte] ∧
        issued device (mma8451_set_f_setup device data2).device =
          [write_request device.addr MMA8451_REGISTER_F_SETUP byte] := by
  intro e0 e1
  refine ⟨_, set_f_setup_issued device data, ?_⟩
  rw [set_f_setup_issued, e0, e1]

theorem set_xyz_data_cfg_ignores_bits (device : mma8451) (data data2 : mma8451_register_xyz_data_cfg) :
    data2.unused1 = data.unused1 → data2.unused2 = data.unused2 → data2.unused3 = data.unused3 → data2.hpf_out = data.hpf_out → data2.unused4 = data.unused4 → data2.unused5 = data.unused5 → data2.fs = data.fs →
      ∃ byte,
        issued device (mma8451_set_xyz_data_cfg device data).device =
          [write_request device.addr MMA8451_REGISTER_XYZ_DATA_CFG byte] ∧
        issued device (mma8451_set_xyz_data_cfg device data2).device =
          [write_request device.addr MMA8451_REGISTER_XYZ_DATA_CFG byte] := by
  intro e0 e1 e2 e3 e4 e5 e6
  refine ⟨_, set_xyz_data_cfg_issued device data, ?_⟩
  rw [set_xyz_data_cfg_issued, e0, e1, e2, e3, e4, e5, e6]

theorem set_pl_bf_zcomp_ignores_bits (device : mma8451) (data data2 : mma8451_register_pl_bf_zcomp) :
    data2.unused1 = data.unused1 → data2.unused2 = data.unused2 → data2.unused3 = data.unused3 → data2.bkfr = data.bkfr → data2.zlock = data.zlock →
      ∃ byte,
        issued device (mma8451_set_pl_bf_zcomp device data).device =
          [write_request device.addr MMA8451_REGISTER_PL_BF_ZCOMP byte] ∧
        issued device (mma8451_set_pl_bf_zcomp device data2).device =
          [write_request device.addr MMA8451_REGISTER_PL_BF_ZCOMP byte] := by
  intro e0 e1 e2 e3 e4
  refine ⟨_, set_pl_bf_zcomp_issued device data, ?_⟩
  rw [set_pl_bf_zcomp_issued, e0, e1, e2, e3, e4]

theorem set_p_l_ths_reg_ignores_bits (device : mma8451) (data data2 : mma8451_register_p_l_ths_reg) :
    data2.p_l_ths = data.p_l_ths → data2.hys = data.hys →
      ∃ byte,
        issued device (mma8451_set_p_l_ths_reg device data).device =
          [write_request device.addr MMA8451_REGISTER_P_L_THS_REG byte] ∧
        issued device (mma8451_set_p_l_ths_reg device data2).device =
          [write_request device.addr MMA8451_REGISTER_P_L_THS_REG byte] := by
  intro e0 e1
  refine ⟨_, set_p_l_ths_reg_issued device data, ?_⟩
  rw [set_p_l_ths_reg_issued, e0, e1]

theorem set_ff_mt_ths_ignores_bits (device : mma8451) (data data2 : mma8451_register_ff_mt_ths) :
    data2.dbcntm = data.dbcntm → data2.ths = data.ths →
      ∃ byte,
        issued device (mma8451_set_ff_mt_ths device data).device =
          [write_request device.addr MMA8451_REGISTER_FF_MT_THS byte] ∧
        issued device (mma8451_set_ff_mt_ths device data2).device =
          [write_request device.addr MMA8451_REGISTER_FF_MT_THS byte] := by
  intro e0 e1
  refine ⟨_, set_ff_mt_ths_issued device data, ?_⟩
  rw [set_ff_mt_ths_issued, e0, e1]

theorem set_transient_ths_ignores_bits (device : mma8451) (data data2 : mma8451_register_transient_ths) :
    data2.dbcntm = data.dbcntm → data2.ths = data.ths →
      ∃ byte,
        issued device (mma8451_set_transient_ths device data).device =
          [write_request device.addr MMA8451_REGISTER_TRANSIENT_THS byte] ∧
        issued device (mma8451_set_transient_ths device data2).device =
          [write_request device.addr MMA8451_REGISTER_TRANSIENT_THS byte] := by
  intro e0 e1
  refine ⟨_, set_transient_ths_issued device data, ?_⟩
  rw [set_transient_ths_issued, e0, e1]

theorem set_pulse_thsx_ignores_bits (device : mma8451) (data data2 : mma8451_register_pulse_ths) :
    data2.unused = data.unused → data2.ths = data.ths →
      ∃ byte,
        issued device (mma8451_set_pulse_thsx device data).device =
          [write_request device.addr MMA8451_REGISTER_PULSE_THSX byte] ∧
        issued device (mma8451_set_pulse_thsx device data2).device =
          [write_request device.addr MMA8451_REGISTER_PULSE_THSX byte] := by
  intro e0 e1
  refine ⟨_, set_pulse_thsx_issued device data, ?_⟩
  rw [set_pulse_thsx_issued, e0, e1]

theorem set_pulse_thsy_ignores_bits (device : mma8451) (data data2 : mma8451_register_pulse_ths) :
    data2.unused = data.unused → data2.ths = data.ths →
      ∃ byte,
        issued device (mma8451_set_pulse_thsy device data).device =
          [write_request device.addr MMA8451_REGISTER_PULSE_THSY byte] ∧
        issued device (mma8451_set_pulse_thsy device data2).device =
          [write_request device.addr MMA8451_REGISTER_PULSE_THSY byte] := by
  intro e0 e1
  refine ⟨_, set_pulse_thsy_issued device data, ?_⟩
  rw [set_pulse_thsy_issued, e0, e1]

theorem set_pulse_thsz_ignores_bits (device : mma8451) (data data2 : mma8451_register_pulse_ths) :
    data2.unused = data.unused → data2.ths = data.ths →
      ∃ byte,
        issued device (mma8451_set_pulse_thsz device data).device =
          [write_request device.addr MMA8451_REGISTER_PULSE_THSZ byte] ∧
        issued device (mma8451_set_pulse_thsz device data2).device =
          [write_request device.addr MMA8451_REGISTER_PULSE_THSZ byte] := by
  intro e0 e1
  refine ⟨_, set_pulse_thsz_issued device data, ?_⟩
  rw [set_pulse_thsz_issued, e0, e1]

theorem set_ctrl_reg1_ignores_bits (device : mma8451) (data data2 : mma8451_register_ctrl_reg1) :
    data2.lnoise = data.lnoise → data2.f_read = data.f_read → data2.active = data.active → data2.aslp_rate = data.aslp_rate → data2.dr = data.dr →
      ∃ byte,
        issued device (mma8451_set_ctrl_reg1 device data).device =
          [write_request device.addr MMA8451_REGISTER_CTRL_REG1 byte] ∧
        issued device (mma8451_set_ctrl_reg1 device data2).device =
          [write_request device.addr MMA8451_REGISTER_CTRL_REG1 byte] := by
  intro e0 e1 e2 e3 e4
  refine ⟨_, set_ctrl_reg1_issued device data, ?_⟩
  rw [set_ctrl_reg1_issued, e0, e1, e2, e3, e4]

theorem set_ctrl_reg2_ignores_bits (device : mma8451) (data data2 : mma8451_register_ctrl_reg2) :
    data2.st = data.st → data2.rst = data.rst → data2.unused = data.unused → data2.slpe = data.slpe → data2.smods = data.smods → data2.mods = data.mods →
      ∃ byte,
        issued device (mma8451_set_ctrl_reg2 device data).device =
          [write_request device.addr MMA8451_REGISTER_CTRL_REG2 byte] ∧
        issued device (mma8451_set_ctrl_reg2 device data2).device =
          [write_request device.addr MMA8451_REGISTER_CTRL_REG2 byte] := by
  intro e0 e1 e2 e3 e4 e5
  refine ⟨_, set_ctrl_reg2_issued device data, ?_⟩
  rw [set_ctrl_reg2_issued, e0, e1, e2, e3, e4, e5]

/-- Claim C29: for every packed register setter (set_f_setup, set_xyz_data_cfg,
set_pl_bf_zcomp, set_p_l_ths_reg, set_ff_mt_ths, set_transient_ths,
set_pulse_thsx, set_pulse_thsy, set_pulse_thsz, set_ctrl_reg1, set_ctrl_reg2)
two structs with the same composite fields and the same flag fields outside
the composites make the setter write the same byte, whatever their
constituent bit fields hold. -/
theorem written_byte_ignores_constituent_bits (device : mma8451) :
    (∀ data data2 : mma8451_register_f_setup,
      data2.f_mode = data.f_mode → data2.f_wmrk = data.f_wmrk →
      ∃ byte,
        issued device (mma8451_set_f_setup device data).device =
          [write_request device.addr MMA8451_REGISTER_F_SETUP byte] ∧
        issued device (mma8451_set_f_setup device data2).device =
          [write_request device.addr MMA8451_REGISTER_F_SETUP byte]) ∧
    (∀ data data2 : mma8451_register_xyz_data_cfg,
      data2.unused1 = data.unused1 → data2.unused2 = data.unused2 → data2.unused3 = data.unused3 → data2.hpf_out = data.hpf_out → data2.unused4 = data.unused4 → data2.unused5 = data.unused5 → data2.fs = data.fs →
      ∃ byte,
        issued device (mma8451_set_xyz_data_cfg device data).device =
          [write_request device.addr MMA8451_REGISTER_XYZ_DATA_CFG byte] ∧
        issued device (mma8451_set_xyz_data_cfg device data2).device =
          [write_request device.addr MMA8451_REGISTER_XYZ_DATA_CFG byte]) ∧
    (∀ data data2 : mma8451_register_pl_bf_zcomp,
      data2.unused1 = data.unused1 → data2.unused2 = data.unused2 → data2.unused3 = data.unused3 → data2.bkfr = data.bkfr → data2.zlock = data.zlock →
      ∃ byte,
        issued device (mma8451_set_pl_bf_zcomp device data).device =
          [write_request device.addr MMA8451_REGISTER_PL_BF_ZCOMP byte] ∧
        issued device (mma8451_set_pl_bf_zcomp device data2).device =
          [write_request device.addr MMA8451_REGISTER_PL_BF_ZCOMP byte]) ∧
    (∀ data data2 : mma8451_register_p_l_ths_reg,
      data2.p_l_ths = data.p_l_ths → data2.hys = data.hys →
      ∃ byte,
        issued device (mma8451_set_p_l_ths_reg device data).device =
          [write_request device.addr MMA8451_REGISTER_P_L_THS_REG byte] ∧
        issued device (mma8451_set_p_l_ths_reg device data2).device =
          [write_request device.addr MMA8451_REGISTER_P_L_THS_REG byte]) ∧
    (∀ data data2 : mma8451_register_ff_mt_ths,
      data2.dbcntm = data.dbcntm → data2.ths = data.ths →
      ∃ byte,
        issued device (mma8451_set_ff_mt_ths device data).device =
          [write_request device.addr MMA8451_REGISTER_FF_MT_THS byte] ∧
        issued device (mma8451_set_ff_mt_ths device data2).device =
          [write_request device.addr MMA8451_REGISTER_FF_MT_THS byte]) ∧
    (∀ data data2 : mma8451_register_transient_ths,
      data2.dbcntm = data.dbcntm → data2.ths = data.ths →
      ∃ byte,
        issued device (mma8451_set_transient_ths device data).device =
          [write_request device.addr MMA8451_REGISTER_TRANSIENT_THS byte] ∧
        issued device (mma8451_set_transient_ths device data2).device =
          [write_request device.addr MMA8451_REGISTER_TRANSIENT_THS byte]) ∧
    (∀ data data2 : mma8451_register_pulse_ths,
      data2.unused = data.unused → data2.ths = data.ths →
      ∃ byte,
        issued device (mma8451_set_pulse_thsx device data).device =
          [write_request device.addr MMA8451_REGISTER_PULSE_THSX byte] ∧
        issued device (mma8451_set_pulse_thsx device data2).device =
          [write_request device.addr MMA8451_REGISTER_PULSE_THSX byte]) ∧
    (∀ data data2 : mma8451_register_pulse_ths,
      data2.unused = data.unused → data2.ths = data.ths →
      ∃ byte,
        issued device (mma8451_set_pulse_thsy device data).device =
          [write_request device.addr MMA8451_REGISTER_PULSE_THSY byte] ∧
        issued device (mma8451_set_pulse_thsy device data2).device =
          [write_request device.addr MMA8451_REGISTER_PULSE_THSY byte]) ∧
    (∀ data data2 : mma8451_register_pulse_ths,
      data2.unused = data.unused → data2.ths = data.ths →
      ∃ byte,
        issued device (mma8451_set_pulse_thsz device data).device =
          [write_request device.addr MMA8451_REGISTER_PULSE_THSZ byte] ∧
        issued device (mma8451_set_pulse_thsz device data2).device =
          [write_request device.addr MMA8451_REGISTER_PULSE_THSZ byte]) ∧
    (∀ data data2 : mma8451_register_ctrl_reg1,
      data2.lnoise = data.lnoise → data2.f_read = data.f_read → data2.active = data.active → data2.aslp_rate = data.aslp_rate → data2.dr = data.dr →
      ∃ byte,
        issued device (mma8451_set_ctrl_reg1 device data).device =
          [write_request device.addr MMA8451_REGISTER_CTRL_REG1 byte] ∧
        issued device (mma8451_set_ctrl_reg1 device data2).device =
          [write_request device.addr MMA8451_REGISTER_CTRL_REG1 byte]) ∧
    (∀ data data2 : mma8451_register_ctrl_reg2,
      data2.st = data.st → data2.rst = data.rst → data2.unused = data.unused → data2.slpe = data.slpe → data2.smods = data.smods → data2.mods = data.mods →
      ∃ byte,
        issued device (mma8451_set_ctrl_reg2 device data).device =
          [write_request device.addr MMA8451_REGISTER_CTRL_REG2 byte] ∧
        issued device (mma8451_set_ctrl_reg2 device data2).device =
          [write_request device.addr MMA8451_REGISTER_CTRL_REG2 byte]) :=
  ⟨set_f_setup_ignores_bits device,
    set_xyz_data_cfg_ignores_bits device,
    set_pl_bf_zcomp_ignores_bits device,
    set_p_l_ths_reg_ignores_bits device,
    set_ff_mt_ths_ignores_bits device,
    set_transient_ths_ignores_bits device,
    set_pulse_thsx_ignores_bits device,
    set_pulse_thsy_ignores_bits device,
    set_pulse_thsz_ignores_bits device,
    set_ctrl_reg1_ignores_bits device,
    set_ctrl_reg2_ignores_bits device⟩

/-- When the bus refuses the request, mma8451_get_register and mma8451_set_register
return 0 and leave in last_error their message with the register number
(printed with %hhu, so modulo 256) and the errno of the transport. -/
theorem refused_register_access_sets_last_error (device : mma8451) (e : Nat)
    (h : outcome_at device 0 = .failure e) :
    (∀ (reg : Nat) (data : Option mma8451_register_generic) (byteData : Option Nat),
      (mma8451_get_register device reg data byteData).ret = 0 ∧
      (mma8451_get_register device reg data byteData).device.last_error =
        .unable_to_get (reg % 256) e ∧
      (mma8451_get_register device reg data byteData).device.file.errno = e) ∧
    (∀ (reg : Nat) (data : Option mma8451_register_generic) (byteData : Nat),
      (mma8451_set_register device reg data byteData).ret = 0 ∧
      (mma8451_set_register device reg data byteData).device.last_error =
        .unable_to_set (reg % 256) e ∧
      (mma8451_set_register device reg data byteData).device.file.errno = e) := by
  constructor
  · intro reg data byteData
    rw [get_register_of_failure h]
    exact ⟨rfl, rfl, rfl⟩
  · intro reg data byteData
    simp only [outcome_at, Nat.add_zero] at h
    simp only [mma8451_set_register, mma8451_set_i2c_register, ioctl, h, and_self]

/-- A refused read of SYSMOD: the message names register 0x0B and errno 5. -/
theorem refused_register_access_sets_last_error_witness :
    outcome_at (scripted [none]) 0 = .failure 5 ∧
      (mma8451_get_register (scripted [none]) MMA8451_REGISTER_SYSMOD none none).device.last_error =
        .unable_to_get 0x0B 5 :=
  ⟨rfl, ((refused_register_access_sets_last_error (scripted [none]) 5 rfl).1
    MMA8451_REGISTER_SYSMOD none none).2.1⟩

/-! ## The 14-bit sample as a shifted 16-bit integer (claim C31) -/

theorem assemble_16bit {msb lsb : Nat} (hl : lsb < 256) :
    (msb <<< 8) ||| lsb = msb * 256 + lsb := by
  have h8 : lsb < 2 ^ 8 := by
    simp only [Nat.reducePow]
    exact hl
  rw [Nat.shiftLeft_eq, Nat.mul_comm, ← Nat.mul_add_lt_is_or h8]

theorem int16_shifted {msb lsb : Nat} (hm : msb < 256) (hl : lsb < 256) :
    (BitVec.ofNat 14 (msb * 64 + lsb / 4)).toInt =
      Int.fdiv (BitVec.ofNat 16 ((msb <<< 8) ||| lsb)).toInt 4 := by
  rw [assemble_16bit hl, Int.fdiv_eq_ediv _ (by decide)]
  have h14 : (msb * 64 + lsb / 4) % 2 ^ 14 = msb * 64 + lsb / 4 :=
    Nat.mod_eq_of_lt (by simp only [Nat.reducePow]; omega)
  have h16 : (msb * 256 + lsb) % 2 ^ 16 = msb * 256 + lsb :=
    Nat.mod_eq_of_lt (by simp only [Nat.reducePow]; omega)
  simp only [BitVec.toInt, BitVec.toNat_ofNat, h14, h16]
  by_cases hs : msb < 128
  · have c14 : 2 * (msb * 64 + lsb / 4) < 2 ^ 14 := by
      simp only [Nat.reducePow]
      omega
    have c16 : 2 * (msb * 256 + lsb) < 2 ^ 16 := by
      simp only [Nat.reducePow]
      omega
    rw [if_pos c14, if_pos c16]
    push_cast
    omega
  · have c14 : ¬ 2 * (msb * 64 + lsb / 4) < 2 ^ 14 := by
      simp only [Nat.reducePow]
      omega
    have c16 : ¬ 2 * (msb * 256 + lsb) < 2 ^ 16 := by
      simp only [Nat.reducePow]
      omega
    rw [if_neg c14, if_neg c16]
    push_cast
    omega

/-- Claim C31: in 14-bit mode the sample mma8451_get_acceleration returns is the
scaling of a raw sample whose axes are, for the byte pairs (msb, lsb) read,
the pair taken as a signed 16-bit big-endian integer and shifted right
arithmetically by 2: floor(int16((msb << 8) | lsb) / 4). -/
theorem raw_14bit_is_shifted_int16 (device : mma8451) (data : mma8451_acceleration)
    (tmp : Nat → Nat) (hsize : device.data_size = MMA8451_14BIT_OUTPUT)
    (h : next_block device.file = some tmp) :
    (mma8451_get_acceleration device data).data =
      acceleration_scale_14bit device.range (acceleration_raw_14bit tmp) ∧
    (acceleration_raw_14bit tmp).x =
      ((Int.fdiv (BitVec.ofNat 16 ((tmp 0 <<< 8) ||| tmp 1)).toInt 4 : ℤ) : ℚ) ∧
    (acceleration_raw_14bit tmp).y =
      ((Int.fdiv (BitVec.ofNat 16 ((tmp 2 <<< 8) ||| tmp 3)).toInt 4 : ℤ) : ℚ) ∧
    (acceleration_raw_14bit tmp).z =
      ((Int.fdiv (BitVec.ofNat 16 ((tmp 4 <<< 8) ||| tmp 5)).toInt 4 : ℤ) : ℚ) := by
  have hlt := next_block_lt h
  rw [get_acceleration_of_block h, if_pos hsize, raw_14bit_axes hlt,
    int16_shifted (hlt 0) (hlt 1), int16_shifted (hlt 2) (hlt 3), int16_shifted (hlt 4) (hlt 5)]
  exact ⟨rfl, rfl, rfl, rfl⟩

/-- Witness of C31: the pair (0xFF, 0xFC), the 16-bit integer -4, gives -1. -/
theorem raw_14bit_is_shifted_int16_witness :
    next_block (scripted [some [0xFF, 0xFC]]).file =
        some (fun i => [0xFF, 0xFC].getD i 0 % 256) ∧
      (acceleration_raw_14bit (fun i => [0xFF, 0xFC].getD i 0 % 256)).x =
        ((Int.fdiv (BitVec.ofNat 16 ((0xFF <<< 8) ||| 0xFC)).toInt 4 : ℤ) : ℚ) :=
  ⟨rfl, (raw_14bit_is_shifted_int16 (scripted [some [0xFF, 0xFC]]) ⟨0, 0, 0⟩
    (fun i => [0xFF, 0xFC].getD i 0 % 256) rfl rfl).2.1⟩

/-! ## Ranges and widths of the sample (claims C32 to C36) -/

/-- Claim C32: when CTRL_REG1 reads as the byte b and the write is served,
mma8451_set_data_rate, mma8451_set_low_noise and mma8451_set_active return 1
and leave in data_size the F_READ bit (bit 1) of b, whatever data_size was
before. -/
theorem ctrl_reg1_setters_resync_data_size (device : mma8451) (b : Nat) (inbuf : Nat → Nat)
    (h0 : next_read device.file = some b) (h1 : outcome_at device 1 = .success inbuf) :
    (∀ rate cfg, (mma8451_set_data_rate device rate cfg).ret = 1 ∧
      (mma8451_set_data_rate device rate cfg).device.data_size = (b >>> 1) &&& 1) ∧
    (∀ low_noise cfg, (mma8451_set_low_noise device low_noise cfg).ret = 1 ∧
      (mma8451_set_low_noise device low_noise cfg).device.data_size = (b >>> 1) &&& 1) ∧
    (∀ active cfg, (mma8451_set_active device active cfg).ret = 1 ∧
      (mma8451_set_active device active cfg).device.data_size = (b >>> 1) &&& 1) := by
  have hbit := (digit_is_bit b (next_read_lt h0)).2.2.2.2.2.2.1
  refine ⟨fun p cfg => ?_, fun p cfg => ?_, fun p cfg => ?_⟩
  · obtain ⟨v, hv⟩ := set_data_rate_of_success h0 h1 p cfg
    rw [hv]
    exact ⟨rfl, hbit⟩
  · obtain ⟨v, hv⟩ := set_low_noise_of_success h0 h1 p cfg
    rw [hv]
    exact ⟨rfl, hbit⟩
  · obtain ⟨v, hv⟩ := set_active_of_success h0 h1 p cfg
    rw [hv]
    exact ⟨rfl, hbit⟩

/-- Witness of C32: a handle in 14-bit mode whose CTRL_REG1 reads 0x02 (F_READ set) ends
in 8-bit mode after mma8451_set_data_rate. -/
theorem ctrl_reg1_setters_resync_data_size_witness :
    (scripted [some [0x02], some []]).data_size = MMA8451_14BIT_OUTPUT ∧
      next_read (scripted [some [0x02], some []]).file = some 0x02 ∧
      (mma8451_set_data_rate (scripted [some [0x02], some []]) 3
        ⟨0, 0, 0, 0, 0, 0, 0, 0, 0, 0⟩).device.data_size = MMA8451_8BIT_OUTPUT :=
  ⟨rfl, rfl, ((ctrl_reg1_setters_resync_data_size (scripted [some [0x02], some []]) 0x02
    (fun i => ([] : List Nat).getD i 0) rfl rfl).1 3 ⟨0, 0, 0, 0, 0, 0, 0, 0, 0, 0⟩).2⟩

theorem scale_14bit_of_other {range : Nat} (h2 : range ≠ MMA8451_RANGE_2G)
    (h4 : range ≠ MMA8451_RANGE_4G) (h8 : range ≠ MMA8451_RANGE_8G)
    (raw : mma8451_acceleration) : acceleration_scale_14bit range raw = raw := by
  simp only [acceleration_scale_14bit, if_neg h2, if_neg h4, if_neg h8]

theorem scale_8bit_of_other {range : Nat} (h2 : range ≠ MMA8451_RANGE_2G)
    (h4 : range ≠ MMA8451_RANGE_4G) (h8 : range ≠ MMA8451_RANGE_8G)
    (raw : mma8451_acceleration) : acceleration_scale_8bit range raw = raw := by
  simp only [acceleration_scale_8bit, if_neg h2, if_neg h4, if_neg h8]

/-- Claim C33: when the handle's range is none of 2G, 4G, 8G, a successful
mma8451_get_acceleration divides by nothing: in either width the sample is the
raw sample, three signed integers; MMA8451_RANGE_RESERVED = 3 is such a range,
and a successful mma8451_set_range stores it. -/
theorem other_range_is_unscaled (device : mma8451) (data : mma8451_acceleration)
    (tmp : Nat → Nat) (h2 : device.range ≠ MMA8451_RANGE_2G)
    (h4 : device.range ≠ MMA8451_RANGE_4G) (h8 : device.range ≠ MMA8451_RANGE_8G)
    (hb : next_block device.file = some tmp) :
    (mma8451_get_acceleration device data).ret = 1 ∧
    (mma8451_get_acceleration device data).data =
      (if device.data_size = MMA8451_14BIT_OUTPUT then acceleration_raw_14bit tmp
        else acceleration_raw_8bit tmp) ∧
    (∃ x y z : ℤ, (mma8451_get_acceleration device data).data = ⟨x, y, z⟩) ∧
    MMA8451_RANGE_RESERVED = 3 ∧
    (∀ (device0 : mma8451) (cfg : mma8451_register_xyz_data_cfg),
      (mma8451_set_range device0 MMA8451_RANGE_RESERVED cfg).ret = 1 →
        (mma8451_set_range device0 MMA8451_RANGE_RESERVED cfg).device.range =
          MMA8451_RANGE_RESERVED) := by
  rw [get_acceleration_of_block hb]
  by_cases hs : device.data_size = MMA8451_14BIT_OUTPUT
  · simp only [if_pos hs, scale_14bit_of_other h2 h4 h8]
    exact ⟨trivial, trivial, ⟨_, _, _, raw_14bit_axes (next_block_lt hb)⟩, rfl,
      fun device0 cfg h => (set_range_session h).1⟩
  · simp only [if_neg hs, scale_8bit_of_other h2 h4 h8]
    exact ⟨trivial, trivial, ⟨_, _, _, raw_8bit_axes tmp⟩, rfl,
      fun device0 cfg h => (set_range_session h).1⟩

/-- Witness of C33: a handle whose range is MMA8451_RANGE_RESERVED reading the pair
(0x40, 0x00): the x axis is the raw 4096. -/
theorem other_range_is_unscaled_witness :
    ({ scripted [some [0x40, 0x00]] with range := MMA8451_RANGE_RESERVED } : mma8451).range ≠
        MMA8451_RANGE_2G ∧
      (mma8451_get_acceleration
        { scripted [some [0x40, 0x00]] with range := MMA8451_RANGE_RESERVED } ⟨0, 0, 0⟩).ret = 1 :=
  ⟨by decide, (other_range_is_unscaled
    { scripted [some [0x40, 0x00]] with range := MMA8451_RANGE_RESERVED } ⟨0, 0, 0⟩
    (fun i => [0x40, 0x00].getD i 0 % 256) (by decide) (by decide) (by decide) rfl).1⟩

theorem raw_8bit_axis_facts {b : Nat} (hb : b < 256) :
    (-127 ≤ (if b ≤ 0x7F then (b : ℤ) else (b : ℤ) - 0xFF) ∧
      (if b ≤ 0x7F then (b : ℤ) else (b : ℤ) - 0xFF) ≤ 127) ∧
    (b = 0x00 → (if b ≤ 0x7F then (b : ℤ) else (b : ℤ) - 0xFF) = 0) ∧
    (b = 0xFF → (if b ≤ 0x7F then (b : ℤ) else (b : ℤ) - 0xFF) = 0) ∧
    (128 ≤ b → (if b ≤ 0x7F then (b : ℤ) else (b : ℤ) - 0xFF) =
      (BitVec.ofNat 8 b).toInt + 1) := by
  have h8 : b % 2 ^ 8 = b := Nat.mod_eq_of_lt (by simpa using hb)
  simp only [BitVec.toInt, BitVec.toNat_ofNat, h8]
  by_cases hc : b ≤ 0x7F
  · simp only [if_pos hc]
    refine ⟨⟨by omega, by omega⟩, fun e => by omega, fun e => by omega, fun e => by omega⟩
  · have c8 : ¬ 2 * b < 2 ^ 8 := by
      simp only [Nat.reducePow]
      omega
    simp only [if_neg hc, if_neg c8]
    refine ⟨⟨by omega, by omega⟩, fun e => by omega, fun e => by omega, fun e => ?_⟩
    push_cast
    omega

/-- Claim C34: in 8-bit mode the sample mma8451_get_acceleration returns is the
scaling of three integers, one per byte b read, each between -127 and 127
(never -128), equal to 0 both for b = 0x00 and for b = 0xFF, and for b >= 128
one more than the two's-complement value of b. -/
theorem raw_8bit_range_and_collision (device : mma8451) (data : mma8451_acceleration)
    (tmp : Nat → Nat) (hsize : device.data_size = MMA8451_8BIT_OUTPUT)
    (hb : next_block device.file = some tmp) :
    ∃ x y z : ℤ,
      (mma8451_get_acceleration device data).data =
        acceleration_scale_8bit device.range ⟨x, y, z⟩ ∧
      acceleration_raw_8bit tmp = ⟨x, y, z⟩ ∧
      ((-127 ≤ x ∧ x ≤ 127) ∧ (tmp 0 = 0x00 → x = 0) ∧ (tmp 0 = 0xFF → x = 0) ∧
        (128 ≤ tmp 0 → x = (BitVec.ofNat 8 (tmp 0)).toInt + 1)) ∧
      ((-127 ≤ y ∧ y ≤ 127) ∧ (tmp 1 = 0x00 → y = 0) ∧ (tmp 1 = 0xFF → y = 0) ∧
        (128 ≤ tmp 1 → y = (BitVec.ofNat 8 (tmp 1)).toInt + 1)) ∧
      ((-127 ≤ z ∧ z ≤ 127) ∧ (tmp 2 = 0x00 → z = 0) ∧ (tmp 2 = 0xFF → z = 0) ∧
        (128 ≤ tmp 2 → z = (BitVec.ofNat 8 (tmp 2)).toInt + 1)) := by
  have hlt := next_block_lt hb
  have hn : ¬ device.data_size = MMA8451_14BIT_OUTPUT := by
    rw [hsize]
    decide
  refine ⟨_, _, _, ?_, raw_8bit_axes tmp, raw_8bit_axis_facts (hlt 0),
    raw_8bit_axis_facts (hlt 1), raw_8bit_axis_facts (hlt 2)⟩
  rw [get_acceleration_of_block hb, if_neg hn, raw_8bit_axes]

/-- Witness of C34: the block (0xFF, 0x00, 0x80) in 8-bit mode. -/
theorem raw_8bit_range_and_collision_witness :
    next_block
        ({ scripted [some [0xFF, 0x00, 0x80]] with data_size := MMA8451_8BIT_OUTPUT } : mma8451).file =
        some (fun i => [0xFF, 0x00, 0x80].getD i 0 % 256) ∧
      ∃ x y z : ℤ, acceleration_raw_8bit (fun i => [0xFF, 0x00, 0x80].getD i 0 % 256) = ⟨x, y, z⟩ ∧
        -127 ≤ z :=
  ⟨rfl, by
    obtain ⟨x, y, z, _, hraw, _, _, hz⟩ := raw_8bit_range_and_collision
      { scripted [some [0xFF, 0x00, 0x80]] with data_size := MMA8451_8BIT_OUTPUT } ⟨0, 0, 0⟩
      (fun i => [0xFF, 0x00, 0x80].getD i 0 % 256) rfl rfl
    exact ⟨x, y, z, hraw, hz.1.1⟩⟩

theorem table_ratio {r : Nat} {K14 K8 : ℚ}
    (hr : (r, K14, K8) ∈ [(MMA8451_RANGE_2G, (4096 : ℚ), (64 : ℚ)),
      (MMA8451_RANGE_4G, 2048, 32), (MMA8451_RANGE_8G, 1024, 16)]) :
    K14 = 64 * K8 ∧ 0 < K8 := by
  simp only [List.mem_cons, Prod.mk.injEq, List.mem_singleton, List.not_mem_nil, or_false] at hr
  rcases hr with ⟨_, h2, h3⟩ | ⟨_, h2, h3⟩ | ⟨_, h2, h3⟩ <;> subst h2 <;> subst h3 <;>
    exact ⟨by norm_num, by norm_num⟩

/-- One axis in both widths: the byte m in 8-bit mode against the pair (m, 0x00) in
14-bit mode, scaled with divisors in the ratio 64. -/
theorem axis_in_both_widths {m : Nat} (hm : m < 256) {K14 K8 : ℚ} (hK : K14 = 64 * K8)
    (h8 : 0 < K8) :
    (m ≤ 127 →
      (((if m ≤ 0x7F then (m : ℤ) else (m : ℤ) - 0xFF) : ℤ) : ℚ) / (K8 / (980665 / 100000)) =
        (((BitVec.ofNat 14 (m * 64 + 0 / 4)).toInt : ℤ) : ℚ) / (K14 / (980665 / 100000))) ∧
    (128 ≤ m →
      (((if m ≤ 0x7F then (m : ℤ) else (m : ℤ) - 0xFF) : ℤ) : ℚ) / (K8 / (980665 / 100000)) =
        (((BitVec.ofNat 14 (m * 64 + 0 / 4)).toInt : ℤ) : ℚ) / (K14 / (980665 / 100000)) +
          (980665 / 100000) / K8) := by
  have h14 : (m * 64 + 0 / 4) % 2 ^ 14 = m * 64 :=
    Nat.mod_eq_of_lt (by simp only [Nat.reducePow]; omega)
  have hne : K8 ≠ 0 := ne_of_gt h8
  simp only [BitVec.toInt, BitVec.toNat_ofNat, h14]
  subst hK
  constructor
  · intro hle
    have c14 : 2 * (m * 64) < 2 ^ 14 := by
      simp only [Nat.reducePow]
      omega
    rw [if_pos (show m ≤ 0x7F from hle), if_pos c14]
    push_cast
    field_simp
    ring
  · intro hge
    have c14 : ¬ 2 * (m * 64) < 2 ^ 14 := by
      simp only [Nat.reducePow]
      omega
    rw [if_neg (show ¬ m ≤ 0x7F by omega), if_neg c14]
    push_cast
    field_simp
    ring

/-- Claim C35: for the ranges 2G, 4G, 8G and every byte m, the axis value
mma8451_get_acceleration gives in 8-bit mode for m is, when m <= 127, the value
it gives in 14-bit mode for the pair (m, 0x00), and when m >= 128 that value
plus one 8-bit count, 9.80665 / K with K = 64, 32, 16. -/
theorem widths_agree_up_to_one_count (device8 device14 : mma8451)
    (data8 data14 : mma8451_acceleration) (tmp8 tmp14 : Nat → Nat) (r : Nat) (K14 K8 : ℚ)
    (hr : (r, K14, K8) ∈ [(MMA8451_RANGE_2G, (4096 : ℚ), (64 : ℚ)),
      (MMA8451_RANGE_4G, 2048, 32), (MMA8451_RANGE_8G, 1024, 16)])
    (hs8 : device8.data_size = MMA8451_8BIT_OUTPUT)
    (hs14 : device14.data_size = MMA8451_14BIT_OUTPUT)
    (hr8 : device8.range = r) (hr14 : device14.range = r)
    (hb8 : next_block device8.file = some tmp8)
    (hb14 : next_block device14.file = some tmp14) :
    (tmp14 0 = tmp8 0 → tmp14 1 = 0x00 →
      (tmp8 0 ≤ 127 → (mma8451_get_acceleration device8 data8).data.x =
        (mma8451_get_acceleration device14 data14).data.x) ∧
      (128 ≤ tmp8 0 → (mma8451_get_acceleration device8 data8).data.x =
        (mma8451_get_acceleration device14 data14).data.x + (980665 / 100000) / K8)) ∧
    (tmp14 2 = tmp8 1 → tmp14 3 = 0x00 →
      (tmp8 1 ≤ 127 → (mma8451_get_acceleration device8 data8).data.y =
        (mma8451_get_acceleration device14 data14).data.y) ∧
      (128 ≤ tmp8 1 → (mma8451_get_acceleration device8 data8).data.y =
        (mma8451_get_acceleration device14 data14).data.y + (980665 / 100000) / K8)) ∧
    (tmp14 4 = tmp8 2 → tmp14 5 = 0x00 →
      (tmp8 2 ≤ 127 → (mma8451_get_acceleration device8 data8).data.z =
        (mma8451_get_acceleration device14 data14).data.z) ∧
      (128 ≤ tmp8 2 → (mma8451_get_acceleration device8 data8).data.z =
        (mma8451_get_acceleration device14 data14).data.z + (980665 / 100000) / K8)) := by
  obtain ⟨hK, hpos⟩ := table_ratio hr
  have hlt := next_block_lt hb8
  have hn : ¬ device8.data_size = MMA8451_14BIT_OUTPUT := by
    rw [hs8]
    decide
  rw [get_acceleration_of_block hb8, get_acceleration_of_block hb14, if_neg hn, if_pos hs14,
    hr8, hr14, scale_8bit_table hr, scale_14bit_table hr, raw_8bit_axes,
    raw_14bit_axes (next_block_lt hb14)]
  refine ⟨fun e0 e1 => ?_, fun e0 e1 => ?_, fun e0 e1 => ?_⟩
  · have key := axis_in_both_widths (hlt 0) hK hpos
    simp only [e0, e1]
    exact key
  · have key := axis_in_both_widths (hlt 1) hK hpos
    simp only [e0, e1]
    exact key
  · have key := axis_in_both_widths (hlt 2) hK hpos
    simp only [e0, e1]
    exact key

/-- One axis within the range: a raw value within R * K counts, divided by
K / 9.80665, is within R * 9.80665. -/
theorem axis_within_range {raw K R : ℚ} (hK : 0 < K) (hlo : -(R * K) ≤ raw)
    (hhi : raw < R * K) :
    -R * (980665 / 100000) ≤ raw / (K / (980665 / 100000)) ∧
      raw / (K / (980665 / 100000)) < R * (980665 / 100000) := by
  rw [div_div_eq_mul_div, le_div_iff₀ hK, div_lt_iff₀ hK]
  constructor <;> nlinarith

theorem table_spans {r : Nat} {R : ℚ}
    (hR : (r, R) ∈ [(MMA8451_RANGE_2G, (2 : ℚ)), (MMA8451_RANGE_4G, 4), (MMA8451_RANGE_8G, 8)]) :
    ∃ K14 K8 : ℚ, (r, K14, K8) ∈ [(MMA8451_RANGE_2G, (4096 : ℚ), (64 : ℚ)),
        (MMA8451_RANGE_4G, 2048, 32), (MMA8451_RANGE_8G, 1024, 16)] ∧
      0 < K14 ∧ 0 < K8 ∧ R * K14 = 8192 ∧ R * K8 = 128 := by
  simp only [List.mem_cons, Prod.mk.injEq, List.mem_singleton, List.not_mem_nil, or_false] at hR
  rcases hR with ⟨h1, h2⟩ | ⟨h1, h2⟩ | ⟨h1, h2⟩ <;> subst h1 <;> subst h2
  · exact ⟨4096, 64, List.mem_cons_self _ _, by norm_num, by norm_num, by norm_num, by norm_num⟩
  · exact ⟨2048, 32, List.mem_cons_of_mem _ (List.mem_cons_self _ _), by norm_num, by norm_num,
      by norm_num, by norm_num⟩
  · exact ⟨1024, 16, List.mem_cons_of_mem _ (List.mem_cons_of_mem _ (List.mem_cons_self _ _)),
      by norm_num, by norm_num, by norm_num, by norm_num⟩

/-- Claim C36: for R = 2, 4, 8 at the ranges 2G, 4G, 8G, in both widths and for every
block read, each axis value v a successful mma8451_get_acceleration returns
satisfies -R * 9.80665 <= v < R * 9.80665 in exact arithmetic. -/
theorem sample_within_range (device : mma8451) (data : mma8451_acceleration)
    (tmp : Nat → Nat) (r : Nat) (R : ℚ)
    (hR : (r, R) ∈ [(MMA8451_RANGE_2G, (2 : ℚ)), (MMA8451_RANGE_4G, 4), (MMA8451_RANGE_8G, 8)])
    (hrange : device.range = r) (hb : next_block device.file = some tmp) :
    (mma8451_get_acceleration device data).ret = 1 ∧
    (-R * (980665 / 100000) ≤ (mma8451_get_acceleration device data).data.x ∧
      (mma8451_get_acceleration device data).data.x < R * (980665 / 100000)) ∧
    (-R * (980665 / 100000) ≤ (mma8451_get_acceleration device data).data.y ∧
      (mma8451_get_acceleration device data).data.y < R * (980665 / 100000)) ∧
    (-R * (980665 / 100000) ≤ (mma8451_get_acceleration device data).data.z ∧
      (mma8451_get_acceleration device data).data.z < R * (980665 / 100000)) := by
  obtain ⟨K14, K8, hr, h14, h8, e14, e8⟩ := table_spans hR
  have hlt := next_block_lt hb
  rw [get_acceleration_of_block hb, hrange]
  by_cases hs : device.data_size = MMA8451_14BIT_OUTPUT
  · rw [if_pos hs, scale_14bit_table hr, raw_14bit_axes hlt]
    have hx := sign_extend_14bit_range (tmp 0 * 64 + tmp 1 / 4)
      (by have := hlt 0; have := hlt 1; omega)
    have hy := sign_extend_14bit_range (tmp 2 * 64 + tmp 3 / 4)
      (by have := hlt 2; have := hlt 3; omega)
    have hz := sign_extend_14bit_range (tmp 4 * 64 + tmp 5 / 4)
      (by have := hlt 4; have := hlt 5; omega)
    have hx1 : -(8192 : ℚ) ≤ (((BitVec.ofNat 14 (tmp 0 * 64 + tmp 1 / 4)).toInt : ℤ) : ℚ) := by
      exact_mod_cast hx.1
    have hx2 : (((BitVec.ofNat 14 (tmp 0 * 64 + tmp 1 / 4)).toInt : ℤ) : ℚ) < 8192 := by
      have : (BitVec.ofNat 14 (tmp 0 * 64 + tmp 1 / 4)).toInt < 8192 := by omega
      exact_mod_cast this
    have hy1 : -(8192 : ℚ) ≤ (((BitVec.ofNat 14 (tmp 2 * 64 + tmp 3 / 4)).toInt : ℤ) : ℚ) := by
      exact_mod_cast hy.1
    have hy2 : (((BitVec.ofNat 14 (tmp 2 * 64 + tmp 3 / 4)).toInt : ℤ) : ℚ) < 8192 := by
      have : (BitVec.ofNat 14 (tmp 2 * 64 + tmp 3 / 4)).toInt < 8192 := by omega
      exact_mod_cast this
    have hz1 : -(8192 : ℚ) ≤ (((BitVec.ofNat 14 (tmp 4 * 64 + tmp 5 / 4)).toInt : ℤ) : ℚ) := by
      exact_mod_cast hz.1
    have hz2 : (((BitVec.ofNat 14 (tmp 4 * 64 + tmp 5 / 4)).toInt : ℤ) : ℚ) < 8192 := by
      have : (BitVec.ofNat 14 (tmp 4 * 64 + tmp 5 / 4)).toInt < 8192 := by omega
      exact_mod_cast this
    refine ⟨rfl, axis_within_range h14 ?_ ?_, axis_within_range h14 ?_ ?_,
      axis_within_range h14 ?_ ?_⟩ <;> rw [e14]
    · exact hx1
    · exact hx2
    · exact hy1
    · exact hy2
    · exact hz1
    · exact hz2
  · rw [if_neg hs, scale_8bit_table hr, raw_8bit_axes]
    have hx := (raw_8bit_axis_facts (hlt 0)).1
    have hy := (raw_8bit_axis_facts (hlt 1)).1
    have hz := (raw_8bit_axis_facts (hlt 2)).1
    have hx1 : -(128 : ℚ) ≤ (((if tmp 0 ≤ 0x7F then (tmp 0 : ℤ) else (tmp 0 : ℤ) - 0xFF) : ℤ) : ℚ) := by
      have : (-128 : ℤ) ≤ (if tmp 0 ≤ 0x7F then (tmp 0 : ℤ) else (tmp 0 : ℤ) - 0xFF) := by omega
      exact_mod_cast this
    have hx2 : (((if tmp 0 ≤ 0x7F then (tmp 0 : ℤ) else (tmp 0 : ℤ) - 0xFF) : ℤ) : ℚ) < 128 := by
      have : (if tmp 0 ≤ 0x7F then (tmp 0 : ℤ) else (tmp 0 : ℤ) - 0xFF) < 128 := by omega
      exact_mod_cast this
    have hy1 : -(128 : ℚ) ≤ (((if tmp 1 ≤ 0x7F then (tmp 1 : ℤ) else (tmp 1 : ℤ) - 0xFF) : ℤ) : ℚ) := by
      have : (-128 : ℤ) ≤ (if tmp 1 ≤ 0x7F then (tmp 1 : ℤ) else (tmp 1 : ℤ) - 0xFF) := by omega
      exact_mod_cast this
    have hy2 : (((if tmp 1 ≤ 0x7F then (tmp 1 : ℤ) else (tmp 1 : ℤ) - 0xFF) : ℤ) : ℚ) < 128 := by
      have : (if tmp 1 ≤ 0x7F then (tmp 1 : ℤ) else (tmp 1 : ℤ) - 0xFF) < 128 := by omega
      exact_mod_cast this
    have hz1 : -(128 : ℚ) ≤ (((if tmp 2 ≤ 0x7F then (tmp 2 : ℤ) else (tmp 2 : ℤ) - 0xFF) : ℤ) : ℚ) := by
      have : (-128 : ℤ) ≤ (if tmp 2 ≤ 0x7F then (tmp 2 : ℤ) else (tmp 2 : ℤ) - 0xFF) := by omega
      exact_mod_cast this
    have hz2 : (((if tmp 2 ≤ 0x7F then (tmp 2 : ℤ) else (tmp 2 : ℤ) - 0xFF) : ℤ) : ℚ) < 128 := by
      have : (if tmp 2 ≤ 0x7F then (tmp 2 : ℤ) else (tmp 2 : ℤ) - 0xFF) < 128 := by omega
      exact_mod_cast this
    refine ⟨rfl, axis_within_range h8 ?_ ?_, axis_within_range h8 ?_ ?_,
      axis_within_range h8 ?_ ?_⟩ <;> rw [e8]
    · exact hx1
    · exact hx2
    · exact hy1
    · exact hy2
    · exact hz1
    · exact hz2

/-- Witness of C35: the byte 0x90 in 8-bit mode against the pair (0x90, 0x00) in 14-bit
mode, both at 2G. -/
theorem widths_agree_up_to_one_count_witness :
    ({ scripted [some [0x90]] with data_size := MMA8451_8BIT_OUTPUT } : mma8451).data_size =
        MMA8451_8BIT_OUTPUT ∧
      (scripted [some [0x90, 0x00]]).data_size = MMA8451_14BIT_OUTPUT ∧
      (mma8451_get_acceleration
          { scripted [some [0x90]] with data_size := MMA8451_8BIT_OUTPUT } ⟨0, 0, 0⟩).data.x =
        (mma8451_get_acceleration (scripted [some [0x90, 0x00]]) ⟨0, 0, 0⟩).data.x +
          (980665 / 100000) / 64 :=
  ⟨rfl, rfl, ((widths_agree_up_to_one_count
    { scripted [some [0x90]] with data_size := MMA8451_8BIT_OUTPUT }
    (scripted [some [0x90, 0x00]]) ⟨0, 0, 0⟩ ⟨0, 0, 0⟩
    (fun i => [0x90].getD i 0 % 256) (fun i => [0x90, 0x00].getD i 0 % 256)
    MMA8451_RANGE_2G 4096 64 (List.mem_cons_self _ _) rfl rfl rfl rfl rfl rfl).1 rfl rfl).2
    (by decide)⟩

/-- Witness of C36: the most negative pair (0x80, 0x00) at 2G in 14-bit mode. -/
theorem sample_within_range_witness :
    (scripted [some [0x80, 0x00]]).range = MMA8451_RANGE_2G ∧
      -2 * (980665 / 100000) ≤
        (mma8451_get_acceleration (scripted [some [0x80, 0x00]]) ⟨0, 0, 0⟩).data.x :=
  ⟨rfl, (sample_within_range (scripted [some [0x80, 0x00]]) ⟨0, 0, 0⟩
    (fun i => [0x80, 0x00].getD i 0 % 256) MMA8451_RANGE_2G 2 (List.mem_cons_self _ _)
    rfl rfl).2.1.1⟩

/-! ## A refused read leaves the output alone (claim C37) -/

theorem get_pl_count_of_failure {device : mma8451} {e : Nat}
    (h : outcome_at device 0 = .failure e) (count : Nat) :
    mma8451_get_pl_count device count =
      ⟨0, refused device (read_request device.addr MMA8451_REGISTER_PL_COUNT 1) e
        (.unable_to_get MMA8451_REGISTER_PL_COUNT e), count⟩ := by
  simp only [mma8451_get_pl_count, get_register_of_failure h, if_pos]
  rfl

theorem get_ff_mt_count_of_failure {device : mma8451} {e : Nat}
    (h : outcome_at device 0 = .failure e) (count : Nat) :
    mma8451_get_ff_mt_count device count =
      ⟨0, refused device (read_request device.addr MMA8451_REGISTER_FF_MT_COUNT 1) e
        (.unable_to_get MMA8451_REGISTER_FF_MT_COUNT e), count⟩ := by
  simp only [mma8451_get_ff_mt_count, get_register_of_failure h, if_pos]
  rfl

theorem get_transient_count_of_failure {device : mma8451} {e : Nat}
    (h : outcome_at device 0 = .failure e) (count : Nat) :
    mma8451_get_transient_count device count =
      ⟨0, refused device (read_request device.addr MMA8451_REGISTER_TRANSIENT_COUNT 1) e
        (.unable_to_get MMA8451_REGISTER_TRANSIENT_COUNT e), count⟩ := by
  simp only [mma8451_get_transient_count, get_register_of_failure h, if_pos]
  rfl

theorem get_pulse_tmlt_of_failure {device : mma8451} {e : Nat}
    (h : outcome_at device 0 = .failure e) (tmlt : Nat) :
    mma8451_get_pulse_tmlt device tmlt =
      ⟨0, refused device (read_request device.addr MMA8451_REGISTER_PULSE_TMLT 1) e
        (.unable_to_get MMA8451_REGISTER_PULSE_TMLT e), tmlt⟩ := by
  simp only [mma8451_get_pulse_tmlt, get_register_of_failure h, if_pos]
  rfl

theorem get_pulse_ltcy_of_failure {device : mma8451} {e : Nat}
    (h : outcome_at device 0 = .failure e) (ltcy : Nat) :
    mma8451_get_pulse_ltcy device ltcy =
      ⟨0, refused device (read_request device.addr MMA8451_REGISTER_PULSE_LTCY 1) e
        (.unable_to_get MMA8451_REGISTER_PULSE_LTCY e), ltcy⟩ := by
  simp only [mma8451_get_pulse_ltcy, get_register_of_failure h, if_pos]
  rfl

theorem get_pulse_wind_of_failure {device : mma8451} {e : Nat}
    (h : outcome_at device 0 = .failure e) (wind : Nat) :
    mma8451_get_pulse_wind device wind =
      ⟨0, refused device (read_request device.addr MMA8451_REGISTER_PULSE_WIND 1) e
        (.unable_to_get MMA8451_REGISTER_PULSE_WIND e), wind⟩ := by
  simp only [mma8451_get_pulse_wind, get_register_of_failure h, if_pos]
  rfl

theorem get_aslp_count_of_failure {device : mma8451} {e : Nat}
    (h : outcome_at device 0 = .failure e) (count : Nat) :
    mma8451_get_aslp_count device count =
      ⟨0, refused device (read_request device.addr MMA8451_REGISTER_ASLP_COUNT 1) e
        (.unable_to_get MMA8451_REGISTER_ASLP_COUNT e), count⟩ := by
  simp only [mma8451_get_aslp_count, get_register_of_failure h, if_pos]
  rfl

theorem get_off_x_of_failure {device : mma8451} {e : Nat}
    (h : outcome_at device 0 = .failure e) (offset : Nat) :
    mma8451_get_off_x device offset =
      ⟨0, refused device (read_request device.addr MMA8451_REGISTER_OFF_X 1) e
        (.unable_to_get MMA8451_REGISTER_OFF_X e), offset⟩ := by
  simp only [mma8451_get_off_x, get_register_of_failure h, if_pos]
  rfl

theorem get_off_y_of_failure {device : mma8451} {e : Nat}
    (h : outcome_at device 0 = .failure e) (offset : Nat) :
    mma8451_get_off_y device offset =
      ⟨0, refused device (read_request device.addr MMA8451_REGISTER_OFF_Y 1) e
        (.unable_to_get MMA8451_REGISTER_OFF_Y e), offset⟩ := by
  simp only [mma8451_get_off_y, get_register_of_failure h, if_pos]
  rfl

theorem get_off_z_of_failure {device : mma8451} {e : Nat}
    (h : outcome_at device 0 = .failure e) (offset : Nat) :
    mma8451_get_off_z device offset =
      ⟨0, refused device (read_request device.addr MMA8451_REGISTER_OFF_Z 1) e
        (.unable_to_get MMA8451_REGISTER_OFF_Z e), offset⟩ := by
  simp only [mma8451_get_off_z, get_register_of_failure h, if_pos]
  rfl

/-- Claim C37: when the bus refuses the read, every typed register getter, from
mma8451_get_status to mma8451_get_ctrl_reg5 and the byte getters such as
mma8451_get_pl_count, returns 0 and hands the caller's struct or byte back as
it was: no bit field, no composite field and no output byte is written. -/
theorem refused_read_keeps_output (device : mma8451) (e : Nat)
    (h : outcome_at device 0 = .failure e) :
    (∀ data : mma8451_register_status,
      (mma8451_get_status device data).ret = 0 ∧
        (mma8451_get_status device data).data = data) ∧
    (∀ data : mma8451_register_f_status,
      (mma8451_get_f_status device data).ret = 0 ∧
        (mma8451_get_f_status device data).data = data) ∧
    (∀ data : mma8451_register_f_setup,
      (mma8451_get_f_setup device data).ret = 0 ∧
        (mma8451_get_f_setup device data).data = data) ∧
    (∀ data : mma8451_register_trig_cfg,
      (mma8451_get_trig_cfg device data).ret = 0 ∧
        (mma8451_get_trig_cfg device data).data = data) ∧
    (∀ data : mma8451_register_sysmod,
      (mma8451_get_sysmod device data).ret = 0 ∧
        (mma8451_get_sysmod device data).data = data) ∧
    (∀ data : mma8451_register_int_source,
      (mma8451_get_int_source device data).ret = 0 ∧
        (mma8451_get_int_source device data).data = data) ∧
    (∀ whoami : Nat,
      (mma8451_get_whoami device whoami).ret = 0 ∧
        (mma8451_get_whoami device whoami).data = whoami) ∧
    (∀ data : mma8451_register_xyz_data_cfg,
      (mma8451_get_xyz_data_cfg device data).ret = 0 ∧
        (mma8451_get_xyz_data_cfg device data).data = data) ∧
    (∀ data : mma8451_register_hp_filter_cutoff,
      (mma8451_get_hp_filter_cutoff device data).ret = 0 ∧
        (mma8451_get_hp_filter_cutoff device data).data = data) ∧
    (∀ data : mma8451_register_pl_status,
      (mma8451_get_pl_status device data).ret = 0 ∧
        (mma8451_get_pl_status device data).data = data) ∧
    (∀ data : mma8451_register_pl_cfg,
      (mma8451_get_pl_cfg device data).ret = 0 ∧
        (mma8451_get_pl_cfg device data).data = data) ∧
    (∀ count : Nat,
      (mma8451_get_pl_count device count).ret = 0 ∧
        (mma8451_get_pl_count device count).data = count) ∧
    (∀ data : mma8451_register_pl_bf_zcomp,
      (mma8451_get_pl_bf_zcomp device data).ret = 0 ∧
        (mma8451_get_pl_bf_zcomp device data).data = data) ∧
    (∀ data : mma8451_register_p_l_ths_reg,
      (mma8451_get_p_l_ths_reg device data).ret = 0 ∧
        (mma8451_get_p_l_ths_reg device data).data = data) ∧
    (∀ data : mma8451_register_ff_mt_ths,
      (mma8451_get_ff_mt_ths device data).ret = 0 ∧
        (mma8451_get_ff_mt_ths device data).data = data) ∧
    (∀ count : Nat,
      (mma8451_get_ff_mt_count device count).ret = 0 ∧
        (mma8451_get_ff_mt_count device count).data = count) ∧
    (∀ data : mma8451_register_ff_mt_cfg,
      (mma8451_get_ff_mt_cfg device data).ret = 0 ∧
        (mma8451_get_ff_mt_cfg device data).data = data) ∧
    (∀ data : mma8451_register_ff_mt_src,
      (mma8451_get_ff_mt_src device data).ret = 0 ∧
        (mma8451_get_ff_mt_src device data).data = data) ∧
    (∀ data : mma8451_register_transient_cfg,
      (mma8451_get_transient_cfg device data).ret = 0 ∧
        (mma8451_get_transient_cfg device data).data = data) ∧
    (∀ data : mma8451_register_transient_scr,
      (mma8451_get_transient_scr device data).ret = 0 ∧
        (mma8451_get_transient_scr device data).data = data) ∧
    (∀ data : mma8451_register_transient_ths,
      (mma8451_get_transient_ths device data).ret = 0 ∧
        (mma8451_get_transient_ths device data).data = data) ∧
    (∀ count : Nat,
      (mma8451_get_transient_count device count).ret = 0 ∧
        (mma8451_get_transient_count device count).data = count) ∧
    (∀ data : mma8451_register_pulse_cfg,
      (mma8451_get_pulse_cfg device data).ret = 0 ∧
        (mma8451_get_pulse_cfg device data).data = data) ∧
    (∀ data : mma8451_register_pulse_src,
      (mma8451_get_pulse_src device data).ret = 0 ∧
        (mma8451_get_pulse_src device data).data = data) ∧
    (∀ data : mma8451_register_pulse_ths,
      (mma8451_get_pulse_thsx device data).ret = 0 ∧
        (mma8451_get_pulse_thsx device data).data = data) ∧
    (∀ data : mma8451_register_pulse_ths,
      (mma8451_get_pulse_thsy device data).ret = 0 ∧
        (mma8451_get_pulse_thsy device data).data = data) ∧
    (∀ data : mma8451_register_pulse_ths,
      (mma8451_get_pulse_thsz device data).ret = 0 ∧
        (mma8451_get_pulse_thsz device data).data = data) ∧
    (∀ tmlt : Nat,
      (mma8451_get_pulse_tmlt device tmlt).ret = 0 ∧
        (mma8451_get_pulse_tmlt device tmlt).data = tmlt) ∧
    (∀ ltcy : Nat,
      (mma8451_get_pulse_ltcy device ltcy).ret = 0 ∧
        (mma8451_get_pulse_ltcy device ltcy).data = ltcy) ∧
    (∀ wind : Nat,
      (mma8451_get_pulse_wind device wind).ret = 0 ∧
        (mma8451_get_pulse_wind device wind).data = wind) ∧
    (∀ count : Nat,
      (mma8451_get_aslp_count device count).ret = 0 ∧
        (mma8451_get_aslp_count device count).data = count) ∧
    (∀ data : mma8451_register_ctrl_reg1,
      (mma8451_get_ctrl_reg1 device data).ret = 0 ∧
        (mma8451_get_ctrl_reg1 device data).data = data) ∧
    (∀ data : mma8451_register_ctrl_reg2,
      (mma8451_get_ctrl_reg2 device data).ret = 0 ∧
        (mma8451_get_ctrl_reg2 device data).data = data) ∧
    (∀ data : mma8451_register_ctrl_reg3,
      (mma8451_get_ctrl_reg3 device data).ret = 0 ∧
        (mma8451_get_ctrl_reg3 device data).data = data) ∧
    (∀ data : mma8451_register_ctrl_reg4,
      (mma8451_get_ctrl_reg4 device data).ret = 0 ∧
        (mma8451_get_ctrl_reg4 device data).data = data) ∧
    (∀ data : mma8451_register_ctrl_reg5,
      (mma8451_get_ctrl_reg5 device data).ret = 0 ∧
        (mma8451_get_ctrl_reg5 device data).data = data) ∧
    (∀ offset : Nat,
      (mma8451_get_off_x device offset).ret = 0 ∧
        (mma8451_get_off_x device offset).data = offset) ∧
    (∀ offset : Nat,
      (mma8451_get_off_y device offset).ret = 0 ∧
        (mma8451_get_off_y device offset).data = offset) ∧
    (∀ offset : Nat,
      (mma8451_get_off_z device offset).ret = 0 ∧
        (mma8451_get_off_z device offset).data = offset) :=
  ⟨fun data => by rw [get_status_of_failure h]; exact ⟨rfl, rfl⟩,
    fun data => by rw [get_f_status_of_failure h]; exact ⟨rfl, rfl⟩,
    fun data => by rw [get_f_setup_of_failure h]; exact ⟨rfl, rfl⟩,
    fun data => by rw [get_trig_cfg_of_failure h]; exact ⟨rfl, rfl⟩,
    fun data => by rw [get_sysmod_of_failure h]; exact ⟨rfl, rfl⟩,
    fun data => by rw [get_int_source_of_failure h]; exact ⟨rfl, rfl⟩,
    fun whoami => by rw [get_whoami_of_failure h]; exact ⟨rfl, rfl⟩,
    fun data => by rw [get_xyz_data_cfg_of_failure h]; exact ⟨rfl, rfl⟩,
    fun data => by rw [get_hp_filter_cutoff_of_failure h]; exact ⟨rfl, rfl⟩,
    fun data => by rw [get_pl_status_of_failure h]; exact ⟨rfl, rfl⟩,
    fun data => by rw [get_pl_cfg_of_failure h]; exact ⟨rfl, rfl⟩,
    fun count => by rw [get_pl_count_of_failure h]; exact ⟨rfl, rfl⟩,
    fun data => by rw [get_pl_bf_zcomp_of_failure h]; exact ⟨rfl, rfl⟩,
    fun data => by rw [get_p_l_ths_reg_of_failure h]; exact ⟨rfl, rfl⟩,
    fun data => by rw [get_ff_mt_ths_of_failure h]; exact ⟨rfl, rfl⟩,
    fun count => by rw [get_ff_mt_count_of_failure h]; exact ⟨rfl, rfl⟩,
    fun data => by rw [get_ff_mt_cfg_of_failure h]; exact ⟨rfl, rfl⟩,
    fun data => by rw [get_ff_mt_src_of_failure h]; exact ⟨rfl, rfl⟩,
    fun data => by rw [get_transient_cfg_of_failure h]; exact ⟨rfl, rfl⟩,
    fun data => by rw [get_transient_scr_of_failure h]; exact ⟨rfl, rfl⟩,
    fun data => by rw [get_transient_ths_of_failure h]; exact ⟨rfl, rfl⟩,
    fun count => by rw [get_transient_count_of_failure h]; exact ⟨rfl, rfl⟩,
    fun data => by rw [get_pulse_cfg_of_failure h]; exact ⟨rfl, rfl⟩,
    fun data => by rw [get_pulse_src_of_failure h]; exact ⟨rfl, rfl⟩,
    fun data => by rw [get_pulse_thsx_of_failure h]; exact ⟨rfl, rfl⟩,
    fun data => by rw [get_pulse_thsy_of_failure h]; exact ⟨rfl, rfl⟩,
    fun data => by rw [get_pulse_thsz_of_failure h]; exact ⟨rfl, rfl⟩,
    fun tmlt => by rw [get_pulse_tmlt_of_failure h]; exact ⟨rfl, rfl⟩,
    fun ltcy => by rw [get_pulse_ltcy_of_failure h]; exact ⟨rfl, rfl⟩,
    fun wind => by rw [get_pulse_wind_of_failure h]; exact ⟨rfl, rfl⟩,
    fun count => by rw [get_aslp_count_of_failure h]; exact ⟨rfl, rfl⟩,
    fun data => by rw [get_ctrl_reg1_of_failure h]; exact ⟨rfl, rfl⟩,
    fun data => by rw [get_ctrl_reg2_of_failure h]; exact ⟨rfl, rfl⟩,
    fun data => by rw [get_ctrl_reg3_of_failure h]; exact ⟨rfl, rfl⟩,
    fun data => by rw [get_ctrl_reg4_of_failure h]; exact ⟨rfl, rfl⟩,
    fun data => by rw [get_ctrl_reg5_of_failure h]; exact ⟨rfl, rfl⟩,
    fun offset => by rw [get_off_x_of_failure h]; exact ⟨rfl, rfl⟩,
    fun offset => by rw [get_off_y_of_failure h]; exact ⟨rfl, rfl⟩,
    fun offset => by rw [get_off_z_of_failure h]; exact ⟨rfl, rfl⟩⟩

/-- Witness of C37: mma8451_get_ctrl_reg1 on a bus that refuses the read. -/
theorem refused_read_keeps_output_witness :
    outcome_at (scripted [none]) 0 = .failure 5 ∧
      (mma8451_get_ctrl_reg1 (scripted [none]) ⟨7, 7, 7, 7, 7, 7, 7, 7, 9, 9⟩).data =
        ⟨7, 7, 7, 7, 7, 7, 7, 7, 9, 9⟩ :=
  ⟨rfl, ((refused_read_keeps_output (scripted [none]) 5 rfl).2.2.2.2.2.2.2.2.2.2.2.2.2.2.2.2.2.2.2.2.2.2.2.2.2.2.2.2.2.2.2.1
    ⟨7, 7, 7, 7, 7, 7, 7, 7, 9, 9⟩).2⟩

/-! ## The register each accessor addresses (claim C38) -/

theorem set_register_byte_issued (device : mma8451) (reg byteData : Nat) :
    issued device (mma8451_set_register device reg none byteData).device =
      [write_request device.addr (reg % 256) (byteData % 256)] := by
  simp only [mma8451_set_register, mma8451_set_i2c_register, ioctl, issued, write_request]
  cases device.file.outcomes device.file.calls.length <;> simp

theorem get_status_address (device : mma8451) (data : mma8451_register_status) :
    issued device (mma8451_get_status device data).device =
        [read_request device.addr MMA8451_REGISTER_STATUS 1] := by
  cases h : outcome_at device 0 with
  | failure e => rw [get_status_of_failure h]; simp [issued, refused]
  | success inbuf =>
    rw [get_status_of_read (next_read_some_of_success h)]
    simp [issued, logged]

theorem get_f_status_address (device : mma8451) (data : mma8451_register_f_status) :
    issued device (mma8451_get_f_status device data).device =
        [read_request device.addr MMA8451_REGISTER_F_STATUS 1] := by
  cases h : outcome_at device 0 with
  | failure e => rw [get_f_status_of_failure h]; simp [issued, refused]
  | success inbuf =>
    rw [get_f_status_of_read (next_read_some_of_success h)]
    simp [issued, logged]

theorem get_f_setup_address (device : mma8451) (data : mma8451_register_f_setup) :
    issued device (mma8451_get_f_setup device data).device =
        [read_request device.addr MMA8451_REGISTER_F_SETUP 1] := by
  cases h : outcome_at device 0 with
  | failure e => rw [get_f_setup_of_failure h]; simp [issued, refused]
  | success inbuf =>
    rw [get_f_setup_of_read (next_read_some_of_success h)]
    simp [issued, logged]

theorem set_f_setup_address (device : mma8451) (data : mma8451_register_f_setup) :
    ∃ value, issued device (mma8451_set_f_setup device data).device =
        [write_request device.addr MMA8451_REGISTER_F_SETUP value] := by
  exact ⟨_, set_f_setup_issued device data⟩

theorem get_trig_cfg_address (device : mma8451) (data : mma8451_register_trig_cfg) :
    issued device (mma8451_get_trig_cfg device data).device =
        [read_request device.addr MMA8451_REGISTER_TRIG_CFG 1] := by
  cases h : outcome_at device 0 with
  | failure e => rw [get_trig_cfg_of_failure h]; simp [issued, refused]
  | success inbuf =>
    rw [get_trig_cfg_of_read (next_read_some_of_success h)]
    simp [issued, logged]

theorem set_trig_cfg_address (device : mma8451) (data : mma8451_register_trig_cfg) :
    ∃ value, issued device (mma8451_set_trig_cfg device data).device =
        [write_request device.addr MMA8451_REGISTER_TRIG_CFG value] := by
  exact ⟨_, set_trig_cfg_issued device data⟩

theorem get_sysmod_address (device : mma8451) (data : mma8451_register_sysmod) :
    issued device (mma8451_get_sysmod device data).device =
        [read_request device.addr MMA8451_REGISTER_SYSMOD 1] := by
  cases h : outcome_at device 0 with
  | failure e => rw [get_sysmod_of_failure h]; simp [issued, refused]
  | success inbuf =>
    rw [get_sysmod_of_read (next_read_some_of_success h)]
    simp [issued, logged]

theorem get_int_source_address (device : mma8451) (data : mma8451_register_int_source) :
    issued device (mma8451_get_int_source device data).device =
        [read_request device.addr MMA8451_REGISTER_INT_SOURCE 1] := by
  cases h : outcome_at device 0 with
  | failure e => rw [get_int_source_of_failure h]; simp [issued, refused]
  | success inbuf =>
    rw [get_int_source_of_read (next_read_some_of_success h)]
    simp [issued, logged]

theorem get_whoami_address (device : mma8451) (whoami : Nat) :
    issued device (mma8451_get_whoami device whoami).device =
        [read_request device.addr MMA8451_REGISTER_WHO_AM_I 1] := by
  unfold mma8451_get_whoami
  simp only []
  split <;> exact get_register_issued _ _ _ _

theorem get_xyz_data_cfg_address (device : mma8451) (data : mma8451_register_xyz_data_cfg) :
    issued device (mma8451_get_xyz_data_cfg device data).device =
        [read_request device.addr MMA8451_REGISTER_XYZ_DATA_CFG 1] := by
  cases h : outcome_at device 0 with
  | failure e => rw [get_xyz_data_cfg_of_failure h]; simp [issued, refused]
  | success inbuf =>
    rw [get_xyz_data_cfg_of_read (next_read_some_of_success h)]
    simp [issued, logged]

theorem set_xyz_data_cfg_address (device : mma8451) (data : mma8451_register_xyz_data_cfg) :
    ∃ value, issued device (mma8451_set_xyz_data_cfg device data).device =
        [write_request device.addr MMA8451_REGISTER_XYZ_DATA_CFG value] := by
  exact ⟨_, set_xyz_data_cfg_issued device data⟩

theorem get_hp_filter_cutoff_address (device : mma8451) (data : mma8451_register_hp_filter_cutoff) :
    issued device (mma8451_get_hp_filter_cutoff device data).device =
        [read_request device.addr MMA8451_REGISTER_HP_FILTER_CUTOFF 1] := by
  cases h : outcome_at device 0 with
  | failure e => rw [get_hp_filter_cutoff_of_failure h]; simp [issued, refused]
  | success inbuf =>
    rw [get_hp_filter_cutoff_of_read (next_read_some_of_success h)]
    simp [issued, logged]

theorem set_hp_filter_cutoff_address (device : mma8451) (data : mma8451_register_hp_filter_cutoff) :
    ∃ value, issued device (mma8451_set_hp_filter_cutoff device data).device =
        [write_request device.addr MMA8451_REGISTER_HP_FILTER_CUTOFF value] := by
  exact ⟨_, set_hp_filter_cutoff_issued device data⟩

theorem get_pl_status_address (device : mma8451) (data : mma8451_register_pl_status) :
    issued device (mma8451_get_pl_status device data).device =
        [read_request device.addr MMA8451_REGISTER_PL_STATUS 1] := by
  cases h : outcome_at device 0 with
  | failure e => rw [get_pl_status_of_failure h]; simp [issued, refused]
  | success inbuf =>
    rw [get_pl_status_of_read (next_read_some_of_success h)]
    simp [issued, logged]

theorem get_pl_cfg_address (device : mma8451) (data : mma8451_register_pl_cfg) :
    issued device (mma8451_get_pl_cfg device data).device =
        [read_request device.addr MMA8451_REGISTER_PL_CFG 1] := by
  cases h : outcome_at device 0 with
  | failure e => rw [get_pl_cfg_of_failure h]; simp [issued, refused]
  | success inbuf =>
    rw [get_pl_cfg_of_read (next_read_some_of_success h)]
    simp [issued, logged]

theorem set_pl_cfg_address (device : mma8451) (data : mma8451_register_pl_cfg) :
    ∃ value, issued device (mma8451_set_pl_cfg device data).device =
        [write_request device.addr MMA8451_REGISTER_PL_CFG value] := by
  exact ⟨_, set_pl_cfg_issued device data⟩

theorem get_pl_count_address (device : mma8451) (count : Nat) :
    issued device (mma8451_get_pl_count device count).device =
        [read_request device.addr MMA8451_REGISTER_PL_COUNT 1] := by
  unfold mma8451_get_pl_count
  simp only []
  split <;> exact get_register_issued _ _ _ _

theorem set_pl_count_address (device : mma8451) (count : Nat) :
    ∃ value, issued device (mma8451_set_pl_count device count).device =
        [write_request device.addr MMA8451_REGISTER_PL_COUNT value] := by
  unfold mma8451_set_pl_count
  simp only []
  split <;> exact ⟨_, set_register_byte_issued _ _ _⟩

theorem get_pl_bf_zcomp_address (device : mma8451) (data : mma8451_register_pl_bf_zcomp) :
    issued device (mma8451_get_pl_bf_zcomp device data).device =
        [read_request device.addr MMA8451_REGISTER_PL_BF_ZCOMP 1] := by
  cases h : outcome_at device 0 with
  | failure e => rw [get_pl_bf_zcomp_of_failure h]; simp [issued, refused]
  | success inbuf =>
    rw [get_pl_bf_zcomp_of_read (next_read_some_of_success h)]
    simp [issued, logged]

theorem set_pl_bf_zcomp_address (device : mma8451) (data : mma8451_register_pl_bf_zcomp) :
    ∃ value, issued device (mma8451_set_pl_bf_zcomp device data).device =
        [write_request device.addr MMA8451_REGISTER_PL_BF_ZCOMP value] := by
  exact ⟨_, set_pl_bf_zcomp_issued device data⟩

theorem get_p_l_ths_reg_address (device : mma8451) (data : mma8451_register_p_l_ths_reg) :
    issued device (mma8451_get_p_l_ths_reg device data).device =
        [read_request device.addr MMA8451_REGISTER_P_L_THS_REG 1] := by
  cases h : outcome_at device 0 with
  | failure e => rw [get_p_l_ths_reg_of_failure h]; simp [issued, refused]
  | success inbuf =>
    rw [get_p_l_ths_reg_of_read (next_read_some_of_success h)]
    simp [issued, logged]

theorem set_p_l_ths_reg_address (device : mma8451) (data : mma8451_register_p_l_ths_reg) :
    ∃ value, issued device (mma8451_set_p_l_ths_reg device data).device =
        [write_request device.addr MMA8451_REGISTER_P_L_THS_REG value] := by
  exact ⟨_, set_p_l_ths_reg_issued device data⟩

theorem get_ff_mt_ths_address (device : mma8451) (data : mma8451_register_ff_mt_ths) :
    issued device (mma8451_get_ff_mt_ths device data).device =
        [read_request device.addr MMA8451_REGISTER_FF_MT_THS 1] := by
  cases h : outcome_at device 0 with
  | failure e => rw [get_ff_mt_ths_of_failure h]; simp [issued, refused]
  | success inbuf =>
    rw [get_ff_mt_ths_of_read (next_read_some_of_success h)]
    simp [issued, logged]

theorem set_ff_mt_ths_address (device : mma8451) (data : mma8451_register_ff_mt_ths) :
    ∃ value, issued device (mma8451_set_ff_mt_ths device data).device =
        [write_request device.addr MMA8451_REGISTER_FF_MT_THS value] := by
  exact ⟨_, set_ff_mt_ths_issued device data⟩

theorem get_ff_mt_count_address (device : mma8451) (count : Nat) :
    issued device (mma8451_get_ff_mt_count device count).device =
        [read_request device.addr MMA8451_REGISTER_FF_MT_COUNT 1] := by
  unfold mma8451_get_ff_mt_count
  simp only []
  split <;> exact get_register_issued _ _ _ _

theorem set_ff_mt_count_address (device : mma8451) (count : Nat) :
    ∃ value, issued device (mma8451_set_ff_mt_count device count).device =
        [write_request device.addr MMA8451_REGISTER_FF_MT_COUNT value] := by
  unfold mma8451_set_ff_mt_count
  simp only []
  split <;> exact ⟨_, set_register_byte_issued _ _ _⟩

theorem get_ff_mt_cfg_address (device : mma8451) (data : mma8451_register_ff_mt_cfg) :
    issued device (mma8451_get_ff_mt_cfg device data).device =
        [read_request device.addr MMA8451_REGISTER_FF_MT_CFG 1] := by
  cases h : outcome_at device 0 with
  | failure e => rw [get_ff_mt_cfg_of_failure h]; simp [issued, refused]
  | success inbuf =>
    rw [get_ff_mt_cfg_of_read (next_read_some_of_success h)]
    simp [issued, logged]

theorem set_ff_mt_cfg_address (device : mma8451) (data : mma8451_register_ff_mt_cfg) :
    ∃ value, issued device (mma8451_set_ff_mt_cfg device data).device =
        [write_request device.addr MMA8451_REGISTER_FF_MT_CFG value] := by
  exact ⟨_, set_ff_mt_cfg_issued device data⟩

theorem get_ff_mt_src_address (device : mma8451) (data : mma8451_register_ff_mt_src) :
    issued device (mma8451_get_ff_mt_src device data).device =
        [read_request device.addr MMA8451_REGISTER_FF_MT_SRC 1] := by
  cases h : outcome_at device 0 with
  | failure e => rw [get_ff_mt_src_of_failure h]; simp [issued, refused]
  | success inbuf =>
    rw [get_ff_mt_src_of_read (next_read_some_of_success h)]
    simp [issued, logged]

theorem get_transient_cfg_address (device : mma8451) (data : mma8451_register_transient_cfg) :
    issued device (mma8451_get_transient_cfg device data).device =
        [read_request device.addr MMA8451_REGISTER_TRANSIENT_CFG 1] := by
  cases h : outcome_at device 0 with
  | failure e => rw [get_transient_cfg_of_failure h]; simp [issued, refused]
  | success inbuf =>
    rw [get_transient_cfg_of_read (next_read_some_of_success h)]
    simp [issued, logged]

theorem set_transient_cfg_address (device : mma8451) (data : mma8451_register_transient_cfg) :
    ∃ value, issued device (mma8451_set_transient_cfg device data).device =
        [write_request device.addr MMA8451_REGISTER_TRANSIENT_CFG value] := by
  exact ⟨_, set_transient_cfg_issued device data⟩

theorem get_transient_scr_address (device : mma8451) (data : mma8451_register_transient_scr) :
    issued device (mma8451_get_transient_scr device data).device =
        [read_request device.addr MMA8451_REGISTER_TRANSIENT_SCR 1] := by
  cases h : outcome_at device 0 with
  | failure e => rw [get_transient_scr_of_failure h]; simp [issued, refused]
  | success inbuf =>
    rw [get_transient_scr_of_read (next_read_some_of_success h)]
    simp [issued, logged]

theorem get_transient_ths_address (device : mma8451) (data : mma8451_register_transient_ths) :
    issued device (mma8451_get_transient_ths device data).device =
        [read_request device.addr MMA8451_REGISTER_TRANSIENT_THS 1] := by
  cases h : outcome_at device 0 with
  | failure e => rw [get_transient_ths_of_failure h]; simp [issued, refused]
  | success inbuf =>
    rw [get_transient_ths_of_read (next_read_some_of_success h)]
    simp [issued, logged]

theorem set_transient_ths_address (device : mma8451) (data : mma8451_register_transient_ths) :
    ∃ value, issued device (mma8451_set_transient_ths device data).device =
        [write_request device.addr MMA8451_REGISTER_TRANSIENT_THS value] := by
  exact ⟨_, set_transient_ths_issued device data⟩

theorem get_transient_count_address (device : mma8451) (count : Nat) :
    issued device (mma8451_get_transient_count device count).device =
        [read_request device.addr MMA8451_REGISTER_TRANSIENT_COUNT 1] := by
  unfold mma8451_get_transient_count
  simp only []
  split <;> exact get_register_issued _ _ _ _

theorem set_transient_count_address (device : mma8451) (count : Nat) :
    ∃ value, issued device (mma8451_set_transient_count device count).device =
        [write_request device.addr MMA8451_REGISTER_TRANSIENT_COUNT value] := by
  unfold mma8451_set_transient_count
  simp only []
  split <;> exact ⟨_, set_register_byte_issued _ _ _⟩

theorem get_pulse_cfg_address (device : mma8451) (data : mma8451_register_pulse_cfg) :
    issued device (mma8451_get_pulse_cfg device data).device =
        [read_request device.addr MMA8451_REGISTER_PULSE_CFG 1] := by
  cases h : outcome_at device 0 with
  | failure e => rw [get_pulse_cfg_of_failure h]; simp [issued, refused]
  | success inbuf =>
    rw [get_pulse_cfg_of_read (next_read_some_of_success h)]
    simp [issued, logged]

theorem set_pulse_cfg_address (device : mma8451) (data : mma8451_register_pulse_cfg) :
    ∃ value, issued device (mma8451_set_pulse_cfg device data).device =
        [write_request device.addr MMA8451_REGISTER_PULSE_CFG value] := by
  exact ⟨_, set_pulse_cfg_issued device data⟩

theorem get_pulse_src_address (device : mma8451) (data : mma8451_register_pulse_src) :
    issued device (mma8451_get_pulse_src device data).device =
        [read_request device.addr MMA8451_REGISTER_PULSE_SRC 1] := by
  cases h : outcome_at device 0 with
  | failure e => rw [get_pulse_src_of_failure h]; simp [issued, refused]
  | success inbuf =>
    rw [get_pulse_src_of_read (next_read_some_of_success h)]
    simp [issued, logged]

theorem get_pulse_thsx_address (device : mma8451) (data : mma8451_register_pulse_ths) :
    issued device (mma8451_get_pulse_thsx device data).device =
        [read_request device.addr MMA8451_REGISTER_PULSE_THSX 1] := by
  cases h : outcome_at device 0 with
  | failure e => rw [get_pulse_thsx_of_failure h]; simp [issued, refused]
  | success inbuf =>
    rw [get_pulse_thsx_of_read (next_read_some_of_success h)]
    simp [issued, logged]

theorem set_pulse_thsx_address (device : mma8451) (data : mma8451_register_pulse_ths) :
    ∃ value, issued device (mma8451_set_pulse_thsx device data).device =
        [write_request device.addr MMA8451_REGISTER_PULSE_THSX value] := by
  exact ⟨_, set_pulse_thsx_issued device data⟩

theorem get_pulse_thsy_address (device : mma8451) (data : mma8451_register_pulse_ths) :
    issued device (mma8451_get_pulse_thsy device data).device =
        [read_request device.addr MMA8451_REGISTER_PULSE_THSY 1] := by
  cases h : outcome_at device 0 with
  | failure e => rw [get_pulse_thsy_of_failure h]; simp [issued, refused]
  | success inbuf =>
    rw [get_pulse_thsy_of_read (next_read_some_of_success h)]
    simp [issued, logged]

theorem set_pulse_thsy_address (device : mma8451) (data : mma8451_register_pulse_ths) :
    ∃ value, issued device (mma8451_set_pulse_thsy device data).device =
        [write_request device.addr MMA8451_REGISTER_PULSE_THSY value] := by
  exact ⟨_, set_pulse_thsy_issued device data⟩

theorem get_pulse_thsz_address (device : mma8451) (data : mma8451_register_pulse_ths) :
    issued device (mma8451_get_pulse_thsz device data).device =
        [read_request device.addr MMA8451_REGISTER_PULSE_THSZ 1] := by
  cases h : outcome_at device 0 with
  | failure e => rw [get_pulse_thsz_of_failure h]; simp [issued, refused]
  | success inbuf =>
    rw [get_pulse_thsz_of_read (next_read_some_of_success h)]
    simp [issued, logged]

theorem set_pulse_thsz_address (device : mma8451) (data : mma8451_register_pulse_ths) :
    ∃ value, issued device (mma8451_set_pulse_thsz device data).device =
        [write_request device.addr MMA8451_REGISTER_PULSE_THSZ value] := by
  exact ⟨_, set_pulse_thsz_issued device data⟩

theorem get_pulse_tmlt_address (device : mma8451) (tmlt : Nat) :
    issued device (mma8451_get_pulse_tmlt device tmlt).device =
        [read_request device.addr MMA8451_REGISTER_PULSE_TMLT 1] := by
  unfold mma8451_get_pulse_tmlt
  simp only []
  split <;> exact get_register_issued _ _ _ _

theorem set_pulse_tmlt_address (device : mma8451) (tmlt : Nat) :
    ∃ value, issued device (mma8451_set_pulse_tmlt device tmlt).device =
        [write_request device.addr MMA8451_REGISTER_PULSE_TMLT value] := by
  unfold mma8451_set_pulse_tmlt
  simp only []
  split <;> exact ⟨_, set_register_byte_issued _ _ _⟩

theorem get_pulse_ltcy_address (device : mma8451) (ltcy : Nat) :
    issued device (mma8451_get_pulse_ltcy device ltcy).device =
        [read_request device.addr MMA8451_REGISTER_PULSE_LTCY 1] := by
  unfold mma8451_get_pulse_ltcy
  simp only []
  split <;> exact get_register_issued _ _ _ _

theorem set_pulse_ltcy_address (device : mma8451) (ltcy : Nat) :
    ∃ value, issued device (mma8451_set_pulse_ltcy device ltcy).device =
        [write_request device.addr MMA8451_REGISTER_PULSE_LTCY value] := by
  unfold mma8451_set_pulse_ltcy
  simp only []
  split <;> exact ⟨_, set_register_byte_issued _ _ _⟩

theorem get_pulse_wind_address (device : mma8451) (wind : Nat) :
    issued device (mma8451_get_pulse_wind device wind).device =
        [read_request device.addr MMA8451_REGISTER_PULSE_WIND 1] := by
  unfold mma8451_get_pulse_wind
  simp only []
  split <;> exact get_register_issued _ _ _ _

theorem set_pulse_wind_address (device : mma8451) (wind : Nat) :
    ∃ value, issued device (mma8451_set_pulse_wind device wind).device =
        [write_request device.addr MMA8451_REGISTER_PULSE_WIND value] := by
  unfold mma8451_set_pulse_wind
  simp only []
  split <;> exact ⟨_, set_register_byte_issued _ _ _⟩

theorem get_aslp_count_address (device : mma8451) (count : Nat) :
    issued device (mma8451_get_aslp_count device count).device =
        [read_request device.addr MMA8451_REGISTER_ASLP_COUNT 1] := by
  unfold mma8451_get_aslp_count
  simp only []
  split <;> exact get_register_issued _ _ _ _

theorem set_aslp_count_address (device : mma8451) (count : Nat) :
    ∃ value, issued device (mma8451_set_aslp_count device count).device =
        [write_request device.addr MMA8451_REGISTER_ASLP_COUNT value] := by
  unfold mma8451_set_aslp_count
  simp only []
  split <;> exact ⟨_, set_register_byte_issued _ _ _⟩

theorem get_ctrl_reg1_address (device : mma8451) (data : mma8451_register_ctrl_reg1) :
    issued device (mma8451_get_ctrl_reg1 device data).device =
        [read_request device.addr MMA8451_REGISTER_CTRL_REG1 1] := by
  cases h : outcome_at device 0 with
  | failure e => rw [get_ctrl_reg1_of_failure h]; simp [issued, refused]
  | success inbuf =>
    rw [get_ctrl_reg1_of_read (next_read_some_of_success h)]
    simp [issued, logged]

theorem set_ctrl_reg1_address (device : mma8451) (data : mma8451_register_ctrl_reg1) :
    ∃ value, issued device (mma8451_set_ctrl_reg1 device data).device =
        [write_request device.addr MMA8451_REGISTER_CTRL_REG1 value] := by
  exact ⟨_, set_ctrl_reg1_issued device data⟩

theorem get_ctrl_reg2_address (device : mma8451) (data : mma8451_register_ctrl_reg2) :
    issued device (mma8451_get_ctrl_reg2 device data).device =
        [read_request device.addr MMA8451_REGISTER_CTRL_REG2 1] := by
  cases h : outcome_at device 0 with
  | failure e => rw [get_ctrl_reg2_of_failure h]; simp [issued, refused]
  | success inbuf =>
    rw [get_ctrl_reg2_of_read (next_read_some_of_success h)]
    simp [issued, logged]

theorem set_ctrl_reg2_address (device : mma8451) (data : mma8451_register_ctrl_reg2) :
    ∃ value, issued device (mma8451_set_ctrl_reg2 device data).device =
        [write_request device.addr MMA8451_REGISTER_CTRL_REG2 value] := by
  exact ⟨_, set_ctrl_reg2_issued device data⟩

theorem get_ctrl_reg3_address (device : mma8451) (data : mma8451_register_ctrl_reg3) :
    issued device (mma8451_get_ctrl_reg3 device data).device =
        [read_request device.addr MMA8451_REGISTER_CTRL_REG3 1] := by
  cases h : outcome_at device 0 with
  | failure e => rw [get_ctrl_reg3_of_failure h]; simp [issued, refused]
  | success inbuf =>
    rw [get_ctrl_reg3_of_read (next_read_some_of_success h)]
    simp [issued, logged]

theorem set_ctrl_reg3_address (device : mma8451) (data : mma8451_register_ctrl_reg3) :
    ∃ value, issued device (mma8451_set_ctrl_reg3 device data).device =
        [write_request device.addr MMA8451_REGISTER_CTRL_REG3 value] := by
  exact ⟨_, set_ctrl_reg3_issued device data⟩

theorem get_ctrl_reg4_address (device : mma8451) (data : mma8451_register_ctrl_reg4) :
    issued device (mma8451_get_ctrl_reg4 device data).device =
        [read_request device.addr MMA8451_REGISTER_CTRL_REG4 1] := by
  cases h : outcome_at device 0 with
  | failure e => rw [get_ctrl_reg4_of_failure h]; simp [issued, refused]
  | success inbuf =>
    rw [get_ctrl_reg4_of_read (next_read_some_of_success h)]
    simp [issued, logged]

theorem set_ctrl_reg4_address (device : mma8451) (data : mma8451_register_ctrl_reg4) :
    ∃ value, issued device (mma8451_set_ctrl_reg4 device data).device =
        [write_request device.addr MMA8451_REGISTER_CTRL_REG4 value] := by
  exact ⟨_, set_ctrl_reg4_issued device data⟩

theorem get_ctrl_reg5_address (device : mma8451) (data : mma8451_register_ctrl_reg5) :
    issued device (mma8451_get_ctrl_reg5 device data).device =
        [read_request device.addr MMA8451_REGISTER_CTRL_REG5 1] := by
  cases h : outcome_at device 0 with
  | failure e => rw [get_ctrl_reg5_of_failure h]; simp [issued, refused]
  | success inbuf =>
    rw [get_ctrl_reg5_of_read (next_read_some_of_success h)]
    simp [issued, logged]

theorem set_ctrl_reg5_address (device : mma8451) (data : mma8451_register_ctrl_reg5) :
    ∃ value, issued device (mma8451_set_ctrl_reg5 device data).device =
        [write_request device.addr MMA8451_REGISTER_CTRL_REG5 value] := by
  exact ⟨_, set_ctrl_reg5_issued device data⟩

theorem get_off_x_address (device : mma8451) (offset : Nat) :
    issued device (mma8451_get_off_x device offset).device =
        [read_request device.addr MMA8451_REGISTER_OFF_X 1] := by
  unfold mma8451_get_off_x
  simp only []
  split <;> exact get_register_issued _ _ _ _

theorem set_off_x_address (device : mma8451) (offset : Nat) :
    ∃ value, issued device (mma8451_set_off_x device offset).device =
        [write_request device.addr MMA8451_REGISTER_OFF_X value] := by
  unfold mma8451_set_off_x
  simp only []
  split <;> exact ⟨_, set_register_byte_issued _ _ _⟩

theorem get_off_y_address (device : mma8451) (offset : Nat) :
    issued device (mma8451_get_off_y device offset).device =
        [read_request device.addr MMA8451_REGISTER_OFF_Y 1] := by
  unfold mma8451_get_off_y
  simp only []
  split <;> exact get_register_issued _ _ _ _

theorem set_off_y_address (device : mma8451) (offset : Nat) :
    ∃ value, issued device (mma8451_set_off_y device offset).device =
        [write_request device.addr MMA8451_REGISTER_OFF_Y value] := by
  unfold mma8451_set_off_y
  simp only []
  split <;> exact ⟨_, set_register_byte_issued _ _ _⟩

theorem get_off_z_address (device : mma8451) (offset : Nat) :
    issued device (mma8451_get_off_z device offset).device =
        [read_request device.addr MMA8451_REGISTER_OFF_Z 1] := by
  unfold mma8451_get_off_z
  simp only []
  split <;> exact get_register_issued _ _ _ _

theorem set_off_z_address (device : mma8451) (offset : Nat) :
    ∃ value, issued device (mma8451_set_off_z device offset).device =
        [write_request device.addr MMA8451_REGISTER_OFF_Z value] := by
  unfold mma8451_set_off_z
  simp only []
  split <;> exact ⟨_, set_register_byte_issued _ _ _⟩

/-- Claim C38: every typed accessor makes its request at the register of the
mma8451_register enumeration that its name designates, getter and setter of a
register at the same one; mma8451_get_acceleration reads from OUT_X_MSB; the
enumeration gives STATUS and F_STATUS 0x00, OUT_X_MSB 0x01, F_SETUP 0x09,
XYZ_DATA_CFG 0x0E, PL_CFG 0x11, FF_MT_THS 0x17, TRANSIENT_THS 0x1F,
PULSE_THSX, PULSE_THSY, PULSE_THSZ 0x23, 0x24, 0x25, CTRL_REG1 to CTRL_REG5
0x2A to 0x2E, OFF_X, OFF_Y, OFF_Z 0x2F, 0x30, 0x31, and every register an
accessor addresses lies in 0x00..0x31. -/
theorem accessors_address_their_register (device : mma8451) :
    (∀ data : mma8451_register_status,
      issued device (mma8451_get_status device data).device =
        [read_request device.addr MMA8451_REGISTER_STATUS 1]) ∧
    (∀ data : mma8451_register_f_status,
      issued device (mma8451_get_f_status device data).device =
        [read_request device.addr MMA8451_REGISTER_F_STATUS 1]) ∧
    (∀ data : mma8451_register_f_setup,
      issued device (mma8451_get_f_setup device data).device =
        [read_request device.addr MMA8451_REGISTER_F_SETUP 1]) ∧
    (∀ data : mma8451_register_f_setup,
      ∃ value, issued device (mma8451_set_f_setup device data).device =
        [write_request device.addr MMA8451_REGISTER_F_SETUP value]) ∧
    (∀ data : mma8451_register_trig_cfg,
      issued device (mma8451_get_trig_cfg device data).device =
        [read_request device.addr MMA8451_REGISTER_TRIG_CFG 1]) ∧
    (∀ data : mma8451_register_trig_cfg,
      ∃ value, issued device (mma8451_set_trig_cfg device data).device =
        [write_request device.addr MMA8451_REGISTER_TRIG_CFG value]) ∧
    (∀ data : mma8451_register_sysmod,
      issued device (mma8451_get_sysmod device data).device =
        [read_request device.addr MMA8451_REGISTER_SYSMOD 1]) ∧
    (∀ data : mma8451_register_int_source,
      issued device (mma8451_get_int_source device data).device =
        [read_request device.addr MMA8451_REGISTER_INT_SOURCE 1]) ∧
    (∀ whoami : Nat,
      issued device (mma8451_get_whoami device whoami).device =
        [read_request device.addr MMA8451_REGISTER_WHO_AM_I 1]) ∧
    (∀ data : mma8451_register_xyz_data_cfg,
      issued device (mma8451_get_xyz_data_cfg device data).device =
        [read_request device.addr MMA8451_REGISTER_XYZ_DATA_CFG 1]) ∧
    (∀ data : mma8451_register_xyz_data_cfg,
      ∃ value, issued device (mma8451_set_xyz_data_cfg device data).device =
        [write_request device.addr MMA8451_REGISTER_XYZ_DATA_CFG value]) ∧
    (∀ data : mma8451_register_hp_filter_cutoff,
      issued device (mma8451_get_hp_filter_cutoff device data).device =
        [read_request device.addr MMA8451_REGISTER_HP_FILTER_CUTOFF 1]) ∧
    (∀ data : mma8451_register_hp_filter_cutoff,
      ∃ value, issued device (mma8451_set_hp_filter_cutoff device data).device =
        [write_request device.addr MMA8451_REGISTER_HP_FILTER_CUTOFF value]) ∧
    (∀ data : mma8451_register_pl_status,
      issued device (mma8451_get_pl_status device data).device =
        [read_request device.addr MMA8451_REGISTER_PL_STATUS 1]) ∧
    (∀ data : mma8451_register_pl_cfg,
      issued device (mma8451_get_pl_cfg device data).device =
        [read_request device.addr MMA8451_REGISTER_PL_CFG 1]) ∧
    (∀ data : mma8451_register_pl_cfg,
      ∃ value, issued device (mma8451_set_pl_cfg device data).device =
        [write_request device.addr MMA8451_REGISTER_PL_CFG value]) ∧
    (∀ count : Nat,
      issued device (mma8451_get_pl_count device count).device =
        [read_request device.addr MMA8451_REGISTER_PL_COUNT 1]) ∧
    (∀ count : Nat,
      ∃ value, issued device (mma8451_set_pl_count device count).device =
        [write_request device.addr MMA8451_REGISTER_PL_COUNT value]) ∧
    (∀ data : mma8451_register_pl_bf_zcomp,
      issued device (mma8451_get_pl_bf_zcomp device data).device =
        [read_request device.addr MMA8451_REGISTER_PL_BF_ZCOMP 1]) ∧
    (∀ data : mma8451_register_pl_bf_zcomp,
      ∃ value, issued device (mma8451_set_pl_bf_zcomp device data).device =
        [write_request device.addr MMA8451_REGISTER_PL_BF_ZCOMP value]) ∧
    (∀ data : mma8451_register_p_l_ths_reg,
      issued device (mma8451_get_p_l_ths_reg device data).device =
        [read_request device.addr MMA8451_REGISTER_P_L_THS_REG 1]) ∧
    (∀ data : mma8451_register_p_l_ths_reg,
      ∃ value, issued device (mma8451_set_p_l_ths_reg device data).device =
        [write_request device.addr MMA8451_REGISTER_P_L_THS_REG value]) ∧
    (∀ data : mma8451_register_ff_mt_ths,
      issued device (mma8451_get_ff_mt_ths device data).device =
        [read_request device.addr MMA8451_REGISTER_FF_MT_THS 1]) ∧
    (∀ data : mma8451_register_ff_mt_ths,
      ∃ value, issued device (mma8451_set_ff_mt_ths device data).device =
        [write_request device.addr MMA8451_REGISTER_FF_MT_THS value]) ∧
    (∀ count : Nat,
      issued device (mma8451_get_ff_mt_count device count).device =
        [read_request device.addr MMA8451_REGISTER_FF_MT_COUNT 1]) ∧
    (∀ count : Nat,
      ∃ value, issued device (mma8451_set_ff_mt_count device count).device =
        [write_request device.addr MMA8451_REGISTER_FF_MT_COUNT value]) ∧
    (∀ data : mma8451_register_ff_mt_cfg,
      issued device (mma8451_get_ff_mt_cfg device data).device =
        [read_request device.addr MMA8451_REGISTER_FF_MT_CFG 1]) ∧
    (∀ data : mma8451_register_ff_mt_cfg,
      ∃ value, issued device (mma8451_set_ff_mt_cfg device data).device =
        [write_request device.addr MMA8451_REGISTER_FF_MT_CFG value]) ∧
    (∀ data : mma8451_register_ff_mt_src,
      issued device (mma8451_get_ff_mt_src device data).device =
        [read_request device.addr MMA8451_REGISTER_FF_MT_SRC 1]) ∧
    (∀ data : mma8451_register_transient_cfg,
      issued device (mma8451_get_transient_cfg device data).device =
        [read_request device.addr MMA8451_REGISTER_TRANSIENT_CFG 1]) ∧
    (∀ data : mma8451_register_transient_cfg,
      ∃ value, issued device (mma8451_set_transient_cfg device data).device =
        [write_request device.addr MMA8451_REGISTER_TRANSIENT_CFG value]) ∧
    (∀ data : mma8451_register_transient_scr,
      issued device (mma8451_get_transient_scr device data).device =
        [read_request device.addr MMA8451_REGISTER_TRANSIENT_SCR 1]) ∧
    (∀ data : mma8451_register_transient_ths,
      issued device (mma8451_get_transient_ths device data).device =
        [read_request device.addr MMA8451_REGISTER_TRANSIENT_THS 1]) ∧
    (∀ data : mma8451_register_transient_ths,
      ∃ value, issued device (mma8451_set_transient_ths device data).device =
        [write_request device.addr MMA8451_REGISTER_TRANSIENT_THS value]) ∧
    (∀ count : Nat,
      issued device (mma8451_get_transient_count device count).device =
        [read_request device.addr MMA8451_REGISTER_TRANSIENT_COUNT 1]) ∧
    (∀ count : Nat,
      ∃ value, issued device (mma8451_set_transient_count device count).device =
        [write_request device.addr MMA8451_REGISTER_TRANSIENT_COUNT value]) ∧
    (∀ data : mma8451_register_pulse_cfg,
      issued device (mma8451_get_pulse_cfg device data).device =
        [read_request device.addr MMA8451_REGISTER_PULSE_CFG 1]) ∧
    (∀ data : mma8451_register_pulse_cfg,
      ∃ value, issued device (mma8451_set_pulse_cfg device data).device =
        [write_request device.addr MMA8451_REGISTER_PULSE_CFG value]) ∧
    (∀ data : mma8451_register_pulse_src,
      issued device (mma8451_get_pulse_src device data).device =
        [read_request device.addr MMA8451_REGISTER_PULSE_SRC 1]) ∧
    (∀ data : mma8451_register_pulse_ths,
      issued device (mma8451_get_pulse_thsx device data).device =
        [read_request device.addr MMA8451_REGISTER_PULSE_THSX 1]) ∧
    (∀ data : mma8451_register_pulse_ths,
      ∃ value, issued device (mma8451_set_pulse_thsx device data).device =
        [write_request device.addr MMA8451_REGISTER_PULSE_THSX value]) ∧
    (∀ data : mma8451_register_pulse_ths,
      issued device (mma8451_get_pulse_thsy device data).device =
        [read_request device.addr MMA8451_REGISTER_PULSE_THSY 1]) ∧
    (∀ data : mma8451_register_pulse_ths,
      ∃ value, issued device (mma8451_set_pulse_thsy device data).device =
        [write_request device.addr MMA8451_REGISTER_PULSE_THSY value]) ∧
    (∀ data : mma8451_register_pulse_ths,
      issued device (mma8451_get_pulse_thsz device data).device =
        [read_request device.addr MMA8451_REGISTER_PULSE_THSZ 1]) ∧
    (∀ data : mma8451_register_pulse_ths,
      ∃ value, issued device (mma8451_set_pulse_thsz device data).device =
        [write_request device.addr MMA8451_REGISTER_PULSE_THSZ value]) ∧
    (∀ tmlt : Nat,
      issued device (mma8451_get_pulse_tmlt device tmlt).device =
        [read_request device.addr MMA8451_REGISTER_PULSE_TMLT 1]) ∧
    (∀ tmlt : Nat,
      ∃ value, issued device (mma8451_set_pulse_tmlt device tmlt).device =
        [write_request device.addr MMA8451_REGISTER_PULSE_TMLT value]) ∧
    (∀ ltcy : Nat,
      issued device (mma8451_get_pulse_ltcy device ltcy).device =
        [read_request device.addr MMA8451_REGISTER_PULSE_LTCY 1]) ∧
    (∀ ltcy : Nat,
      ∃ value, issued device (mma8451_set_pulse_ltcy device ltcy).device =
        [write_request device.addr MMA8451_REGISTER_PULSE_LTCY value]) ∧
    (∀ wind : Nat,
      issued device (mma8451_get_pulse_wind device wind).device =
        [read_request device.addr MMA8451_REGISTER_PULSE_WIND 1]) ∧
    (∀ wind : Nat,
      ∃ value, issued device (mma8451_set_pulse_wind device wind).device =
        [write_request device.addr MMA8451_REGISTER_PULSE_WIND value]) ∧
    (∀ count : Nat,
      issued device (mma8451_get_aslp_count device count).device =
        [read_request device.addr MMA8451_REGISTER_ASLP_COUNT 1]) ∧
    (∀ count : Nat,
      ∃ value, issued device (mma8451_set_aslp_count device count).device =
        [write_request device.addr MMA8451_REGISTER_ASLP_COUNT value]) ∧
    (∀ data : mma8451_register_ctrl_reg1,
      issued device (mma8451_get_ctrl_reg1 device data).device =
        [read_request device.addr MMA8451_REGISTER_CTRL_REG1 1]) ∧
    (∀ data : mma8451_register_ctrl_reg1,
      ∃ value, issued device (mma8451_set_ctrl_reg1 device data).device =
        [write_request device.addr MMA8451_REGISTER_CTRL_REG1 value]) ∧
    (∀ data : mma8451_register_ctrl_reg2,
      issued device (mma8451_get_ctrl_reg2 device data).device =
        [read_request device.addr MMA8451_REGISTER_CTRL_REG2 1]) ∧
    (∀ data : mma8451_register_ctrl_reg2,
      ∃ value, issued device (mma8451_set_ctrl_reg2 device data).device =
        [write_request device.addr MMA8451_REGISTER_CTRL_REG2 value]) ∧
    (∀ data : mma8451_register_ctrl_reg3,
      issued device (mma8451_get_ctrl_reg3 device data).device =
        [read_request device.addr MMA8451_REGISTER_CTRL_REG3 1]) ∧
    (∀ data : mma8451_register_ctrl_reg3,
      ∃ value, issued device (mma8451_set_ctrl_reg3 device data).device =
        [write_request device.addr MMA8451_REGISTER_CTRL_REG3 value]) ∧
    (∀ data : mma8451_register_ctrl_reg4,
      issued device (mma8451_get_ctrl_reg4 device data).device =
        [read_request device.addr MMA8451_REGISTER_CTRL_REG4 1]) ∧
    (∀ data : mma8451_register_ctrl_reg4,
      ∃ value, issued device (mma8451_set_ctrl_reg4 device data).device =
        [write_request device.addr MMA8451_REGISTER_CTRL_REG4 value]) ∧
    (∀ data : mma8451_register_ctrl_reg5,
      issued device (mma8451_get_ctrl_reg5 device data).device =
        [read_request device.addr MMA8451_REGISTER_CTRL_REG5 1]) ∧
    (∀ data : mma8451_register_ctrl_reg5,
      ∃ value, issued device (mma8451_set_ctrl_reg5 device data).device =
        [write_request device.addr MMA8451_REGISTER_CTRL_REG5 value]) ∧
    (∀ offset : Nat,
      issued device (mma8451_get_off_x device offset).device =
        [read_request device.addr MMA8451_REGISTER_OFF_X 1]) ∧
    (∀ offset : Nat,
      ∃ value, issued device (mma8451_set_off_x device offset).device =
        [write_request device.addr MMA8451_REGISTER_OFF_X value]) ∧
    (∀ offset : Nat,
      issued device (mma8451_get_off_y device offset).device =
        [read_request device.addr MMA8451_REGISTER_OFF_Y 1]) ∧
    (∀ offset : Nat,
      ∃ value, issued device (mma8451_set_off_y device offset).device =
        [write_request device.addr MMA8451_REGISTER_OFF_Y value]) ∧
    (∀ offset : Nat,
      issued device (mma8451_get_off_z device offset).device =
        [read_request device.addr MMA8451_REGISTER_OFF_Z 1]) ∧
    (∀ offset : Nat,
      ∃ value, issued device (mma8451_set_off_z device offset).device =
        [write_request device.addr MMA8451_REGISTER_OFF_Z value]) ∧
    (∀ data : mma8451_acceleration,
      issued device (mma8451_get_acceleration device data).device =
        [read_request device.addr MMA8451_REGISTER_OUT_X_MSB
          (if device.data_size = MMA8451_14BIT_OUTPUT then 6 else 3)]) ∧
    (MMA8451_REGISTER_STATUS = 0x00 ∧
      MMA8451_REGISTER_F_STATUS = 0x00 ∧
      MMA8451_REGISTER_OUT_X_MSB = 0x01 ∧
      MMA8451_REGISTER_F_SETUP = 0x09 ∧
      MMA8451_REGISTER_XYZ_DATA_CFG = 0x0E ∧
      MMA8451_REGISTER_PL_CFG = 0x11 ∧
      MMA8451_REGISTER_FF_MT_THS = 0x17 ∧
      MMA8451_REGISTER_TRANSIENT_THS = 0x1F ∧
      MMA8451_REGISTER_PULSE_THSX = 0x23 ∧
      MMA8451_REGISTER_PULSE_THSY = 0x24 ∧
      MMA8451_REGISTER_PULSE_THSZ = 0x25 ∧
      MMA8451_REGISTER_CTRL_REG1 = 0x2A ∧
      MMA8451_REGISTER_CTRL_REG2 = 0x2B ∧
      MMA8451_REGISTER_CTRL_REG3 = 0x2C ∧
      MMA8451_REGISTER_CTRL_REG4 = 0x2D ∧
      MMA8451_REGISTER_CTRL_REG5 = 0x2E ∧
      MMA8451_REGISTER_OFF_X = 0x2F ∧
      MMA8451_REGISTER_OFF_Y = 0x30 ∧
      MMA8451_REGISTER_OFF_Z = 0x31) ∧
    (MMA8451_REGISTER_STATUS ≤ 0x31 ∧
      MMA8451_REGISTER_F_STATUS ≤ 0x31 ∧
      MMA8451_REGISTER_F_SETUP ≤ 0x31 ∧
      MMA8451_REGISTER_TRIG_CFG ≤ 0x31 ∧
      MMA8451_REGISTER_SYSMOD ≤ 0x31 ∧
      MMA8451_REGISTER_INT_SOURCE ≤ 0x31 ∧
      MMA8451_REGISTER_WHO_AM_I ≤ 0x31 ∧
      MMA8451_REGISTER_XYZ_DATA_CFG ≤ 0x31 ∧
      MMA8451_REGISTER_HP_FILTER_CUTOFF ≤ 0x31 ∧
      MMA8451_REGISTER_PL_STATUS ≤ 0x31 ∧
      MMA8451_REGISTER_PL_CFG ≤ 0x31 ∧
      MMA8451_REGISTER_PL_COUNT ≤ 0x31 ∧
      MMA8451_REGISTER_PL_BF_ZCOMP ≤ 0x31 ∧
      MMA8451_REGISTER_P_L_THS_REG ≤ 0x31 ∧
      MMA8451_REGISTER_FF_MT_THS ≤ 0x31 ∧
      MMA8451_REGISTER_FF_MT_COUNT ≤ 0x31 ∧
      MMA8451_REGISTER_FF_MT_CFG ≤ 0x31 ∧
      MMA8451_REGISTER_FF_MT_SRC ≤ 0x31 ∧
      MMA8451_REGISTER_TRANSIENT_CFG ≤ 0x31 ∧
      MMA8451_REGISTER_TRANSIENT_SCR ≤ 0x31 ∧
      MMA8451_REGISTER_TRANSIENT_THS ≤ 0x31 ∧
      MMA8451_REGISTER_TRANSIENT_COUNT ≤ 0x31 ∧
      MMA8451_REGISTER_PULSE_CFG ≤ 0x31 ∧
      MMA8451_REGISTER_PULSE_SRC ≤ 0x31 ∧
      MMA8451_REGISTER_PULSE_THSX ≤ 0x31 ∧
      MMA8451_REGISTER_PULSE_THSY ≤ 0x31 ∧
      MMA8451_REGISTER_PULSE_THSZ ≤ 0x31 ∧
      MMA8451_REGISTER_PULSE_TMLT ≤ 0x31 ∧
      MMA8451_REGISTER_PULSE_LTCY ≤ 0x31 ∧
      MMA8451_REGISTER_PULSE_WIND ≤ 0x31 ∧
      MMA8451_REGISTER_ASLP_COUNT ≤ 0x31 ∧
      MMA8451_REGISTER_CTRL_REG1 ≤ 0x31 ∧
      MMA8451_REGISTER_CTRL_REG2 ≤ 0x31 ∧
      MMA8451_REGISTER_CTRL_REG3 ≤ 0x31 ∧
      MMA8451_REGISTER_CTRL_REG4 ≤ 0x31 ∧
      MMA8451_REGISTER_CTRL_REG5 ≤ 0x31 ∧
      MMA8451_REGISTER_OFF_X ≤ 0x31 ∧
      MMA8451_REGISTER_OFF_Y ≤ 0x31 ∧
      MMA8451_REGISTER_OFF_Z ≤ 0x31 ∧
      MMA8451_REGISTER_OUT_X_MSB ≤ 0x31) := by
  refine ⟨get_status_address device,
    get_f_status_address device,
    get_f_setup_address device,
    set_f_setup_address device,
    get_trig_cfg_address device,
    set_trig_cfg_address device,
    get_sysmod_address device,
    get_int_source_address device,
    get_whoami_address device,
    get_xyz_data_cfg_address device,
    set_xyz_data_cfg_address device,
    get_hp_filter_cutoff_address device,
    set_hp_filter_cutoff_address device,
    get_pl_status_address device,
    get_pl_cfg_address device,
    set_pl_cfg_address device,
    get_pl_count_address device,
    set_pl_count_address device,
    get_pl_bf_zcomp_address device,
    set_pl_bf_zcomp_address device,
    get_p_l_ths_reg_address device,
    set_p_l_ths_reg_address device,
    get_ff_mt_ths_address device,
    set_ff_mt_ths_address device,
    get_ff_mt_count_address device,
    set_ff_mt_count_address device,
    get_ff_mt_cfg_address device,
    set_ff_mt_cfg_address device,
    get_ff_mt_src_address device,
    get_transient_cfg_address device,
    set_transient_cfg_address device,
    get_transient_scr_address device,
    get_transient_ths_address device,
    set_transient_ths_address device,
    get_transient_count_address device,
    set_transient_count_address device,
    get_pulse_cfg_address device,
    set_pulse_cfg_address device,
    get_pulse_src_address device,
    get_pulse_thsx_address device,
    set_pulse_thsx_address device,
    get_pulse_thsy_address device,
    set_pulse_thsy_address device,
    get_pulse_thsz_address device,
    set_pulse_thsz_address device,
    get_pulse_tmlt_address device,
    set_pulse_tmlt_address device,
    get_pulse_ltcy_address device,
    set_pulse_ltcy_address device,
    get_pulse_wind_address device,
    set_pulse_wind_address device,
    get_aslp_count_address device,
    set_aslp_count_address device,
    get_ctrl_reg1_address device,
    set_ctrl_reg1_address device,
    get_ctrl_reg2_address device,
    set_ctrl_reg2_address device,
    get_ctrl_reg3_address device,
    set_ctrl_reg3_address device,
    get_ctrl_reg4_address device,
    set_ctrl_reg4_address device,
    get_ctrl_reg5_address device,
    set_ctrl_reg5_address device,
    get_off_x_address device,
    set_off_x_address device,
    get_off_y_address device,
    set_off_y_address device,
    get_off_z_address device,
    set_off_z_address device,
    get_acceleration_issued device, ?_, ?_⟩
  · decide
  · decide

/-! ## The range the handle keeps (claim C13) -/

/-- Evaluation for claim C13: with fs = 4 the successful mma8451_set_xyz_data_cfg
writes the byte 0x00, whose full-scale field (bits 1..0) is 0, i.e. 2G, and
leaves 4 in the handle's range; the next mma8451_get_acceleration then divides
by nothing and returns the raw 4096 for the axis bytes (0x40, 0x00), where the
2G divisor would give 9.80665. -/
theorem range_can_differ_from_written_field :
    (mma8451_set_xyz_data_cfg (scripted [some [], some [0x40, 0x00, 0, 0, 0, 0]])
      ⟨0, 0, 0, 0, 0, 0, 0, 0, 4⟩).ret = 1 ∧
    written_byte (scripted [some [], some [0x40, 0x00, 0, 0, 0, 0]])
      (mma8451_set_xyz_data_cfg (scripted [some [], some [0x40, 0x00, 0, 0, 0, 0]])
        ⟨0, 0, 0, 0, 0, 0, 0, 0, 4⟩).device = some 0x00 ∧
    0x00 &&& 3 = MMA8451_RANGE_2G ∧
    (mma8451_set_xyz_data_cfg (scripted [some [], some [0x40, 0x00, 0, 0, 0, 0]])
      ⟨0, 0, 0, 0, 0, 0, 0, 0, 4⟩).device.range = 4 ∧
    (mma8451_get_acceleration
      (mma8451_set_xyz_data_cfg (scripted [some [], some [0x40, 0x00, 0, 0, 0, 0]])
        ⟨0, 0, 0, 0, 0, 0, 0, 0, 4⟩).device ⟨0, 0, 0⟩).ret = 1 ∧
    (mma8451_get_acceleration
      (mma8451_set_xyz_data_cfg (scripted [some [], some [0x40, 0x00, 0, 0, 0, 0]])
        ⟨0, 0, 0, 0, 0, 0, 0, 0, 4⟩).device ⟨0, 0, 0⟩).data.x = 4096 := by
  have h : outcome_at (scripted [some [], some [0x40, 0x00, 0, 0, 0, 0]]) 0 =
      .success (fun i => ([] : List Nat).getD i 0) := rfl
  have hb : next_block (mma8451_set_xyz_data_cfg
      (scripted [some [], some [0x40, 0x00, 0, 0, 0, 0]])
      ⟨0, 0, 0, 0, 0, 0, 0, 0, 4⟩).device.file =
      some (fun i => [0x40, 0x00, 0, 0, 0, 0].getD i 0 % 256) := by
    rw [set_xyz_data_cfg_of_success h]
    rfl
  have hraw := raw_14bit_of_pairs 0x40 0x00 0 0 0 0 (by decide) (by decide) (by decide)
    (by decide) (by decide) (by decide)
  have hx : (((BitVec.ofNat 14 (0x40 * 64 + 0x00 / 4)).toInt : ℤ) : ℚ) = 4096 := by
    have : (BitVec.ofNat 14 (0x40 * 64 + 0x00 / 4)).toInt = 4096 := by decide
    rw [this]
    norm_num
  rw [get_acceleration_of_block hb, hraw]
  rw [set_xyz_data_cfg_of_success h]
  refine ⟨rfl, rfl, by decide, rfl, rfl, ?_⟩
  show (acceleration_scale_14bit 4 _).x = 4096
  rw [scale_14bit_of_other (by decide) (by decide) (by decide)]
  exact hx

/-- For fs among the four values of mma8451_range_scale (0..3), a successful
mma8451_set_xyz_data_cfg leaves in the handle's range the full-scale field
(bits 1..0) of the byte it wrote. -/
theorem range_matches_written_field_in_range (device : mma8451)
    (data : mma8451_register_xyz_data_cfg) (hfs : data.fs < 4)
    (h : (mma8451_set_xyz_data_cfg device data).ret = 1) :
    ∃ byte, written_byte device (mma8451_set_xyz_data_cfg device data).device = some byte ∧
      (mma8451_set_xyz_data_cfg device data).device.range = byte &&& 3 := by
  have hw := written_byte_of_issued (set_xyz_data_cfg_issued device data)
  have hm : ∀ n : Nat, n &&& 3 = n % 4 := fun n => Nat.and_pow_two_sub_one_eq_mod n 2
  cases h0 : outcome_at device 0 with
  | failure e =>
    rw [set_xyz_data_cfg_of_failure h0] at h
    exact absurd (show (0 : Nat) = 1 from h) (by decide)
  | success inbuf =>
    refine ⟨_, hw, ?_⟩
    rw [set_xyz_data_cfg_of_success h0, hm]
    show data.fs = _
    omega

/-- The value fs = 2 (8G) on a bus that serves the write. -/
theorem range_matches_written_field_in_range_witness :
    (mma8451_set_xyz_data_cfg (scripted [some []]) ⟨0, 0, 0, 0, 0, 0, 0, 0, 2⟩).ret = 1 ∧
      ∃ byte, written_byte (scripted [some []])
          (mma8451_set_xyz_data_cfg (scripted [some []]) ⟨0, 0, 0, 0, 0, 0, 0, 0, 2⟩).device =
          some byte ∧
        (mma8451_set_xyz_data_cfg (scripted [some []]) ⟨0, 0, 0, 0, 0, 0, 0, 0, 2⟩).device.range =
          byte &&& 3 :=
  ⟨rfl, range_matches_written_field_in_range (scripted [some []]) ⟨0, 0, 0, 0, 0, 0, 0, 0, 2⟩
    (by decide) rfl⟩

end Libmma8451
